import Mathlib

/-!
LLVM code generation of the Taichi backend.

A shallow embedding of `src/backends/codegen_llvm.h` (class `CodeGenLLVM`, the host
lowering) and `src/backends/llvm_ptx.cpp` (class `CodeGenLLVMGPU`, the GPU lowering).

* The statement tree that the visitors walk is the inductive type `Stmt`.
* The LLVM builder is modelled by explicit state passing: `CodeGen` holds the basic
  blocks created so far, the insertion point and the visitor's member variables; every
  `builder->CreateXxx` call appends one `Instr` to the block at the insertion point.
* A failing `TC_ASSERT`, `TC_NOT_IMPLEMENTED` or `TC_ERROR` is an `Except.error`.
* The emitted blocks are given meaning by a small-step interpreter (`execInstr`,
  `execBlock`, `run`) over machine integers kept as bit patterns modulo `2 ^ width`.
-/

namespace Taichi

/-! ## Machine integers -/

/-- The bit pattern of the integer `v` in a register of `w` bits. -/
def ofInt (w : Nat) (v : Int) : Nat := (v % (2 : Int) ^ w).toNat

/-- The signed (two's complement) reading of the low `w` bits of `bits`. -/
def toSigned (w : Nat) (bits : Nat) : Int :=
  if bits % 2 ^ w < 2 ^ (w - 1) then ((bits % 2 ^ w : Nat) : Int)
  else ((bits % 2 ^ w : Nat) : Int) - (2 : Int) ^ w

/-- Smallest value of a C++ `int` / LLVM `i32`. -/
def INT_MIN : Int := -2147483648

/-- Largest value of a C++ `int` / LLVM `i32`. -/
def INT_MAX : Int := 2147483647

/-- C++ `int` arithmetic result brought back into the 32-bit two's complement range. -/
def wrap32 (v : Int) : Int := toSigned 32 (ofInt 32 v)

/-- C++ `a / b` on `int`: the quotient truncated toward zero. -/
def cdiv (a b : Int) : Int := Int.tdiv a b

/-- C++ `a << n` on a 32-bit `unsigned`: the behaviour is undefined (no value) when the
shift count is not smaller than the width of the promoted left operand. -/
def shl_u32 (a : Nat) (n : Int) : Option Nat :=
  if 0 ≤ n ∧ n < 32 then some ((a * 2 ^ n.toNat) % 2 ^ 32) else none

/-- C++ `a << n` on an `int`, with the same restriction on the shift count. -/
def shl_i32 (a : Int) (n : Int) : Option Int :=
  if 0 ≤ n ∧ n < 32 then some (wrap32 (a * 2 ^ n.toNat)) else none

/-! ## The statement tree (input of the code generator) -/

/-- Modelled from the spec: the `DataType` enumeration, declared in a header that is not
part of `src/`.  The spec lists i1, i32, i64, f32 and f64 and says that signedness
distinguishes the signed integers; `u32` stands for the unsigned integer types. -/
inductive DataType where
  | i1 | i32 | i64 | u32 | f32 | f64
  deriving DecidableEq, Repr

/-- Modelled from the spec: `is_real` distinguishes the floating-point types. -/
def is_real : DataType → Bool
  | .f32 => true
  | .f64 => true
  | _ => false

/-- Modelled from the spec: `is_integral` is the complement of `is_real`. -/
def is_integral (dt : DataType) : Bool := !is_real dt

/-- Modelled from the spec: `is_signed` distinguishes the signed integers. -/
def is_signed : DataType → Bool
  | .i32 => true
  | .i64 => true
  | _ => false

/-- Modelled from the spec: the byte size of a data type. -/
def data_type_size : DataType → Nat
  | .i1 => 1
  | .i32 => 4
  | .i64 => 8
  | .u32 => 4
  | .f32 => 4
  | .f64 => 8

/-- The return type of a statement: a data type and a SIMD width. -/
structure VectorType where
  data_type : DataType
  width : Int := 1
  deriving DecidableEq, Repr

/-- A `Stmt *` operand.  The visitors read through such a pointer the pointee's `value`
slot (found under `id` in `CodeGen.values`) and its `ret_type`. -/
structure StmtRef where
  id : Nat
  ret_type : VectorType
  deriving DecidableEq, Repr

/-- A literal: its data-type tag and its payload (`val_int32()` for an integer tag; for a
floating-point tag the payload is the IEEE-754 bit pattern of `val_float32()` or
`val_float64()`). -/
structure TypedConstant where
  dt : DataType
  val : Int
  deriving DecidableEq, Repr

inductive UnaryOpType where
  | neg | sqrt | floor | ceil | cast | abs | sgn | sin | asin | cos | acos | tan | tanh
  | inv | rcp | exp | log | rsqrt | bit_not | logic_not | undefined
  deriving DecidableEq, Repr

inductive BinaryOpType where
  | mul | add | sub | div | mod | max | min | bit_and | bit_or | bit_xor
  | cmp_lt | cmp_le | cmp_gt | cmp_ge | cmp_eq | cmp_ne | undefined
  deriving DecidableEq, Repr

/-- Modelled from the spec: `is_comparison` holds of the six comparison operators. -/
def is_comparison : BinaryOpType → Bool
  | .cmp_lt => true
  | .cmp_le => true
  | .cmp_gt => true
  | .cmp_ge => true
  | .cmp_eq => true
  | .cmp_ne => true
  | _ => false

inductive TernaryOpType where
  | select | undefined
  deriving DecidableEq, Repr

inductive AtomicOpType where
  | add | max | min
  deriving DecidableEq, Repr

inductive SNodeOpType where
  | probe | activate | deactivate | append | clear | undefined
  deriving DecidableEq, Repr

inductive SNodeType where
  | root | dense | dynamic | place | hashed | pointer
  deriving DecidableEq, Repr

/-- A node of the sparse data-structure tree, with the members the code generator reads.
`max_num_elements`, `has_null` and the two function names stand for the results of the
member functions of the same name. -/
inductive SNode where
  | mk (id : Int) (type : SNodeType) (parent : Option SNode) (total_num_bits : Nat)
      (bitmasked : Bool) (morton : Bool) (max_num_elements : Int) (has_null : Bool)
      (node_type_name : String) (get_ch_from_parent_func_name : String)
      (refine_coordinates_func_name : String)
  deriving Repr

namespace SNode

def id : SNode → Int
  | .mk i _ _ _ _ _ _ _ _ _ _ => i

def type : SNode → SNodeType
  | .mk _ t _ _ _ _ _ _ _ _ _ => t

def parent : SNode → Option SNode
  | .mk _ _ p _ _ _ _ _ _ _ _ => p

def total_num_bits : SNode → Nat
  | .mk _ _ _ b _ _ _ _ _ _ _ => b

def bitmasked : SNode → Bool
  | .mk _ _ _ _ b _ _ _ _ _ _ => b

def morton : SNode → Bool
  | .mk _ _ _ _ _ m _ _ _ _ _ => m

def max_num_elements : SNode → Int
  | .mk _ _ _ _ _ _ n _ _ _ _ => n

def has_null : SNode → Bool
  | .mk _ _ _ _ _ _ _ h _ _ _ => h

def node_type_name : SNode → String
  | .mk _ _ _ _ _ _ _ _ n _ _ => n

def get_ch_from_parent_func_name : SNode → String
  | .mk _ _ _ _ _ _ _ _ _ n _ => n

def refine_coordinates_func_name : SNode → String
  | .mk _ _ _ _ _ _ _ _ _ _ n => n

end SNode

/-- The task kinds of an `OffloadedStmt`. -/
inductive TaskType where
  | serial | range_for | struct_for | listgen
  deriving DecidableEq, Repr

mutual

/-- The statements visited by the code generator.  Every statement carries its identity
`id` and, where the visitor reads it, its return type; operands are `StmtRef`s. -/
inductive Stmt where
  | AllocaStmt (id : Nat) (ret_type : VectorType)
  | RandStmt (id : Nat) (ret_type : VectorType)
  | UnaryOpStmt (id : Nat) (ret_type : VectorType) (op_type : UnaryOpType)
      (operand : StmtRef) (cast_by_value : Bool) (cast_type : DataType)
  | BinaryOpStmt (id : Nat) (ret_type : VectorType) (op_type : BinaryOpType)
      (lhs rhs : StmtRef)
  | TernaryOpStmt (id : Nat) (op_type : TernaryOpType) (op1 op2 op3 : StmtRef)
  | IfStmt (id : Nat) (cond : StmtRef) (true_statements false_statements : Option Block)
  | PrintStmt (id : Nat) (ret_type : VectorType) (stmt : StmtRef) (str : String)
  | ConstStmt (id : Nat) (ret_type : VectorType) (val : List TypedConstant)
  | WhileControlStmt (id : Nat) (cond : StmtRef)
  | WhileStmt (id : Nat) (body : Block)
  | RangeForStmt (id : Nat) (loop_var begin_ end_ : StmtRef) (reversed : Bool)
      (body : Block)
  | ArgLoadStmt (id : Nat) (ret_type : VectorType) (arg_id : Int) (is_ptr : Bool)
  | LocalLoadStmt (id : Nat) (ret_type : VectorType) (ptr : List StmtRef)
  | LocalStoreStmt (id : Nat) (ret_type : VectorType) (ptr data : StmtRef)
  | SNodeOpStmt (id : Nat) (ret_type : VectorType) (op_type : SNodeOpType)
  | AtomicOpStmt (id : Nat) (ret_type : VectorType) (op_type : AtomicOpType)
      (dest val : StmtRef)
  | GlobalPtrStmt (id : Nat)
  | GlobalStoreStmt (id : Nat) (ret_type : VectorType) (ptr data : StmtRef)
  | GlobalLoadStmt (id : Nat) (ret_type : VectorType) (ptr : StmtRef)
  | ElementShuffleStmt (id : Nat)
  | AssertStmt (id : Nat)
  | OffsetAndExtractBitsStmt (id : Nat) (input : StmtRef) (offset : Int)
      (bit_begin bit_end : Int)
  | LinearizeStmt (id : Nat) (inputs : List StmtRef) (strides : List Int)
  | IntegerOffsetStmt (id : Nat)
  | SNodeLookupStmt (id : Nat) (input_snode : Option StmtRef) (snode : SNode)
      (input_index : StmtRef) (activate : Bool)
  | GetChStmt (id : Nat) (input_ptr : StmtRef) (chid : Int)
  | ExternalPtrStmt (id : Nat) (ret_type : VectorType) (base_ptrs : List StmtRef)
      (indices : List StmtRef)
  | LoopIndexStmt (id : Nat) (is_struct_for : Bool) (index : Nat)
  | OffloadedStmt (id : Nat) (task_type : TaskType) (body : Block) (begin_ end_ : Int)
      (reversed : Bool) (block_size : Int) (snode : Option SNode)

/-- A block of statements with its optional mask statement. -/
inductive Block where
  | mk (mask : Option StmtRef) (statements : List Stmt)

end

namespace Block

def mask : Block → Option StmtRef
  | .mk m _ => m

def statements : Block → List Stmt
  | .mk _ s => s

end Block

/-- The kernel handed to the code generator: its name, its grad flag and the root block
of its statement tree. -/
structure Kernel where
  name : String
  grad : Bool
  ir : Block

/-! ## The emitted low-level IR -/

/-- The low-level types the code generator names. -/
inductive LType where
  | void | i1 | i8 | i32 | i64 | float | double
  | intN (bits : Nat)
  | ptr (pointee : LType)
  | runtime (name : String)
  | literal_struct (field : LType)
  | snode_type (snode_id : Int)
  | snode_element (snode_id : Int)
  deriving DecidableEq, Repr

/-- An SSA value handle (`llvm::Value *`): a constant, the result of an emitted
instruction, an argument of the function under construction, a function of the module,
a global string, or the null pointer of a `value` slot that was never written. -/
inductive Value where
  | null
  | const_int (ty : LType) (v : Int)
  | const_fp (ty : LType) (payload : Int)
  | inst (id : Nat)
  | arg (i : Nat)
  | function (name : String)
  | global_string (s : String)
  | size_of (ty : LType)
  deriving DecidableEq, Repr

inductive BinOp where
  | add | sub | mul | sdiv | srem | and_ | or_ | xor_ | lshr
  | fadd | fsub | fmul | fdiv | maxnum | minnum
  deriving DecidableEq, Repr

inductive ICmpPred where
  | eq | ne | slt | sle | sgt | sge | ult | ule | ugt | uge
  deriving DecidableEq, Repr

inductive FCmpPred where
  | oeq | one | olt | ole | ogt | oge
  deriving DecidableEq, Repr

inductive CastOps where
  | Trunc | SExt | FPToSI | SIToFP | FPExt | FPTrunc | BitCast | IntToPtr
  deriving DecidableEq, Repr

/-- The instructions the code generator emits.  `res` is the number of the value the
instruction defines. -/
inductive Instr where
  | alloca (res : Nat) (ty : LType)
  | store (val ptr : Value)
  | load (res : Nat) (ptr : Value)
  | binop (res : Nat) (op : BinOp) (lhs rhs : Value)
  | fneg (res : Nat) (v : Value)
  | icmp (res : Nat) (pred : ICmpPred) (lhs rhs : Value)
  | fcmp (res : Nat) (pred : FCmpPred) (lhs rhs : Value)
  | cast (res : Nat) (op : CastOps) (v : Value) (ty : LType)
  | select (res : Nat) (cond a b : Value)
  | gep (res : Nat) (ptr : Value) (indices : List Value)
  | call (res : Nat) (callee : Value) (args : List Value)
  | intrinsic (res : Nat) (name : String) (args : List Value)
  | atomicrmw_add (res : Nat) (ptr val : Value)
  | field_ptr (res : Nat) (ptr : Value) (field : String)
  | br (dest : Nat)
  | cond_br (cond : Value) (if_true if_false : Nat)
  | ret_void
  deriving DecidableEq, Repr

namespace Instr

/-- Terminator instructions end a basic block. -/
def isTerminator : Instr → Bool
  | .br _ => true
  | .cond_br _ _ _ => true
  | .ret_void => true
  | _ => false

/-- Stack allocations. -/
def isAlloca : Instr → Bool
  | .alloca _ _ => true
  | _ => false

end Instr

/-- A basic block: its name, the index of the function it belongs to and its
instructions in order. -/
structure BasicBlock where
  name : String
  parent : Nat
  insts : List Instr
  deriving DecidableEq, Repr

inductive Linkage where
  | ExternalLinkage | InternalLinkage | PrivateLinkage
  deriving DecidableEq, Repr

/-- A function created in the module under construction. -/
structure Function where
  name : String
  linkage : Linkage
  params : List LType
  deriving DecidableEq, Repr

/-! ## Code generator state -/

inductive Err where
  | not_implemented
  | assertion_failed
  | error (msg : String)
  | symbol_missing (name : String)
  | undefined_behaviour
  deriving DecidableEq, Repr

/-- Class `CodeGenLLVM::OffloadedTask`.  `func` is the resolved host entry point,
`cuda_func` the device function handle; `block_dim` and `grid_dim` are only assigned by
the GPU visitor (the constructor leaves them unset, shown here as 0). -/
structure OffloadedTask where
  name : String
  func : Option String := none
  block_dim : Int := 0
  grid_dim : Int := 0
  cuda_func : Option String := none
  deriving DecidableEq, Repr

/-- The members of `CodeGenLLVM` / `CodeGenLLVMGPU` together with the module and the
builder they write to.  `gpu` tells which of the two classes the object is.  Basic
blocks are numbered by their position in `blocks`; `next_id` numbers emitted values;
`values` holds the `value` slots of the visited statements; `loop_vars_llvm` is the
member of that name of `current_offloaded_stmt`.  `runtime_module` lists the functions
of the cloned runtime module; `default_gpu_block_size`, `num_SMs` and `max_block_dim`
are the global default and the two device attributes read by the GPU visitor. -/
structure CodeGen where
  gpu : Bool := false
  runtime_module : List String := []
  default_gpu_block_size : Int := 256
  num_SMs : Int := 1
  max_block_dim : Int := 1024
  kernel_name : String := ""
  functions : List Function := []
  blocks : List BasicBlock := []
  insert_point : Nat := 0
  next_id : Nat := 0
  values : List (Nat × Value) := []
  kernel_args : List Value := []
  current_coordinates : Value := Value.null
  while_after_loop : Option Nat := none
  current_offloaded_stmt : Option Nat := none
  loop_vars_llvm : List Value := []
  task_counter : Nat := 0
  func : Nat := 0
  entry_block : Nat := 0
  func_body_bb : Nat := 0
  current_task : Option OffloadedTask := none
  offloaded_tasks : List OffloadedTask := []
  kernel_grid_dim : Int := 0
  kernel_block_dim : Int := 0
  deriving DecidableEq, Repr

/-- Append `i` at the end of block number `l`. -/
def appendTo (i : Instr) : Nat → List BasicBlock → List BasicBlock
  | _, [] => []
  | 0, b :: bs => { b with insts := b.insts ++ [i] } :: bs
  | l + 1, b :: bs => b :: appendTo i l bs

namespace CodeGen

/-- `stmt->value` of a referenced statement (null when never assigned). -/
def value (cg : CodeGen) (s : StmtRef) : Value :=
  match cg.values.lookup s.id with
  | some v => v
  | none => Value.null

/-- Assignment `stmt->value = v`. -/
def setValue (cg : CodeGen) (id : Nat) (v : Value) : CodeGen :=
  { cg with values := (id, v) :: cg.values }

/-- `BasicBlock::Create(ctx, name, func)`: a new empty block at the end of the current
function; the result is the new block. -/
def BasicBlock_Create (cg : CodeGen) (name : String) : Nat × CodeGen :=
  (cg.blocks.length,
   { cg with blocks := cg.blocks ++ [{ name := name, parent := cg.func, insts := [] }] })

/-- `builder->SetInsertPoint(bb)`: later instructions go to the end of `bb`. -/
def SetInsertPoint (cg : CodeGen) (bb : Nat) : CodeGen :=
  { cg with insert_point := bb }

/-- Emit an instruction without a result at the insertion point. -/
def emit (cg : CodeGen) (i : Instr) : CodeGen :=
  { cg with blocks := appendTo i cg.insert_point cg.blocks }

/-- Emit an instruction that defines a fresh value at the insertion point. -/
def emitValue (cg : CodeGen) (mk : Nat → Instr) : Value × CodeGen :=
  (Value.inst cg.next_id,
   { cg with blocks := appendTo (mk cg.next_id) cg.insert_point cg.blocks,
             next_id := cg.next_id + 1 })

def CreateStore (cg : CodeGen) (val ptr : Value) : CodeGen := cg.emit (.store val ptr)

def CreateLoad (cg : CodeGen) (ptr : Value) : Value × CodeGen :=
  cg.emitValue (fun r => .load r ptr)

def CreateBinOp (cg : CodeGen) (op : BinOp) (a b : Value) : Value × CodeGen :=
  cg.emitValue (fun r => .binop r op a b)

def CreateAdd (cg : CodeGen) (a b : Value) : Value × CodeGen := cg.CreateBinOp .add a b

def CreateSub (cg : CodeGen) (a b : Value) : Value × CodeGen := cg.CreateBinOp .sub a b

def CreateMul (cg : CodeGen) (a b : Value) : Value × CodeGen := cg.CreateBinOp .mul a b

def CreateAnd (cg : CodeGen) (a b : Value) : Value × CodeGen := cg.CreateBinOp .and_ a b

def CreateLShr (cg : CodeGen) (a : Value) (n : Int) : Value × CodeGen :=
  cg.CreateBinOp .lshr a (.const_int .i32 n)

def CreateICmp (cg : CodeGen) (p : ICmpPred) (a b : Value) : Value × CodeGen :=
  cg.emitValue (fun r => .icmp r p a b)

def CreateFCmp (cg : CodeGen) (p : FCmpPred) (a b : Value) : Value × CodeGen :=
  cg.emitValue (fun r => .fcmp r p a b)

def CreateCast (cg : CodeGen) (op : CastOps) (v : Value) (ty : LType) : Value × CodeGen :=
  cg.emitValue (fun r => .cast r op v ty)

def CreateBitCast (cg : CodeGen) (v : Value) (ty : LType) : Value × CodeGen :=
  cg.CreateCast .BitCast v ty

def CreateSelect (cg : CodeGen) (c a b : Value) : Value × CodeGen :=
  cg.emitValue (fun r => .select r c a b)

def CreateGEP (cg : CodeGen) (ptr : Value) (indices : List Value) : Value × CodeGen :=
  cg.emitValue (fun r => .gep r ptr indices)

def CreateCall (cg : CodeGen) (callee : Value) (args : List Value) : Value × CodeGen :=
  cg.emitValue (fun r => .call r callee args)

def CreateIntrinsic (cg : CodeGen) (name : String) (args : List Value) :
    Value × CodeGen :=
  cg.emitValue (fun r => .intrinsic r name args)

def CreateAlloca (cg : CodeGen) (ty : LType) : Value × CodeGen :=
  cg.emitValue (fun r => .alloca r ty)

def CreateBr (cg : CodeGen) (dest : Nat) : CodeGen := cg.emit (.br dest)

def CreateCondBr (cg : CodeGen) (c : Value) (t f : Nat) : CodeGen :=
  cg.emit (.cond_br c t f)

def CreateRetVoid (cg : CodeGen) : CodeGen := cg.emit .ret_void

/-- `builder->CreateGlobalStringPtr(s, name)`: the string is a module-level global, no
instruction is added to a block. -/
def CreateGlobalStringPtr (cg : CodeGen) (s : String) : Value × CodeGen :=
  (Value.global_string s, cg)

/-- `tlctx->get_constant(v)` for an `int`. -/
def get_constant (v : Int) : Value := .const_int .i32 v

/-- Modelled from the spec: `ModuleBuilder::create_entry_block_alloca(ty)` always emits
the alloca into the current function's entry block, not at the insertion point. -/
def create_entry_block_alloca (cg : CodeGen) (ty : LType) : Value × CodeGen :=
  (Value.inst cg.next_id,
   { cg with blocks := appendTo (.alloca cg.next_id ty) cg.entry_block cg.blocks,
             next_id := cg.next_id + 1 })

/-- Modelled from the spec: `get_runtime_function(name)` resolves a function of the
cloned runtime module and fails when the symbol is absent. -/
def get_runtime_function (cg : CodeGen) (name : String) : Except Err Value :=
  if name ∈ cg.runtime_module then .ok (.function name) else .error (.symbol_missing name)

/-- A function argument of the function under construction (`get_arg`). -/
def get_arg (_cg : CodeGen) (i : Nat) : Value := .arg i

def get_context (cg : CodeGen) : Value := cg.get_arg 0

end CodeGen

/-- `TC_ASSERT(c)`. -/
def TC_ASSERT (c : Bool) : Except Err Unit :=
  if c then .ok () else .error .assertion_failed

/-- `TC_NOT_IMPLEMENTED`. -/
def TC_NOT_IMPLEMENTED {α : Type} : Except Err α := .error .not_implemented

/-- The C++ program dereferences a null pointer, indexes a vector out of range, divides
by zero or shifts by too much: the behaviour of the code generator is undefined. -/
def UNDEFINED {α : Type} : Except Err α := .error .undefined_behaviour

/-- Dereference of a pointer that may be null (`p->...`): undefined on the null
pointer. -/
def deref {α : Type} : Option α → Except Err α
  | some x => pure x
  | none => UNDEFINED

/-- C++ `a / b` on `int`, undefined for a zero divisor. -/
def checked_div (a b : Int) : Except Err Int :=
  if b = 0 then UNDEFINED else pure (cdiv a b)

/-! ## Type and constant bridge -/

/-- `CodeGenLLVM::llvm_type`. -/
def llvm_type : DataType → Except Err LType
  | .i32 => .ok .i32
  | .i1 => .ok .i1
  | .f32 => .ok .float
  | .f64 => .ok .double
  | _ => TC_NOT_IMPLEMENTED

/-- Modelled from the spec: `tlctx->get_data_type(dt)` maps i1, i32, f32 and f64 to the
scalar types of the builder and rejects every other type with an "unsupported type"
error. -/
def get_data_type : DataType → Except Err LType
  | .i32 => .ok .i32
  | .i1 => .ok .i1
  | .f32 => .ok .float
  | .f64 => .ok .double
  | _ => .error (.error "unsupported type")

/-- Modelled from the spec: `tlctx->get_constant(dt, v)` materialises a constant of the
mapped type. -/
def get_typed_constant (dt : DataType) (v : Int) : Except Err Value := do
  let ty ← get_data_type dt
  pure (if is_real dt then Value.const_fp ty v else Value.const_int ty v)

/-- `getPrimitiveSizeInBits` of a scalar type. -/
def getPrimitiveSizeInBits : LType → Nat
  | .i1 => 1
  | .i8 => 8
  | .i32 => 32
  | .i64 => 64
  | .float => 32
  | .double => 64
  | .intN n => n
  | _ => 0

def unary_op_type_name : UnaryOpType → String
  | .neg => "neg" | .sqrt => "sqrt" | .floor => "floor" | .ceil => "ceil"
  | .cast => "cast" | .abs => "abs" | .sgn => "sgn" | .sin => "sin" | .asin => "asin"
  | .cos => "cos" | .acos => "acos" | .tan => "tan" | .tanh => "tanh" | .inv => "inv"
  | .rcp => "rcp" | .exp => "exp" | .log => "log" | .rsqrt => "rsqrt"
  | .bit_not => "bit_not" | .logic_not => "logic_not" | .undefined => "undefined"

/-! ## Runtime objects and SNode meta descriptors -/

/-- Modelled from the spec: `RuntimeObject(name, ...)` wraps a pointer to a runtime
struct of class `cls_name`. -/
structure RuntimeObject where
  cls_name : String
  ptr : Value
  deriving DecidableEq, Repr

namespace CodeGen

/-- Modelled from the spec: a `RuntimeObject` constructed without a pointer allocates the
concrete struct (the allocation is not an alloca of the task body; it is shown as the
intrinsic `allocate`). -/
def RuntimeObject_new (cg : CodeGen) (cls_name : String) : RuntimeObject × CodeGen :=
  let (p, cg) := cg.CreateIntrinsic "allocate" [.size_of (.runtime cls_name)]
  ({ cls_name := cls_name, ptr := p }, cg)

/-- Modelled from the spec: a `RuntimeObject` constructed around an existing pointer
views it as a pointer to the named runtime struct. -/
def RuntimeObject_wrap (cg : CodeGen) (cls_name : String) (init : Value) :
    RuntimeObject × CodeGen :=
  let (p, cg) := cg.CreateBitCast init (.ptr (.runtime cls_name))
  ({ cls_name := cls_name, ptr := p }, cg)

/-- Modelled from the spec: `get_ptr(field)` emits the GEP of the field. -/
def RuntimeObject_get_ptr (cg : CodeGen) (o : RuntimeObject) (field : String) :
    Value × CodeGen :=
  cg.emitValue (fun r => .field_ptr r o.ptr field)

/-- Modelled from the spec: `set(field, value)` emits the store with the correct GEP. -/
def RuntimeObject_set (cg : CodeGen) (o : RuntimeObject) (field : String) (v : Value) :
    CodeGen :=
  let (p, cg) := cg.RuntimeObject_get_ptr o field
  cg.CreateStore v p

/-- Modelled from the spec: `call(method, args)` invokes the runtime function
`name_method` on the wrapped pointer. -/
def RuntimeObject_call (cg : CodeGen) (o : RuntimeObject) (method : String)
    (args : List Value) : Except Err (Value × CodeGen) := do
  let f ← cg.get_runtime_function (o.cls_name ++ "_" ++ method)
  pure (cg.CreateCall f (o.ptr :: args))

/-- `create_call(func_name, args)`: the runtime function is resolved and the call emitted
by `create_call(func, args)`.  The helper `check_func_call_signature` that the latter
calls first is not in the sources; its comparison of the arguments with the signature of
the callee is not represented. -/
def create_call (cg : CodeGen) (func_name : String) (args : List Value) :
    Except Err (Value × CodeGen) := do
  let f ← cg.get_runtime_function func_name
  pure (cg.CreateCall f args)

/-- `get_root`. -/
def get_root (cg : CodeGen) : Except Err (Value × CodeGen) := do
  let f ← cg.get_runtime_function "Context_get_buffer"
  pure (cg.CreateCall f [cg.get_context])

/-- `get_runtime`. -/
def get_runtime (cg : CodeGen) : Except Err (Value × CodeGen) := do
  let f ← cg.get_runtime_function "Context_get_runtime"
  let (runtime_ptr, cg) := cg.CreateCall f [cg.get_context]
  pure (cg.CreateBitCast runtime_ptr (.ptr (.runtime "Runtime")))

/-- `cast_pointer`. -/
def cast_pointer (cg : CodeGen) (val : Value) (dest_ty_name : String) : Value × CodeGen :=
  cg.CreateBitCast val (.ptr (.runtime dest_ty_name))

/-- The loop `for (auto const f : functions) common.set(f, get_runtime_function(...))`
of `emit_struct_meta_base`. -/
def set_functions (o : RuntimeObject) (name : String) :
    List String → CodeGen → Except Err CodeGen
  | [], cg => pure cg
  | f :: rest, cg => do
    let fn ← cg.get_runtime_function (name ++ "_" ++ f)
    set_functions o name rest (cg.RuntimeObject_set o f fn)

/-- `emit_struct_meta_base`. -/
def emit_struct_meta_base (cg : CodeGen) (name : String) (node_meta : Value)
    (snode : SNode) : Except Err CodeGen := do
  let (common, cg) := cg.RuntimeObject_wrap "StructMeta" node_meta
  let element_ty : LType :=
    if snode.type ≠ .root ∧ snode.type ≠ .place then .snode_element snode.id
    else .snode_type snode.id
  let cg := cg.RuntimeObject_set common "snode_id" (get_constant snode.id)
  let cg := cg.RuntimeObject_set common "element_size" (.size_of element_ty)
  let max_num_elements ← match shl_i32 1 snode.total_num_bits with
    | some n => pure n
    | none => UNDEFINED
  let cg := cg.RuntimeObject_set common "max_num_elements" (get_constant max_num_elements)
  let cg ← set_functions common name ["lookup_element", "is_active", "get_num_elements"] cg
  let cg ← match snode.parent with
    | some _ => do
      let fn ← cg.get_runtime_function snode.get_ch_from_parent_func_name
      pure (cg.RuntimeObject_set common "from_parent_element" fn)
    | none => pure cg
  if snode.type ≠ .place then do
    let fn ← cg.get_runtime_function snode.refine_coordinates_func_name
    pure (cg.RuntimeObject_set common "refine_coordinates" fn)
  else pure cg

/-- `emit_struct_meta_object`. -/
def emit_struct_meta_object (cg : CodeGen) (snode : SNode) :
    Except Err (RuntimeObject × CodeGen) :=
  if snode.type = .dense then do
    let (meta, cg) := cg.RuntimeObject_new "DenseMeta"
    let cg ← cg.emit_struct_meta_base "Dense" meta.ptr snode
    let (_, cg) ← cg.RuntimeObject_call meta "set_bitmasked"
      [.const_int .i1 (if snode.bitmasked then 1 else 0)]
    let (_, cg) ← cg.RuntimeObject_call meta "set_morton_dim"
      [get_constant (if snode.morton then 1 else 0)]
    pure (meta, cg)
  else if snode.type = .root then do
    let (meta, cg) := cg.RuntimeObject_new "RootMeta"
    let cg ← cg.emit_struct_meta_base "Root" meta.ptr snode
    pure (meta, cg)
  else TC_NOT_IMPLEMENTED

/-- `emit_struct_meta`. -/
def emit_struct_meta (cg : CodeGen) (snode : SNode) : Except Err (Value × CodeGen) := do
  let (obj, cg) ← cg.emit_struct_meta_object snode
  pure (obj.ptr, cg)

/-- `CodeGenLLVM::emit`: the textual emission channel is not implemented. -/
def emit_source (_cg : CodeGen) : Except Err CodeGen := TC_NOT_IMPLEMENTED

end CodeGen

/-! ## Statement visitors of the host backend -/

namespace CodeGen

/-- `visit(AllocaStmt *)`. -/
def visit_AllocaStmt (cg : CodeGen) (id : Nat) (ret_type : VectorType) :
    Except Err CodeGen := do
  TC_ASSERT (ret_type.width == 1)
  let ty ← get_data_type ret_type.data_type
  let (v, cg) := cg.create_entry_block_alloca ty
  let cg := cg.setValue id v
  let zero ← get_typed_constant ret_type.data_type 0
  pure (cg.CreateStore zero v)

/-- `visit(RandStmt *)`. -/
def visit_RandStmt (cg : CodeGen) (ret_type : VectorType) : Except Err CodeGen := do
  TC_ASSERT (ret_type.data_type == .f32)
  cg.emit_source

/-- The `UNARY_STD(x)` branch of the host `emit_extra_unary`. -/
def UNARY_STD (cg : CodeGen) (id : Nat) (x : String) (input : Value)
    (input_taichi_type : DataType) : Except Err CodeGen :=
  if input_taichi_type = .f32 then do
    let f ← cg.get_runtime_function (x ++ "_f32")
    let (v, cg) := cg.CreateCall f [input]
    pure (cg.setValue id v)
  else if input_taichi_type = .f64 then do
    let f ← cg.get_runtime_function (x ++ "_f64")
    let (v, cg) := cg.CreateCall f [input]
    pure (cg.setValue id v)
  else if input_taichi_type = .i32 then do
    let f ← cg.get_runtime_function (x ++ "_i32")
    let (v, cg) := cg.CreateCall f [input]
    pure (cg.setValue id v)
  else TC_NOT_IMPLEMENTED

/-- `CodeGenLLVM::emit_extra_unary`. -/
def emit_extra_unary_host (cg : CodeGen) (id : Nat) (op : UnaryOpType)
    (operand : StmtRef) : Except Err CodeGen :=
  let input := cg.value operand
  let input_taichi_type := operand.ret_type.data_type
  if op = .abs ∨ op = .exp ∨ op = .log ∨ op = .tan ∨ op = .tanh ∨ op = .sgn
      ∨ op = .logic_not then
    cg.UNARY_STD id (unary_op_type_name op) input input_taichi_type
  else TC_NOT_IMPLEMENTED

/-- The `UNARY_STD(x)` branch of the GPU `emit_extra_unary` (libdevice names). -/
def UNARY_STD_gpu (cg : CodeGen) (id : Nat) (x : String) (input : Value)
    (input_taichi_type : DataType) : Except Err CodeGen :=
  if input_taichi_type = .f32 then do
    let f ← cg.get_runtime_function ("__nv_" ++ x ++ "f")
    let (v, cg) := cg.CreateCall f [input]
    pure (cg.setValue id v)
  else if input_taichi_type = .f64 then do
    let f ← cg.get_runtime_function ("__nv_" ++ x)
    let (v, cg) := cg.CreateCall f [input]
    pure (cg.setValue id v)
  else if input_taichi_type = .i32 then do
    let f ← cg.get_runtime_function x
    let (v, cg) := cg.CreateCall f [input]
    pure (cg.setValue id v)
  else TC_NOT_IMPLEMENTED

/-- `CodeGenLLVMGPU::emit_extra_unary`. -/
def emit_extra_unary_gpu (cg : CodeGen) (id : Nat) (op : UnaryOpType)
    (operand : StmtRef) : Except Err CodeGen :=
  let input := cg.value operand
  let input_taichi_type := operand.ret_type.data_type
  if op = .abs then
    if input_taichi_type = .f32 then do
      let f ← cg.get_runtime_function "__nv_fabsf"
      let (v, cg) := cg.CreateCall f [input]
      pure (cg.setValue id v)
    else if input_taichi_type = .f64 then do
      let f ← cg.get_runtime_function "__nv_fabs"
      let (v, cg) := cg.CreateCall f [input]
      pure (cg.setValue id v)
    else if input_taichi_type = .i32 then do
      let f ← cg.get_runtime_function "__nv_abs"
      let (v, cg) := cg.CreateCall f [input]
      pure (cg.setValue id v)
    else TC_NOT_IMPLEMENTED
  else if op = .logic_not then
    if input_taichi_type = .i32 then do
      let f ← cg.get_runtime_function "logic_not_i32"
      let (v, cg) := cg.CreateCall f [input]
      pure (cg.setValue id v)
    else TC_NOT_IMPLEMENTED
  else if op = .exp ∨ op = .log ∨ op = .tan ∨ op = .tanh ∨ op = .sgn then
    cg.UNARY_STD_gpu id (unary_op_type_name op) input input_taichi_type
  else TC_NOT_IMPLEMENTED

/-- The virtual call `emit_extra_unary(stmt)`. -/
def emit_extra_unary (cg : CodeGen) (id : Nat) (op : UnaryOpType) (operand : StmtRef) :
    Except Err CodeGen :=
  if cg.gpu then cg.emit_extra_unary_gpu id op operand
  else cg.emit_extra_unary_host id op operand

/-- The cast instruction `visit(UnaryOpStmt *)` selects for a value cast between two
types of different realness (`cast_op`). -/
def cast_op_mixed (from_ to_ : DataType) : Except Err CastOps :=
  if from_ = .f32 ∧ to_ = .i32 then pure .FPToSI
  else if from_ = .f64 ∧ to_ = .i32 then pure .FPToSI
  else if from_ = .i32 ∧ to_ = .f32 then pure .SIToFP
  else if from_ = .i32 ∧ to_ = .f64 then pure .SIToFP
  else TC_NOT_IMPLEMENTED

/-- `visit(UnaryOpStmt *)`. -/
def visit_UnaryOpStmt (cg : CodeGen) (id : Nat) (ret_type : VectorType)
    (op : UnaryOpType) (operand : StmtRef) (cast_by_value : Bool) (cast_type : DataType) :
    Except Err CodeGen :=
  let input := cg.value operand
  if op ≠ .cast then
    if op = .sqrt then
      let (v, cg) := cg.CreateIntrinsic "sqrt" [input]
      pure (cg.setValue id v)
    else if op = .neg then
      let (v, cg) := cg.emitValue (fun r => .fneg r input)
      pure (cg.setValue id v)
    else if op = .sin ∨ op = .cos ∨ op = .floor ∨ op = .ceil then
      let (v, cg) := cg.CreateIntrinsic (unary_op_type_name op) [input]
      pure (cg.setValue id v)
    else cg.emit_extra_unary id op operand
  else if cast_by_value then do
    let from_ := operand.ret_type.data_type
    let to_ := cast_type
    TC_ASSERT (from_ != to_)
    if is_real from_ ≠ is_real to_ then do
      let cast_op ← cast_op_mixed from_ to_
      let ty ← get_data_type cast_type
      let (v, cg) := cg.CreateCast cast_op input ty
      pure (cg.setValue id v)
    else if is_real from_ ∧ is_real to_ then do
      let ty ← get_data_type cast_type
      let (v, cg) :=
        if data_type_size from_ < data_type_size to_ then cg.CreateCast .FPExt input ty
        else cg.CreateCast .FPTrunc input ty
      pure (cg.setValue id v)
    else if ¬ is_real from_ ∧ ¬ is_real to_ then do
      let ty ← get_data_type cast_type
      let (v, cg) :=
        if data_type_size from_ < data_type_size to_ then cg.CreateCast .SExt input ty
        else cg.CreateCast .Trunc input ty
      pure (cg.setValue id v)
    else pure cg
  else do
    TC_ASSERT (data_type_size ret_type.data_type == data_type_size cast_type)
    let ty ← get_data_type cast_type
    let (v, cg) := cg.CreateBitCast input ty
    pure (cg.setValue id v)

/-- The comparison instruction `visit(BinaryOpStmt *)` emits for a comparison operator
on operands of type `input_type`; the result of the instruction is an `i1`. -/
def create_cmp (cg : CodeGen) (op : BinaryOpType) (input_type : DataType)
    (lhs rhs : Value) : Except Err (Value × CodeGen) :=
  if op = .cmp_eq then
    if is_real input_type then pure (cg.CreateFCmp .oeq lhs rhs)
    else pure (cg.CreateICmp .eq lhs rhs)
  else if op = .cmp_le then
    if is_real input_type then pure (cg.CreateFCmp .ole lhs rhs)
    else if is_signed input_type then pure (cg.CreateICmp .sle lhs rhs)
    else pure (cg.CreateICmp .ule lhs rhs)
  else if op = .cmp_ge then
    if is_real input_type then pure (cg.CreateFCmp .oge lhs rhs)
    else if is_signed input_type then pure (cg.CreateICmp .sge lhs rhs)
    else pure (cg.CreateICmp .uge lhs rhs)
  else if op = .cmp_lt then
    if is_real input_type then pure (cg.CreateFCmp .olt lhs rhs)
    else if is_signed input_type then pure (cg.CreateICmp .slt lhs rhs)
    else pure (cg.CreateICmp .ult lhs rhs)
  else if op = .cmp_gt then
    if is_real input_type then pure (cg.CreateFCmp .ogt lhs rhs)
    else if is_signed input_type then pure (cg.CreateICmp .sgt lhs rhs)
    else pure (cg.CreateICmp .ugt lhs rhs)
  else if op = .cmp_ne then
    if is_real input_type then pure (cg.CreateFCmp .one lhs rhs)
    else pure (cg.CreateICmp .ne lhs rhs)
  else TC_NOT_IMPLEMENTED

/-- `visit(BinaryOpStmt *)`. -/
def visit_BinaryOpStmt (cg : CodeGen) (id : Nat) (ret_type : VectorType)
    (op : BinaryOpType) (lhs rhs : StmtRef) : Except Err CodeGen :=
  let ret_type := ret_type.data_type
  let l := cg.value lhs
  let r := cg.value rhs
  let arith (fop iop : BinOp) : Except Err CodeGen :=
    let (v, cg) := if is_real ret_type then cg.CreateBinOp fop l r else cg.CreateBinOp iop l r
    pure (cg.setValue id v)
  let single (iop : BinOp) : Except Err CodeGen :=
    let (v, cg) := cg.CreateBinOp iop l r
    pure (cg.setValue id v)
  if op = .add then arith .fadd .add
  else if op = .sub then arith .fsub .sub
  else if op = .mul then arith .fmul .mul
  else if op = .div then arith .fdiv .sdiv
  else if op = .mod then single .srem
  else if op = .bit_and then single .and_
  else if op = .bit_or then single .or_
  else if op = .bit_xor then single .xor_
  else if op = .max then
    if is_real ret_type then single .maxnum
    else if ret_type = .i32 then do
      let (v, cg) ← cg.create_call "max_i32" [l, r]
      pure (cg.setValue id v)
    else TC_NOT_IMPLEMENTED
  else if op = .min then
    if is_real ret_type then single .minnum
    else if ret_type = .i32 then do
      let (v, cg) ← cg.create_call "min_i32" [l, r]
      pure (cg.setValue id v)
    else TC_NOT_IMPLEMENTED
  else if is_comparison op then do
    let input_type := lhs.ret_type.data_type
    let (cmp, cg) ← cg.create_cmp op input_type l r
    let ty ← llvm_type .i32
    let (v, cg) := cg.CreateCast .SExt cmp ty
    pure (cg.setValue id v)
  else TC_NOT_IMPLEMENTED

/-- `visit(TernaryOpStmt *)`. -/
def visit_TernaryOpStmt (cg : CodeGen) (id : Nat) (op_type : TernaryOpType)
    (op1 op2 op3 : StmtRef) : Except Err CodeGen := do
  TC_ASSERT (op_type == .select)
  let ty ← llvm_type .i1
  let (c, cg) := cg.CreateCast .Trunc (cg.value op1) ty
  let (v, cg) := cg.CreateSelect c (cg.value op2) (cg.value op3)
  pure (cg.setValue id v)

/-- The end of the host `visit(PrintStmt *)`: the call of `printf` with the format
string and the value. -/
def print_call_host (cg : CodeGen) (id : Nat) (str format : String) (value : Value) :
    Except Err CodeGen := do
  let (fmt, cg) := cg.CreateGlobalStringPtr ("[debug] " ++ str ++ " = " ++ format ++ "\n")
  let f ← cg.get_runtime_function "printf"
  let (v, cg) := cg.CreateCall f [fmt, value]
  pure (cg.setValue id v)

/-- The host `visit(PrintStmt *)`. -/
def visit_PrintStmt_host (cg : CodeGen) (id : Nat) (ret_type : VectorType)
    (stmt : StmtRef) (str : String) : Except Err CodeGen := do
  TC_ASSERT (ret_type.width == 1)
  let value := cg.value stmt
  if stmt.ret_type.data_type = .i32 then cg.print_call_host id str "%d" value
  else if stmt.ret_type.data_type = .f32 then do
    let ty ← get_data_type .f64
    let (value, cg) := cg.CreateCast .FPExt value ty
    cg.print_call_host id str "%f" value
  else TC_NOT_IMPLEMENTED

/-- The end of the GPU `visit(PrintStmt *)`: the argument is packed into a one-field
struct created by `builder->CreateAlloca` at the insertion point and passed to
`vprintf`. -/
def print_call_gpu (cg : CodeGen) (id : Nat) (str format : String) (value_type : LType)
    (value : Value) : Except Err CodeGen := do
  let stype := LType.literal_struct value_type
  let (values, cg) := cg.CreateAlloca stype
  let (value_ptr, cg) := cg.CreateGEP values [get_constant 0, get_constant 0]
  let cg := cg.CreateStore value value_ptr
  let format_str := "[debug] " ++ str ++ " = " ++ format ++ "\n"
  let (fmt, cg) := cg.CreateGlobalStringPtr format_str
  let (packed, cg) := cg.CreateBitCast values (.ptr .i8)
  let (v, cg) ← cg.create_call "vprintf" [fmt, packed]
  pure (cg.setValue id v)

/-- The GPU `visit(PrintStmt *)`. -/
def visit_PrintStmt_gpu (cg : CodeGen) (id : Nat) (ret_type : VectorType)
    (stmt : StmtRef) (str : String) : Except Err CodeGen := do
  TC_ASSERT (ret_type.width == 1)
  let value_type ← get_data_type stmt.ret_type.data_type
  let value := cg.value stmt
  if stmt.ret_type.data_type = .i32 then cg.print_call_gpu id str "%d" value_type value
  else if stmt.ret_type.data_type = .f32 then
    let value_type := LType.double
    let (value, cg) := cg.CreateCast .FPExt value value_type
    cg.print_call_gpu id str "%f" value_type value
  else if stmt.ret_type.data_type = .f64 then
    cg.print_call_gpu id str "%f" value_type value
  else TC_NOT_IMPLEMENTED

/-- The virtual call `visit(PrintStmt *)`. -/
def visit_PrintStmt (cg : CodeGen) (id : Nat) (ret_type : VectorType) (stmt : StmtRef)
    (str : String) : Except Err CodeGen :=
  if cg.gpu then cg.visit_PrintStmt_gpu id ret_type stmt str
  else cg.visit_PrintStmt_host id ret_type stmt str

/-- `visit(ConstStmt *)`. -/
def visit_ConstStmt (cg : CodeGen) (id : Nat) (ret_type : VectorType)
    (val : List TypedConstant) : Except Err CodeGen := do
  TC_ASSERT (ret_type.width == 1)
  match val.head? with
  | none => UNDEFINED
  | some val =>
    if val.dt = .f32 then pure (cg.setValue id (.const_fp .float val.val))
    else if val.dt = .f64 then pure (cg.setValue id (.const_fp .double val.val))
    else if val.dt = .i32 then pure (cg.setValue id (.const_int .i32 val.val))
    else TC_NOT_IMPLEMENTED

/-- `visit(WhileControlStmt *)`. -/
def visit_WhileControlStmt (cg : CodeGen) (cond : StmtRef) : Except Err CodeGen := do
  let (after_break, cg) := cg.BasicBlock_Create "after_break"
  match cg.while_after_loop with
  | none => .error .assertion_failed
  | some while_after_loop =>
    let (c, cg) := cg.CreateICmp .eq (cg.value cond) (get_constant 0)
    let cg := cg.CreateCondBr c while_after_loop after_break
    pure (cg.SetInsertPoint after_break)

/-- `create_increment`. -/
def create_increment (cg : CodeGen) (ptr value : Value) : CodeGen :=
  let (old, cg) := cg.CreateLoad ptr
  let (sum, cg) := cg.CreateAdd old value
  cg.CreateStore sum ptr

end CodeGen

namespace CodeGen

/-- `visit(ArgLoadStmt *)`. -/
def visit_ArgLoadStmt (cg : CodeGen) (id : Nat) (ret_type : VectorType) (arg_id : Int)
    (is_ptr : Bool) : Except Err CodeGen := do
  let f ← cg.get_runtime_function "Context_get_args"
  let (raw_arg, cg) := cg.CreateCall f [cg.get_context, get_constant arg_id]
  if is_ptr then do
    let elem ← get_data_type .i32
    let (v, cg) := cg.CreateCast .IntToPtr raw_arg (.ptr elem)
    pure (cg.setValue id v)
  else do
    let dest_ty ← get_data_type ret_type.data_type
    let dest_bits := getPrimitiveSizeInBits dest_ty
    let (truncated, cg) := cg.CreateCast .Trunc raw_arg (.intN dest_bits)
    let (v, cg) := cg.CreateBitCast truncated dest_ty
    pure (cg.setValue id v)

/-- `visit(LocalLoadStmt *)`. -/
def visit_LocalLoadStmt (cg : CodeGen) (id : Nat) (ret_type : VectorType)
    (ptr : List StmtRef) : Except Err CodeGen := do
  TC_ASSERT (ret_type.width == 1)
  match ptr.head? with
  | none => UNDEFINED
  | some var =>
    let (v, cg) := cg.CreateLoad (cg.value var)
    pure (cg.setValue id v)

/-- `visit(LocalStoreStmt *)`. -/
def visit_LocalStoreStmt (cg : CodeGen) (mask : Option StmtRef) (ret_type : VectorType)
    (ptr data : StmtRef) : Except Err CodeGen :=
  if mask.isSome ∧ ret_type.width ≠ 1 then TC_NOT_IMPLEMENTED
  else pure (cg.CreateStore (cg.value data) (cg.value ptr))

/-- `visit(SNodeOpStmt *)`: every path that emits anything goes through the textual
channel `emit`. -/
def visit_SNodeOpStmt (cg : CodeGen) (ret_type : VectorType) (op_type : SNodeOpType) :
    Except Err CodeGen :=
  if op_type = .probe then cg.emit_source
  else if 0 < ret_type.width then cg.emit_source
  else pure cg

/-- One lane of the loop of the host `visit(AtomicOpStmt *)`. -/
def atomic_lane_host (cg : CodeGen) (mask : Option StmtRef) (op_type : AtomicOpType)
    (dest val : StmtRef) : Except Err CodeGen :=
  if mask.isSome then cg.emit_source
  else do
    TC_ASSERT (op_type == .add)
    if val.ret_type.data_type = .i32 then
      pure (cg.emitValue (fun r => .atomicrmw_add r (cg.value dest) (cg.value val))).2
    else if val.ret_type.data_type = .f32 then do
      let f ← cg.get_runtime_function "atomic_add_cpu_f32"
      pure (cg.CreateCall f [cg.value dest, cg.value val]).2
    else if val.ret_type.data_type = .f64 then do
      let f ← cg.get_runtime_function "atomic_add_cpu_f64"
      pure (cg.CreateCall f [cg.value dest, cg.value val]).2
    else TC_NOT_IMPLEMENTED

/-- One lane of the loop of the GPU `visit(AtomicOpStmt *)`. -/
def atomic_lane_gpu (cg : CodeGen) (mask : Option StmtRef) (op_type : AtomicOpType)
    (dest val : StmtRef) : Except Err CodeGen :=
  if mask.isSome then cg.emit_source
  else do
    TC_ASSERT (op_type == .add)
    if is_integral val.ret_type.data_type then
      pure (cg.emitValue (fun r => .atomicrmw_add r (cg.value dest) (cg.value val))).2
    else if val.ret_type.data_type = .f32 then do
      let _ ← get_data_type .f32
      pure (cg.CreateIntrinsic "nvvm_atomic_load_add_f32" [cg.value dest, cg.value val]).2
    else if val.ret_type.data_type = .f64 then do
      let _ ← get_data_type .f64
      pure (cg.CreateIntrinsic "nvvm_atomic_load_add_f64" [cg.value dest, cg.value val]).2
    else TC_NOT_IMPLEMENTED

/-- The loop `for (int l = 0; l < stmt->width(); l++)` over a lane body. -/
def for_lanes (lane : CodeGen → Except Err CodeGen) : Nat → CodeGen → Except Err CodeGen
  | 0, cg => pure cg
  | n + 1, cg => do
    let cg ← lane cg
    for_lanes lane n cg

/-- `visit(AtomicOpStmt *)`, host or GPU override. -/
def visit_AtomicOpStmt (cg : CodeGen) (mask : Option StmtRef) (ret_type : VectorType)
    (op_type : AtomicOpType) (dest val : StmtRef) : Except Err CodeGen :=
  if cg.gpu then
    for_lanes (fun cg => cg.atomic_lane_gpu mask op_type dest val) ret_type.width.toNat cg
  else
    for_lanes (fun cg => cg.atomic_lane_host mask op_type dest val) ret_type.width.toNat cg

/-- `visit(GlobalPtrStmt *)`. -/
def visit_GlobalPtrStmt (_cg : CodeGen) : Except Err CodeGen :=
  .error (.error "Global Ptrs should have been lowered.")

/-- `visit(GlobalStoreStmt *)`. -/
def visit_GlobalStoreStmt (cg : CodeGen) (mask : Option StmtRef) (ret_type : VectorType)
    (ptr data : StmtRef) : Except Err CodeGen := do
  TC_ASSERT (!mask.isSome || ret_type.width == 1)
  TC_ASSERT (cg.value data != Value.null)
  TC_ASSERT (cg.value ptr != Value.null)
  pure (cg.CreateStore (cg.value data) (cg.value ptr))

/-- `visit(GlobalLoadStmt *)`. -/
def visit_GlobalLoadStmt (cg : CodeGen) (id : Nat) (ret_type : VectorType)
    (ptr : StmtRef) : Except Err CodeGen := do
  TC_ASSERT (ret_type.width == 1)
  let _ ← get_data_type ret_type.data_type
  let (v, cg) := cg.CreateLoad (cg.value ptr)
  pure (cg.setValue id v)

/-- The constant `int mask = (1u << (stmt->bit_end - stmt->bit_begin)) - 1` of
`visit(OffsetAndExtractBitsStmt *)`: unsigned arithmetic modulo `2 ^ 32`, read back as
an `int`; it has no value when the shift is undefined. -/
def extract_bits_mask (bit_begin bit_end : Int) : Option Int :=
  match shl_u32 1 (wrap32 (bit_end - bit_begin)) with
  | some p => some (toSigned 32 ((p + (2 ^ 32 - 1)) % 2 ^ 32))
  | none => none

/-- `visit(OffsetAndExtractBitsStmt *)`. -/
def visit_OffsetAndExtractBitsStmt (cg : CodeGen) (id : Nat) (input : StmtRef)
    (offset bit_begin bit_end : Int) : Except Err CodeGen := do
  let (shifted, cg) := cg.CreateAdd (cg.value input) (get_constant (wrap32 offset))
  match extract_bits_mask bit_begin bit_end with
  | none => UNDEFINED
  | some mask =>
    let (sh, cg) := cg.CreateLShr shifted bit_begin
    let (v, cg) := cg.CreateAnd sh (get_constant mask)
    pure (cg.setValue id v)

/-- The loop of `visit(LinearizeStmt *)`, from index `i` on, with the running `val`. -/
def linearize_loop (strides : List Int) :
    List StmtRef → Nat → Value → CodeGen → Except Err (Value × CodeGen)
  | [], _, val, cg => pure (val, cg)
  | input :: rest, i, val, cg =>
    match strides.get? i with
    | none => UNDEFINED
    | some stride =>
      let (m, cg) := cg.CreateMul val (get_constant stride)
      let (val, cg) := cg.CreateAdd m (cg.value input)
      linearize_loop strides rest (i + 1) val cg

/-- `visit(LinearizeStmt *)`. -/
def visit_LinearizeStmt (cg : CodeGen) (id : Nat) (inputs : List StmtRef)
    (strides : List Int) : Except Err CodeGen := do
  let (val, cg) ← linearize_loop strides inputs 0 (get_constant 0) cg
  pure (cg.setValue id val)

/-- `visit(IntegerOffsetStmt *)`. -/
def visit_IntegerOffsetStmt (_cg : CodeGen) : Except Err CodeGen := TC_NOT_IMPLEMENTED

/-- `visit(SNodeLookupStmt *)`. -/
def visit_SNodeLookupStmt (cg : CodeGen) (id : Nat) (input_snode : Option StmtRef)
    (snode : SNode) (input_index : StmtRef) (activate : Bool) : Except Err CodeGen := do
  let (parent, cg) ← match input_snode with
    | some i => (pure (cg.value i, cg) : Except Err (Value × CodeGen))
    | none => do
      let (root, cg) ← cg.get_root
      pure (cg.CreateBitCast root (.ptr (.runtime "snode_root")))
  TC_ASSERT (parent != Value.null)
  let cg ← if !activate && snode.has_null then cg.emit_source else pure cg
  if snode.type = .root then
    let (v, cg) := cg.CreateGEP parent [cg.value input_index]
    pure (cg.setValue id v)
  else do
    TC_ASSERT (snode.type == .dense)
    let (s, cg) ← cg.emit_struct_meta snode
    let (s_ptr, cg) := cg.CreateBitCast s (.ptr .i8)
    match input_snode with
    | none => UNDEFINED
    | some i =>
      let (node_ptr, cg) := cg.CreateBitCast (cg.value i) (.ptr .i8)
      let f ← cg.get_runtime_function "Dense_lookup_element"
      let (elem, cg) := cg.CreateCall f [s_ptr, node_ptr, cg.value input_index]
      let (v, cg) := cg.CreateBitCast elem (.ptr (.snode_element snode.id))
      pure (cg.setValue id v)

/-- `visit(GetChStmt *)`. -/
def visit_GetChStmt (cg : CodeGen) (id : Nat) (input_ptr : StmtRef) (chid : Int) :
    Except Err CodeGen :=
  let (v, cg) := cg.CreateGEP (cg.value input_ptr) [get_constant 0, get_constant chid]
  pure (cg.setValue id v)

/-- `visit(ExternalPtrStmt *)`. -/
def visit_ExternalPtrStmt (cg : CodeGen) (id : Nat) (ret_type : VectorType)
    (base_ptrs indices : List StmtRef) : Except Err CodeGen := do
  TC_ASSERT (ret_type.width == 1)
  TC_ASSERT (indices.length == 1)
  let dt ← get_data_type ret_type.data_type
  match base_ptrs.head?, indices.head? with
  | some b, some i =>
    let (base, cg) := cg.CreateBitCast (cg.value b) (.ptr dt)
    let (v, cg) := cg.CreateGEP base [cg.value i]
    pure (cg.setValue id v)
  | _, _ => UNDEFINED

/-- `visit(LoopIndexStmt *)`. -/
def visit_LoopIndexStmt (cg : CodeGen) (id : Nat) (is_struct_for : Bool) (index : Nat) :
    Except Err CodeGen :=
  if is_struct_for then
    let (p, cg) := cg.CreateGEP cg.current_coordinates
      [get_constant 0, get_constant 0, get_constant index]
    let (v, cg) := cg.CreateLoad p
    pure (cg.setValue id v)
  else
    match cg.loop_vars_llvm.get? index with
    | none => UNDEFINED
    | some loop_var =>
      let (v, cg) := cg.CreateLoad loop_var
      pure (cg.setValue id v)

/-- `emit_list_gen`. -/
def emit_list_gen (cg : CodeGen) (snode : Option SNode) : Except Err CodeGen := do
  let snode_child ← deref snode
  let snode_parent ← deref snode_child.parent
  let (m, cg) ← cg.emit_struct_meta snode_child
  let (meta_child, cg) := cg.cast_pointer m "StructMeta"
  let (m, cg) ← cg.emit_struct_meta snode_parent
  let (meta_parent, cg) := cg.cast_pointer m "StructMeta"
  let (runtime, cg) ← cg.get_runtime
  let (_, cg) ← cg.create_call "element_listgen" [runtime, meta_parent, meta_child]
  pure cg

end CodeGen

/-! ## Task functions and control flow -/

/-- The character of the decimal digit `d`. -/
def digitChar (d : Nat) : Char := Char.ofNat (48 + d)

/-- The decimal digits of `n`, most significant first (`fuel` bounds the number of
digits). -/
def format_digits : Nat → Nat → List Char
  | 0, _ => []
  | fuel + 1, n =>
    if n < 10 then [digitChar n] else format_digits fuel (n / 10) ++ [digitChar (n % 10)]

/-- How `fmt::format` prints a non-negative `int`: its decimal numeral. -/
def format_int (n : Nat) : String := String.mk (format_digits (n + 1) n)

/-- The name `kernel_name` computed by the constructor `CodeGenLLVM::CodeGenLLVM`. -/
def make_kernel_name (kernel : Kernel) : String :=
  kernel.name ++ (if kernel.grad then "_grad" else "") ++ "_kernel"

namespace CodeGen

/-- The constructor `CodeGenLLVM::CodeGenLLVM` (`gpu = false`) or
`CodeGenLLVMGPU::CodeGenLLVMGPU` (`gpu = true`); `base` supplies the runtime module and
the device configuration. -/
def create (base : CodeGen) (gpu : Bool) (kernel : Kernel) : CodeGen :=
  { gpu := gpu, runtime_module := base.runtime_module,
    default_gpu_block_size := base.default_gpu_block_size, num_SMs := base.num_SMs,
    max_block_dim := base.max_block_dim,
    kernel_name := make_kernel_name kernel, task_counter := 0 }

/-- `Function::Create(type, linkage, name, module)`: the new function becomes the last
function of the module; the result is its index. -/
def Function_Create (cg : CodeGen) (name : String) (linkage : Linkage)
    (params : List LType) : Nat × CodeGen :=
  (cg.functions.length,
   { cg with functions := cg.functions ++ [{ name := name, linkage := linkage,
                                             params := params }] })

/-- `init_task_function`. -/
def init_task_function (cg : CodeGen) (stmt_id : Nat) : CodeGen :=
  let cg := { cg with while_after_loop := none, current_offloaded_stmt := some stmt_id,
                      loop_vars_llvm := [] }
  let task_kernel_name := cg.kernel_name ++ "_" ++ format_int cg.task_counter
  let cg := { cg with task_counter := cg.task_counter + 1 }
  let (f, cg) := cg.Function_Create task_kernel_name .ExternalLinkage
    [.ptr (.runtime "Context")]
  let cg := { cg with func := f }
  let cg := { cg with current_task := some { name := task_kernel_name } }
  let cg := { cg with kernel_args := cg.kernel_args ++ [Value.arg 0] }
  let (entry, cg) := cg.BasicBlock_Create "entry"
  let cg := { cg with entry_block := entry }
  let (body, cg) := cg.BasicBlock_Create "body"
  let cg := { cg with func_body_bb := body }
  cg.SetInsertPoint body

/-- `finalize_task_function` (the call of the LLVM verifier is not represented). -/
def finalize_task_function (cg : CodeGen) : CodeGen :=
  let cg := cg.CreateRetVoid
  let cg := cg.SetInsertPoint cg.entry_block
  cg.CreateBr cg.func_body_bb

/-- `OffloadedTask::end` on `current_task`, followed by `current_task = nullptr`. -/
def end_current_task (cg : CodeGen) : Except Err CodeGen :=
  match cg.current_task with
  | none => UNDEFINED
  | some t => pure { cg with offloaded_tasks := cg.offloaded_tasks ++ [t],
                             current_task := none }

/-- `visit(IfStmt *)`; `accept_true` is `if_stmt->true_statements->accept(this)` when the
true body is present (and does nothing otherwise), `accept_false` likewise for the false
body. -/
def visit_IfStmt (cg : CodeGen) (cond : StmtRef)
    (accept_true accept_false : CodeGen → Except Err CodeGen) : Except Err CodeGen := do
  let (true_block, cg) := cg.BasicBlock_Create "true_block"
  let (false_block, cg) := cg.BasicBlock_Create "false_block"
  let (after_if, cg) := cg.BasicBlock_Create "after_if"
  let (c, cg) := cg.CreateICmp .ne (cg.value cond) (get_constant 0)
  let cg := cg.CreateCondBr c true_block false_block
  let cg := cg.SetInsertPoint true_block
  let cg ← accept_true cg
  let cg := cg.CreateBr false_block
  let cg := cg.SetInsertPoint false_block
  let cg ← accept_false cg
  let cg := cg.CreateBr after_if
  pure (cg.SetInsertPoint after_if)

/-- `visit(WhileStmt *)`; `accept_body` is `stmt->body->accept(this)`. -/
def visit_WhileStmt (cg : CodeGen) (accept_body : CodeGen → Except Err CodeGen) :
    Except Err CodeGen := do
  let (body, cg) := cg.BasicBlock_Create "while_loop_body"
  let cg := cg.CreateBr body
  let cg := cg.SetInsertPoint body
  let (after_loop, cg) := cg.BasicBlock_Create "after_while"
  let old_while_after_loop := cg.while_after_loop
  let cg := { cg with while_after_loop := some after_loop }
  let cg ← accept_body cg
  let cg := cg.CreateBr body
  let cg := cg.SetInsertPoint after_loop
  pure { cg with while_after_loop := old_while_after_loop }

/-- The text `create_naive_range_for` and the host `create_offload_range_for` share up
to the visit of the body, for loop variable `loop_var` and bounds `begin_` and `end_`
given as low-level values: the blocks `loop_body` and `block`, the initial store and the
branch into the body.  The result is `(body, after_loop)` and the builder positioned in
`body`. -/
def range_for_enter (cg : CodeGen) (loop_var begin_ end_ : Value) (reversed : Bool) :
    (Nat × Nat) × CodeGen :=
  let (body, cg) := cg.BasicBlock_Create "loop_body"
  let (after_loop, cg) := cg.BasicBlock_Create "block"
  let cg :=
    if !reversed then cg.CreateStore begin_ loop_var
    else
      let (e1, cg) := cg.CreateSub end_ (get_constant 1)
      cg.CreateStore e1 loop_var
  let cg := cg.CreateBr body
  ((body, after_loop), cg.SetInsertPoint body)

/-- The text the two functions share after the visit of the body: the increment or
decrement, the comparison, the conditional branch and the move of the builder to
`after_loop`. -/
def range_for_leave (cg : CodeGen) (loop_var begin_ end_ : Value) (body after_loop : Nat)
    (reversed : Bool) : CodeGen :=
  let (cond, cg) :=
    if !reversed then
      let cg := cg.create_increment loop_var (get_constant 1)
      let (v, cg) := cg.CreateLoad loop_var
      cg.CreateICmp .slt v end_
    else
      let cg := cg.create_increment loop_var (get_constant (-1))
      let (v, cg) := cg.CreateLoad loop_var
      cg.CreateICmp .sge v begin_
  let cg := cg.CreateCondBr cond body after_loop
  cg.SetInsertPoint after_loop

/-- `create_naive_range_for`; `accept_body` is `for_stmt->body->accept(this)`.  The
operands are the `value` slots of `for_stmt->loop_var`, `for_stmt->begin` and
`for_stmt->end`, read when the function uses them. -/
def create_naive_range_for (cg : CodeGen) (loop_var begin_ end_ : StmtRef)
    (reversed : Bool) (accept_body : CodeGen → Except Err CodeGen) :
    Except Err CodeGen := do
  let entered :=
    cg.range_for_enter (cg.value loop_var) (cg.value begin_) (cg.value end_) reversed
  let cg ← accept_body entered.2
  pure (cg.range_for_leave (cg.value loop_var) (cg.value begin_) (cg.value end_)
    entered.1.1 entered.1.2 reversed)

/-- The host `create_offload_range_for`; `accept_body` is `stmt->body->accept(this)`.
The loop variable is a fresh alloca of the entry block and the bounds are the constants
`stmt->begin` and `stmt->end`. -/
def create_offload_range_for (cg : CodeGen) (begin_ end_ : Int) (reversed : Bool)
    (accept_body : CodeGen → Except Err CodeGen) : Except Err CodeGen := do
  let ty ← get_data_type .i32
  let (loop_var, cg) := cg.create_entry_block_alloca ty
  let cg := { cg with loop_vars_llvm := cg.loop_vars_llvm ++ [loop_var] }
  let entered :=
    cg.range_for_enter loop_var (get_constant begin_) (get_constant end_) reversed
  let cg ← accept_body entered.2
  pure (cg.range_for_leave loop_var (get_constant begin_) (get_constant end_)
    entered.1.1 entered.1.2 reversed)

/-- The launch shape computed by `CodeGenLLVMGPU::create_offload_range_for`:
`(kernel_grid_dim, kernel_block_dim)`; `int` arithmetic wraps, the quotient truncates,
and a zero divisor leaves the result undefined. -/
def range_for_launch_shape (default_gpu_block_size begin_ end_ block_size : Int) :
    Option (Int × Int) :=
  let loop_block_dim := if block_size = 0 then default_gpu_block_size else block_size
  if loop_block_dim = 0 then none
  else
    some (cdiv (wrap32 (wrap32 (wrap32 (end_ - begin_) + loop_block_dim) - 1))
            loop_block_dim,
          loop_block_dim)

/-- The part of `CodeGenLLVMGPU::create_offload_range_for` between the computation of
the launch shape and the visit of the body: the blocks `loop_body` and `block`, the
computation of `loop_id`, its store to `loop_var`, the guard and the conditional branch.
The result is `(body, after_loop)` and the builder positioned in `body`. -/
def gpu_range_for_enter (cg : CodeGen) (loop_var : Value) (begin_ end_ : Int) :
    (Nat × Nat) × CodeGen :=
  let (body, cg) := cg.BasicBlock_Create "loop_body"
  let (after_loop, cg) := cg.BasicBlock_Create "block"
  let (threadIdx, cg) := cg.CreateIntrinsic "nvvm_read_ptx_sreg_tid_x" []
  let (blockIdx, cg) := cg.CreateIntrinsic "nvvm_read_ptx_sreg_ctaid_x" []
  let (blockDim, cg) := cg.CreateIntrinsic "nvvm_read_ptx_sreg_ntid_x" []
  let (m, cg) := cg.CreateMul blockIdx blockDim
  let (a, cg) := cg.CreateAdd threadIdx m
  let (loop_id, cg) := cg.CreateAdd (get_constant begin_) a
  let cg := cg.CreateStore loop_id loop_var
  let (v, cg) := cg.CreateLoad loop_var
  let (cond, cg) := cg.CreateICmp .slt v (get_constant end_)
  let cg := cg.CreateCondBr cond body after_loop
  ((body, after_loop), cg.SetInsertPoint body)

/-- `CodeGenLLVMGPU::create_offload_range_for`; the straight-line part before the body
is `gpu_range_for_enter`. -/
def create_offload_range_for_gpu (cg : CodeGen) (begin_ end_ block_size : Int)
    (accept_body : CodeGen → Except Err CodeGen) : Except Err CodeGen := do
  let ty ← get_data_type .i32
  let (loop_var, cg) := cg.create_entry_block_alloca ty
  let cg := { cg with loop_vars_llvm := cg.loop_vars_llvm ++ [loop_var] }
  let (grid_dim, block_dim) ←
    deref (range_for_launch_shape cg.default_gpu_block_size begin_ end_ block_size)
  let cg := { cg with kernel_grid_dim := grid_dim, kernel_block_dim := block_dim }
  let entered := cg.gpu_range_for_enter loop_var begin_ end_
  let cg ← accept_body entered.2
  let cg := cg.CreateBr entered.1.2
  pure (cg.SetInsertPoint entered.1.2)

/-- The locals of `create_offload_struct_for` that outlive the visit of the body. -/
structure StructForLocals where
  old_func : Nat
  old_entry : Nat
  ip : Nat
  allocas : Nat
  entry : Nat
  body_bb : Nat
  loop_index : Value
  blockDim : Value

/-- First part of `create_offload_struct_for`: the `loop_body` function, its `allocs`,
`entry` and `loop_body` blocks, the loop index and its initial value, up to the branch
into the loop body. -/
def struct_for_enter (cg : CodeGen) (spmd : Bool) : StructForLocals × CodeGen :=
  let (body, cg) := cg.Function_Create "loop_body" .InternalLinkage
    [.ptr (.runtime "Context"), .ptr (.runtime "Element"), .i32, .i32]
  let old_func := cg.func
  let cg := { cg with func := body }
  let (allocas, cg) := cg.BasicBlock_Create "allocs"
  let old_entry := cg.entry_block
  let cg := { cg with entry_block := allocas }
  let (entry, cg) := cg.BasicBlock_Create "entry"
  let ip := cg.insert_point
  let cg := cg.SetInsertPoint entry
  let (body_bb, cg) := cg.BasicBlock_Create "loop_body"
  let (loop_index, cg) := cg.create_entry_block_alloca .i32
  let lower_bound := cg.get_arg 2
  let (blockDim, cg) :=
    if spmd then
      let (threadIdx, cg) := cg.CreateIntrinsic "nvvm_read_ptx_sreg_tid_x" []
      let (blockDim, cg) := cg.CreateIntrinsic "nvvm_read_ptx_sreg_ntid_x" []
      let (a, cg) := cg.CreateAdd threadIdx lower_bound
      (blockDim, cg.CreateStore a loop_index)
    else (Value.null, cg.CreateStore lower_bound loop_index)
  let cg := cg.CreateBr body_bb
  let cg := cg.SetInsertPoint body_bb
  ({ old_func := old_func, old_entry := old_entry, ip := ip, allocas := allocas,
     entry := entry, body_bb := body_bb, loop_index := loop_index, blockDim := blockDim },
   cg)

/-- Second part of `create_offload_struct_for`: the call of the leaf block's
`refine_coordinates` function at the head of the loop body. -/
def struct_for_refine (cg : CodeGen) (l : StructForLocals) (refine : Value) : CodeGen :=
  let (new_coordinates, cg) :=
    cg.create_entry_block_alloca (.runtime "PhysicalCoordinates")
  let (element, cg) := cg.RuntimeObject_wrap "Element" (cg.get_arg 1)
  let (pcoord, cg) := cg.RuntimeObject_get_ptr element "pcoord"
  let (idx, cg) := cg.CreateLoad l.loop_index
  let (_, cg) := cg.CreateCall refine [pcoord, new_coordinates, idx]
  { cg with current_coordinates := new_coordinates }

/-- Third part of `create_offload_struct_for`: the increment, the loop test, the return
of `loop_body`, and the restoration of `func`, the insert point and `entry_block`. -/
def struct_for_leave (cg : CodeGen) (l : StructForLocals) (spmd : Bool) : CodeGen :=
  let (after_loop, cg) := cg.BasicBlock_Create "block"
  let cg :=
    if spmd then cg.create_increment l.loop_index l.blockDim
    else cg.create_increment l.loop_index (get_constant 1)
  let (v, cg) := cg.CreateLoad l.loop_index
  let (cond, cg) := cg.CreateICmp .slt v (cg.get_arg 3)
  let cg := cg.CreateCondBr cond l.body_bb after_loop
  let cg := cg.SetInsertPoint after_loop
  let cg := cg.CreateRetVoid
  let cg := { cg with func := l.old_func }
  let cg := cg.SetInsertPoint l.ip
  let cg := ((cg.SetInsertPoint l.allocas).CreateBr l.entry).SetInsertPoint l.ip
  { cg with entry_block := l.old_entry }

/-- `create_offload_struct_for(stmt, spmd)`; `block_size` is `stmt->block_size` at the
time of the call and `accept_body` is `stmt->body->accept(this)`. The three straight-line
parts are `struct_for_enter`, `struct_for_refine` and `struct_for_leave`. -/
def create_offload_struct_for (cg : CodeGen) (snode : Option SNode) (block_size : Int)
    (spmd : Bool) (accept_body : CodeGen → Except Err CodeGen) : Except Err CodeGen := do
  let snode ← deref snode
  let leaf_block ← deref snode.parent
  let entered := cg.struct_for_enter spmd
  let refine ← entered.2.get_runtime_function leaf_block.refine_coordinates_func_name
  let cg ← accept_body (entered.2.struct_for_refine entered.1 refine)
  let cg := cg.struct_for_leave entered.1 spmd
  let num_splits ← checked_div leaf_block.max_num_elements block_size
  let leaf_parent ← deref leaf_block.parent
  let (_, cg) ← cg.create_call "for_each_block"
    [cg.get_context, get_constant leaf_parent.id, get_constant leaf_block.max_num_elements,
     get_constant num_splits, .function "loop_body"]
  pure cg

end CodeGen

namespace CodeGen

/-- The task-kind dispatch of the host `visit(OffloadedStmt *)` between
`init_task_function` and `finalize_task_function`. -/
def offload_dispatch_host (cg : CodeGen) (task_type : TaskType) (begin_ end_ : Int)
    (reversed : Bool) (block_size : Int) (snode : Option SNode)
    (accept_body : CodeGen → Except Err CodeGen) : Except Err CodeGen :=
  match task_type with
  | .serial => accept_body cg
  | .range_for => cg.create_offload_range_for begin_ end_ reversed accept_body
  | .struct_for => do
    let sn ← deref snode
    let leaf ← deref sn.parent
    let block_size := min leaf.max_num_elements block_size
    cg.create_offload_struct_for snode block_size false accept_body
  | .listgen => cg.emit_list_gen snode

/-- The host `visit(OffloadedStmt *)`; `accept_body` is `stmt->body->accept(this)`. -/
def visit_OffloadedStmt_host (cg : CodeGen) (id : Nat) (task_type : TaskType)
    (begin_ end_ : Int) (reversed : Bool) (block_size : Int) (snode : Option SNode)
    (accept_body : CodeGen → Except Err CodeGen) : Except Err CodeGen := do
  let cg := cg.init_task_function id
  let cg ← cg.offload_dispatch_host task_type begin_ end_ reversed block_size snode
    accept_body
  let cg := cg.finalize_task_function
  cg.end_current_task

/-- The block size `CodeGenLLVMGPU::visit(OffloadedStmt *)` chooses for a struct-for. -/
def struct_for_block_dim (max_block_dim leaf_max_num_elements block_size : Int) : Int :=
  let kernel_block_dim := if block_size = 0 then max_block_dim else block_size
  min leaf_max_num_elements kernel_block_dim

/-- The task-kind dispatch of the GPU `visit(OffloadedStmt *)`. -/
def offload_dispatch_gpu (cg : CodeGen) (task_type : TaskType) (begin_ end_ : Int)
    (block_size : Int) (snode : Option SNode)
    (accept_body : CodeGen → Except Err CodeGen) : Except Err CodeGen :=
  match task_type with
  | .serial => accept_body cg
  | .range_for => cg.create_offload_range_for_gpu begin_ end_ block_size accept_body
  | .struct_for => do
    let cg := { cg with kernel_grid_dim := wrap32 (cg.num_SMs * 32) }
    let sn ← deref snode
    let leaf ← deref sn.parent
    let kernel_block_dim :=
      struct_for_block_dim cg.max_block_dim leaf.max_num_elements block_size
    let cg := { cg with kernel_block_dim := kernel_block_dim }
    cg.create_offload_struct_for snode kernel_block_dim true accept_body
  | .listgen => cg.emit_list_gen snode

/-- `CodeGenLLVMGPU::visit(OffloadedStmt *)`. -/
def visit_OffloadedStmt_gpu (cg : CodeGen) (id : Nat) (task_type : TaskType)
    (begin_ end_ : Int) (block_size : Int) (snode : Option SNode)
    (accept_body : CodeGen → Except Err CodeGen) : Except Err CodeGen := do
  let cg := { cg with kernel_grid_dim := 1, kernel_block_dim := 1 }
  let cg := cg.init_task_function id
  let cg ← cg.offload_dispatch_gpu task_type begin_ end_ block_size snode accept_body
  let cg := cg.finalize_task_function
  let cg := { cg with current_task := cg.current_task.map (fun (t : OffloadedTask) =>
    { t with grid_dim := cg.kernel_grid_dim, block_dim := cg.kernel_block_dim }) }
  cg.end_current_task

end CodeGen

mutual

/-- The visitor: `stmt->accept(this)` for each statement kind.  `mask` is
`stmt->parent->mask()`, the mask of the block the statement lies in. -/
def visit : Stmt → Option StmtRef → CodeGen → Except Err CodeGen
  | .AllocaStmt id ret_type, _, cg => cg.visit_AllocaStmt id ret_type
  | .RandStmt _ ret_type, _, cg => cg.visit_RandStmt ret_type
  | .UnaryOpStmt id ret_type op operand cast_by_value cast_type, _, cg =>
    cg.visit_UnaryOpStmt id ret_type op operand cast_by_value cast_type
  | .BinaryOpStmt id ret_type op lhs rhs, _, cg => cg.visit_BinaryOpStmt id ret_type op lhs rhs
  | .TernaryOpStmt id op op1 op2 op3, _, cg => cg.visit_TernaryOpStmt id op op1 op2 op3
  | .IfStmt _ cond true_statements false_statements, _, cg =>
    cg.visit_IfStmt cond
      (fun cg => match true_statements with
        | some b => visitBlock b cg
        | none => pure cg)
      (fun cg => match false_statements with
        | some b => visitBlock b cg
        | none => pure cg)
  | .PrintStmt id ret_type stmt str, _, cg => cg.visit_PrintStmt id ret_type stmt str
  | .ConstStmt id ret_type val, _, cg => cg.visit_ConstStmt id ret_type val
  | .WhileControlStmt _ cond, _, cg => cg.visit_WhileControlStmt cond
  | .WhileStmt _ body, _, cg => cg.visit_WhileStmt (fun cg => visitBlock body cg)
  | .RangeForStmt _ loop_var begin_ end_ reversed body, _, cg =>
    cg.create_naive_range_for loop_var begin_ end_ reversed (fun cg => visitBlock body cg)
  | .ArgLoadStmt id ret_type arg_id is_ptr, _, cg =>
    cg.visit_ArgLoadStmt id ret_type arg_id is_ptr
  | .LocalLoadStmt id ret_type ptr, _, cg => cg.visit_LocalLoadStmt id ret_type ptr
  | .LocalStoreStmt _ ret_type ptr data, mask, cg =>
    cg.visit_LocalStoreStmt mask ret_type ptr data
  | .SNodeOpStmt _ ret_type op_type, _, cg => cg.visit_SNodeOpStmt ret_type op_type
  | .AtomicOpStmt _ ret_type op_type dest val, mask, cg =>
    cg.visit_AtomicOpStmt mask ret_type op_type dest val
  | .GlobalPtrStmt _, _, cg => cg.visit_GlobalPtrStmt
  | .GlobalStoreStmt _ ret_type ptr data, mask, cg =>
    cg.visit_GlobalStoreStmt mask ret_type ptr data
  | .GlobalLoadStmt id ret_type ptr, _, cg => cg.visit_GlobalLoadStmt id ret_type ptr
  | .ElementShuffleStmt _, _, cg => cg.emit_source
  | .AssertStmt _, _, cg => cg.emit_source
  | .OffsetAndExtractBitsStmt id input offset bit_begin bit_end, _, cg =>
    cg.visit_OffsetAndExtractBitsStmt id input offset bit_begin bit_end
  | .LinearizeStmt id inputs strides, _, cg => cg.visit_LinearizeStmt id inputs strides
  | .IntegerOffsetStmt _, _, cg => cg.visit_IntegerOffsetStmt
  | .SNodeLookupStmt id input_snode snode input_index activate, _, cg =>
    cg.visit_SNodeLookupStmt id input_snode snode input_index activate
  | .GetChStmt id input_ptr chid, _, cg => cg.visit_GetChStmt id input_ptr chid
  | .ExternalPtrStmt id ret_type base_ptrs indices, _, cg =>
    cg.visit_ExternalPtrStmt id ret_type base_ptrs indices
  | .LoopIndexStmt id is_struct_for index, _, cg =>
    cg.visit_LoopIndexStmt id is_struct_for index
  | .OffloadedStmt id task_type body begin_ end_ reversed block_size snode, _, cg =>
    if cg.gpu then
      cg.visit_OffloadedStmt_gpu id task_type begin_ end_ block_size snode
        (fun cg => visitBlock body cg)
    else
      cg.visit_OffloadedStmt_host id task_type begin_ end_ reversed block_size snode
        (fun cg => visitBlock body cg)

/-- `visit(Block *)`. -/
def visitBlock : Block → CodeGen → Except Err CodeGen
  | .mk mask statements, cg => visitStmts statements mask cg

/-- The loop of `visit(Block *)` over the statements of the block. -/
def visitStmts : List Stmt → Option StmtRef → CodeGen → Except Err CodeGen
  | [], _, cg => pure cg
  | stmt :: rest, mask, cg => do
    let cg ← visit stmt mask cg
    visitStmts rest mask cg

end

/-! ## Kernel assembly -/

/-- What the assembled kernel does with one task when it is called: a host call of the
task's function, or a device launch of the task's function with a grid and a block
dimension. -/
inductive Launch where
  | call (func : String)
  | launch (cuda_func : String) (grid_dim block_dim : Int)
  deriving DecidableEq, Repr

namespace CodeGen

/-- `emit_to_module`. -/
def emit_to_module (cg : CodeGen) (kernel : Kernel) : Except Err CodeGen :=
  visitBlock kernel.ir cg

/-- `OffloadedTask::compile`: the task's function is looked up by name in the module. -/
def OffloadedTask_compile (cg : CodeGen) (task : OffloadedTask) :
    Except Err OffloadedTask := do
  TC_ASSERT (task.func == none)
  TC_ASSERT (cg.functions.any (fun f => f.name == task.name))
  pure { task with func := some task.name }

/-- The host `compile_module_to_executable`: the tasks captured by the returned
closure. -/
def compile_module_to_executable_host (cg : CodeGen) : Except Err (List OffloadedTask) :=
  cg.offloaded_tasks.mapM cg.OffloadedTask_compile

/-- The closure returned by the host `compile_module_to_executable`, applied to a
context: `task(&context)` for each captured task in turn. -/
def invoke_host : List OffloadedTask → Except Err (List Launch)
  | [] => pure []
  | task :: rest =>
    match task.func with
    | none => .error .assertion_failed
    | some f => do
      let ls ← invoke_host rest
      pure (Launch.call f :: ls)

/-- `CodeGenLLVMGPU::compile_module_to_executable`: the tasks captured by the returned
closure, each with its device function handle. -/
def compile_module_to_executable_gpu (cg : CodeGen) : Except Err (List OffloadedTask) :=
  cg.offloaded_tasks.mapM (fun task => do
    TC_ASSERT (cg.functions.any (fun f => f.name == task.name))
    pure { task with cuda_func := some task.name })

/-- The closure returned by the GPU `compile_module_to_executable`, applied to a
context: one `cuda_context.launch` per captured task in turn. -/
def invoke_gpu : List OffloadedTask → List Launch
  | [] => []
  | task :: rest =>
    Launch.launch (task.cuda_func.getD "") task.grid_dim task.block_dim :: invoke_gpu rest

/-- `gen` followed by one call of the returned kernel: the sequence of task invocations
the call performs. -/
def gen_and_call (base : CodeGen) (gpu : Bool) (kernel : Kernel) :
    Except Err (List Launch) := do
  let cg ← (create base gpu kernel).emit_to_module kernel
  if gpu then do
    let tasks ← cg.compile_module_to_executable_gpu
    pure (invoke_gpu tasks)
  else do
    let tasks ← cg.compile_module_to_executable_host
    invoke_host tasks

end CodeGen

/-! ## Meaning of the emitted code -/

/-- Run-time values: an integer of `w` bits kept as its bit pattern, a floating-point
number of `w` bits kept as its IEEE-754 bit pattern, the address of a stack slot created
by an alloca, the address of a cell of an external buffer, a function and a string
constant. -/
inductive RVal where
  | int (w : Nat) (bits : Nat)
  | fp (w : Nat) (bits : Nat)
  | slot (k : Nat)
  | gptr (a : Int)
  | fn (name : String)
  | str (s : String)
  | context
  deriving DecidableEq, Repr

/-- Replace the entry of key `k` or add one at the end. -/
def setKey {κ α : Type} [DecidableEq κ] (k : κ) (v : α) : List (κ × α) → List (κ × α)
  | [] => [(k, v)]
  | (k', v') :: rest => if k' = k then (k, v) :: rest else (k', v') :: setKey k v rest

/-- The entry of key `k`, if any. -/
def getKey {κ α : Type} [DecidableEq κ] (k : κ) : List (κ × α) → Option α
  | [] => none
  | (k', v') :: rest => if k' = k then some v' else getKey k rest

/-- The state of one thread running emitted code.  `regs` holds the values defined by
instructions, `stack` the contents of the alloca slots, `mem` the cells of the external
buffers, `args` the arguments of the running function, `ctx_args` the kernel arguments
held by the context, `out` the values printed so far, `tid`, `ctaid` and `ntid` the
thread index, block index and block dimension, and `trace` the basic blocks entered so
far, each with the stack contents at the time of entry. -/
structure Machine where
  regs : List (Nat × RVal) := []
  stack : List (Nat × RVal) := []
  mem : List (Int × RVal) := []
  args : List RVal := []
  ctx_args : List RVal := []
  out : List RVal := []
  tid : Nat := 0
  ctaid : Nat := 0
  ntid : Nat := 1
  trace : List (Nat × List (Nat × RVal)) := []
  deriving DecidableEq, Repr

/-- Bit width of an integer type. -/
def intWidth : LType → Option Nat
  | .i1 => some 1
  | .i8 => some 8
  | .i32 => some 32
  | .i64 => some 64
  | .intN n => some n
  | _ => none

/-- Bit width of a floating-point type. -/
def fpWidth : LType → Option Nat
  | .float => some 32
  | .double => some 64
  | _ => none

/-- The run-time value of an operand. -/
def evalValue (m : Machine) : Value → Option RVal
  | .const_int ty v =>
    match intWidth ty with
    | some w => some (.int w (ofInt w v))
    | none => none
  | .const_fp ty payload =>
    match fpWidth ty with
    | some w => some (.fp w (ofInt w payload))
    | none => none
  | .inst id => getKey id m.regs
  | .arg i => m.args.get? i
  | .function name => some (.fn name)
  | .global_string s => some (.str s)
  | _ => none

/-- Integer binary operators on bit patterns of width `w`. -/
def evalBinOp (op : BinOp) (w a b : Nat) : Option Nat :=
  match op with
  | .add => some ((a + b) % 2 ^ w)
  | .sub => some ((a + (2 ^ w - b % 2 ^ w)) % 2 ^ w)
  | .mul => some ((a * b) % 2 ^ w)
  | .and_ => some (a &&& b)
  | .or_ => some (a ||| b)
  | .xor_ => some (a ^^^ b)
  | .lshr => if b < w then some (a >>> b) else none
  | .sdiv =>
    if toSigned w b = 0 then none
    else some (ofInt w (Int.tdiv (toSigned w a) (toSigned w b)))
  | .srem =>
    if toSigned w b = 0 then none
    else some (ofInt w (Int.tmod (toSigned w a) (toSigned w b)))
  | _ => none

/-- Integer comparison predicates on bit patterns of width `w`. -/
def evalICmp (p : ICmpPred) (w a b : Nat) : Bool :=
  match p with
  | .eq => a == b
  | .ne => a != b
  | .slt => toSigned w a < toSigned w b
  | .sle => toSigned w a ≤ toSigned w b
  | .sgt => toSigned w a > toSigned w b
  | .sge => toSigned w a ≥ toSigned w b
  | .ult => a < b
  | .ule => a ≤ b
  | .ugt => a > b
  | .uge => a ≥ b

/-- The number of exponent bits and of fraction bits of the IEEE-754 format of `w`
bits (`binary32` and `binary64`). -/
def fp_format (w : Nat) : Option (Nat × Nat) :=
  if w = 32 then some (8, 23) else if w = 64 then some (11, 52) else none

/-- The value of a finite floating-point number of `w` bits with bit pattern `bits`, as
`(negative, m, e)` standing for `± m * 2 ^ e`; `none` for infinities and NaNs. -/
def fp_decode (w bits : Nat) : Option (Bool × Nat × Int) :=
  match fp_format w with
  | none => none
  | some (ebits, fbits) =>
    let frac := bits % 2 ^ fbits
    let exp := (bits / 2 ^ fbits) % 2 ^ ebits
    let negative := decide ((bits / 2 ^ (ebits + fbits)) % 2 = 1)
    let bias : Int := 2 ^ (ebits - 1) - 1
    if exp = 2 ^ ebits - 1 then none
    else if exp = 0 then some (negative, frac, 1 - bias - fbits)
    else some (negative, 2 ^ fbits + frac, (exp : Int) - bias - fbits)

/-- The instruction `fptosi`: the floating-point operand is rounded toward zero to an
integer; the result is undefined when the operand is not finite or the integer does not
fit the signed type of `w2` bits. -/
def fp_to_si (w bits w2 : Nat) : Option Nat :=
  match fp_decode w bits with
  | none => none
  | some (negative, m, e) =>
    let magnitude : Nat := if 0 ≤ e then m * 2 ^ e.toNat else m / 2 ^ (-e).toNat
    let t : Int := if negative then -(magnitude : Int) else magnitude
    if -(2 : Int) ^ (w2 - 1) ≤ t ∧ t < (2 : Int) ^ (w2 - 1) then some (ofInt w2 t) else none

/-- Casts between integer widths, from floating point to signed integers and between
pointers. -/
def evalCast (op : CastOps) (v : RVal) (ty : LType) : Option RVal :=
  match op, v with
  | .FPToSI, .fp w a =>
    match intWidth ty with
    | some w2 =>
      match fp_to_si w a w2 with
      | some r => some (.int w2 r)
      | none => none
    | none => none
  | .SExt, .int w a =>
    match intWidth ty with
    | some w2 => some (.int w2 (ofInt w2 (toSigned w a)))
    | none => none
  | .Trunc, .int _ a =>
    match intWidth ty with
    | some w2 => some (.int w2 (a % 2 ^ w2))
    | none => none
  | .BitCast, v => some v
  | .IntToPtr, .gptr a => some (.gptr a)
  | _, _ => none

/-- Read through a pointer. -/
def loadFrom (m : Machine) : RVal → Option RVal
  | .slot k => getKey k m.stack
  | .gptr a => getKey a m.mem
  | _ => none

/-- Write through a pointer; a cell of an external buffer must exist. -/
def storeTo (m : Machine) (v : RVal) : RVal → Option Machine
  | .slot k => some { m with stack := setKey k v m.stack }
  | .gptr a =>
    match getKey a m.mem with
    | some _ => some { m with mem := setKey a v m.mem }
    | none => none
  | _ => none

/-- Calls of the functions of the runtime module the interpreter knows: `printf`
appends its value argument to the output, `Context_get_args` reads a kernel argument.
Modelled from the spec: a function whose name ends in `_refine_coordinates` is a node's
`refine_coordinates(in, out, index) -> void`; the coordinates it writes to `out` are
represented by the index it was given. -/
def evalCall (m : Machine) (name : String) (args : List RVal) :
    Option (RVal × Machine) :=
  if name = "printf" then
    match args with
    | [_, v] => some (.int 32 0, { m with out := m.out ++ [v] })
    | _ => none
  else if name = "Context_get_args" then
    match args with
    | [_, .int _ i] =>
      match m.ctx_args.get? i with
      | some v => some (v, m)
      | none => none
    | _ => none
  else if "_refine_coordinates".data.isSuffixOf name.data then
    match args with
    | [_, out, .int w i] =>
      match storeTo m (.int w i) out with
      | some m2 => some (.int 32 0, m2)
      | none => none
    | _ => none
  else none

/-- The special registers read by the NVVM intrinsics. -/
def evalIntrinsic (m : Machine) (name : String) : Option RVal :=
  if name = "nvvm_read_ptx_sreg_tid_x" then some (.int 32 (m.tid % 2 ^ 32))
  else if name = "nvvm_read_ptx_sreg_ctaid_x" then some (.int 32 (m.ctaid % 2 ^ 32))
  else if name = "nvvm_read_ptx_sreg_ntid_x" then some (.int 32 (m.ntid % 2 ^ 32))
  else none

/-- Define the result register of an instruction. -/
def Machine.setReg (m : Machine) (r : Nat) (v : RVal) : Machine :=
  { m with regs := setKey r v m.regs }

/-- The list of operand values, if all are defined. -/
def evalValues (m : Machine) : List Value → Option (List RVal)
  | [] => some []
  | v :: rest =>
    match evalValue m v, evalValues m rest with
    | some x, some xs => some (x :: xs)
    | _, _ => none

/-- One step of a non-terminator instruction (`none`: the instruction has no defined
behaviour in this model, or is a terminator). -/
def execInstr (m : Machine) : Instr → Option Machine
  | .alloca res _ => some (m.setReg res (.slot res))
  | .store val ptr =>
    match evalValue m val, evalValue m ptr with
    | some v, some p => storeTo m v p
    | _, _ => none
  | .load res ptr =>
    match evalValue m ptr with
    | some p =>
      match loadFrom m p with
      | some v => some (m.setReg res v)
      | none => none
    | none => none
  | .binop res op lhs rhs =>
    match evalValue m lhs, evalValue m rhs with
    | some (.int w a), some (.int w2 b) =>
      if w = w2 then
        match evalBinOp op w a b with
        | some c => some (m.setReg res (.int w c))
        | none => none
      else none
    | _, _ => none
  | .icmp res pred lhs rhs =>
    match evalValue m lhs, evalValue m rhs with
    | some (.int w a), some (.int w2 b) =>
      if w = w2 then some (m.setReg res (.int 1 (if evalICmp pred w a b then 1 else 0)))
      else none
    | _, _ => none
  | .cast res op v ty =>
    match evalValue m v with
    | some x =>
      match evalCast op x ty with
      | some y => some (m.setReg res y)
      | none => none
    | none => none
  | .select res cond a b =>
    match evalValue m cond, evalValue m a, evalValue m b with
    | some (.int 1 c), some x, some y => some (m.setReg res (if c = 1 then x else y))
    | _, _, _ => none
  | .gep res ptr indices =>
    match evalValue m ptr, evalValues m indices with
    | some (.gptr a), some [.int w i] => some (m.setReg res (.gptr (a + toSigned w i)))
    | _, _ => none
  | .call res callee args =>
    match evalValue m callee, evalValues m args with
    | some (.fn name), some xs =>
      match evalCall m name xs with
      | some (v, m2) => some (m2.setReg res v)
      | none => none
    | _, _ => none
  | .intrinsic res name _ =>
    match evalIntrinsic m name with
    | some v => some (m.setReg res v)
    | none => none
  | .atomicrmw_add res ptr val =>
    match evalValue m ptr, evalValue m val with
    | some p, some (.int w b) =>
      match loadFrom m p with
      | some (.int w2 a) =>
        if w = w2 then
          match storeTo m (.int w ((a + b) % 2 ^ w)) p with
          | some m2 => some (m2.setReg res (.int w a))
          | none => none
        else none
      | _ => none
    | _, _ => none
  | .field_ptr res ptr _ =>
    -- the layout of the runtime structs is not modelled: the address of a field is
    -- represented by the address of the object
    match evalValue m ptr with
    | some p => some (m.setReg res p)
    | none => none
  | _ => none

/-- Where control goes at the end of a basic block. -/
inductive Next where
  | goto (l : Nat)
  | ret
  deriving DecidableEq, Repr

/-- Run the instructions of a basic block up to and including its first terminator. -/
def execBlock : List Instr → Machine → Option (Machine × Next)
  | [], _ => none
  | i :: rest, m =>
    match i with
    | .br dest => some (m, .goto dest)
    | .cond_br cond t f =>
      match evalValue m cond with
      | some (.int 1 c) => some (m, .goto (if c = 1 then t else f))
      | _ => none
    | .ret_void => some (m, .ret)
    | i =>
      match execInstr m i with
      | some m2 => execBlock rest m2
      | none => none

/-- Run from the start of block `l` until the function returns; every basic block
entered costs one unit of `fuel`. -/
def run (blocks : List BasicBlock) : Nat → Nat → Machine → Option Machine
  | 0, _, _ => none
  | fuel + 1, l, m =>
    match blocks.get? l with
    | none => none
    | some b =>
      match execBlock b.insts { m with trace := m.trace ++ [(l, m.stack)] } with
      | some (m2, .goto l2) => run blocks fuel l2 m2
      | some (m2, .ret) => some m2
      | none => none

/-- The number of the first basic block of function `f` (its entry block). -/
def entryOf (blocks : List BasicBlock) (f : Nat) : Option Nat :=
  (blocks.enum.find? (fun p => p.2.parent == f)).map (fun p => p.1)

/-- Call the function named `name` of the generated module on machine `m`. -/
def CodeGen.runFunction (cg : CodeGen) (name : String) (fuel : Nat) (m : Machine) :
    Option Machine :=
  match (cg.functions.enum.find? (fun p => p.2.name == name)).map (fun p => p.1) with
  | none => none
  | some f =>
    match entryOf cg.blocks f with
    | none => none
    | some l => run cg.blocks fuel l m

/-- Run a list of non-terminator instructions in order. -/
def execInstrs : List Instr → Machine → Option Machine
  | [], m => some m
  | i :: rest, m =>
    match execInstr m i with
    | some m2 => execInstrs rest m2
    | none => none

/-! ## Lowering and running whole kernels -/

/-- `gen` up to the finished module: construct the code generator for `kernel` and lower
the kernel's statement tree. -/
def lower (base : CodeGen) (gpu : Bool) (kernel : Kernel) : Except Err CodeGen :=
  (CodeGen.create base gpu kernel).emit_to_module kernel

/-- What can be observed of one run of a task function: the final contents of the
external buffers, the values printed, and the names of the basic blocks entered, in
order. -/
structure Observation where
  mem : List (Int × RVal)
  out : List RVal
  blocks_entered : List String
  deriving DecidableEq, Repr

/-- Lower `kernel`, then run its task function `task` on machine `m`. -/
def observe (base : CodeGen) (gpu : Bool) (kernel : Kernel) (task : String) (fuel : Nat)
    (m : Machine) : Option Observation :=
  match lower base gpu kernel with
  | .error _ => none
  | .ok cg =>
    match cg.runFunction task fuel m with
    | none => none
    | some m2 =>
      some { mem := m2.mem, out := m2.out,
             blocks_entered := m2.trace.map (fun e =>
               match cg.blocks.get? e.1 with
               | some b => b.name
               | none => "") }

/-- A runtime module with the functions the example kernels call. -/
def example_base : CodeGen :=
  { runtime_module := ["printf", "vprintf", "Context_get_args"] }

/-- The return type `i32` of width 1. -/
def i32x1 : VectorType := { data_type := .i32 }

/-- A reference to a statement of type `i32`. -/
def ref (id : Nat) : StmtRef := { id := id, ret_type := i32x1 }

/-- An `i32` constant statement. -/
def const_i32 (id : Nat) (v : Int) : Stmt := .ConstStmt id i32x1 [{ dt := .i32, val := v }]

/-- The statements computing `p = ExternalPtr(arg 0, 0)` as statement 2. -/
def external_ptr_p : List Stmt :=
  [.ArgLoadStmt 0 i32x1 0 true, const_i32 1 0, .ExternalPtrStmt 2 i32x1 [ref 0] [ref 1]]

/-- The spec's scenario "If diamond": a serial task
`If(Const(i32, c)) then GlobalStore(p, Const(i32, 1)) else GlobalStore(p, Const(i32, 2))`. -/
def if_diamond_kernel (c : Int) : Kernel :=
  { name := "k", grad := false,
    ir := .mk none [.OffloadedStmt 100 .serial (.mk none (external_ptr_p ++ [
      const_i32 3 c,
      .IfStmt 4 (ref 3)
        (some (.mk none [const_i32 5 1, .GlobalStoreStmt 6 i32x1 (ref 2) (ref 5)]))
        (some (.mk none [const_i32 7 2, .GlobalStoreStmt 8 i32x1 (ref 2) (ref 7)]))]))
      0 0 false 0 none] }

/-- A machine whose kernel argument 0 points to a one-cell buffer holding `v`. -/
def one_cell_machine (v : Nat) : Machine :=
  { args := [.context], ctx_args := [.gptr 0], mem := [(0, .int 32 v)] }

/-- An offloaded range-for task over `[begin_, end_)` whose body prints the loop index. -/
def offload_range_for_kernel (begin_ end_ : Int) (reversed : Bool) : Kernel :=
  { name := "k", grad := false,
    ir := .mk none [.OffloadedStmt 100 .range_for
      (.mk none [.LoopIndexStmt 0 false 0, .PrintStmt 1 i32x1 (ref 0) "i"])
      begin_ end_ reversed 0 none] }

/-- A serial task holding a `RangeForStmt` over `[begin_, end_)` whose body prints the
loop variable. -/
def naive_range_for_kernel (begin_ end_ : Int) (reversed : Bool) : Kernel :=
  { name := "k", grad := false,
    ir := .mk none [.OffloadedStmt 100 .serial (.mk none [
      .AllocaStmt 0 i32x1, const_i32 1 begin_, const_i32 2 end_,
      .RangeForStmt 3 (ref 0) (ref 1) (ref 2) reversed
        (.mk none [.LocalLoadStmt 4 i32x1 [ref 0], .PrintStmt 5 i32x1 (ref 4) "i"])])
      0 0 false 0 none] }

/-- A serial task that prints the constant 7. -/
def print_kernel : Kernel :=
  { name := "k", grad := false,
    ir := .mk none [.OffloadedStmt 100 .serial
      (.mk none [const_i32 0 7, .PrintStmt 1 i32x1 (ref 0) "x"]) 0 0 false 0 none] }

/-- For each basic block of the module, its name and the allocas it holds. -/
def allocas_by_block (cg : CodeGen) : List (String × List Instr) :=
  cg.blocks.map (fun b => (b.name, b.insts.filter Instr.isAlloca))

/-! ## Notions used to state the properties -/

/-- The instructions of the basic block at the insertion point. -/
def CodeGen.current_insts (cg : CodeGen) : List Instr :=
  match cg.blocks.get? cg.insert_point with
  | some b => b.insts
  | none => []

/-- The instructions `cg2` holds at the insertion point beyond those `cg1` held there:
the code emitted between the two builder states. -/
def emitted_between (cg1 cg2 : CodeGen) : List Instr :=
  cg2.current_insts.drop cg1.current_insts.length

/-- Whether a comparison operator holds of two integers given by their `w`-bit patterns:
the order comparisons read the operands as signed or unsigned numbers according to the
signedness of the operand type, equality and inequality compare the bit patterns. -/
def comparison_holds (op : BinaryOpType) (signed : Bool) (w a b : Nat) : Bool :=
  match op with
  | .cmp_eq => a == b
  | .cmp_ne => a != b
  | .cmp_lt => if signed then toSigned w a < toSigned w b else a < b
  | .cmp_le => if signed then toSigned w a ≤ toSigned w b else a ≤ b
  | .cmp_gt => if signed then toSigned w a > toSigned w b else a > b
  | .cmp_ge => if signed then toSigned w a ≥ toSigned w b else a ≥ b
  | _ => false

/-- The integer comparison predicate `visit(BinaryOpStmt *)` selects for a comparison
operator on operands of an integer type of the given signedness. -/
def icmp_pred (op : BinaryOpType) (signed : Bool) : ICmpPred :=
  match op with
  | .cmp_eq => .eq
  | .cmp_ne => .ne
  | .cmp_lt => if signed then .slt else .ult
  | .cmp_le => if signed then .sle else .ule
  | .cmp_gt => if signed then .sgt else .ugt
  | _ => if signed then .sge else .uge

/-- A builder with one empty basic block at the insertion point, in which statement 0
has the constant value 3 and statement 1 the constant value 5. -/
def example_builder : CodeGen :=
  { blocks := [{ name := "body", parent := 0, insts := [] }],
    values := [(0, .const_int .i32 3), (1, .const_int .i32 5)] }

/-- The Horner fold of `visit(LinearizeStmt *)` continued from the running value `val`:
for each `k` in turn, `val = val * strides[k] + inputs[k]`. -/
def horner_from (val : Int) : List Int → List Int → Int
  | s :: strides, i :: inputs => horner_from (val * s + i) strides inputs
  | _, _ => val

/-- The Horner fold started from 0. -/
def horner_fold (strides inputs : List Int) : Int := horner_from 0 strides inputs

/-- The row-major index: the sum over `k` of `inputs[k]` times the product of the
strides after position `k`. -/
def row_major_index : List Int → List Int → Int
  | _ :: strides, i :: inputs => i * strides.prod + row_major_index strides inputs
  | _, _ => 0

/-- The members of the code generator other than the builder's output (basic blocks,
insertion point, value numbering) and the statements' `value` slots. -/
def CodeGen.bookkeeping (cg : CodeGen) : CodeGen :=
  { cg with blocks := [], insert_point := 0, next_id := 0, values := [] }

mutual

/-- No `OffloadedStmt` occurs in the statement (offloaded statements are children of the
kernel's root block only). -/
def Stmt.offload_free : Stmt → Bool
  | .OffloadedStmt _ _ _ _ _ _ _ _ => false
  | .IfStmt _ _ true_statements false_statements =>
    (match true_statements with
      | some b => b.offload_free
      | none => true)
    && (match false_statements with
      | some b => b.offload_free
      | none => true)
  | .WhileStmt _ body => body.offload_free
  | .RangeForStmt _ _ _ _ _ body => body.offload_free
  | _ => true

/-- No `OffloadedStmt` occurs in the block. -/
def Block.offload_free : Block → Bool
  | .mk _ statements => stmts_offload_free statements

/-- No `OffloadedStmt` occurs in the statement list. -/
def stmts_offload_free : List Stmt → Bool
  | [] => true
  | s :: rest => s.offload_free && stmts_offload_free rest

end

/-- A visitor result that, when it is a success, has the bookkeeping of `cg`. -/
def Framed (r : Except Err CodeGen) (cg : CodeGen) : Prop :=
  ∀ cg2, r = .ok cg2 → cg2.bookkeeping = cg.bookkeeping

/-- The same for a visitor helper that also returns a value. -/
def FramedV {α : Type} (r : Except Err (α × CodeGen)) (cg : CodeGen) : Prop :=
  ∀ a cg2, r = .ok (a, cg2) → cg2.bookkeeping = cg.bookkeeping

/-- The members of the code generator that identify the kernel and its tasks: the
bookkeeping without the current function, its blocks, the loop state and the launch
shape. -/
def CodeGen.task_state (cg : CodeGen) : CodeGen :=
  { gpu := cg.gpu, runtime_module := cg.runtime_module,
    default_gpu_block_size := cg.default_gpu_block_size, num_SMs := cg.num_SMs,
    max_block_dim := cg.max_block_dim, kernel_name := cg.kernel_name,
    task_counter := cg.task_counter, current_task := cg.current_task,
    offloaded_tasks := cg.offloaded_tasks }

/-- From `cg` to `cg2` the task state is unchanged and the only functions added to the
module have internal linkage. -/
def TaskStep (cg cg2 : CodeGen) : Prop :=
  cg2.task_state = cg.task_state ∧
    ∃ extra, cg2.functions = cg.functions ++ extra ∧
      ∀ f ∈ extra, f.linkage = Linkage.InternalLinkage

/-- A visitor result that, when it is a success, is a `TaskStep` away from `base`. -/
def TFramed (r : Except Err CodeGen) (base : CodeGen) : Prop :=
  ∀ cg2, r = .ok cg2 → TaskStep base cg2


/-- The statement is an `OffloadedStmt` whose body holds no further `OffloadedStmt`. -/
def Stmt.is_task : Stmt → Bool
  | .OffloadedStmt _ _ body _ _ _ _ _ => body.offload_free
  | _ => false

/-- The task function `init_task_function` creates for the task named `name`. -/
def task_function (name : String) : Function :=
  { name := name, linkage := .ExternalLinkage, params := [.ptr (.runtime "Context")] }

/-- One visit of an `OffloadedStmt` from `cg` to `cg2`: the counter went up by one, one
task named after the old counter was appended to `offloaded_tasks`, its function was
added to the module (together with internal functions only), and the rest of the task
state is as before. -/
def TaskAdded (cg cg2 : CodeGen) : Prop :=
  ∃ (t : OffloadedTask) (extra : List Function),
    t.name = cg.kernel_name ++ "_" ++ format_int cg.task_counter ∧
    t.func = none ∧
    cg2.task_state = { cg.task_state with
      task_counter := cg.task_counter + 1, current_task := none,
      offloaded_tasks := cg.offloaded_tasks ++ [t] } ∧
    cg2.functions = cg.functions ++ task_function t.name :: extra ∧
    ∀ f ∈ extra, f.linkage = Linkage.InternalLinkage

/-- The statements of the kernel's root block. -/
def Kernel.root_statements (k : Kernel) : List Stmt :=
  match k.ir with
  | .mk _ statements => statements

/-- The root block of the kernel consists of `OffloadedStmt`s, none of which holds a
further `OffloadedStmt`. -/
def Kernel.well_formed (k : Kernel) : Bool := k.root_statements.all Stmt.is_task

/-- The names of the functions of external linkage, in the order of their creation. -/
def external_names (fs : List Function) : List String :=
  (fs.filter (fun f => f.linkage == Linkage.ExternalLinkage)).map (fun f => f.name)

/-- The task name the specification gives for task number `N` of `kernel`. -/
def spec_task_name (kernel : Kernel) (N : Nat) : String :=
  kernel.name ++ (if kernel.grad then "_grad" else "") ++ "_kernel_" ++ format_int N

/-- The module and code generator state `lower` ends with (the initial state when the
lowering fails). -/
def lowered (base : CodeGen) (gpu : Bool) (kernel : Kernel) : CodeGen :=
  match lower base gpu kernel with
  | .ok cg => cg
  | .error _ => base

/-- What one call of the assembled kernel does with task `t`. -/
def launch_of (gpu : Bool) (t : OffloadedTask) : Launch :=
  if gpu then Launch.launch t.name t.grid_dim t.block_dim else Launch.call t.name

/-- Two serial tasks (each printing a constant) followed by an offloaded range-for. -/
def three_task_kernel : Kernel :=
  { name := "k", grad := true,
    ir := .mk none [
      .OffloadedStmt 100 .serial
        (.mk none [const_i32 0 7, .PrintStmt 1 i32x1 (ref 0) "x"]) 0 0 false 0 none,
      .OffloadedStmt 101 .serial
        (.mk none [const_i32 2 8, .PrintStmt 3 i32x1 (ref 2) "y"]) 0 0 false 0 none,
      .OffloadedStmt 102 .range_for
        (.mk none [.LoopIndexStmt 4 false 0, .PrintStmt 5 i32x1 (ref 4) "i"])
        0 10 false 0 none] }


/-- Run from the start of block `l` until control is about to enter block `stop`; every
basic block entered costs one unit of `fuel`. -/
def run_to (blocks : List BasicBlock) (stop : Nat) : Nat → Nat → Machine → Option Machine
  | 0, l, m => if l = stop then some m else none
  | fuel + 1, l, m =>
    if l = stop then some m
    else
      match blocks.get? l with
      | none => none
      | some b =>
        match execBlock b.insts { m with trace := m.trace ++ [(l, m.stack)] } with
        | some (m2, .goto l2) => run_to blocks stop fuel l2 m2
        | _ => none

/-- The instructions `cg2` holds in the block that was under construction in `cg1`,
beyond those `cg1` held there. -/
def appended_at (cg1 cg2 : CodeGen) : List Instr :=
  match cg2.blocks.get? cg1.insert_point with
  | some b => b.insts.drop cg1.current_insts.length
  | none => []

/-- Run the code emitted between the builder states `cg1` and `cg2`: the instructions
appended to the block that was under construction in `cg1`, then whatever they branch
to, until control reaches the block under construction in `cg2`. -/
def exec_emitted (cg1 cg2 : CodeGen) (fuel : Nat) (m : Machine) : Option Machine :=
  match execBlock (appended_at cg1 cg2) m with
  | some (m1, .goto l) => run_to cg2.blocks cg2.insert_point fuel l m1
  | _ => none

/-- The values the loop variable is to take, in order: `begin_, ..., end_ - 1`, or the
same downwards when `reversed`. -/
def range_for_indices (begin_ end_ : Int) (reversed : Bool) : List Int :=
  let up := (List.range (end_ - begin_).toNat).map (fun (j : Nat) => begin_ + (j : Int))
  if reversed then up.reverse else up

/-- Every block of `bs1` is still there in `bs2`, with the same instructions and
possibly more after them. -/
def BlocksExtend (bs1 bs2 : List BasicBlock) : Prop :=
  ∀ (l : Nat) (b : BasicBlock), bs1[l]? = some b →
    ∃ (b2 : BasicBlock) (extra : List Instr), bs2[l]? = some b2 ∧ b2.insts = b.insts ++ extra

/-- From `c1` to `c2` the builder stayed in its block, no block was created, and the
block under construction received exactly the instructions `bs`. -/
def StraightLine (c1 c2 : CodeGen) (bs : List Instr) : Prop :=
  c2.insert_point = c1.insert_point ∧ c2.blocks.length = c1.blocks.length ∧
  c1.next_id ≤ c2.next_id ∧ c2.current_insts = c1.current_insts ++ bs ∧
  BlocksExtend c1.blocks c2.blocks

/-- Overwrite stack slot `k`. -/
def Machine.setSlot (m : Machine) (k : Nat) (v : RVal) : Machine :=
  { m with stack := setKey k v m.stack }

/-- What a loop needs of its body `bs`, for loop variable `lv` living in stack slot `k`
and the loop's own registers numbered from `n` on.  `Inv` holds when the loop is reached
and whenever the body is about to run: then `lv` evaluates to the address of slot `k`,
and the body, started with a 32-bit integer in slot `k`, runs to completion,
re-establishes `Inv` and leaves slot `k` as it is.  `Inv` does not depend on the
contents of slot `k`, on registers numbered `n` or later, or on the trace. -/
structure LoopBody (Inv : Machine → Prop) (bs : List Instr) (lv : Value) (k n : Nat) :
    Prop where
  lv_slot : ∀ m, Inv m → evalValue m lv = some (.slot k)
  exec : ∀ m i, Inv m → getKey k m.stack = some (.int 32 i) →
    ∃ m2, execInstrs bs m = some m2 ∧ Inv m2 ∧ getKey k m2.stack = getKey k m.stack
  reg : ∀ m id v, Inv m → n ≤ id → Inv (m.setReg id v)
  slot : ∀ m v, Inv m → Inv (m.setSlot k v)
  trace : ∀ m t, Inv m → Inv { m with trace := t }

/-- The instructions `range_for_leave` emits, the first of them defining register `a`. -/
def loop_epilogue (lv begin_ end_ : Value) (body after_loop : Nat) (reversed : Bool)
    (a : Nat) : List Instr :=
  [.load a lv,
   .binop (a + 1) .add (.inst a) (CodeGen.get_constant (if reversed then -1 else 1)),
   .store (.inst (a + 1)) lv,
   .load (a + 2) lv,
   .icmp (a + 3) (if reversed then .sge else .slt) (.inst (a + 2))
     (if reversed then begin_ else end_),
   .cond_br (.inst (a + 3)) body after_loop]

/-- The instructions `range_for_enter` emits before the branch into the body, the first
of them defining register `a`. -/
def loop_preamble (lv begin_ end_ : Value) (reversed : Bool) (a : Nat) : List Instr :=
  if reversed then
    [.binop a .sub end_ (CodeGen.get_constant 1), .store (.inst a) lv]
  else [.store begin_ lv]

/-- The builder state in which the host `create_offload_range_for` visits the body. -/
def CodeGen.offload_range_for_body_state (cg : CodeGen) (begin_ end_ : Int)
    (reversed : Bool) : CodeGen :=
  let (loop_var, cg) := cg.create_entry_block_alloca .i32
  let cg := { cg with loop_vars_llvm := cg.loop_vars_llvm ++ [loop_var] }
  (cg.range_for_enter loop_var (CodeGen.get_constant begin_) (CodeGen.get_constant end_)
    reversed).2

/-- The builder state in which `create_naive_range_for` visits the body. -/
def CodeGen.naive_range_for_body_state (cg : CodeGen) (loop_var begin_ end_ : StmtRef)
    (reversed : Bool) : CodeGen :=
  (cg.range_for_enter (cg.value loop_var) (cg.value begin_) (cg.value end_) reversed).2

/-- From every machine satisfying `Inv`, the code emitted between `cg` and `cg2` runs to
the block under construction in `cg2`, entering on the way exactly one basic block per
element of `indices`, each time the block `body`, with stack slot `k` holding the
elements of `indices` in order; `Inv` holds again at the end. -/
def RunsBodyOver (cg cg2 : CodeGen) (Inv : Machine → Prop) (k body : Nat)
    (indices : List Int) : Prop :=
  ∀ m, Inv m → ∃ m2 entries,
    exec_emitted cg cg2 indices.length m = some m2 ∧ Inv m2 ∧
    m2.trace = m.trace ++ entries ∧
    entries.map (fun en => (en.1, getKey k en.2))
      = indices.map (fun i => (body, some (RVal.int 32 (ofInt 32 i))))

/-- The spec's scenario "Range-for sum". -/
def range_for_sum_kernel (begin_ end_ : Int) (reversed : Bool) : Kernel :=
  { name := "k", grad := false,
    ir := .mk none [.OffloadedStmt 100 .range_for (.mk none (external_ptr_p ++ [
      .GlobalLoadStmt 3 i32x1 (ref 2),
      .LoopIndexStmt 4 false 0,
      .BinaryOpStmt 5 i32x1 .add (ref 3) (ref 4),
      .GlobalStoreStmt 6 i32x1 (ref 2) (ref 5)]))
      begin_ end_ reversed 0 none] }

/-- Where a run stands when it stops. -/
inductive Status where
  | running (l : Nat)
  | returned
  | stuck
  deriving DecidableEq, Repr

/-- Run from the start of block `l` for at most `fuel` basic blocks. -/
def run_for (blocks : List BasicBlock) : Nat → Nat → Machine → Machine × Status
  | 0, l, m => (m, .running l)
  | fuel + 1, l, m =>
    match blocks.get? l with
    | none => (m, .stuck)
    | some b =>
      match execBlock b.insts { m with trace := m.trace ++ [(l, m.stack)] } with
      | some (m2, .goto l2) => run_for blocks fuel l2 m2
      | some (m2, .ret) => (m2, .returned)
      | none => (m, .stuck)

/-- Lower `kernel`, then run its task function `task` on machine `m` for at most `fuel`
basic blocks: the values printed so far, the names of the blocks entered so far, and
where the run stands. -/
def observe_for (base : CodeGen) (gpu : Bool) (kernel : Kernel) (task : String)
    (fuel : Nat) (m : Machine) : Option (List RVal × List String × Status) :=
  match lower base gpu kernel with
  | .error _ => none
  | .ok cg =>
    match (cg.functions.enum.find? (fun p => p.2.name == task)).map (fun p => p.1) with
    | none => none
    | some f =>
      match entryOf cg.blocks f with
      | none => none
      | some l =>
        let r := run_for cg.blocks fuel l m
        some (r.1.out, r.1.trace.map (fun e =>
          match cg.blocks.get? e.1 with
          | some b => b.name
          | none => ""), r.2)


/-- A code generator positioned in the `body` block of a fresh task function. -/
def example_task_builder : CodeGen :=
  (CodeGen.create example_base false print_kernel).init_task_function 100

/-- A loop body that prints the loop index. -/
def print_index_body : Block :=
  .mk none [.LoopIndexStmt 0 false 0, .PrintStmt 1 i32x1 (ref 0) "i"]

/-- The result of a visitor that succeeds (`d` when it fails). -/
def result_or {α : Type} (d : α) : Except Err α → α
  | .ok a => a
  | .error _ => d

/-- The builder state after `print_index_body` was visited as the body of the host
offloaded range-for over `[begin_, end_)` created in `example_task_builder`. -/
def print_index_body_result (begin_ end_ : Int) (reversed : Bool) : CodeGen :=
  result_or example_task_builder (visitBlock print_index_body
    (example_task_builder.offload_range_for_body_state begin_ end_ reversed))

/-- Register `r` holds the address of stack slot `r`: the state of a loop variable after
its alloca. -/
def loop_var_ready (r : Nat) (m : Machine) : Prop :=
  getKey r m.regs = some (.slot r)

/-- The machine after the alloca of the entry block of the example task. -/
def machine_after_alloca : Machine := { regs := [(0, .slot 0)] }

/-- Decidable form of `BlocksExtend`. -/
def blocks_extend_check : List BasicBlock → List BasicBlock → Bool
  | [], _ => true
  | _ :: _, [] => false
  | b :: bs, b2 :: bs2 => b.insts.isPrefixOf b2.insts && blocks_extend_check bs bs2


/-- An offloaded range-for task over `[begin_, end_)` whose body stores the loop index to
the one-cell buffer passed as kernel argument 0. -/
def range_for_store_kernel (begin_ end_ block_size : Int) : Kernel :=
  { name := "k", grad := false,
    ir := .mk none [.OffloadedStmt 100 .range_for (.mk none (external_ptr_p ++ [
      .LoopIndexStmt 3 false 0,
      .GlobalStoreStmt 4 i32x1 (ref 2) (ref 3)]))
      begin_ end_ false block_size none] }

/-- The machine of thread `tid` of block `ctaid` in a launch with block dimension `ntid`,
with a one-cell buffer holding 0 as kernel argument 0. -/
def thread_machine (ctaid tid ntid : Nat) : Machine :=
  { one_cell_machine 0 with tid := tid, ctaid := ctaid, ntid := ntid }

/-- The instructions `gpu_range_for_enter` emits into the block under construction, the
first of them defining register `a`. -/
def gpu_guard_code (lv : Value) (begin_ end_ : Int) (body after_loop a : Nat) :
    List Instr :=
  [.intrinsic a "nvvm_read_ptx_sreg_tid_x" [],
   .intrinsic (a + 1) "nvvm_read_ptx_sreg_ctaid_x" [],
   .intrinsic (a + 2) "nvvm_read_ptx_sreg_ntid_x" [],
   .binop (a + 3) .mul (.inst (a + 1)) (.inst (a + 2)),
   .binop (a + 4) .add (.inst a) (.inst (a + 3)),
   .binop (a + 5) .add (CodeGen.get_constant begin_) (.inst (a + 4)),
   .store (.inst (a + 5)) lv,
   .load (a + 6) lv,
   .icmp (a + 7) .slt (.inst (a + 6)) (CodeGen.get_constant end_),
   .cond_br (.inst (a + 7)) body after_loop]

/-- The builder state of `CodeGenLLVMGPU::create_offload_range_for` after the loop
variable was allocated and the launch shape `(grid_dim, block_dim)` recorded. -/
def CodeGen.gpu_range_for_loop_var_state (cg : CodeGen) (grid_dim block_dim : Int) :
    CodeGen :=
  let (loop_var, cg) := cg.create_entry_block_alloca .i32
  let cg := { cg with loop_vars_llvm := cg.loop_vars_llvm ++ [loop_var] }
  { cg with kernel_grid_dim := grid_dim, kernel_block_dim := block_dim }

/-- The builder state in which `CodeGenLLVMGPU::create_offload_range_for` visits the
body, for the launch shape `(grid_dim, block_dim)` it computed. -/
def CodeGen.offload_range_for_gpu_body_state (cg : CodeGen) (begin_ end_ : Int)
    (grid_dim block_dim : Int) : CodeGen :=
  ((cg.gpu_range_for_loop_var_state grid_dim block_dim).gpu_range_for_enter
    (.inst cg.next_id) begin_ end_).2

/-- Thread `m` of a launch, running the code emitted between `cg` and `cg2` with `Inv`
holding, reaches the block under construction in `cg2` having entered block `body` once
with stack slot `k` holding `index` when `runs`, and no block at all otherwise. -/
def RunsBodyIf (cg cg2 : CodeGen) (Inv : Machine → Prop) (k body : Nat) (m : Machine)
    (runs : Bool) (index : Int) : Prop :=
  ∃ m2 entries, exec_emitted cg cg2 1 m = some m2 ∧ Inv m2 ∧
    m2.trace = m.trace ++ entries ∧
    entries.map (fun en => (en.1, getKey k en.2))
      = if runs then [(body, some (RVal.int 32 (ofInt 32 index)))] else []

/-- A loop body that only reads the loop index. -/
def read_index_body : Block := .mk none [.LoopIndexStmt 0 false 0]

/-- The builder state after `read_index_body` was visited as the body of the GPU
offloaded range-for over `[0, 5)` with launch shape `(2, 4)` created in
`example_task_builder`. -/
def read_index_body_result : CodeGen :=
  result_or example_task_builder (visitBlock read_index_body
    (example_task_builder.offload_range_for_gpu_body_state 0 5 2 4))

/-! ## Basic blocks and their terminators -/

/-- No terminator has been emitted into the block. -/
def BasicBlock.is_open (b : BasicBlock) : Bool := b.insts.all (fun i => !i.isTerminator)

/-- The block ends with a terminator and holds no other terminator. -/
def BasicBlock.well_terminated (b : BasicBlock) : Bool :=
  match b.insts.reverse with
  | [] => false
  | t :: rest => t.isTerminator && rest.all (fun i => !i.isTerminator)

/-- The number of `ret void` instructions in the blocks of `bs` that belong to function
number `F`. -/
def ret_count (F : Nat) (bs : List BasicBlock) : Nat :=
  ((bs.filter (fun b => b.parent == F)).map (fun b => b.insts.count Instr.ret_void)).sum

/-- From `a` to `b` the generator only added instructions that are no terminators, at the
insertion point or in the entry block; the current function, the entry block and the
insertion point are those of `a`. -/
inductive Simple (a : CodeGen) : CodeGen → Prop where
  | same (b : CodeGen) : b.func = a.func → b.entry_block = a.entry_block →
      b.insert_point = a.insert_point → b.blocks = a.blocks → Simple a b
  | emitted (b c : CodeGen) (i : Instr) (l : Nat) : Simple a b → i.isTerminator = false →
      (l = b.insert_point ∨ l = b.entry_block) →
      c.func = b.func → c.entry_block = b.entry_block → c.insert_point = b.insert_point →
      c.blocks = appendTo i l b.blocks → Simple a c

/-- A visitor result that, when it is a success, is a `Simple` extension of `base`. -/
def SFramed (r : Except Err CodeGen) (base : CodeGen) : Prop :=
  ∀ cg2, r = .ok cg2 → Simple base cg2

/-- The same for a visitor helper that also returns a value. -/
def SFramedV {α : Type} (r : Except Err (α × CodeGen)) (base : CodeGen) : Prop :=
  ∀ a cg2, r = .ok (a, cg2) → Simple base cg2

/-- Of the blocks numbered `N` and up, those in `O` are open and all others end with
exactly one terminator. -/
def Shape (N : Nat) (O : Nat → Prop) (bs : List BasicBlock) : Prop :=
  ∀ (i : Nat) (b : BasicBlock), N ≤ i → bs[i]? = some b →
    (O i → b.is_open = true) ∧ (¬ O i → b.well_terminated = true)

/-- The insertion point and the entry block are two different blocks of the module. -/
structure Positioned (a : CodeGen) : Prop where
  ne : a.insert_point ≠ a.entry_block
  ip_lt : a.insert_point < a.blocks.length
  entry_lt : a.entry_block < a.blocks.length

/-- From `a` to `b` the generator stayed in its function: it created the blocks `A`, which
are still open, closed the blocks `C` with one branch each, left every other block as
open or as terminated as it was, and emitted no `ret void`.  The builder is positioned in
an open block. -/
structure Build (A C : Nat → Prop) (a b : CodeGen) : Prop where
  func : b.func = a.func
  entry : b.entry_block = a.entry_block
  len : a.blocks.length ≤ b.blocks.length
  A_new : ∀ i, A i → a.blocks.length ≤ i ∧ i < b.blocks.length
  A_parent : ∀ i, A i → (b.blocks[i]?).map BasicBlock.parent = some a.func
  C_lt : ∀ i, C i → i < b.blocks.length
  C_entry : ¬ C a.entry_block
  ip : (A b.insert_point ∨ b.insert_point = a.insert_point) ∧ ¬ C b.insert_point
  parent_old : ∀ i, i < a.blocks.length →
    (b.blocks[i]?).map BasicBlock.parent = (a.blocks[i]?).map BasicBlock.parent
  rets : ∀ F N, ret_count F (b.blocks.drop N) = ret_count F (a.blocks.drop N)
  shape : ∀ (N : Nat) (O : Nat → Prop), Shape N O a.blocks → O a.insert_point →
    O a.entry_block → (∀ i, O i → i < a.blocks.length) →
    Shape N (fun i => (O i ∨ A i) ∧ ¬ C i) b.blocks

/-- The effect of lowering a statement from `a` to `b`: every block the statement created
ends with one branch, except the block the builder ends in, which is open; the block the
builder started in is closed with a branch when the builder left it. -/
def Lowers (a b : CodeGen) : Prop :=
  Build (fun i => i = b.insert_point ∧ b.insert_point ≠ a.insert_point)
    (fun i => i = a.insert_point ∧ b.insert_point ≠ a.insert_point) a b

/-- A visitor result that, when it is a success from a positioned builder, is a `Lowers`
step. -/
def LowersTo (r : Except Err CodeGen) (a : CodeGen) : Prop :=
  ∀ b, r = .ok b → Positioned a → Lowers a b

/-- The builder is positioned in a block of the function under construction, which is a
function of the module. -/
structure TaskReady (a : CodeGen) : Prop where
  pos : Positioned a
  parent : (a.blocks[a.insert_point]?).map BasicBlock.parent = some a.func
  func_lt : a.func < a.functions.length

/-- The effect of lowering the body of a task from `a` to `b`: the builder ends in an
open block of the task function, every other block touched or created on the way ends
with one terminator, and no `ret void` was added to the task function. -/
structure Dispatched (a b : CodeGen) : Prop where
  func : b.func = a.func
  entry : b.entry_block = a.entry_block
  len : a.blocks.length ≤ b.blocks.length
  ip_lt : b.insert_point < b.blocks.length
  ip : b.insert_point = a.insert_point ∨ a.blocks.length ≤ b.insert_point
  parent : (b.blocks[b.insert_point]?).map BasicBlock.parent = some a.func
  rets : ∀ N, ret_count a.func (b.blocks.drop N) = ret_count a.func (a.blocks.drop N)
  shape : ∀ (N : Nat) (O : Nat → Prop), Shape N O a.blocks → O a.insert_point →
    O a.entry_block → (∀ i, O i → i < a.blocks.length) →
    Shape N (fun i => i = b.insert_point ∨ (O i ∧ i ≠ a.insert_point)) b.blocks

/-- The state of `struct_for_enter` once the `loop_body` function and its blocks `allocs`
and `entry` exist and the builder is positioned in `entry`. -/
def CodeGen.struct_for_frame (cg : CodeGen) : CodeGen :=
  let (body, cg) := cg.Function_Create "loop_body" .InternalLinkage
    [.ptr (.runtime "Context"), .ptr (.runtime "Element"), .i32, .i32]
  let cg := { cg with func := body }
  let (allocas, cg) := cg.BasicBlock_Create "allocs"
  let cg := { cg with entry_block := allocas }
  let (entry, cg) := cg.BasicBlock_Create "entry"
  cg.SetInsertPoint entry

/-- The first part of `visit(OffloadedStmt *)`, host or GPU: `init_task_function` and the
lowering of the body by task kind, up to the call of `finalize_task_function`. -/
def CodeGen.lowered_task_body (cg : CodeGen) (id : Nat) (task_type : TaskType)
    (begin_ end_ : Int) (reversed : Bool) (block_size : Int) (snode : Option SNode)
    (accept_body : CodeGen → Except Err CodeGen) : Except Err CodeGen :=
  if cg.gpu then
    (({ cg with kernel_grid_dim := 1, kernel_block_dim := 1 } : CodeGen).init_task_function
      id).offload_dispatch_gpu task_type begin_ end_ block_size snode accept_body
  else
    (cg.init_task_function id).offload_dispatch_host task_type begin_ end_ reversed
      block_size snode accept_body

/-- A task body that nests the four control-flow statements: an `IfStmt` whose true body
holds a `WhileStmt` with a `WhileControlStmt` and a `RangeForStmt`, and whose false body
holds a `RangeForStmt` with an `IfStmt`. -/
def nested_control_flow_body : Block :=
  .mk none [
    const_i32 0 1, .AllocaStmt 1 i32x1, const_i32 2 0, const_i32 3 4,
    .IfStmt 4 (ref 0)
      (some (.mk none [
        .WhileStmt 5 (.mk none [
          .WhileControlStmt 6 (ref 0),
          .RangeForStmt 7 (ref 1) (ref 2) (ref 3) false
            (.mk none [.LocalLoadStmt 8 i32x1 [ref 1], .WhileControlStmt 9 (ref 8)])])]))
      (some (.mk none [
        .RangeForStmt 10 (ref 1) (ref 2) (ref 3) true
          (.mk none [.IfStmt 11 (ref 0) none (some (.mk none [const_i32 12 5]))])]))]

/-- The generator state after the host backend has visited an offloaded range-for task
over `[0, 8)` with the body `nested_control_flow_body` (the initial state when the visit
fails). -/
def nested_control_flow_result : CodeGen :=
  result_or example_base
    (visit (.OffloadedStmt 100 .range_for nested_control_flow_body 0 8 false 0 none) none
      (CodeGen.create example_base false print_kernel))


/-- The cast the specification names for a value cast from `from_` to a different type
`to_`: `FPToSI` for f32 -> i32 and f64 -> i32, `SIToFP` for i32 -> f32 and i32 -> f64,
`FPExt` or `FPTrunc` between two real types, `SExt` or `Trunc` between two integral
types, and none for every other pair of a real and an integral type. -/
def spec_value_cast (from_ to_ : DataType) : Option CastOps :=
  if (from_ = .f32 ∨ from_ = .f64) ∧ to_ = .i32 then some .FPToSI
  else if from_ = .i32 ∧ (to_ = .f32 ∨ to_ = .f64) then some .SIToFP
  else if is_real from_ ∧ is_real to_ then
    some (if data_type_size from_ < data_type_size to_ then .FPExt else .FPTrunc)
  else if is_integral from_ ∧ is_integral to_ then
    some (if data_type_size from_ < data_type_size to_ then .SExt else .Trunc)
  else none

/-- A builder with one empty basic block at the insertion point, in which statement 0 has
the `f32` constant 3.7 as its value (bit pattern `0x406CCCCD`). -/
def cast_example_builder : CodeGen :=
  result_or example_builder
    (example_builder.visit_ConstStmt 0 { data_type := .f32 }
      [{ dt := .f32, val := 1080872141 }])

/-- A reference to a statement of type `f32`. -/
def ref_f32 (id : Nat) : StmtRef := { id := id, ret_type := { data_type := .f32 } }


/-- The functions of the runtime module `emit_struct_meta` looks up for a dense or root
`snode`: the three accessors of the node kind, the node's own `from_parent_element` and
`refine_coordinates` functions, and the two setters of `DenseMeta`. -/
def struct_meta_symbols (snode : SNode) : List String :=
  let name := if snode.type = .dense then "Dense" else "Root"
  [name ++ "_" ++ "lookup_element", name ++ "_" ++ "is_active",
    name ++ "_" ++ "get_num_elements"]
  ++ (match snode.parent with
      | some _ => [snode.get_ch_from_parent_func_name]
      | none => [])
  ++ [snode.refine_coordinates_func_name]
  ++ (if snode.type = .dense then
        ["DenseMeta" ++ "_" ++ "set_bitmasked", "DenseMeta" ++ "_" ++ "set_morton_dim"]
      else [])

/-- The class of the meta struct the specification names for a dense or root node. -/
def spec_meta_class (snode : SNode) : String :=
  if snode.type = .dense then "DenseMeta" else "RootMeta"

/-- A dense node below a root node, with 4 bits. -/
def example_dense_snode : SNode :=
  .mk 1 .dense (some (.mk 0 .root none 0 false false 1 false "S0" "" "S0_refine_coordinates"))
    4 false false 16 false "S1" "S1_from_parent" "S1_refine_coordinates"

/-- A builder whose runtime module holds the functions of `example_dense_snode`. -/
def struct_meta_example_builder : CodeGen :=
  { example_builder with runtime_module :=
      ["Dense_lookup_element", "Dense_is_active", "Dense_get_num_elements",
       "S1_from_parent", "S1_refine_coordinates", "DenseMeta_set_bitmasked",
       "DenseMeta_set_morton_dim"] }


/-- The builder `example_builder` of the GPU backend. -/
def example_gpu_builder : CodeGen := { example_builder with gpu := true }


/-- The constant of low-level type `ty` the specification describes for a literal of
data type `dt` with payload `v`: a floating-point constant for a real type, an integer
constant otherwise. -/
def spec_constant (dt : DataType) (ty : LType) (v : Int) : Value :=
  if is_real dt then .const_fp ty v else .const_int ty v


/-- The IEEE operation and the runtime helper the specification names for `max` and
`min`. -/
def spec_max_min (op : BinaryOpType) : Option (BinOp × String) :=
  match op with
  | .max => some (.maxnum, "max_i32")
  | .min => some (.minnum, "min_i32")
  | _ => none

/-- A builder like `example_builder` whose runtime module holds `max_i32` and
`min_i32`. -/
def max_min_example_builder : CodeGen :=
  { example_builder with runtime_module := ["max_i32", "min_i32"] }


/-- The launch shape members `(kernel_grid_dim, kernel_block_dim)` of the GPU code
generator. -/
def CodeGen.kernel_dims (cg : CodeGen) : Int × Int :=
  (cg.kernel_grid_dim, cg.kernel_block_dim)

/-- A GPU code generator for the kernel `print_kernel`. -/
def example_gpu_kernel_builder : CodeGen := CodeGen.create example_base true print_kernel

/-- The generator state after the GPU backend has visited an offloaded range-for task
over `[begin_, end_)` with block size `block_size` and the body `read_index_body`
(`example_base` when the visit fails). -/
def gpu_range_for_task_result (begin_ end_ block_size : Int) : CodeGen :=
  result_or example_base
    (visit (.OffloadedStmt 100 .range_for read_index_body begin_ end_ false block_size none)
      none example_gpu_kernel_builder)


/-- A place node below the dense node `example_dense_snode`. -/
def example_place_snode : SNode :=
  .mk 2 .place (some example_dense_snode) 0 false false 1 false "S2" "S2_from_parent"
    "S2_refine_coordinates"

/-- A GPU code generator for the kernel `print_kernel` whose runtime module holds the
functions a struct-for over `example_dense_snode` calls. -/
def struct_for_gpu_builder : CodeGen :=
  CodeGen.create { example_base with
    runtime_module := ["S1_refine_coordinates", "for_each_block"] } true print_kernel

/-- A struct-for body that reads the first coordinate of the current element. -/
def read_coordinate_body : Block := .mk none [.LoopIndexStmt 0 true 0]

/-- The generator state after the GPU backend has visited an offloaded struct-for task
over the elements of `example_dense_snode` with block size `block_size` and the body
`read_coordinate_body` (`example_base` when the visit fails). -/
def gpu_struct_for_task_result (block_size : Int) : CodeGen :=
  result_or example_base
    (visit (.OffloadedStmt 100 .struct_for read_coordinate_body 0 0 false block_size
      (some example_place_snode)) none struct_for_gpu_builder)


/-- A reference to a statement of type `f64`. -/
def ref_f64 (id : Nat) : StmtRef := { id := id, ret_type := { data_type := .f64 } }


/-- A reference to a statement of type `i64`. -/
def ref_i64 (id : Nat) : StmtRef := { id := id, ret_type := { data_type := .i64 } }


/-- A host code generator for the kernel `print_kernel` whose runtime module holds the
functions a struct-for over `example_dense_snode` calls. -/
def struct_for_host_builder : CodeGen :=
  CodeGen.create { example_base with
    runtime_module := ["S1_refine_coordinates", "for_each_block"] } false print_kernel

/-- The state in which the host backend visits the body of a struct-for task over the
leaf block `leaf`: the task function was begun and the `loop_body` function entered. -/
def CodeGen.host_struct_for_body_state (cg : CodeGen) (id : Nat) (leaf : SNode) : CodeGen :=
  ((cg.init_task_function id).struct_for_enter false).2.struct_for_refine
    ((cg.init_task_function id).struct_for_enter false).1
    (.function leaf.refine_coordinates_func_name)

/-- The generator state after the body `read_coordinate_body` of a host struct-for task
over `example_dense_snode` was visited (`example_base` when the visit fails). -/
def host_struct_for_body_result : CodeGen :=
  result_or example_base
    (visitBlock read_coordinate_body
      (struct_for_host_builder.host_struct_for_body_state 100 example_dense_snode))


/-- The launch shape `(grid_dim, block_dim)` the GPU visitor computes from an
`OffloadedStmt` alone, on a generator with the configuration of `cg`: `(1, 1)` for a
serial and for a listgen task, the shape of `create_offload_range_for` for a range-for
and `(num_SMs * 32, min(leaf.max_num_elements, block_size or maxBlockDimX))` for a
struct-for. -/
def CodeGen.own_launch_shape (cg : CodeGen) : Stmt → Option (Int × Int)
  | .OffloadedStmt _ .serial _ _ _ _ _ _ => some (1, 1)
  | .OffloadedStmt _ .listgen _ _ _ _ _ _ => some (1, 1)
  | .OffloadedStmt _ .range_for _ begin_ end_ _ block_size _ =>
    CodeGen.range_for_launch_shape cg.default_gpu_block_size begin_ end_ block_size
  | .OffloadedStmt _ .struct_for _ _ _ _ block_size (some sn) =>
    match sn.parent with
    | some leaf =>
      some (wrap32 (cg.num_SMs * 32),
        CodeGen.struct_for_block_dim cg.max_block_dim leaf.max_num_elements block_size)
    | none => none
  | _ => none

/-- The statement is a serial or a listgen task. -/
def Stmt.is_unit_task : Stmt → Bool
  | .OffloadedStmt _ .serial _ _ _ _ _ _ => true
  | .OffloadedStmt _ .listgen _ _ _ _ _ _ => true
  | _ => false

/-- A range-for over `[0, 1000)` with block size 128, then a serial task, a range-for
with the default block size and a second serial task. -/
def mixed_shape_kernel : Kernel :=
  { name := "k", grad := false,
    ir := .mk none [
      .OffloadedStmt 100 .range_for read_index_body 0 1000 false 128 none,
      .OffloadedStmt 101 .serial (.mk none [const_i32 0 7]) 0 0 false 0 none,
      .OffloadedStmt 102 .range_for read_index_body 0 1000 false 0 none,
      .OffloadedStmt 103 .serial (.mk none [const_i32 0 7]) 0 0 false 64 none] }


/-- The state of `visit(SNodeLookupStmt *)` without an input snode once the parent has
been computed: `get_root()` was called and its result cast to a pointer to the root
type. -/
def CodeGen.root_parent_state (cg : CodeGen) : CodeGen :=
  ((cg.CreateCall (.function "Context_get_buffer") [cg.get_context]).2.CreateBitCast
    (cg.CreateCall (.function "Context_get_buffer") [cg.get_context]).1
    (.ptr (.runtime "snode_root"))).2

/-- A builder whose runtime module holds `Context_get_buffer`, `Dense_lookup_element`
and the functions of `example_dense_snode`. -/
def lookup_example_builder : CodeGen :=
  { example_builder with runtime_module :=
      ["Context_get_buffer", "Dense_lookup_element", "Dense_is_active", "Dense_get_num_elements",
       "S1_from_parent", "S1_refine_coordinates", "DenseMeta_set_bitmasked",
       "DenseMeta_set_morton_dim"] }

/-- The meta struct of `example_dense_snode` emitted in the state
`lookup_example_builder.root_parent_state`. -/
def lookup_example_meta : Value × CodeGen :=
  result_or (Value.null, example_base)
    (lookup_example_builder.root_parent_state.emit_struct_meta example_dense_snode)


/-- The part of `visit(IfStmt *)` before the visit of the true body: the three blocks,
the comparison of the condition with 0 and the conditional branch.  The result is
`(true_block, false_block, after_if)` and the builder positioned in `true_block`. -/
def CodeGen.if_stmt_enter (cg : CodeGen) (cond : StmtRef) : (Nat × Nat × Nat) × CodeGen :=
  let (true_block, cg) := cg.BasicBlock_Create "true_block"
  let (false_block, cg) := cg.BasicBlock_Create "false_block"
  let (after_if, cg) := cg.BasicBlock_Create "after_if"
  let (c, cg) := cg.CreateICmp .ne (cg.value cond) (CodeGen.get_constant 0)
  let cg := cg.CreateCondBr c true_block false_block
  ((true_block, false_block, after_if), cg.SetInsertPoint true_block)

/-- A builder in which the value of statement 0 is the result of instruction 7,
statement 1 has the value 10 and statement 2 the value 20. -/
def select_example_builder : CodeGen :=
  { blocks := [{ name := "body", parent := 0, insts := [] }], next_id := 8,
    values := [(0, .inst 7), (1, .const_int .i32 10), (2, .const_int .i32 20)] }

/-- A machine in which instruction 7 has produced the 32-bit pattern `c`. -/
def machine_with_condition (c : Nat) : Machine := { regs := [(7, .int 32 c)] }


/-- The part of `visit(WhileStmt *)` before the visit of the body: the block
`while_loop_body`, the branch into it, the block `after_while`, and `while_after_loop`
set to it.  The result is `(body, after_loop)` and the builder positioned in `body`. -/
def CodeGen.while_enter (cg : CodeGen) : (Nat × Nat) × CodeGen :=
  let (body, cg) := cg.BasicBlock_Create "while_loop_body"
  let cg := cg.CreateBr body
  let cg := cg.SetInsertPoint body
  let (after_loop, cg) := cg.BasicBlock_Create "after_while"
  ((body, after_loop), { cg with while_after_loop := some after_loop })

/-- The body of a While: a constant, an inner While whose body holds a WhileControl of
its own, and after it a WhileControl. -/
def while_after_inner_while : List Stmt :=
  [const_i32 0 1, .WhileStmt 5 (.mk none [.WhileControlStmt 6 (ref 0)])]

/-- The generator state after `example_task_builder` has visited the While whose body is
`while_after_inner_while` followed by a WhileControl (`example_base` when the visit
fails). -/
def nested_while_result : CodeGen :=
  result_or example_base
    (visit (.WhileStmt 4 (.mk none (while_after_inner_while ++
      .WhileControlStmt 7 (ref 0) :: []))) none example_task_builder)


/-- The builder state in which `create_offload_struct_for` visits the body. -/
def CodeGen.struct_for_body_state (cg : CodeGen) (spmd : Bool) (refine : Value) : CodeGen :=
  (cg.struct_for_enter spmd).2.struct_for_refine (cg.struct_for_enter spmd).1 refine

/-- The two instructions of `RuntimeObject::set(field, value)` on the struct at `p`: the
address of the field, defined as register `r`, and the store through it. -/
def spec_set_field (p : Value) (field : String) (v : Value) (r : Nat) : List Instr :=
  [.field_ptr r p field, .store v (.inst r)]

/-- The code the specification describes for `emit_struct_meta(snode)` on a dense or
root node, the first instruction defining register `a`: (1) allocate the concrete meta
struct, `DenseMeta` or `RootMeta`; (2) populate the common fields `snode_id`,
`element_size` and `max_num_elements` through the `StructMeta` view of the struct;
(3) install `lookup_element`, `is_active` and `get_num_elements` of the node kind;
(4) install `from_parent_element` when the node has a parent; (5) install
`refine_coordinates`; (6) for a dense node set `bitmasked` and `morton_dim`. -/
def spec_struct_meta_code (snode : SNode) (a : Nat) : List Instr :=
  let kind := if snode.type = .dense then "Dense" else "Root"
  let k := match snode.parent with
    | some _ => 1
    | none => 0
  [.intrinsic a "allocate" [.size_of (.runtime (spec_meta_class snode))],
   .cast (a + 1) .BitCast (.inst a) (.ptr (.runtime "StructMeta"))]
  ++ spec_set_field (.inst (a + 1)) "snode_id" (CodeGen.get_constant snode.id) (a + 2)
  ++ spec_set_field (.inst (a + 1)) "element_size"
      (.size_of (if snode.type = .dense then .snode_element snode.id
        else .snode_type snode.id)) (a + 3)
  ++ spec_set_field (.inst (a + 1)) "max_num_elements"
      (CodeGen.get_constant (wrap32 (2 ^ snode.total_num_bits))) (a + 4)
  ++ spec_set_field (.inst (a + 1)) "lookup_element"
      (.function (kind ++ "_" ++ "lookup_element")) (a + 5)
  ++ spec_set_field (.inst (a + 1)) "is_active"
      (.function (kind ++ "_" ++ "is_active")) (a + 6)
  ++ spec_set_field (.inst (a + 1)) "get_num_elements"
      (.function (kind ++ "_" ++ "get_num_elements")) (a + 7)
  ++ (match snode.parent with
      | some _ => spec_set_field (.inst (a + 1)) "from_parent_element"
          (.function snode.get_ch_from_parent_func_name) (a + 8)
      | none => [])
  ++ spec_set_field (.inst (a + 1)) "refine_coordinates"
      (.function snode.refine_coordinates_func_name) (a + 8 + k)
  ++ (if snode.type = .dense then
        [.call (a + 9 + k) (.function ("DenseMeta" ++ "_" ++ "set_bitmasked"))
           [.inst a, .const_int .i1 (if snode.bitmasked then 1 else 0)],
         .call (a + 10 + k) (.function ("DenseMeta" ++ "_" ++ "set_morton_dim"))
           [.inst a, CodeGen.get_constant (if snode.morton then 1 else 0)]]
      else [])

/-- The builder after the instructions `code`, which define `n` registers, were appended
at the insertion point; nothing else of the code generator changes. -/
def CodeGen.with_code (cg : CodeGen) (code : List Instr) (n : Nat) : CodeGen :=
  { cg with blocks := code.foldl (fun bs i => appendTo i cg.insert_point bs) cg.blocks,
            next_id := cg.next_id + n }

/-- The number of registers `spec_struct_meta_code` defines. -/
def spec_struct_meta_size (snode : SNode) : Nat :=
  9 + (match snode.parent with
       | some _ => 1
       | none => 0)
    + (if snode.type = .dense then 2 else 0)

/-- The state in which the GPU `visit(OffloadedStmt *)` calls `create_offload_struct_for`:
the launch shape reset to `(1, 1)`, the task function begun, `kernel_grid_dim` set to
`num_SMs * 32` and `kernel_block_dim` to `block_dim`. -/
def CodeGen.gpu_struct_for_state (cg : CodeGen) (id : Nat) (block_dim : Int) : CodeGen :=
  let cg := { cg with kernel_grid_dim := 1, kernel_block_dim := 1 }
  let cg := cg.init_task_function id
  let cg := { cg with kernel_grid_dim := wrap32 (cg.num_SMs * 32) }
  { cg with kernel_block_dim := block_dim }

/-- The end of the GPU `visit(OffloadedStmt *)`, after the dispatch on the task kind:
`finalize_task_function`, the launch shape recorded in the task, `current_task->end()`. -/
def CodeGen.gpu_task_end (cg : CodeGen) : Except Err CodeGen :=
  let cg := cg.finalize_task_function
  let cg := { cg with current_task := cg.current_task.map (fun (t : OffloadedTask) =>
    { t with grid_dim := cg.kernel_grid_dim, block_dim := cg.kernel_block_dim }) }
  cg.end_current_task

/-- C1 (defect of the code): in the code emitted by `visit(IfStmt *)` the true block ends
with a branch to the false block, not to `after_if`.  With condition 1 the kernel
`If(1) then store 1 to p else store 2 to p` enters `true_block` and then `false_block`
and leaves `*p = 2`; with condition 0 it enters only `false_block` and leaves `*p = 2`. -/
theorem if_true_body_falls_through_into_false_body :
    observe example_base false (if_diamond_kernel 1) "k_kernel_0" 10 (one_cell_machine 0)
      = some { mem := [(0, .int 32 2)], out := [],
               blocks_entered := ["entry", "body", "true_block", "false_block",
                                  "after_if"] }
    ∧ observe example_base false (if_diamond_kernel 0) "k_kernel_0" 10 (one_cell_machine 0)
      = some { mem := [(0, .int 32 2)], out := [],
               blocks_entered := ["entry", "body", "false_block", "after_if"] } := by
  decide!

/-- C2 (defect of the code): the host range-for loops test their bound only after the
body.  For the empty interval `begin = end = 0` the loop emitted by
`create_offload_range_for` and the one emitted by `create_naive_range_for` each enter
`loop_body` once: not reversed the body runs with index 0, reversed it runs with index
-1 (bit pattern 4294967295). -/
theorem empty_range_for_runs_body_once :
    (observe example_base false (offload_range_for_kernel 0 0 false) "k_kernel_0" 10
        (one_cell_machine 0)).map (fun o => (o.out, o.blocks_entered))
      = some ([.int 32 0], ["entry", "body", "loop_body", "block"])
    ∧ (observe example_base false (offload_range_for_kernel 0 0 true) "k_kernel_0" 10
        (one_cell_machine 0)).map (fun o => (o.out, o.blocks_entered))
      = some ([.int 32 4294967295], ["entry", "body", "loop_body", "block"])
    ∧ (observe example_base false (naive_range_for_kernel 0 0 false) "k_kernel_0" 10
        (one_cell_machine 0)).map (fun o => (o.out, o.blocks_entered))
      = some ([.int 32 0], ["entry", "body", "loop_body", "block"])
    ∧ (observe example_base false (naive_range_for_kernel 0 0 true) "k_kernel_0" 10
        (one_cell_machine 0)).map (fun o => (o.out, o.blocks_entered))
      = some ([.int 32 4294967295], ["entry", "body", "loop_body", "block"]) := by
  decide!

/-- C7 (defect of the code): for `bit_begin = 0` and `bit_end = 32` the mask expression
`(1u << (bit_end - bit_begin)) - 1` of `visit(OffsetAndExtractBitsStmt *)` shifts a
32-bit value by 32, which has no defined result; the visitor does not produce the
identity on `x`. -/
theorem extract_all_32_bits_is_undefined (cg : CodeGen) (id : Nat) (input : StmtRef) :
    CodeGen.extract_bits_mask 0 32 = none
    ∧ cg.visit_OffsetAndExtractBitsStmt id input 0 0 32 = .error .undefined_behaviour := by
  have h : CodeGen.extract_bits_mask 0 32 = none := by decide!
  refine ⟨h, ?_⟩
  simp [CodeGen.visit_OffsetAndExtractBitsStmt, h, UNDEFINED, bind, Except.bind,
    CodeGen.CreateAdd, CodeGen.CreateBinOp, CodeGen.emitValue]

/-- C10 (defect of the code): the GPU `visit(PrintStmt *)` creates the alloca of its
argument struct with `builder->CreateAlloca` at the insertion point.  In the task
lowered from a serial body that prints a constant, the entry block holds no alloca and
the alloca lies in the block `body`. -/
theorem gpu_print_alloca_not_in_entry_block :
    (match lower example_base true print_kernel with
      | .ok cg => some (allocas_by_block cg)
      | .error _ => none)
      = some [("entry", []), ("body", [.alloca 0 (.literal_struct .i32)])] := by
  decide!

/-! ### Builder lemmas -/

theorem appendTo_length (i : Instr) (l : Nat) (bs : List BasicBlock) :
    (appendTo i l bs).length = bs.length := by
  induction bs generalizing l with
  | nil => cases l <;> rfl
  | cons b bs ih => cases l <;> simp [appendTo, ih]

theorem appendTo_get_self (i : Instr) (l : Nat) (bs : List BasicBlock) :
    (appendTo i l bs)[l]?
      = (bs[l]?).map (fun b => { b with insts := b.insts ++ [i] }) := by
  induction bs generalizing l with
  | nil => cases l <;> rfl
  | cons b bs ih => cases l <;> simp [appendTo, ih]

theorem appendTo_get_other (i : Instr) (l k : Nat) (bs : List BasicBlock) (h : k ≠ l) :
    (appendTo i l bs)[k]? = bs[k]? := by
  induction bs generalizing l k with
  | nil => cases l <;> rfl
  | cons b bs ih =>
    cases l with
    | zero =>
      cases k with
      | zero => exact absurd rfl h
      | succ k => simp [appendTo]
    | succ l =>
      cases k with
      | zero => simp [appendTo]
      | succ k =>
        have h2 : k ≠ l := by omega
        simp [appendTo, ih l k h2]

theorem current_insts_emitValue (cg : CodeGen) (mk : Nat → Instr)
    (h : cg.insert_point < cg.blocks.length) :
    (cg.emitValue mk).2.current_insts = cg.current_insts ++ [mk cg.next_id] := by
  obtain ⟨b, hb⟩ : ∃ b, cg.blocks[cg.insert_point]? = some b :=
    ⟨_, List.getElem?_eq_getElem h⟩
  simp [CodeGen.emitValue, CodeGen.current_insts, appendTo_get_self, hb]

theorem current_insts_emit (cg : CodeGen) (i : Instr)
    (h : cg.insert_point < cg.blocks.length) :
    (cg.emit i).current_insts = cg.current_insts ++ [i] := by
  obtain ⟨b, hb⟩ : ∃ b, cg.blocks[cg.insert_point]? = some b :=
    ⟨_, List.getElem?_eq_getElem h⟩
  simp [CodeGen.emit, CodeGen.current_insts, appendTo_get_self, hb]

theorem getKey_setKey_self {κ α : Type} [DecidableEq κ] (k : κ) (v : α)
    (l : List (κ × α)) : getKey k (setKey k v l) = some v := by
  induction l with
  | nil => simp [setKey, getKey]
  | cons p l ih =>
    obtain ⟨k2, v2⟩ := p
    by_cases h : k2 = k
    · simp [setKey, getKey, h]
    · simp [setKey, getKey, h, ih]

theorem getKey_setKey_other {κ α : Type} [DecidableEq κ] (k k2 : κ) (v : α)
    (l : List (κ × α)) (h : k2 ≠ k) : getKey k2 (setKey k v l) = getKey k2 l := by
  induction l with
  | nil => simp [setKey, getKey, Ne.symm h]
  | cons p l ih =>
    obtain ⟨k3, v3⟩ := p
    by_cases h3 : k3 = k
    · subst h3
      simp [setKey, getKey, Ne.symm h]
    · by_cases h4 : k3 = k2
      · subst h4
        simp [setKey, getKey, h3]
      · simp [setKey, getKey, h3, h4, ih]

theorem emitValue_fst (cg : CodeGen) (mk : Nat → Instr) :
    (cg.emitValue mk).1 = Value.inst cg.next_id := rfl

theorem emitValue_insert_point (cg : CodeGen) (mk : Nat → Instr) :
    (cg.emitValue mk).2.insert_point = cg.insert_point := rfl

theorem emitValue_next_id (cg : CodeGen) (mk : Nat → Instr) :
    (cg.emitValue mk).2.next_id = cg.next_id + 1 := rfl

theorem emitValue_values (cg : CodeGen) (mk : Nat → Instr) :
    (cg.emitValue mk).2.values = cg.values := rfl

theorem emitValue_blocks_length (cg : CodeGen) (mk : Nat → Instr) :
    (cg.emitValue mk).2.blocks.length = cg.blocks.length := by
  simp [CodeGen.emitValue, appendTo_length]

theorem emitValue_value (cg : CodeGen) (mk : Nat → Instr) (s : StmtRef) :
    (cg.emitValue mk).2.value s = cg.value s := rfl

theorem setValue_current_insts (cg : CodeGen) (id : Nat) (v : Value) :
    (cg.setValue id v).current_insts = cg.current_insts := rfl

theorem setValue_value_self (cg : CodeGen) (id : Nat) (v : Value) (rt : VectorType) :
    (cg.setValue id v).value { id := id, ret_type := rt } = v := by
  simp [CodeGen.setValue, CodeGen.value, List.lookup]

theorem emitted_between_of_append (cg cg2 : CodeGen) (xs : List Instr)
    (h : cg2.current_insts = cg.current_insts ++ xs) : emitted_between cg cg2 = xs := by
  simp [emitted_between, h]

theorem visit_BinaryOpStmt_comparison (cg : CodeGen) (id : Nat) (ret_type : VectorType)
    (op : BinaryOpType) (hop : is_comparison op = true) (lhs rhs : StmtRef)
    (hint : is_real lhs.ret_type.data_type = false) :
    cg.visit_BinaryOpStmt id ret_type op lhs rhs
      = .ok (((cg.CreateICmp (icmp_pred op (is_signed lhs.ret_type.data_type))
                (cg.value lhs) (cg.value rhs)).2.CreateCast .SExt (.inst cg.next_id)
                .i32).2.setValue id (.inst (cg.next_id + 1))) := by
  cases op <;> simp [is_comparison] at hop <;>
  cases hs : is_signed lhs.ret_type.data_type <;>
  simp [CodeGen.visit_BinaryOpStmt, CodeGen.create_cmp, is_comparison, hint, hs, llvm_type,
    bind, Except.bind, pure, Except.pure, icmp_pred, CodeGen.CreateICmp, CodeGen.CreateCast,
    emitValue_fst, emitValue_next_id]

theorem icmp_pred_sound (op : BinaryOpType) (hop : is_comparison op = true) (signed : Bool)
    (w a b : Nat) : evalICmp (icmp_pred op signed) w a b = comparison_holds op signed w a b := by
  cases op <;> simp [is_comparison] at hop <;> cases signed <;>
    simp [icmp_pred, evalICmp, comparison_holds]

/-- C4: for each of the six comparison operators on operands of an integer type, whose
values are the `w`-bit patterns `a` and `b`, `visit(BinaryOpStmt *)` succeeds and the
code it emits leaves in the statement's value the 32-bit pattern 4294967295 (all bits
set, the signed number -1) when the comparison holds and 0 when it does not; the value
is never 1. -/
theorem comparison_yields_all_ones_or_zero (cg : CodeGen)
    (hip : cg.insert_point < cg.blocks.length) (id : Nat) (ret_type : VectorType)
    (op : BinaryOpType) (hop : is_comparison op = true) (lhs rhs : StmtRef)
    (hint : is_real lhs.ret_type.data_type = false) (m : Machine) (w a b : Nat)
    (ha : evalValue m (cg.value lhs) = some (.int w a))
    (hb : evalValue m (cg.value rhs) = some (.int w b)) :
    ∃ cg2 m2 r,
      cg.visit_BinaryOpStmt id ret_type op lhs rhs = .ok cg2
      ∧ execInstrs (emitted_between cg cg2) m = some m2
      ∧ evalValue m2 (cg2.value { id := id, ret_type := ret_type }) = some (.int 32 r)
      ∧ r = (if comparison_holds op (is_signed lhs.ret_type.data_type) w a b
              then 4294967295 else 0)
      ∧ toSigned 32 r = (if comparison_holds op (is_signed lhs.ret_type.data_type) w a b
              then -1 else 0)
      ∧ r ≠ 1 := by
  have hcmp := icmp_pred_sound op hop (is_signed lhs.ret_type.data_type) w a b
  refine ⟨_, (m.setReg cg.next_id (.int 1 (if comparison_holds op
      (is_signed lhs.ret_type.data_type) w a b then 1 else 0))).setReg (cg.next_id + 1)
      (.int 32 (if comparison_holds op (is_signed lhs.ret_type.data_type) w a b
        then 4294967295 else 0)), _,
    visit_BinaryOpStmt_comparison cg id ret_type op hop lhs rhs hint, ?_, ?_, rfl, ?_, ?_⟩
  · rw [emitted_between_of_append cg _
      [.icmp cg.next_id (icmp_pred op (is_signed lhs.ret_type.data_type)) (cg.value lhs)
         (cg.value rhs), .cast (cg.next_id + 1) .SExt (.inst cg.next_id) .i32]]
    · simp only [execInstrs, execInstr, ha, hb, if_true, hcmp]
      cases comparison_holds op (is_signed lhs.ret_type.data_type) w a b <;>
        simp [evalValue, Machine.setReg, getKey_setKey_self, evalCast, intWidth, ofInt,
          toSigned]
    · simp [setValue_current_insts, CodeGen.CreateCast, CodeGen.CreateICmp,
        current_insts_emitValue, emitValue_insert_point, emitValue_blocks_length, hip,
        emitValue_next_id]
  · simp [setValue_value_self, evalValue, Machine.setReg, getKey_setKey_self]
  · cases comparison_holds op (is_signed lhs.ret_type.data_type) w a b <;>
      simp [toSigned]
  · cases comparison_holds op (is_signed lhs.ret_type.data_type) w a b <;> simp

/-- Witness of C4: `3 < 5` on `i32` operands yields the pattern 4294967295. -/
theorem comparison_yields_all_ones_or_zero_witness :
    ∃ cg2 m2 r,
      example_builder.visit_BinaryOpStmt 2 i32x1 .cmp_lt (ref 0) (ref 1) = .ok cg2
      ∧ execInstrs (emitted_between example_builder cg2) {} = some m2
      ∧ evalValue m2 (cg2.value { id := 2, ret_type := i32x1 }) = some (.int 32 r)
      ∧ r = (if comparison_holds .cmp_lt (is_signed (ref 0).ret_type.data_type) 32 3 5
              then 4294967295 else 0)
      ∧ toSigned 32 r
          = (if comparison_holds .cmp_lt (is_signed (ref 0).ret_type.data_type) 32 3 5
              then -1 else 0)
      ∧ r ≠ 1 :=
  comparison_yields_all_ones_or_zero example_builder (by decide) 2 i32x1 .cmp_lt rfl (ref 0)
    (ref 1) rfl {} 32 3 5 (by decide!) (by decide!)

/-! ### Machine arithmetic and straight-line execution -/

theorem ofInt_lt (w : Nat) (v : Int) : ofInt w v < 2 ^ w := by
  have hpos : (0 : Int) < (2 : Int) ^ w := by positivity
  have h1 := Int.emod_lt_of_pos v hpos
  have h0 := Int.emod_nonneg v (ne_of_gt hpos)
  unfold ofInt
  have : ((v % (2 : Int) ^ w).toNat : Int) < ((2 ^ w : Nat) : Int) := by
    rw [Int.toNat_of_nonneg h0]; push_cast; exact h1
  exact_mod_cast this

theorem ofInt_cast (w : Nat) (v : Int) : ((ofInt w v : Nat) : Int) = v % (2 : Int) ^ w := by
  have hpos : (0 : Int) < (2 : Int) ^ w := by positivity
  unfold ofInt
  exact Int.toNat_of_nonneg (Int.emod_nonneg v (ne_of_gt hpos))

theorem ofInt_add (w : Nat) (a b : Int) :
    (ofInt w a + ofInt w b) % 2 ^ w = ofInt w (a + b) := by
  apply Int.ofNat_inj.mp
  push_cast
  rw [ofInt_cast, ofInt_cast, ofInt_cast, ← Int.add_emod]

theorem ofInt_mul (w : Nat) (a b : Int) :
    (ofInt w a * ofInt w b) % 2 ^ w = ofInt w (a * b) := by
  apply Int.ofNat_inj.mp
  push_cast
  rw [ofInt_cast, ofInt_cast, ofInt_cast, ← Int.mul_emod]

theorem execInstrs_append (xs ys : List Instr) (m : Machine) :
    execInstrs (xs ++ ys) m = (execInstrs xs m).bind (execInstrs ys) := by
  induction xs generalizing m with
  | nil => rfl
  | cons x xs ih =>
    simp only [List.cons_append, execInstrs]
    cases execInstr m x with
    | none => rfl
    | some m2 => exact ih m2

theorem evalValue_setReg (m : Machine) (r : Nat) (v : RVal) (x : Value)
    (h : x ≠ .inst r) : evalValue (m.setReg r v) x = evalValue m x := by
  cases x with
  | inst k =>
    have hk : k ≠ r := fun e => h (by rw [e])
    simp [evalValue, Machine.setReg, getKey_setKey_other _ _ _ _ hk]
  | _ => rfl

theorem evalValue_setReg_self (m : Machine) (r : Nat) (v : RVal) :
    evalValue (m.setReg r v) (.inst r) = some v := by
  simp [evalValue, Machine.setReg, getKey_setKey_self]

theorem horner_from_eq (acc : Int) (strides inputs : List Int)
    (h : strides.length = inputs.length) :
    horner_from acc strides inputs = acc * strides.prod + row_major_index strides inputs := by
  induction strides generalizing acc inputs with
  | nil =>
    cases inputs with
    | nil => simp [horner_from, row_major_index]
    | cons i inputs => simp at h
  | cons s strides ih =>
    cases inputs with
    | nil => simp at h
    | cons i inputs =>
      simp only [List.length_cons, Nat.add_right_cancel_iff] at h
      simp only [horner_from, row_major_index, List.prod_cons, ih _ _ h]
      ring

theorem forall₂_and_mem {α β : Type} (P : α → Prop) (R : α → β → Prop) :
    ∀ (l : List α) (l2 : List β), (∀ a ∈ l, P a) → List.Forall₂ R l l2 →
      List.Forall₂ (fun a b => P a ∧ R a b) l l2 := by
  intro l l2 hP hR
  induction hR with
  | nil => exact List.Forall₂.nil
  | cons h _ ih =>
    exact List.Forall₂.cons ⟨hP _ (List.mem_cons_self _ _), h⟩
      (ih (fun a ha => hP a (List.mem_cons_of_mem _ ha)))

theorem linearize_loop_spec (strides : List Int) :
    ∀ (inputs : List StmtRef) (xs : List Int) (i : Nat) (val : Value) (acc : Int)
      (cg : CodeGen) (m : Machine),
      cg.insert_point < cg.blocks.length →
      i + inputs.length ≤ strides.length →
      List.Forall₂ (fun s x => (∀ r, cg.value s = .inst r → r < cg.next_id)
          ∧ evalValue m (cg.value s) = some (.int 32 (ofInt 32 x))) inputs xs →
      evalValue m val = some (.int 32 (ofInt 32 acc)) →
      ∃ val2 cg2 m2 code,
        CodeGen.linearize_loop strides inputs i val cg = .ok (val2, cg2)
        ∧ cg2.current_insts = cg.current_insts ++ code
        ∧ cg2.values = cg.values
        ∧ execInstrs code m = some m2
        ∧ evalValue m2 val2
            = some (.int 32 (ofInt 32 (horner_from acc (strides.drop i) xs))) := by
  intro inputs
  induction inputs with
  | nil =>
    intro xs i val acc cg m _ _ hval hacc
    cases hval
    refine ⟨val, cg, m, [], rfl, by simp, rfl, rfl, ?_⟩
    cases hd : strides.drop i <;> simp [horner_from, hacc]
  | cons s inputs ih =>
    intro xs i val acc cg m hip hlen hval hacc
    cases hval with
    | cons hx hrest =>
    rename_i x xs
    obtain ⟨hfresh, hx⟩ := hx
    have hi : i < strides.length := by simp at hlen; omega
    have hget : strides.get? i = some strides[i] := by simp [hi]
    have hdrop : strides.drop i = strides[i] :: strides.drop (i + 1) :=
      List.drop_eq_getElem_cons hi
    have hs1 : cg.value s ≠ .inst cg.next_id := fun e =>
      absurd (hfresh _ e) (by omega)
    obtain ⟨val2, cg2, m2, code, h1, h2, h3, h4, h5⟩ :=
      ih xs (i + 1) (.inst (cg.next_id + 1)) (acc * strides[i] + x)
        ((cg.CreateMul val (CodeGen.get_constant strides[i])).2.CreateAdd
          (.inst cg.next_id) (cg.value s)).2
        ((m.setReg cg.next_id (.int 32 (ofInt 32 (acc * strides[i])))).setReg
          (cg.next_id + 1) (.int 32 (ofInt 32 (acc * strides[i] + x))))
        (by simp [CodeGen.CreateAdd, CodeGen.CreateMul, CodeGen.CreateBinOp,
              emitValue_insert_point, emitValue_blocks_length, hip])
        (by simp at hlen ⊢; omega)
        (by
          refine hrest.imp ?_
          intro t y ⟨hf, hv⟩
          have hv2 : (((cg.CreateMul val (CodeGen.get_constant strides[i])).2.CreateAdd
              (.inst cg.next_id) (cg.value s)).2).value t = cg.value t := rfl
          rw [hv2]
          refine ⟨fun r hr => ?_, ?_⟩
          · have := hf r hr
            simp [CodeGen.CreateAdd, CodeGen.CreateMul, CodeGen.CreateBinOp,
              emitValue_next_id]
            omega
          · rw [evalValue_setReg, evalValue_setReg, hv]
            · exact fun e => absurd (hf _ e) (by omega)
            · exact fun e => absurd (hf _ e) (by omega))
        (by simp [evalValue_setReg_self])
    refine ⟨val2, cg2, m2,
      [.binop cg.next_id .mul val (CodeGen.get_constant strides[i]),
       .binop (cg.next_id + 1) .add (.inst cg.next_id) (cg.value s)] ++ code, ?_, ?_, ?_, ?_, ?_⟩
    · simp only [CodeGen.linearize_loop, hget]
      exact h1
    · rw [h2]
      simp [CodeGen.CreateAdd, CodeGen.CreateMul, CodeGen.CreateBinOp,
        current_insts_emitValue, emitValue_insert_point, emitValue_blocks_length, hip,
        emitValue_next_id]
    · rw [h3]; rfl
    · rw [execInstrs_append]
      have hc : evalValue m (CodeGen.get_constant strides[i])
          = some (.int 32 (ofInt 32 strides[i])) := rfl
      simp only [execInstrs, execInstr, hacc, hc, evalBinOp, if_true, ofInt_mul,
        evalValue_setReg_self, evalValue_setReg _ _ _ _ hs1, hx, ofInt_add, Option.bind]
      exact h4
    · rw [h5, hdrop]
      rfl

/-- C8: for `n >= 1` inputs whose values are the 32-bit patterns of `xs` and `n`
strides, `visit(LinearizeStmt *)` succeeds and the code it emits leaves in the
statement's value the 32-bit pattern of the Horner fold `val := val * s_k + i_k` started
from 0; the fold equals the row-major index, the sum over `k` of
`i_k * (s_(k+1) * ... * s_(n-1))`, which does not depend on `s_0`; for one input `i`
and the stride list `[1]` the fold is `i`. -/
theorem linearize_computes_row_major_index (cg : CodeGen)
    (hip : cg.insert_point < cg.blocks.length) (id : Nat) (inputs : List StmtRef)
    (strides xs : List Int) (hn : 1 ≤ inputs.length)
    (hlen : strides.length = inputs.length) (m : Machine)
    (hfresh : ∀ s ∈ inputs, ∀ r, cg.value s = .inst r → r < cg.next_id)
    (hval : List.Forall₂
      (fun s x => evalValue m (cg.value s) = some (.int 32 (ofInt 32 x))) inputs xs) :
    ∃ cg2 m2,
      cg.visit_LinearizeStmt id inputs strides = .ok cg2
      ∧ execInstrs (emitted_between cg cg2) m = some m2
      ∧ evalValue m2 (cg2.value (ref id))
          = some (.int 32 (ofInt 32 (horner_fold strides xs)))
      ∧ horner_fold strides xs = row_major_index strides xs
      ∧ (∀ s0 : Int, row_major_index (s0 :: strides.tail) xs = row_major_index strides xs)
      ∧ (∀ i : Int, strides = [1] → xs = [i] → horner_fold strides xs = i) := by
  have hxs : xs.length = inputs.length := hval.length_eq.symm
  obtain ⟨val2, cg2, m2, code, h1, h2, h3, h4, h5⟩ :=
    linearize_loop_spec strides inputs xs 0 (CodeGen.get_constant 0) 0 cg m hip
      (by omega) (forall₂_and_mem _ _ inputs xs hfresh hval) rfl
  refine ⟨cg2.setValue id val2, m2, ?_, ?_, ?_, ?_, ?_, ?_⟩
  · simp [CodeGen.visit_LinearizeStmt, h1, bind, Except.bind, pure, Except.pure]
  · rw [emitted_between_of_append cg _ code (by rw [setValue_current_insts, h2])]
    exact h4
  · have : (cg2.setValue id val2).value (ref id) = val2 := setValue_value_self _ _ _ _
    rw [this, h5]
    rfl
  · unfold horner_fold
    rw [horner_from_eq 0 strides xs (by omega)]
    simp
  · intro s0
    cases strides with
    | nil => simp at hlen; omega
    | cons s strides => cases xs <;> rfl
  · intro i hs hx
    subst hs hx
    simp [horner_fold, horner_from]

/-- Witness of C8: inputs 3 and 5 with strides 7 and 4. -/
theorem linearize_computes_row_major_index_witness :
    ∃ cg2 m2,
      example_builder.visit_LinearizeStmt 2 [ref 0, ref 1] [7, 4] = .ok cg2
      ∧ execInstrs (emitted_between example_builder cg2) {} = some m2
      ∧ evalValue m2 (cg2.value (ref 2))
          = some (.int 32 (ofInt 32 (horner_fold [7, 4] [3, 5])))
      ∧ horner_fold [7, 4] [3, 5] = row_major_index [7, 4] [3, 5]
      ∧ (∀ s0 : Int, row_major_index (s0 :: [7, 4].tail) [3, 5]
          = row_major_index [7, 4] [3, 5])
      ∧ (∀ i : Int, ([7, 4] : List Int) = [1] → [3, 5] = [i] → horner_fold [7, 4] [3, 5] = i) :=
  linearize_computes_row_major_index example_builder (by decide) 2 [ref 0, ref 1] [7, 4]
    [3, 5] (by decide) rfl {}
    (by
      intro s hs r hr
      simp only [List.mem_cons, List.mem_singleton, List.not_mem_nil, or_false] at hs
      rcases hs with rfl | rfl
      · have h : example_builder.value (ref 0) = .const_int .i32 3 := rfl
        rw [h] at hr
        cases hr
      · have h : example_builder.value (ref 1) = .const_int .i32 5 := rfl
        rw [h] at hr
        cases hr)
    (List.Forall₂.cons (by decide!) (List.Forall₂.cons (by decide!) List.Forall₂.nil))

/-! ### Decimal numerals -/

theorem digitChar_toNat (d : Nat) (h : d < 10) : (digitChar d).toNat = 48 + d := by
  interval_cases d <;> rfl

theorem format_digits_ne_nil (fuel n : Nat) : format_digits (fuel + 1) n ≠ [] := by
  unfold format_digits
  split <;> simp

theorem format_digits_value (fuel : Nat) : ∀ n, n < fuel →
    (format_digits fuel n).foldl (fun acc c => acc * 10 + (c.toNat - 48)) 0 = n := by
  induction fuel with
  | zero => intro n h; omega
  | succ fuel ih =>
    intro n h
    unfold format_digits
    split
    · rename_i h10
      simp [digitChar_toNat n h10]
    · rename_i h10
      have hd : n / 10 < fuel := by omega
      rw [List.foldl_append, ih (n / 10) hd]
      simp [digitChar_toNat (n % 10) (Nat.mod_lt _ (by decide))]
      omega

theorem format_int_injective (a b : Nat) (h : format_int a = format_int b) : a = b := by
  have h2 : format_digits (a + 1) a = format_digits (b + 1) b := by
    unfold format_int at h
    injection h
  have ha := format_digits_value (a + 1) a (by omega)
  have hb := format_digits_value (b + 1) b (by omega)
  rw [h2] at ha
  omega

/-! ### Statements other than `OffloadedStmt` leave the task bookkeeping alone -/

set_option linter.unusedTactic false
set_option linter.unreachableTactic false

theorem framed_ok (cg cg2 : CodeGen) (h : cg2.bookkeeping = cg.bookkeeping) :
    Framed (.ok cg2) cg := by
  intro cg3 h3
  injection h3 with h3
  rw [← h3, h]

theorem framed_pure (cg cg2 : CodeGen) (h : cg2.bookkeeping = cg.bookkeeping) :
    Framed (pure cg2) cg := framed_ok cg cg2 h

theorem framed_error (cg : CodeGen) (e : Err) : Framed (.error e) cg := by
  intro cg3 h3
  cases h3

theorem framed_bind {α : Type} (cg : CodeGen) (x : Except Err α)
    (f : α → Except Err CodeGen) (h : ∀ a, Framed (f a) cg) : Framed (x >>= f) cg := by
  intro cg3 h3
  cases x with
  | error e => cases h3
  | ok a => exact h a cg3 h3

theorem framed_bind_state (cg : CodeGen) (x : Except Err CodeGen)
    (f : CodeGen → Except Err CodeGen) (hx : Framed x cg)
    (h : ∀ a, a.bookkeeping = cg.bookkeeping → Framed (f a) cg) : Framed (x >>= f) cg := by
  intro cg3 h3
  cases x with
  | error e => cases h3
  | ok a => exact h a (hx a rfl) cg3 h3

theorem framed_ite (cg : CodeGen) (c : Prop) [Decidable c] (a b : Except Err CodeGen)
    (ha : Framed a cg) (hb : Framed b cg) : Framed (if c then a else b) cg := by
  split
  · exact ha
  · exact hb

theorem framedV_pure {α : Type} (cg cg2 : CodeGen) (a : α)
    (h : cg2.bookkeeping = cg.bookkeeping) : FramedV (pure (a, cg2)) cg := by
  intro b cg3 h3
  injection h3 with h3
  injection h3 with _ h4
  rw [← h4, h]

theorem framedV_error {α : Type} (cg : CodeGen) (e : Err) :
    FramedV (.error e : Except Err (α × CodeGen)) cg := by
  intro b cg3 h3
  cases h3

theorem framedV_bind {α β : Type} (cg : CodeGen) (x : Except Err α)
    (f : α → Except Err (β × CodeGen)) (h : ∀ a, FramedV (f a) cg) :
    FramedV (x >>= f) cg := by
  intro b cg3 h3
  cases x with
  | error e => cases h3
  | ok a => exact h a b cg3 h3

theorem framedV_ite {α : Type} (cg : CodeGen) (c : Prop) [Decidable c]
    (a b : Except Err (α × CodeGen)) (ha : FramedV a cg) (hb : FramedV b cg) :
    FramedV (if c then a else b) cg := by
  split
  · exact ha
  · exact hb

theorem framedV_bind_state {β : Type} (cg : CodeGen) (x : Except Err CodeGen)
    (f : CodeGen → Except Err (β × CodeGen)) (hx : Framed x cg)
    (h : ∀ a, a.bookkeeping = cg.bookkeeping → FramedV (f a) cg) : FramedV (x >>= f) cg := by
  intro b cg3 h3
  cases x with
  | error e => cases h3
  | ok a => exact h a (hx a rfl) b cg3 h3

theorem framed_bind_pair {α : Type} (cg : CodeGen) (x : Except Err (α × CodeGen))
    (f : α × CodeGen → Except Err CodeGen) (hx : FramedV x cg)
    (h : ∀ a cg2, cg2.bookkeeping = cg.bookkeeping → Framed (f (a, cg2)) cg) :
    Framed (x >>= f) cg := by
  intro cg3 h3
  cases x with
  | error e => cases h3
  | ok p =>
    obtain ⟨a, cg2⟩ := p
    exact h a cg2 (hx a cg2 rfl) cg3 h3

theorem framedV_bind_pair {α β : Type} (cg : CodeGen) (x : Except Err (α × CodeGen))
    (f : α × CodeGen → Except Err (β × CodeGen)) (hx : FramedV x cg)
    (h : ∀ a cg2, cg2.bookkeeping = cg.bookkeeping → FramedV (f (a, cg2)) cg) :
    FramedV (x >>= f) cg := by
  intro b cg3 h3
  cases x with
  | error e => cases h3
  | ok p =>
    obtain ⟨a, cg2⟩ := p
    exact h a cg2 (hx a cg2 rfl) b cg3 h3

theorem emit_source_frame (cg base : CodeGen) (_h : cg.bookkeeping = base.bookkeeping) :
    Framed (cg.emit_source) base := by
  unfold CodeGen.emit_source TC_NOT_IMPLEMENTED
  repeat' first
    | exact framed_error _ _
    | exact framedV_error _ _
    | (with_reducible refine framed_bind_state _ _ _ ?_ (fun _ _ => ?_))
    | (with_reducible refine framedV_bind_state _ _ _ ?_ (fun _ _ => ?_))
    | (with_reducible refine framed_bind_pair _ _ _ ?_ (fun _ _ _ => ?_))
    | (with_reducible refine framedV_bind_pair _ _ _ ?_ (fun _ _ _ => ?_))
    | (with_reducible apply framed_bind; intro _)
    | (with_reducible apply framedV_bind; intro _)
    | (with_reducible apply framed_ite)
    | (with_reducible apply framedV_ite)
    | (apply framed_pure; first | rfl | assumption)
    | (apply framedV_pure; first | rfl | assumption)
    | (dsimp only)
    | split

theorem create_call_frame (cg base : CodeGen) (h : cg.bookkeeping = base.bookkeeping) (name : String) (args : List Value) :
    FramedV (cg.create_call name args) base := by
  unfold CodeGen.create_call
  repeat' first
    | exact framed_error _ _
    | exact framedV_error _ _
    | ((with_reducible refine emit_source_frame _ _ ?_); first | rfl | assumption)
    | (with_reducible refine framed_bind_state _ _ _ ?_ (fun _ _ => ?_))
    | (with_reducible refine framedV_bind_state _ _ _ ?_ (fun _ _ => ?_))
    | (with_reducible refine framed_bind_pair _ _ _ ?_ (fun _ _ _ => ?_))
    | (with_reducible refine framedV_bind_pair _ _ _ ?_ (fun _ _ _ => ?_))
    | (with_reducible apply framed_bind; intro _)
    | (with_reducible apply framedV_bind; intro _)
    | (with_reducible apply framed_ite)
    | (with_reducible apply framedV_ite)
    | (apply framed_pure; first | rfl | assumption)
    | (apply framedV_pure; first | rfl | assumption)
    | (dsimp only)
    | split

theorem get_root_frame (cg base : CodeGen) (h : cg.bookkeeping = base.bookkeeping) :
    FramedV (cg.get_root) base := by
  unfold CodeGen.get_root
  repeat' first
    | exact framed_error _ _
    | exact framedV_error _ _
    | ((with_reducible refine emit_source_frame _ _ ?_); first | rfl | assumption)
    | ((with_reducible refine create_call_frame _ _ ?_ _ _); first | rfl | assumption)
    | (with_reducible refine framed_bind_state _ _ _ ?_ (fun _ _ => ?_))
    | (with_reducible refine framedV_bind_state _ _ _ ?_ (fun _ _ => ?_))
    | (with_reducible refine framed_bind_pair _ _ _ ?_ (fun _ _ _ => ?_))
    | (with_reducible refine framedV_bind_pair _ _ _ ?_ (fun _ _ _ => ?_))
    | (with_reducible apply framed_bind; intro _)
    | (with_reducible apply framedV_bind; intro _)
    | (with_reducible apply framed_ite)
    | (with_reducible apply framedV_ite)
    | (apply framed_pure; first | rfl | assumption)
    | (apply framedV_pure; first | rfl | assumption)
    | (dsimp only)
    | split

theorem get_runtime_frame (cg base : CodeGen) (h : cg.bookkeeping = base.bookkeeping) :
    FramedV (cg.get_runtime) base := by
  unfold CodeGen.get_runtime
  repeat' first
    | exact framed_error _ _
    | exact framedV_error _ _
    | ((with_reducible refine emit_source_frame _ _ ?_); first | rfl | assumption)
    | ((with_reducible refine create_call_frame _ _ ?_ _ _); first | rfl | assumption)
    | ((with_reducible refine get_root_frame _ _ ?_); first | rfl | assumption)
    | (with_reducible refine framed_bind_state _ _ _ ?_ (fun _ _ => ?_))
    | (with_reducible refine framedV_bind_state _ _ _ ?_ (fun _ _ => ?_))
    | (with_reducible refine framed_bind_pair _ _ _ ?_ (fun _ _ _ => ?_))
    | (with_reducible refine framedV_bind_pair _ _ _ ?_ (fun _ _ _ => ?_))
    | (with_reducible apply framed_bind; intro _)
    | (with_reducible apply framedV_bind; intro _)
    | (with_reducible apply framed_ite)
    | (with_reducible apply framedV_ite)
    | (apply framed_pure; first | rfl | assumption)
    | (apply framedV_pure; first | rfl | assumption)
    | (dsimp only)
    | split

theorem RuntimeObject_call_frame (cg base : CodeGen) (h : cg.bookkeeping = base.bookkeeping) (o : RuntimeObject) (method : String) (args : List Value) :
    FramedV (cg.RuntimeObject_call o method args) base := by
  unfold CodeGen.RuntimeObject_call
  repeat' first
    | exact framed_error _ _
    | exact framedV_error _ _
    | ((with_reducible refine emit_source_frame _ _ ?_); first | rfl | assumption)
    | ((with_reducible refine create_call_frame _ _ ?_ _ _); first | rfl | assumption)
    | ((with_reducible refine get_root_frame _ _ ?_); first | rfl | assumption)
    | ((with_reducible refine get_runtime_frame _ _ ?_); first | rfl | assumption)
    | (with_reducible refine framed_bind_state _ _ _ ?_ (fun _ _ => ?_))
    | (with_reducible refine framedV_bind_state _ _ _ ?_ (fun _ _ => ?_))
    | (with_reducible refine framed_bind_pair _ _ _ ?_ (fun _ _ _ => ?_))
    | (with_reducible refine framedV_bind_pair _ _ _ ?_ (fun _ _ _ => ?_))
    | (with_reducible apply framed_bind; intro _)
    | (with_reducible apply framedV_bind; intro _)
    | (with_reducible apply framed_ite)
    | (with_reducible apply framedV_ite)
    | (apply framed_pure; first | rfl | assumption)
    | (apply framedV_pure; first | rfl | assumption)
    | (dsimp only)
    | split

theorem print_call_host_frame (cg base : CodeGen) (h : cg.bookkeeping = base.bookkeeping) (id : Nat) (str format : String) (value : Value) :
    Framed (cg.print_call_host id str format value) base := by
  unfold CodeGen.print_call_host
  repeat' first
    | exact framed_error _ _
    | exact framedV_error _ _
    | ((with_reducible refine emit_source_frame _ _ ?_); first | rfl | assumption)
    | ((with_reducible refine create_call_frame _ _ ?_ _ _); first | rfl | assumption)
    | ((with_reducible refine get_root_frame _ _ ?_); first | rfl | assumption)
    | ((with_reducible refine get_runtime_frame _ _ ?_); first | rfl | assumption)
    | ((with_reducible refine RuntimeObject_call_frame _ _ ?_ _ _ _); first | rfl | assumption)
    | (with_reducible refine framed_bind_state _ _ _ ?_ (fun _ _ => ?_))
    | (with_reducible refine framedV_bind_state _ _ _ ?_ (fun _ _ => ?_))
    | (with_reducible refine framed_bind_pair _ _ _ ?_ (fun _ _ _ => ?_))
    | (with_reducible refine framedV_bind_pair _ _ _ ?_ (fun _ _ _ => ?_))
    | (with_reducible apply framed_bind; intro _)
    | (with_reducible apply framedV_bind; intro _)
    | (with_reducible apply framed_ite)
    | (with_reducible apply framedV_ite)
    | (apply framed_pure; first | rfl | assumption)
    | (apply framedV_pure; first | rfl | assumption)
    | (dsimp only)
    | split

theorem print_call_gpu_frame (cg base : CodeGen) (h : cg.bookkeeping = base.bookkeeping) (id : Nat) (str format : String) (value_type : LType) (value : Value) :
    Framed (cg.print_call_gpu id str format value_type value) base := by
  unfold CodeGen.print_call_gpu
  repeat' first
    | exact framed_error _ _
    | exact framedV_error _ _
    | ((with_reducible refine emit_source_frame _ _ ?_); first | rfl | assumption)
    | ((with_reducible refine create_call_frame _ _ ?_ _ _); first | rfl | assumption)
    | ((with_reducible refine get_root_frame _ _ ?_); first | rfl | assumption)
    | ((with_reducible refine get_runtime_frame _ _ ?_); first | rfl | assumption)
    | ((with_reducible refine RuntimeObject_call_frame _ _ ?_ _ _ _); first | rfl | assumption)
    | ((with_reducible refine print_call_host_frame _ _ ?_ _ _ _ _); first | rfl | assumption)
    | (with_reducible refine framed_bind_state _ _ _ ?_ (fun _ _ => ?_))
    | (with_reducible refine framedV_bind_state _ _ _ ?_ (fun _ _ => ?_))
    | (with_reducible refine framed_bind_pair _ _ _ ?_ (fun _ _ _ => ?_))
    | (with_reducible refine framedV_bind_pair _ _ _ ?_ (fun _ _ _ => ?_))
    | (with_reducible apply framed_bind; intro _)
    | (with_reducible apply framedV_bind; intro _)
    | (with_reducible apply framed_ite)
    | (with_reducible apply framedV_ite)
    | (apply framed_pure; first | rfl | assumption)
    | (apply framedV_pure; first | rfl | assumption)
    | (dsimp only)
    | split

theorem set_functions_frame (o : RuntimeObject) (name : String) (fs : List String) :
    ∀ (cg base : CodeGen), cg.bookkeeping = base.bookkeeping →
      Framed (CodeGen.set_functions o name fs cg) base := by
  induction fs with
  | nil =>
    intro cg base h
    exact framed_pure _ _ h
  | cons f rest ih =>
    intro cg base h
    unfold CodeGen.set_functions
    apply framed_bind
    intro fn
    exact ih _ _ h

theorem emit_struct_meta_base_frame (cg base : CodeGen) (h : cg.bookkeeping = base.bookkeeping) (name : String) (node_meta : Value) (snode : SNode) :
    Framed (cg.emit_struct_meta_base name node_meta snode) base := by
  unfold CodeGen.emit_struct_meta_base UNDEFINED
  repeat' first
    | exact framed_error _ _
    | exact framedV_error _ _
    | ((with_reducible refine emit_source_frame _ _ ?_); first | rfl | assumption)
    | ((with_reducible refine create_call_frame _ _ ?_ _ _); first | rfl | assumption)
    | ((with_reducible refine get_root_frame _ _ ?_); first | rfl | assumption)
    | ((with_reducible refine get_runtime_frame _ _ ?_); first | rfl | assumption)
    | ((with_reducible refine RuntimeObject_call_frame _ _ ?_ _ _ _); first | rfl | assumption)
    | ((with_reducible refine print_call_host_frame _ _ ?_ _ _ _ _); first | rfl | assumption)
    | ((with_reducible refine print_call_gpu_frame _ _ ?_ _ _ _ _ _); first | rfl | assumption)
    | ((with_reducible refine set_functions_frame _ _ _ _ _ ?_); first | rfl | assumption)
    | (with_reducible refine framed_bind_state _ _ _ ?_ (fun _ _ => ?_))
    | (with_reducible refine framedV_bind_state _ _ _ ?_ (fun _ _ => ?_))
    | (with_reducible refine framed_bind_pair _ _ _ ?_ (fun _ _ _ => ?_))
    | (with_reducible refine framedV_bind_pair _ _ _ ?_ (fun _ _ _ => ?_))
    | (with_reducible apply framed_bind; intro _)
    | (with_reducible apply framedV_bind; intro _)
    | (with_reducible apply framed_ite)
    | (with_reducible apply framedV_ite)
    | (apply framed_pure; first | rfl | assumption)
    | (apply framedV_pure; first | rfl | assumption)
    | (dsimp only)
    | split

theorem emit_struct_meta_object_frame (cg base : CodeGen) (h : cg.bookkeeping = base.bookkeeping) (snode : SNode) :
    FramedV (cg.emit_struct_meta_object snode) base := by
  unfold CodeGen.emit_struct_meta_object TC_NOT_IMPLEMENTED
  repeat' first
    | exact framed_error _ _
    | exact framedV_error _ _
    | ((with_reducible refine emit_source_frame _ _ ?_); first | rfl | assumption)
    | ((with_reducible refine create_call_frame _ _ ?_ _ _); first | rfl | assumption)
    | ((with_reducible refine get_root_frame _ _ ?_); first | rfl | assumption)
    | ((with_reducible refine get_runtime_frame _ _ ?_); first | rfl | assumption)
    | ((with_reducible refine RuntimeObject_call_frame _ _ ?_ _ _ _); first | rfl | assumption)
    | ((with_reducible refine print_call_host_frame _ _ ?_ _ _ _ _); first | rfl | assumption)
    | ((with_reducible refine print_call_gpu_frame _ _ ?_ _ _ _ _ _); first | rfl | assumption)
    | ((with_reducible refine set_functions_frame _ _ _ _ _ ?_); first | rfl | assumption)
    | ((with_reducible refine emit_struct_meta_base_frame _ _ ?_ _ _ _); first | rfl | assumption)
    | (with_reducible refine framed_bind_state _ _ _ ?_ (fun _ _ => ?_))
    | (with_reducible refine framedV_bind_state _ _ _ ?_ (fun _ _ => ?_))
    | (with_reducible refine framed_bind_pair _ _ _ ?_ (fun _ _ _ => ?_))
    | (with_reducible refine framedV_bind_pair _ _ _ ?_ (fun _ _ _ => ?_))
    | (with_reducible apply framed_bind; intro _)
    | (with_reducible apply framedV_bind; intro _)
    | (with_reducible apply framed_ite)
    | (with_reducible apply framedV_ite)
    | (apply framed_pure; first | rfl | assumption)
    | (apply framedV_pure; first | rfl | assumption)
    | (dsimp only)
    | split

theorem emit_struct_meta_frame (cg base : CodeGen) (h : cg.bookkeeping = base.bookkeeping) (snode : SNode) :
    FramedV (cg.emit_struct_meta snode) base := by
  unfold CodeGen.emit_struct_meta
  repeat' first
    | exact framed_error _ _
    | exact framedV_error _ _
    | ((with_reducible refine emit_source_frame _ _ ?_); first | rfl | assumption)
    | ((with_reducible refine create_call_frame _ _ ?_ _ _); first | rfl | assumption)
    | ((with_reducible refine get_root_frame _ _ ?_); first | rfl | assumption)
    | ((with_reducible refine get_runtime_frame _ _ ?_); first | rfl | assumption)
    | ((with_reducible refine RuntimeObject_call_frame _ _ ?_ _ _ _); first | rfl | assumption)
    | ((with_reducible refine print_call_host_frame _ _ ?_ _ _ _ _); first | rfl | assumption)
    | ((with_reducible refine print_call_gpu_frame _ _ ?_ _ _ _ _ _); first | rfl | assumption)
    | ((with_reducible refine set_functions_frame _ _ _ _ _ ?_); first | rfl | assumption)
    | ((with_reducible refine emit_struct_meta_base_frame _ _ ?_ _ _ _); first | rfl | assumption)
    | ((with_reducible refine emit_struct_meta_object_frame _ _ ?_ _); first | rfl | assumption)
    | (with_reducible refine framed_bind_state _ _ _ ?_ (fun _ _ => ?_))
    | (with_reducible refine framedV_bind_state _ _ _ ?_ (fun _ _ => ?_))
    | (with_reducible refine framed_bind_pair _ _ _ ?_ (fun _ _ _ => ?_))
    | (with_reducible refine framedV_bind_pair _ _ _ ?_ (fun _ _ _ => ?_))
    | (with_reducible apply framed_bind; intro _)
    | (with_reducible apply framedV_bind; intro _)
    | (with_reducible apply framed_ite)
    | (with_reducible apply framedV_ite)
    | (apply framed_pure; first | rfl | assumption)
    | (apply framedV_pure; first | rfl | assumption)
    | (dsimp only)
    | split

theorem for_lanes_frame (lane : CodeGen → Except Err CodeGen)
    (hl : ∀ cg base : CodeGen, cg.bookkeeping = base.bookkeeping → Framed (lane cg) base)
    (n : Nat) : ∀ (cg base : CodeGen), cg.bookkeeping = base.bookkeeping →
      Framed (CodeGen.for_lanes lane n cg) base := by
  induction n with
  | zero =>
    intro cg base h
    exact framed_pure _ _ h
  | succ n ih =>
    intro cg base h
    unfold CodeGen.for_lanes
    exact framed_bind_state _ _ _ (hl cg base h) (fun a ha => ih a base ha)

theorem linearize_loop_frame (strides : List Int) (inputs : List StmtRef) :
    ∀ (i : Nat) (val : Value) (cg base : CodeGen), cg.bookkeeping = base.bookkeeping →
      FramedV (CodeGen.linearize_loop strides inputs i val cg) base := by
  induction inputs with
  | nil =>
    intro i val cg base h
    exact framedV_pure _ _ _ h
  | cons s rest ih =>
    intro i val cg base h
    unfold CodeGen.linearize_loop
    split
    · exact framedV_error _ _
    · exact ih _ _ _ _ h

theorem visit_AllocaStmt_frame (cg base : CodeGen) (h : cg.bookkeeping = base.bookkeeping) (id : Nat) (rt : VectorType) :
    Framed (cg.visit_AllocaStmt id rt) base := by
  unfold CodeGen.visit_AllocaStmt
  repeat' first
    | exact framed_error _ _
    | exact framedV_error _ _
    | ((with_reducible refine emit_source_frame _ _ ?_); first | rfl | assumption)
    | ((with_reducible refine create_call_frame _ _ ?_ _ _); first | rfl | assumption)
    | ((with_reducible refine get_root_frame _ _ ?_); first | rfl | assumption)
    | ((with_reducible refine get_runtime_frame _ _ ?_); first | rfl | assumption)
    | ((with_reducible refine RuntimeObject_call_frame _ _ ?_ _ _ _); first | rfl | assumption)
    | ((with_reducible refine print_call_host_frame _ _ ?_ _ _ _ _); first | rfl | assumption)
    | ((with_reducible refine print_call_gpu_frame _ _ ?_ _ _ _ _ _); first | rfl | assumption)
    | ((with_reducible refine set_functions_frame _ _ _ _ _ ?_); first | rfl | assumption)
    | ((with_reducible refine emit_struct_meta_base_frame _ _ ?_ _ _ _); first | rfl | assumption)
    | ((with_reducible refine emit_struct_meta_object_frame _ _ ?_ _); first | rfl | assumption)
    | ((with_reducible refine emit_struct_meta_frame _ _ ?_ _); first | rfl | assumption)
    | ((with_reducible refine linearize_loop_frame _ _ _ _ _ _ ?_); first | rfl | assumption)
    | (with_reducible refine framed_bind_state _ _ _ ?_ (fun _ _ => ?_))
    | (with_reducible refine framedV_bind_state _ _ _ ?_ (fun _ _ => ?_))
    | (with_reducible refine framed_bind_pair _ _ _ ?_ (fun _ _ _ => ?_))
    | (with_reducible refine framedV_bind_pair _ _ _ ?_ (fun _ _ _ => ?_))
    | (with_reducible apply framed_bind; intro _)
    | (with_reducible apply framedV_bind; intro _)
    | (with_reducible apply framed_ite)
    | (with_reducible apply framedV_ite)
    | (apply framed_pure; first | rfl | assumption)
    | (apply framedV_pure; first | rfl | assumption)
    | (dsimp only)
    | split

theorem visit_RandStmt_frame (cg base : CodeGen) (_h : cg.bookkeeping = base.bookkeeping) (rt : VectorType) :
    Framed (cg.visit_RandStmt rt) base := by
  unfold CodeGen.visit_RandStmt
  repeat' first
    | exact framed_error _ _
    | exact framedV_error _ _
    | ((with_reducible refine emit_source_frame _ _ ?_); first | rfl | assumption)
    | ((with_reducible refine create_call_frame _ _ ?_ _ _); first | rfl | assumption)
    | ((with_reducible refine get_root_frame _ _ ?_); first | rfl | assumption)
    | ((with_reducible refine get_runtime_frame _ _ ?_); first | rfl | assumption)
    | ((with_reducible refine RuntimeObject_call_frame _ _ ?_ _ _ _); first | rfl | assumption)
    | ((with_reducible refine print_call_host_frame _ _ ?_ _ _ _ _); first | rfl | assumption)
    | ((with_reducible refine print_call_gpu_frame _ _ ?_ _ _ _ _ _); first | rfl | assumption)
    | ((with_reducible refine set_functions_frame _ _ _ _ _ ?_); first | rfl | assumption)
    | ((with_reducible refine emit_struct_meta_base_frame _ _ ?_ _ _ _); first | rfl | assumption)
    | ((with_reducible refine emit_struct_meta_object_frame _ _ ?_ _); first | rfl | assumption)
    | ((with_reducible refine emit_struct_meta_frame _ _ ?_ _); first | rfl | assumption)
    | ((with_reducible refine linearize_loop_frame _ _ _ _ _ _ ?_); first | rfl | assumption)
    | (with_reducible refine framed_bind_state _ _ _ ?_ (fun _ _ => ?_))
    | (with_reducible refine framedV_bind_state _ _ _ ?_ (fun _ _ => ?_))
    | (with_reducible refine framed_bind_pair _ _ _ ?_ (fun _ _ _ => ?_))
    | (with_reducible refine framedV_bind_pair _ _ _ ?_ (fun _ _ _ => ?_))
    | (with_reducible apply framed_bind; intro _)
    | (with_reducible apply framedV_bind; intro _)
    | (with_reducible apply framed_ite)
    | (with_reducible apply framedV_ite)
    | (apply framed_pure; first | rfl | assumption)
    | (apply framedV_pure; first | rfl | assumption)
    | (dsimp only)
    | split

theorem visit_UnaryOpStmt_frame (cg base : CodeGen) (h : cg.bookkeeping = base.bookkeeping) (id : Nat) (rt : VectorType) (op : UnaryOpType) (operand : StmtRef) (cbv : Bool) (ct : DataType) :
    Framed (cg.visit_UnaryOpStmt id rt op operand cbv ct) base := by
  unfold CodeGen.visit_UnaryOpStmt CodeGen.emit_extra_unary CodeGen.emit_extra_unary_gpu CodeGen.emit_extra_unary_host CodeGen.UNARY_STD CodeGen.UNARY_STD_gpu TC_NOT_IMPLEMENTED
  repeat' first
    | exact framed_error _ _
    | exact framedV_error _ _
    | ((with_reducible refine emit_source_frame _ _ ?_); first | rfl | assumption)
    | ((with_reducible refine create_call_frame _ _ ?_ _ _); first | rfl | assumption)
    | ((with_reducible refine get_root_frame _ _ ?_); first | rfl | assumption)
    | ((with_reducible refine get_runtime_frame _ _ ?_); first | rfl | assumption)
    | ((with_reducible refine RuntimeObject_call_frame _ _ ?_ _ _ _); first | rfl | assumption)
    | ((with_reducible refine print_call_host_frame _ _ ?_ _ _ _ _); first | rfl | assumption)
    | ((with_reducible refine print_call_gpu_frame _ _ ?_ _ _ _ _ _); first | rfl | assumption)
    | ((with_reducible refine set_functions_frame _ _ _ _ _ ?_); first | rfl | assumption)
    | ((with_reducible refine emit_struct_meta_base_frame _ _ ?_ _ _ _); first | rfl | assumption)
    | ((with_reducible refine emit_struct_meta_object_frame _ _ ?_ _); first | rfl | assumption)
    | ((with_reducible refine emit_struct_meta_frame _ _ ?_ _); first | rfl | assumption)
    | ((with_reducible refine linearize_loop_frame _ _ _ _ _ _ ?_); first | rfl | assumption)
    | (with_reducible refine framed_bind_state _ _ _ ?_ (fun _ _ => ?_))
    | (with_reducible refine framedV_bind_state _ _ _ ?_ (fun _ _ => ?_))
    | (with_reducible refine framed_bind_pair _ _ _ ?_ (fun _ _ _ => ?_))
    | (with_reducible refine framedV_bind_pair _ _ _ ?_ (fun _ _ _ => ?_))
    | (with_reducible apply framed_bind; intro _)
    | (with_reducible apply framedV_bind; intro _)
    | (with_reducible apply framed_ite)
    | (with_reducible apply framedV_ite)
    | (apply framed_pure; first | rfl | assumption)
    | (apply framedV_pure; first | rfl | assumption)
    | (dsimp only)
    | split

theorem visit_BinaryOpStmt_frame (cg base : CodeGen) (h : cg.bookkeeping = base.bookkeeping) (id : Nat) (rt : VectorType) (op : BinaryOpType) (lhs rhs : StmtRef) :
    Framed (cg.visit_BinaryOpStmt id rt op lhs rhs) base := by
  unfold CodeGen.visit_BinaryOpStmt CodeGen.create_cmp TC_NOT_IMPLEMENTED
  repeat' first
    | exact framed_error _ _
    | exact framedV_error _ _
    | ((with_reducible refine emit_source_frame _ _ ?_); first | rfl | assumption)
    | ((with_reducible refine create_call_frame _ _ ?_ _ _); first | rfl | assumption)
    | ((with_reducible refine get_root_frame _ _ ?_); first | rfl | assumption)
    | ((with_reducible refine get_runtime_frame _ _ ?_); first | rfl | assumption)
    | ((with_reducible refine RuntimeObject_call_frame _ _ ?_ _ _ _); first | rfl | assumption)
    | ((with_reducible refine print_call_host_frame _ _ ?_ _ _ _ _); first | rfl | assumption)
    | ((with_reducible refine print_call_gpu_frame _ _ ?_ _ _ _ _ _); first | rfl | assumption)
    | ((with_reducible refine set_functions_frame _ _ _ _ _ ?_); first | rfl | assumption)
    | ((with_reducible refine emit_struct_meta_base_frame _ _ ?_ _ _ _); first | rfl | assumption)
    | ((with_reducible refine emit_struct_meta_object_frame _ _ ?_ _); first | rfl | assumption)
    | ((with_reducible refine emit_struct_meta_frame _ _ ?_ _); first | rfl | assumption)
    | ((with_reducible refine linearize_loop_frame _ _ _ _ _ _ ?_); first | rfl | assumption)
    | (with_reducible refine framed_bind_state _ _ _ ?_ (fun _ _ => ?_))
    | (with_reducible refine framedV_bind_state _ _ _ ?_ (fun _ _ => ?_))
    | (with_reducible refine framed_bind_pair _ _ _ ?_ (fun _ _ _ => ?_))
    | (with_reducible refine framedV_bind_pair _ _ _ ?_ (fun _ _ _ => ?_))
    | (with_reducible apply framed_bind; intro _)
    | (with_reducible apply framedV_bind; intro _)
    | (with_reducible apply framed_ite)
    | (with_reducible apply framedV_ite)
    | (apply framed_pure; first | rfl | assumption)
    | (apply framedV_pure; first | rfl | assumption)
    | (dsimp only)
    | split

theorem visit_TernaryOpStmt_frame (cg base : CodeGen) (h : cg.bookkeeping = base.bookkeeping) (id : Nat) (op : TernaryOpType) (a b c : StmtRef) :
    Framed (cg.visit_TernaryOpStmt id op a b c) base := by
  unfold CodeGen.visit_TernaryOpStmt
  repeat' first
    | exact framed_error _ _
    | exact framedV_error _ _
    | ((with_reducible refine emit_source_frame _ _ ?_); first | rfl | assumption)
    | ((with_reducible refine create_call_frame _ _ ?_ _ _); first | rfl | assumption)
    | ((with_reducible refine get_root_frame _ _ ?_); first | rfl | assumption)
    | ((with_reducible refine get_runtime_frame _ _ ?_); first | rfl | assumption)
    | ((with_reducible refine RuntimeObject_call_frame _ _ ?_ _ _ _); first | rfl | assumption)
    | ((with_reducible refine print_call_host_frame _ _ ?_ _ _ _ _); first | rfl | assumption)
    | ((with_reducible refine print_call_gpu_frame _ _ ?_ _ _ _ _ _); first | rfl | assumption)
    | ((with_reducible refine set_functions_frame _ _ _ _ _ ?_); first | rfl | assumption)
    | ((with_reducible refine emit_struct_meta_base_frame _ _ ?_ _ _ _); first | rfl | assumption)
    | ((with_reducible refine emit_struct_meta_object_frame _ _ ?_ _); first | rfl | assumption)
    | ((with_reducible refine emit_struct_meta_frame _ _ ?_ _); first | rfl | assumption)
    | ((with_reducible refine linearize_loop_frame _ _ _ _ _ _ ?_); first | rfl | assumption)
    | (with_reducible refine framed_bind_state _ _ _ ?_ (fun _ _ => ?_))
    | (with_reducible refine framedV_bind_state _ _ _ ?_ (fun _ _ => ?_))
    | (with_reducible refine framed_bind_pair _ _ _ ?_ (fun _ _ _ => ?_))
    | (with_reducible refine framedV_bind_pair _ _ _ ?_ (fun _ _ _ => ?_))
    | (with_reducible apply framed_bind; intro _)
    | (with_reducible apply framedV_bind; intro _)
    | (with_reducible apply framed_ite)
    | (with_reducible apply framedV_ite)
    | (apply framed_pure; first | rfl | assumption)
    | (apply framedV_pure; first | rfl | assumption)
    | (dsimp only)
    | split

theorem visit_PrintStmt_frame (cg base : CodeGen) (h : cg.bookkeeping = base.bookkeeping) (id : Nat) (rt : VectorType) (stmt : StmtRef) (str : String) :
    Framed (cg.visit_PrintStmt id rt stmt str) base := by
  unfold CodeGen.visit_PrintStmt CodeGen.visit_PrintStmt_gpu CodeGen.visit_PrintStmt_host TC_NOT_IMPLEMENTED
  repeat' first
    | exact framed_error _ _
    | exact framedV_error _ _
    | ((with_reducible refine emit_source_frame _ _ ?_); first | rfl | assumption)
    | ((with_reducible refine create_call_frame _ _ ?_ _ _); first | rfl | assumption)
    | ((with_reducible refine get_root_frame _ _ ?_); first | rfl | assumption)
    | ((with_reducible refine get_runtime_frame _ _ ?_); first | rfl | assumption)
    | ((with_reducible refine RuntimeObject_call_frame _ _ ?_ _ _ _); first | rfl | assumption)
    | ((with_reducible refine print_call_host_frame _ _ ?_ _ _ _ _); first | rfl | assumption)
    | ((with_reducible refine print_call_gpu_frame _ _ ?_ _ _ _ _ _); first | rfl | assumption)
    | ((with_reducible refine set_functions_frame _ _ _ _ _ ?_); first | rfl | assumption)
    | ((with_reducible refine emit_struct_meta_base_frame _ _ ?_ _ _ _); first | rfl | assumption)
    | ((with_reducible refine emit_struct_meta_object_frame _ _ ?_ _); first | rfl | assumption)
    | ((with_reducible refine emit_struct_meta_frame _ _ ?_ _); first | rfl | assumption)
    | ((with_reducible refine linearize_loop_frame _ _ _ _ _ _ ?_); first | rfl | assumption)
    | (with_reducible refine framed_bind_state _ _ _ ?_ (fun _ _ => ?_))
    | (with_reducible refine framedV_bind_state _ _ _ ?_ (fun _ _ => ?_))
    | (with_reducible refine framed_bind_pair _ _ _ ?_ (fun _ _ _ => ?_))
    | (with_reducible refine framedV_bind_pair _ _ _ ?_ (fun _ _ _ => ?_))
    | (with_reducible apply framed_bind; intro _)
    | (with_reducible apply framedV_bind; intro _)
    | (with_reducible apply framed_ite)
    | (with_reducible apply framedV_ite)
    | (apply framed_pure; first | rfl | assumption)
    | (apply framedV_pure; first | rfl | assumption)
    | (dsimp only)
    | split

theorem visit_ConstStmt_frame (cg base : CodeGen) (h : cg.bookkeeping = base.bookkeeping) (id : Nat) (rt : VectorType) (val : List TypedConstant) :
    Framed (cg.visit_ConstStmt id rt val) base := by
  unfold CodeGen.visit_ConstStmt TC_NOT_IMPLEMENTED UNDEFINED
  repeat' first
    | exact framed_error _ _
    | exact framedV_error _ _
    | ((with_reducible refine emit_source_frame _ _ ?_); first | rfl | assumption)
    | ((with_reducible refine create_call_frame _ _ ?_ _ _); first | rfl | assumption)
    | ((with_reducible refine get_root_frame _ _ ?_); first | rfl | assumption)
    | ((with_reducible refine get_runtime_frame _ _ ?_); first | rfl | assumption)
    | ((with_reducible refine RuntimeObject_call_frame _ _ ?_ _ _ _); first | rfl | assumption)
    | ((with_reducible refine print_call_host_frame _ _ ?_ _ _ _ _); first | rfl | assumption)
    | ((with_reducible refine print_call_gpu_frame _ _ ?_ _ _ _ _ _); first | rfl | assumption)
    | ((with_reducible refine set_functions_frame _ _ _ _ _ ?_); first | rfl | assumption)
    | ((with_reducible refine emit_struct_meta_base_frame _ _ ?_ _ _ _); first | rfl | assumption)
    | ((with_reducible refine emit_struct_meta_object_frame _ _ ?_ _); first | rfl | assumption)
    | ((with_reducible refine emit_struct_meta_frame _ _ ?_ _); first | rfl | assumption)
    | ((with_reducible refine linearize_loop_frame _ _ _ _ _ _ ?_); first | rfl | assumption)
    | (with_reducible refine framed_bind_state _ _ _ ?_ (fun _ _ => ?_))
    | (with_reducible refine framedV_bind_state _ _ _ ?_ (fun _ _ => ?_))
    | (with_reducible refine framed_bind_pair _ _ _ ?_ (fun _ _ _ => ?_))
    | (with_reducible refine framedV_bind_pair _ _ _ ?_ (fun _ _ _ => ?_))
    | (with_reducible apply framed_bind; intro _)
    | (with_reducible apply framedV_bind; intro _)
    | (with_reducible apply framed_ite)
    | (with_reducible apply framedV_ite)
    | (apply framed_pure; first | rfl | assumption)
    | (apply framedV_pure; first | rfl | assumption)
    | (dsimp only)
    | split

theorem visit_WhileControlStmt_frame (cg base : CodeGen) (h : cg.bookkeeping = base.bookkeeping) (cond : StmtRef) :
    Framed (cg.visit_WhileControlStmt cond) base := by
  unfold CodeGen.visit_WhileControlStmt
  repeat' first
    | exact framed_error _ _
    | exact framedV_error _ _
    | ((with_reducible refine emit_source_frame _ _ ?_); first | rfl | assumption)
    | ((with_reducible refine create_call_frame _ _ ?_ _ _); first | rfl | assumption)
    | ((with_reducible refine get_root_frame _ _ ?_); first | rfl | assumption)
    | ((with_reducible refine get_runtime_frame _ _ ?_); first | rfl | assumption)
    | ((with_reducible refine RuntimeObject_call_frame _ _ ?_ _ _ _); first | rfl | assumption)
    | ((with_reducible refine print_call_host_frame _ _ ?_ _ _ _ _); first | rfl | assumption)
    | ((with_reducible refine print_call_gpu_frame _ _ ?_ _ _ _ _ _); first | rfl | assumption)
    | ((with_reducible refine set_functions_frame _ _ _ _ _ ?_); first | rfl | assumption)
    | ((with_reducible refine emit_struct_meta_base_frame _ _ ?_ _ _ _); first | rfl | assumption)
    | ((with_reducible refine emit_struct_meta_object_frame _ _ ?_ _); first | rfl | assumption)
    | ((with_reducible refine emit_struct_meta_frame _ _ ?_ _); first | rfl | assumption)
    | ((with_reducible refine linearize_loop_frame _ _ _ _ _ _ ?_); first | rfl | assumption)
    | (with_reducible refine framed_bind_state _ _ _ ?_ (fun _ _ => ?_))
    | (with_reducible refine framedV_bind_state _ _ _ ?_ (fun _ _ => ?_))
    | (with_reducible refine framed_bind_pair _ _ _ ?_ (fun _ _ _ => ?_))
    | (with_reducible refine framedV_bind_pair _ _ _ ?_ (fun _ _ _ => ?_))
    | (with_reducible apply framed_bind; intro _)
    | (with_reducible apply framedV_bind; intro _)
    | (with_reducible apply framed_ite)
    | (with_reducible apply framedV_ite)
    | (apply framed_pure; first | rfl | assumption)
    | (apply framedV_pure; first | rfl | assumption)
    | (dsimp only)
    | split

theorem visit_ArgLoadStmt_frame (cg base : CodeGen) (h : cg.bookkeeping = base.bookkeeping) (id : Nat) (rt : VectorType) (arg_id : Int) (is_ptr : Bool) :
    Framed (cg.visit_ArgLoadStmt id rt arg_id is_ptr) base := by
  unfold CodeGen.visit_ArgLoadStmt
  repeat' first
    | exact framed_error _ _
    | exact framedV_error _ _
    | ((with_reducible refine emit_source_frame _ _ ?_); first | rfl | assumption)
    | ((with_reducible refine create_call_frame _ _ ?_ _ _); first | rfl | assumption)
    | ((with_reducible refine get_root_frame _ _ ?_); first | rfl | assumption)
    | ((with_reducible refine get_runtime_frame _ _ ?_); first | rfl | assumption)
    | ((with_reducible refine RuntimeObject_call_frame _ _ ?_ _ _ _); first | rfl | assumption)
    | ((with_reducible refine print_call_host_frame _ _ ?_ _ _ _ _); first | rfl | assumption)
    | ((with_reducible refine print_call_gpu_frame _ _ ?_ _ _ _ _ _); first | rfl | assumption)
    | ((with_reducible refine set_functions_frame _ _ _ _ _ ?_); first | rfl | assumption)
    | ((with_reducible refine emit_struct_meta_base_frame _ _ ?_ _ _ _); first | rfl | assumption)
    | ((with_reducible refine emit_struct_meta_object_frame _ _ ?_ _); first | rfl | assumption)
    | ((with_reducible refine emit_struct_meta_frame _ _ ?_ _); first | rfl | assumption)
    | ((with_reducible refine linearize_loop_frame _ _ _ _ _ _ ?_); first | rfl | assumption)
    | (with_reducible refine framed_bind_state _ _ _ ?_ (fun _ _ => ?_))
    | (with_reducible refine framedV_bind_state _ _ _ ?_ (fun _ _ => ?_))
    | (with_reducible refine framed_bind_pair _ _ _ ?_ (fun _ _ _ => ?_))
    | (with_reducible refine framedV_bind_pair _ _ _ ?_ (fun _ _ _ => ?_))
    | (with_reducible apply framed_bind; intro _)
    | (with_reducible apply framedV_bind; intro _)
    | (with_reducible apply framed_ite)
    | (with_reducible apply framedV_ite)
    | (apply framed_pure; first | rfl | assumption)
    | (apply framedV_pure; first | rfl | assumption)
    | (dsimp only)
    | split

theorem visit_LocalLoadStmt_frame (cg base : CodeGen) (h : cg.bookkeeping = base.bookkeeping) (id : Nat) (rt : VectorType) (ptr : List StmtRef) :
    Framed (cg.visit_LocalLoadStmt id rt ptr) base := by
  unfold CodeGen.visit_LocalLoadStmt UNDEFINED
  repeat' first
    | exact framed_error _ _
    | exact framedV_error _ _
    | ((with_reducible refine emit_source_frame _ _ ?_); first | rfl | assumption)
    | ((with_reducible refine create_call_frame _ _ ?_ _ _); first | rfl | assumption)
    | ((with_reducible refine get_root_frame _ _ ?_); first | rfl | assumption)
    | ((with_reducible refine get_runtime_frame _ _ ?_); first | rfl | assumption)
    | ((with_reducible refine RuntimeObject_call_frame _ _ ?_ _ _ _); first | rfl | assumption)
    | ((with_reducible refine print_call_host_frame _ _ ?_ _ _ _ _); first | rfl | assumption)
    | ((with_reducible refine print_call_gpu_frame _ _ ?_ _ _ _ _ _); first | rfl | assumption)
    | ((with_reducible refine set_functions_frame _ _ _ _ _ ?_); first | rfl | assumption)
    | ((with_reducible refine emit_struct_meta_base_frame _ _ ?_ _ _ _); first | rfl | assumption)
    | ((with_reducible refine emit_struct_meta_object_frame _ _ ?_ _); first | rfl | assumption)
    | ((with_reducible refine emit_struct_meta_frame _ _ ?_ _); first | rfl | assumption)
    | ((with_reducible refine linearize_loop_frame _ _ _ _ _ _ ?_); first | rfl | assumption)
    | (with_reducible refine framed_bind_state _ _ _ ?_ (fun _ _ => ?_))
    | (with_reducible refine framedV_bind_state _ _ _ ?_ (fun _ _ => ?_))
    | (with_reducible refine framed_bind_pair _ _ _ ?_ (fun _ _ _ => ?_))
    | (with_reducible refine framedV_bind_pair _ _ _ ?_ (fun _ _ _ => ?_))
    | (with_reducible apply framed_bind; intro _)
    | (with_reducible apply framedV_bind; intro _)
    | (with_reducible apply framed_ite)
    | (with_reducible apply framedV_ite)
    | (apply framed_pure; first | rfl | assumption)
    | (apply framedV_pure; first | rfl | assumption)
    | (dsimp only)
    | split

theorem visit_LocalStoreStmt_frame (cg base : CodeGen) (h : cg.bookkeeping = base.bookkeeping) (mask : Option StmtRef) (rt : VectorType) (ptr data : StmtRef) :
    Framed (cg.visit_LocalStoreStmt mask rt ptr data) base := by
  unfold CodeGen.visit_LocalStoreStmt TC_NOT_IMPLEMENTED
  repeat' first
    | exact framed_error _ _
    | exact framedV_error _ _
    | ((with_reducible refine emit_source_frame _ _ ?_); first | rfl | assumption)
    | ((with_reducible refine create_call_frame _ _ ?_ _ _); first | rfl | assumption)
    | ((with_reducible refine get_root_frame _ _ ?_); first | rfl | assumption)
    | ((with_reducible refine get_runtime_frame _ _ ?_); first | rfl | assumption)
    | ((with_reducible refine RuntimeObject_call_frame _ _ ?_ _ _ _); first | rfl | assumption)
    | ((with_reducible refine print_call_host_frame _ _ ?_ _ _ _ _); first | rfl | assumption)
    | ((with_reducible refine print_call_gpu_frame _ _ ?_ _ _ _ _ _); first | rfl | assumption)
    | ((with_reducible refine set_functions_frame _ _ _ _ _ ?_); first | rfl | assumption)
    | ((with_reducible refine emit_struct_meta_base_frame _ _ ?_ _ _ _); first | rfl | assumption)
    | ((with_reducible refine emit_struct_meta_object_frame _ _ ?_ _); first | rfl | assumption)
    | ((with_reducible refine emit_struct_meta_frame _ _ ?_ _); first | rfl | assumption)
    | ((with_reducible refine linearize_loop_frame _ _ _ _ _ _ ?_); first | rfl | assumption)
    | (with_reducible refine framed_bind_state _ _ _ ?_ (fun _ _ => ?_))
    | (with_reducible refine framedV_bind_state _ _ _ ?_ (fun _ _ => ?_))
    | (with_reducible refine framed_bind_pair _ _ _ ?_ (fun _ _ _ => ?_))
    | (with_reducible refine framedV_bind_pair _ _ _ ?_ (fun _ _ _ => ?_))
    | (with_reducible apply framed_bind; intro _)
    | (with_reducible apply framedV_bind; intro _)
    | (with_reducible apply framed_ite)
    | (with_reducible apply framedV_ite)
    | (apply framed_pure; first | rfl | assumption)
    | (apply framedV_pure; first | rfl | assumption)
    | (dsimp only)
    | split

theorem visit_SNodeOpStmt_frame (cg base : CodeGen) (h : cg.bookkeeping = base.bookkeeping) (rt : VectorType) (op : SNodeOpType) :
    Framed (cg.visit_SNodeOpStmt rt op) base := by
  unfold CodeGen.visit_SNodeOpStmt
  repeat' first
    | exact framed_error _ _
    | exact framedV_error _ _
    | ((with_reducible refine emit_source_frame _ _ ?_); first | rfl | assumption)
    | ((with_reducible refine create_call_frame _ _ ?_ _ _); first | rfl | assumption)
    | ((with_reducible refine get_root_frame _ _ ?_); first | rfl | assumption)
    | ((with_reducible refine get_runtime_frame _ _ ?_); first | rfl | assumption)
    | ((with_reducible refine RuntimeObject_call_frame _ _ ?_ _ _ _); first | rfl | assumption)
    | ((with_reducible refine print_call_host_frame _ _ ?_ _ _ _ _); first | rfl | assumption)
    | ((with_reducible refine print_call_gpu_frame _ _ ?_ _ _ _ _ _); first | rfl | assumption)
    | ((with_reducible refine set_functions_frame _ _ _ _ _ ?_); first | rfl | assumption)
    | ((with_reducible refine emit_struct_meta_base_frame _ _ ?_ _ _ _); first | rfl | assumption)
    | ((with_reducible refine emit_struct_meta_object_frame _ _ ?_ _); first | rfl | assumption)
    | ((with_reducible refine emit_struct_meta_frame _ _ ?_ _); first | rfl | assumption)
    | ((with_reducible refine linearize_loop_frame _ _ _ _ _ _ ?_); first | rfl | assumption)
    | (with_reducible refine framed_bind_state _ _ _ ?_ (fun _ _ => ?_))
    | (with_reducible refine framedV_bind_state _ _ _ ?_ (fun _ _ => ?_))
    | (with_reducible refine framed_bind_pair _ _ _ ?_ (fun _ _ _ => ?_))
    | (with_reducible refine framedV_bind_pair _ _ _ ?_ (fun _ _ _ => ?_))
    | (with_reducible apply framed_bind; intro _)
    | (with_reducible apply framedV_bind; intro _)
    | (with_reducible apply framed_ite)
    | (with_reducible apply framedV_ite)
    | (apply framed_pure; first | rfl | assumption)
    | (apply framedV_pure; first | rfl | assumption)
    | (dsimp only)
    | split

theorem atomic_lane_host_frame (cg base : CodeGen) (h : cg.bookkeeping = base.bookkeeping) (mask : Option StmtRef) (op : AtomicOpType) (dest val : StmtRef) :
    Framed (cg.atomic_lane_host mask op dest val) base := by
  unfold CodeGen.atomic_lane_host TC_NOT_IMPLEMENTED
  repeat' first
    | exact framed_error _ _
    | exact framedV_error _ _
    | ((with_reducible refine emit_source_frame _ _ ?_); first | rfl | assumption)
    | ((with_reducible refine create_call_frame _ _ ?_ _ _); first | rfl | assumption)
    | ((with_reducible refine get_root_frame _ _ ?_); first | rfl | assumption)
    | ((with_reducible refine get_runtime_frame _ _ ?_); first | rfl | assumption)
    | ((with_reducible refine RuntimeObject_call_frame _ _ ?_ _ _ _); first | rfl | assumption)
    | ((with_reducible refine print_call_host_frame _ _ ?_ _ _ _ _); first | rfl | assumption)
    | ((with_reducible refine print_call_gpu_frame _ _ ?_ _ _ _ _ _); first | rfl | assumption)
    | ((with_reducible refine set_functions_frame _ _ _ _ _ ?_); first | rfl | assumption)
    | ((with_reducible refine emit_struct_meta_base_frame _ _ ?_ _ _ _); first | rfl | assumption)
    | ((with_reducible refine emit_struct_meta_object_frame _ _ ?_ _); first | rfl | assumption)
    | ((with_reducible refine emit_struct_meta_frame _ _ ?_ _); first | rfl | assumption)
    | ((with_reducible refine linearize_loop_frame _ _ _ _ _ _ ?_); first | rfl | assumption)
    | (with_reducible refine framed_bind_state _ _ _ ?_ (fun _ _ => ?_))
    | (with_reducible refine framedV_bind_state _ _ _ ?_ (fun _ _ => ?_))
    | (with_reducible refine framed_bind_pair _ _ _ ?_ (fun _ _ _ => ?_))
    | (with_reducible refine framedV_bind_pair _ _ _ ?_ (fun _ _ _ => ?_))
    | (with_reducible apply framed_bind; intro _)
    | (with_reducible apply framedV_bind; intro _)
    | (with_reducible apply framed_ite)
    | (with_reducible apply framedV_ite)
    | (apply framed_pure; first | rfl | assumption)
    | (apply framedV_pure; first | rfl | assumption)
    | (dsimp only)
    | split

theorem atomic_lane_gpu_frame (cg base : CodeGen) (h : cg.bookkeeping = base.bookkeeping) (mask : Option StmtRef) (op : AtomicOpType) (dest val : StmtRef) :
    Framed (cg.atomic_lane_gpu mask op dest val) base := by
  unfold CodeGen.atomic_lane_gpu TC_NOT_IMPLEMENTED
  repeat' first
    | exact framed_error _ _
    | exact framedV_error _ _
    | ((with_reducible refine emit_source_frame _ _ ?_); first | rfl | assumption)
    | ((with_reducible refine create_call_frame _ _ ?_ _ _); first | rfl | assumption)
    | ((with_reducible refine get_root_frame _ _ ?_); first | rfl | assumption)
    | ((with_reducible refine get_runtime_frame _ _ ?_); first | rfl | assumption)
    | ((with_reducible refine RuntimeObject_call_frame _ _ ?_ _ _ _); first | rfl | assumption)
    | ((with_reducible refine print_call_host_frame _ _ ?_ _ _ _ _); first | rfl | assumption)
    | ((with_reducible refine print_call_gpu_frame _ _ ?_ _ _ _ _ _); first | rfl | assumption)
    | ((with_reducible refine set_functions_frame _ _ _ _ _ ?_); first | rfl | assumption)
    | ((with_reducible refine emit_struct_meta_base_frame _ _ ?_ _ _ _); first | rfl | assumption)
    | ((with_reducible refine emit_struct_meta_object_frame _ _ ?_ _); first | rfl | assumption)
    | ((with_reducible refine emit_struct_meta_frame _ _ ?_ _); first | rfl | assumption)
    | ((with_reducible refine linearize_loop_frame _ _ _ _ _ _ ?_); first | rfl | assumption)
    | (with_reducible refine framed_bind_state _ _ _ ?_ (fun _ _ => ?_))
    | (with_reducible refine framedV_bind_state _ _ _ ?_ (fun _ _ => ?_))
    | (with_reducible refine framed_bind_pair _ _ _ ?_ (fun _ _ _ => ?_))
    | (with_reducible refine framedV_bind_pair _ _ _ ?_ (fun _ _ _ => ?_))
    | (with_reducible apply framed_bind; intro _)
    | (with_reducible apply framedV_bind; intro _)
    | (with_reducible apply framed_ite)
    | (with_reducible apply framedV_ite)
    | (apply framed_pure; first | rfl | assumption)
    | (apply framedV_pure; first | rfl | assumption)
    | (dsimp only)
    | split

theorem visit_GlobalPtrStmt_frame (cg base : CodeGen) (_h : cg.bookkeeping = base.bookkeeping) :
    Framed (cg.visit_GlobalPtrStmt) base := by
  unfold CodeGen.visit_GlobalPtrStmt
  repeat' first
    | exact framed_error _ _
    | exact framedV_error _ _
    | ((with_reducible refine emit_source_frame _ _ ?_); first | rfl | assumption)
    | ((with_reducible refine create_call_frame _ _ ?_ _ _); first | rfl | assumption)
    | ((with_reducible refine get_root_frame _ _ ?_); first | rfl | assumption)
    | ((with_reducible refine get_runtime_frame _ _ ?_); first | rfl | assumption)
    | ((with_reducible refine RuntimeObject_call_frame _ _ ?_ _ _ _); first | rfl | assumption)
    | ((with_reducible refine print_call_host_frame _ _ ?_ _ _ _ _); first | rfl | assumption)
    | ((with_reducible refine print_call_gpu_frame _ _ ?_ _ _ _ _ _); first | rfl | assumption)
    | ((with_reducible refine set_functions_frame _ _ _ _ _ ?_); first | rfl | assumption)
    | ((with_reducible refine emit_struct_meta_base_frame _ _ ?_ _ _ _); first | rfl | assumption)
    | ((with_reducible refine emit_struct_meta_object_frame _ _ ?_ _); first | rfl | assumption)
    | ((with_reducible refine emit_struct_meta_frame _ _ ?_ _); first | rfl | assumption)
    | ((with_reducible refine linearize_loop_frame _ _ _ _ _ _ ?_); first | rfl | assumption)
    | (with_reducible refine framed_bind_state _ _ _ ?_ (fun _ _ => ?_))
    | (with_reducible refine framedV_bind_state _ _ _ ?_ (fun _ _ => ?_))
    | (with_reducible refine framed_bind_pair _ _ _ ?_ (fun _ _ _ => ?_))
    | (with_reducible refine framedV_bind_pair _ _ _ ?_ (fun _ _ _ => ?_))
    | (with_reducible apply framed_bind; intro _)
    | (with_reducible apply framedV_bind; intro _)
    | (with_reducible apply framed_ite)
    | (with_reducible apply framedV_ite)
    | (apply framed_pure; first | rfl | assumption)
    | (apply framedV_pure; first | rfl | assumption)
    | (dsimp only)
    | split

theorem visit_GlobalStoreStmt_frame (cg base : CodeGen) (h : cg.bookkeeping = base.bookkeeping) (mask : Option StmtRef) (rt : VectorType) (ptr data : StmtRef) :
    Framed (cg.visit_GlobalStoreStmt mask rt ptr data) base := by
  unfold CodeGen.visit_GlobalStoreStmt
  repeat' first
    | exact framed_error _ _
    | exact framedV_error _ _
    | ((with_reducible refine emit_source_frame _ _ ?_); first | rfl | assumption)
    | ((with_reducible refine create_call_frame _ _ ?_ _ _); first | rfl | assumption)
    | ((with_reducible refine get_root_frame _ _ ?_); first | rfl | assumption)
    | ((with_reducible refine get_runtime_frame _ _ ?_); first | rfl | assumption)
    | ((with_reducible refine RuntimeObject_call_frame _ _ ?_ _ _ _); first | rfl | assumption)
    | ((with_reducible refine print_call_host_frame _ _ ?_ _ _ _ _); first | rfl | assumption)
    | ((with_reducible refine print_call_gpu_frame _ _ ?_ _ _ _ _ _); first | rfl | assumption)
    | ((with_reducible refine set_functions_frame _ _ _ _ _ ?_); first | rfl | assumption)
    | ((with_reducible refine emit_struct_meta_base_frame _ _ ?_ _ _ _); first | rfl | assumption)
    | ((with_reducible refine emit_struct_meta_object_frame _ _ ?_ _); first | rfl | assumption)
    | ((with_reducible refine emit_struct_meta_frame _ _ ?_ _); first | rfl | assumption)
    | ((with_reducible refine linearize_loop_frame _ _ _ _ _ _ ?_); first | rfl | assumption)
    | (with_reducible refine framed_bind_state _ _ _ ?_ (fun _ _ => ?_))
    | (with_reducible refine framedV_bind_state _ _ _ ?_ (fun _ _ => ?_))
    | (with_reducible refine framed_bind_pair _ _ _ ?_ (fun _ _ _ => ?_))
    | (with_reducible refine framedV_bind_pair _ _ _ ?_ (fun _ _ _ => ?_))
    | (with_reducible apply framed_bind; intro _)
    | (with_reducible apply framedV_bind; intro _)
    | (with_reducible apply framed_ite)
    | (with_reducible apply framedV_ite)
    | (apply framed_pure; first | rfl | assumption)
    | (apply framedV_pure; first | rfl | assumption)
    | (dsimp only)
    | split

theorem visit_GlobalLoadStmt_frame (cg base : CodeGen) (h : cg.bookkeeping = base.bookkeeping) (id : Nat) (rt : VectorType) (ptr : StmtRef) :
    Framed (cg.visit_GlobalLoadStmt id rt ptr) base := by
  unfold CodeGen.visit_GlobalLoadStmt
  repeat' first
    | exact framed_error _ _
    | exact framedV_error _ _
    | ((with_reducible refine emit_source_frame _ _ ?_); first | rfl | assumption)
    | ((with_reducible refine create_call_frame _ _ ?_ _ _); first | rfl | assumption)
    | ((with_reducible refine get_root_frame _ _ ?_); first | rfl | assumption)
    | ((with_reducible refine get_runtime_frame _ _ ?_); first | rfl | assumption)
    | ((with_reducible refine RuntimeObject_call_frame _ _ ?_ _ _ _); first | rfl | assumption)
    | ((with_reducible refine print_call_host_frame _ _ ?_ _ _ _ _); first | rfl | assumption)
    | ((with_reducible refine print_call_gpu_frame _ _ ?_ _ _ _ _ _); first | rfl | assumption)
    | ((with_reducible refine set_functions_frame _ _ _ _ _ ?_); first | rfl | assumption)
    | ((with_reducible refine emit_struct_meta_base_frame _ _ ?_ _ _ _); first | rfl | assumption)
    | ((with_reducible refine emit_struct_meta_object_frame _ _ ?_ _); first | rfl | assumption)
    | ((with_reducible refine emit_struct_meta_frame _ _ ?_ _); first | rfl | assumption)
    | ((with_reducible refine linearize_loop_frame _ _ _ _ _ _ ?_); first | rfl | assumption)
    | (with_reducible refine framed_bind_state _ _ _ ?_ (fun _ _ => ?_))
    | (with_reducible refine framedV_bind_state _ _ _ ?_ (fun _ _ => ?_))
    | (with_reducible refine framed_bind_pair _ _ _ ?_ (fun _ _ _ => ?_))
    | (with_reducible refine framedV_bind_pair _ _ _ ?_ (fun _ _ _ => ?_))
    | (with_reducible apply framed_bind; intro _)
    | (with_reducible apply framedV_bind; intro _)
    | (with_reducible apply framed_ite)
    | (with_reducible apply framedV_ite)
    | (apply framed_pure; first | rfl | assumption)
    | (apply framedV_pure; first | rfl | assumption)
    | (dsimp only)
    | split

theorem visit_OffsetAndExtractBitsStmt_frame (cg base : CodeGen) (h : cg.bookkeeping = base.bookkeeping) (id : Nat) (input : StmtRef) (offset bit_begin bit_end : Int) :
    Framed (cg.visit_OffsetAndExtractBitsStmt id input offset bit_begin bit_end) base := by
  unfold CodeGen.visit_OffsetAndExtractBitsStmt UNDEFINED
  repeat' first
    | exact framed_error _ _
    | exact framedV_error _ _
    | ((with_reducible refine emit_source_frame _ _ ?_); first | rfl | assumption)
    | ((with_reducible refine create_call_frame _ _ ?_ _ _); first | rfl | assumption)
    | ((with_reducible refine get_root_frame _ _ ?_); first | rfl | assumption)
    | ((with_reducible refine get_runtime_frame _ _ ?_); first | rfl | assumption)
    | ((with_reducible refine RuntimeObject_call_frame _ _ ?_ _ _ _); first | rfl | assumption)
    | ((with_reducible refine print_call_host_frame _ _ ?_ _ _ _ _); first | rfl | assumption)
    | ((with_reducible refine print_call_gpu_frame _ _ ?_ _ _ _ _ _); first | rfl | assumption)
    | ((with_reducible refine set_functions_frame _ _ _ _ _ ?_); first | rfl | assumption)
    | ((with_reducible refine emit_struct_meta_base_frame _ _ ?_ _ _ _); first | rfl | assumption)
    | ((with_reducible refine emit_struct_meta_object_frame _ _ ?_ _); first | rfl | assumption)
    | ((with_reducible refine emit_struct_meta_frame _ _ ?_ _); first | rfl | assumption)
    | ((with_reducible refine linearize_loop_frame _ _ _ _ _ _ ?_); first | rfl | assumption)
    | (with_reducible refine framed_bind_state _ _ _ ?_ (fun _ _ => ?_))
    | (with_reducible refine framedV_bind_state _ _ _ ?_ (fun _ _ => ?_))
    | (with_reducible refine framed_bind_pair _ _ _ ?_ (fun _ _ _ => ?_))
    | (with_reducible refine framedV_bind_pair _ _ _ ?_ (fun _ _ _ => ?_))
    | (with_reducible apply framed_bind; intro _)
    | (with_reducible apply framedV_bind; intro _)
    | (with_reducible apply framed_ite)
    | (with_reducible apply framedV_ite)
    | (apply framed_pure; first | rfl | assumption)
    | (apply framedV_pure; first | rfl | assumption)
    | (dsimp only)
    | split

theorem visit_LinearizeStmt_frame (cg base : CodeGen) (h : cg.bookkeeping = base.bookkeeping) (id : Nat) (inputs : List StmtRef) (strides : List Int) :
    Framed (cg.visit_LinearizeStmt id inputs strides) base := by
  unfold CodeGen.visit_LinearizeStmt
  repeat' first
    | exact framed_error _ _
    | exact framedV_error _ _
    | ((with_reducible refine emit_source_frame _ _ ?_); first | rfl | assumption)
    | ((with_reducible refine create_call_frame _ _ ?_ _ _); first | rfl | assumption)
    | ((with_reducible refine get_root_frame _ _ ?_); first | rfl | assumption)
    | ((with_reducible refine get_runtime_frame _ _ ?_); first | rfl | assumption)
    | ((with_reducible refine RuntimeObject_call_frame _ _ ?_ _ _ _); first | rfl | assumption)
    | ((with_reducible refine print_call_host_frame _ _ ?_ _ _ _ _); first | rfl | assumption)
    | ((with_reducible refine print_call_gpu_frame _ _ ?_ _ _ _ _ _); first | rfl | assumption)
    | ((with_reducible refine set_functions_frame _ _ _ _ _ ?_); first | rfl | assumption)
    | ((with_reducible refine emit_struct_meta_base_frame _ _ ?_ _ _ _); first | rfl | assumption)
    | ((with_reducible refine emit_struct_meta_object_frame _ _ ?_ _); first | rfl | assumption)
    | ((with_reducible refine emit_struct_meta_frame _ _ ?_ _); first | rfl | assumption)
    | ((with_reducible refine linearize_loop_frame _ _ _ _ _ _ ?_); first | rfl | assumption)
    | (with_reducible refine framed_bind_state _ _ _ ?_ (fun _ _ => ?_))
    | (with_reducible refine framedV_bind_state _ _ _ ?_ (fun _ _ => ?_))
    | (with_reducible refine framed_bind_pair _ _ _ ?_ (fun _ _ _ => ?_))
    | (with_reducible refine framedV_bind_pair _ _ _ ?_ (fun _ _ _ => ?_))
    | (with_reducible apply framed_bind; intro _)
    | (with_reducible apply framedV_bind; intro _)
    | (with_reducible apply framed_ite)
    | (with_reducible apply framedV_ite)
    | (apply framed_pure; first | rfl | assumption)
    | (apply framedV_pure; first | rfl | assumption)
    | (dsimp only)
    | split

theorem visit_IntegerOffsetStmt_frame (cg base : CodeGen) (_h : cg.bookkeeping = base.bookkeeping) :
    Framed (cg.visit_IntegerOffsetStmt) base := by
  unfold CodeGen.visit_IntegerOffsetStmt TC_NOT_IMPLEMENTED
  repeat' first
    | exact framed_error _ _
    | exact framedV_error _ _
    | ((with_reducible refine emit_source_frame _ _ ?_); first | rfl | assumption)
    | ((with_reducible refine create_call_frame _ _ ?_ _ _); first | rfl | assumption)
    | ((with_reducible refine get_root_frame _ _ ?_); first | rfl | assumption)
    | ((with_reducible refine get_runtime_frame _ _ ?_); first | rfl | assumption)
    | ((with_reducible refine RuntimeObject_call_frame _ _ ?_ _ _ _); first | rfl | assumption)
    | ((with_reducible refine print_call_host_frame _ _ ?_ _ _ _ _); first | rfl | assumption)
    | ((with_reducible refine print_call_gpu_frame _ _ ?_ _ _ _ _ _); first | rfl | assumption)
    | ((with_reducible refine set_functions_frame _ _ _ _ _ ?_); first | rfl | assumption)
    | ((with_reducible refine emit_struct_meta_base_frame _ _ ?_ _ _ _); first | rfl | assumption)
    | ((with_reducible refine emit_struct_meta_object_frame _ _ ?_ _); first | rfl | assumption)
    | ((with_reducible refine emit_struct_meta_frame _ _ ?_ _); first | rfl | assumption)
    | ((with_reducible refine linearize_loop_frame _ _ _ _ _ _ ?_); first | rfl | assumption)
    | (with_reducible refine framed_bind_state _ _ _ ?_ (fun _ _ => ?_))
    | (with_reducible refine framedV_bind_state _ _ _ ?_ (fun _ _ => ?_))
    | (with_reducible refine framed_bind_pair _ _ _ ?_ (fun _ _ _ => ?_))
    | (with_reducible refine framedV_bind_pair _ _ _ ?_ (fun _ _ _ => ?_))
    | (with_reducible apply framed_bind; intro _)
    | (with_reducible apply framedV_bind; intro _)
    | (with_reducible apply framed_ite)
    | (with_reducible apply framedV_ite)
    | (apply framed_pure; first | rfl | assumption)
    | (apply framedV_pure; first | rfl | assumption)
    | (dsimp only)
    | split

set_option maxHeartbeats 2000000 in
theorem visit_SNodeLookupStmt_frame (cg base : CodeGen) (h : cg.bookkeeping = base.bookkeeping) (id : Nat) (input_snode : Option StmtRef) (snode : SNode) (input_index : StmtRef) (activate : Bool) :
    Framed (cg.visit_SNodeLookupStmt id input_snode snode input_index activate) base := by
  unfold CodeGen.visit_SNodeLookupStmt UNDEFINED
  repeat' first
    | exact framed_error _ _
    | exact framedV_error _ _
    | ((with_reducible refine emit_source_frame _ _ ?_); first | rfl | assumption)
    | ((with_reducible refine create_call_frame _ _ ?_ _ _); first | rfl | assumption)
    | ((with_reducible refine get_root_frame _ _ ?_); first | rfl | assumption)
    | ((with_reducible refine get_runtime_frame _ _ ?_); first | rfl | assumption)
    | ((with_reducible refine RuntimeObject_call_frame _ _ ?_ _ _ _); first | rfl | assumption)
    | ((with_reducible refine print_call_host_frame _ _ ?_ _ _ _ _); first | rfl | assumption)
    | ((with_reducible refine print_call_gpu_frame _ _ ?_ _ _ _ _ _); first | rfl | assumption)
    | ((with_reducible refine set_functions_frame _ _ _ _ _ ?_); first | rfl | assumption)
    | ((with_reducible refine emit_struct_meta_base_frame _ _ ?_ _ _ _); first | rfl | assumption)
    | ((with_reducible refine emit_struct_meta_object_frame _ _ ?_ _); first | rfl | assumption)
    | ((with_reducible refine emit_struct_meta_frame _ _ ?_ _); first | rfl | assumption)
    | ((with_reducible refine linearize_loop_frame _ _ _ _ _ _ ?_); first | rfl | assumption)
    | (with_reducible refine framed_bind_state _ _ _ ?_ (fun _ _ => ?_))
    | (with_reducible refine framedV_bind_state _ _ _ ?_ (fun _ _ => ?_))
    | (with_reducible refine framed_bind_pair _ _ _ ?_ (fun _ _ _ => ?_))
    | (with_reducible refine framedV_bind_pair _ _ _ ?_ (fun _ _ _ => ?_))
    | (with_reducible apply framed_bind; intro _)
    | (with_reducible apply framedV_bind; intro _)
    | (with_reducible apply framed_ite)
    | (with_reducible apply framedV_ite)
    | (apply framed_pure; first | rfl | assumption)
    | (apply framedV_pure; first | rfl | assumption)
    | (dsimp only)
    | split

theorem visit_GetChStmt_frame (cg base : CodeGen) (h : cg.bookkeeping = base.bookkeeping) (id : Nat) (input_ptr : StmtRef) (chid : Int) :
    Framed (cg.visit_GetChStmt id input_ptr chid) base := by
  unfold CodeGen.visit_GetChStmt
  repeat' first
    | exact framed_error _ _
    | exact framedV_error _ _
    | ((with_reducible refine emit_source_frame _ _ ?_); first | rfl | assumption)
    | ((with_reducible refine create_call_frame _ _ ?_ _ _); first | rfl | assumption)
    | ((with_reducible refine get_root_frame _ _ ?_); first | rfl | assumption)
    | ((with_reducible refine get_runtime_frame _ _ ?_); first | rfl | assumption)
    | ((with_reducible refine RuntimeObject_call_frame _ _ ?_ _ _ _); first | rfl | assumption)
    | ((with_reducible refine print_call_host_frame _ _ ?_ _ _ _ _); first | rfl | assumption)
    | ((with_reducible refine print_call_gpu_frame _ _ ?_ _ _ _ _ _); first | rfl | assumption)
    | ((with_reducible refine set_functions_frame _ _ _ _ _ ?_); first | rfl | assumption)
    | ((with_reducible refine emit_struct_meta_base_frame _ _ ?_ _ _ _); first | rfl | assumption)
    | ((with_reducible refine emit_struct_meta_object_frame _ _ ?_ _); first | rfl | assumption)
    | ((with_reducible refine emit_struct_meta_frame _ _ ?_ _); first | rfl | assumption)
    | ((with_reducible refine linearize_loop_frame _ _ _ _ _ _ ?_); first | rfl | assumption)
    | (with_reducible refine framed_bind_state _ _ _ ?_ (fun _ _ => ?_))
    | (with_reducible refine framedV_bind_state _ _ _ ?_ (fun _ _ => ?_))
    | (with_reducible refine framed_bind_pair _ _ _ ?_ (fun _ _ _ => ?_))
    | (with_reducible refine framedV_bind_pair _ _ _ ?_ (fun _ _ _ => ?_))
    | (with_reducible apply framed_bind; intro _)
    | (with_reducible apply framedV_bind; intro _)
    | (with_reducible apply framed_ite)
    | (with_reducible apply framedV_ite)
    | (apply framed_pure; first | rfl | assumption)
    | (apply framedV_pure; first | rfl | assumption)
    | (dsimp only)
    | split

theorem visit_ExternalPtrStmt_frame (cg base : CodeGen) (h : cg.bookkeeping = base.bookkeeping) (id : Nat) (rt : VectorType) (base_ptrs indices : List StmtRef) :
    Framed (cg.visit_ExternalPtrStmt id rt base_ptrs indices) base := by
  unfold CodeGen.visit_ExternalPtrStmt UNDEFINED
  repeat' first
    | exact framed_error _ _
    | exact framedV_error _ _
    | ((with_reducible refine emit_source_frame _ _ ?_); first | rfl | assumption)
    | ((with_reducible refine create_call_frame _ _ ?_ _ _); first | rfl | assumption)
    | ((with_reducible refine get_root_frame _ _ ?_); first | rfl | assumption)
    | ((with_reducible refine get_runtime_frame _ _ ?_); first | rfl | assumption)
    | ((with_reducible refine RuntimeObject_call_frame _ _ ?_ _ _ _); first | rfl | assumption)
    | ((with_reducible refine print_call_host_frame _ _ ?_ _ _ _ _); first | rfl | assumption)
    | ((with_reducible refine print_call_gpu_frame _ _ ?_ _ _ _ _ _); first | rfl | assumption)
    | ((with_reducible refine set_functions_frame _ _ _ _ _ ?_); first | rfl | assumption)
    | ((with_reducible refine emit_struct_meta_base_frame _ _ ?_ _ _ _); first | rfl | assumption)
    | ((with_reducible refine emit_struct_meta_object_frame _ _ ?_ _); first | rfl | assumption)
    | ((with_reducible refine emit_struct_meta_frame _ _ ?_ _); first | rfl | assumption)
    | ((with_reducible refine linearize_loop_frame _ _ _ _ _ _ ?_); first | rfl | assumption)
    | (with_reducible refine framed_bind_state _ _ _ ?_ (fun _ _ => ?_))
    | (with_reducible refine framedV_bind_state _ _ _ ?_ (fun _ _ => ?_))
    | (with_reducible refine framed_bind_pair _ _ _ ?_ (fun _ _ _ => ?_))
    | (with_reducible refine framedV_bind_pair _ _ _ ?_ (fun _ _ _ => ?_))
    | (with_reducible apply framed_bind; intro _)
    | (with_reducible apply framedV_bind; intro _)
    | (with_reducible apply framed_ite)
    | (with_reducible apply framedV_ite)
    | (apply framed_pure; first | rfl | assumption)
    | (apply framedV_pure; first | rfl | assumption)
    | (dsimp only)
    | split

theorem visit_LoopIndexStmt_frame (cg base : CodeGen) (h : cg.bookkeeping = base.bookkeeping) (id : Nat) (is_struct_for : Bool) (index : Nat) :
    Framed (cg.visit_LoopIndexStmt id is_struct_for index) base := by
  unfold CodeGen.visit_LoopIndexStmt UNDEFINED
  repeat' first
    | exact framed_error _ _
    | exact framedV_error _ _
    | ((with_reducible refine emit_source_frame _ _ ?_); first | rfl | assumption)
    | ((with_reducible refine create_call_frame _ _ ?_ _ _); first | rfl | assumption)
    | ((with_reducible refine get_root_frame _ _ ?_); first | rfl | assumption)
    | ((with_reducible refine get_runtime_frame _ _ ?_); first | rfl | assumption)
    | ((with_reducible refine RuntimeObject_call_frame _ _ ?_ _ _ _); first | rfl | assumption)
    | ((with_reducible refine print_call_host_frame _ _ ?_ _ _ _ _); first | rfl | assumption)
    | ((with_reducible refine print_call_gpu_frame _ _ ?_ _ _ _ _ _); first | rfl | assumption)
    | ((with_reducible refine set_functions_frame _ _ _ _ _ ?_); first | rfl | assumption)
    | ((with_reducible refine emit_struct_meta_base_frame _ _ ?_ _ _ _); first | rfl | assumption)
    | ((with_reducible refine emit_struct_meta_object_frame _ _ ?_ _); first | rfl | assumption)
    | ((with_reducible refine emit_struct_meta_frame _ _ ?_ _); first | rfl | assumption)
    | ((with_reducible refine linearize_loop_frame _ _ _ _ _ _ ?_); first | rfl | assumption)
    | (with_reducible refine framed_bind_state _ _ _ ?_ (fun _ _ => ?_))
    | (with_reducible refine framedV_bind_state _ _ _ ?_ (fun _ _ => ?_))
    | (with_reducible refine framed_bind_pair _ _ _ ?_ (fun _ _ _ => ?_))
    | (with_reducible refine framedV_bind_pair _ _ _ ?_ (fun _ _ _ => ?_))
    | (with_reducible apply framed_bind; intro _)
    | (with_reducible apply framedV_bind; intro _)
    | (with_reducible apply framed_ite)
    | (with_reducible apply framedV_ite)
    | (apply framed_pure; first | rfl | assumption)
    | (apply framedV_pure; first | rfl | assumption)
    | (dsimp only)
    | split

theorem emit_list_gen_frame (cg base : CodeGen) (h : cg.bookkeeping = base.bookkeeping) (snode : Option SNode) :
    Framed (cg.emit_list_gen snode) base := by
  unfold CodeGen.emit_list_gen
  repeat' first
    | exact framed_error _ _
    | exact framedV_error _ _
    | ((with_reducible refine emit_source_frame _ _ ?_); first | rfl | assumption)
    | ((with_reducible refine create_call_frame _ _ ?_ _ _); first | rfl | assumption)
    | ((with_reducible refine get_root_frame _ _ ?_); first | rfl | assumption)
    | ((with_reducible refine get_runtime_frame _ _ ?_); first | rfl | assumption)
    | ((with_reducible refine RuntimeObject_call_frame _ _ ?_ _ _ _); first | rfl | assumption)
    | ((with_reducible refine print_call_host_frame _ _ ?_ _ _ _ _); first | rfl | assumption)
    | ((with_reducible refine print_call_gpu_frame _ _ ?_ _ _ _ _ _); first | rfl | assumption)
    | ((with_reducible refine set_functions_frame _ _ _ _ _ ?_); first | rfl | assumption)
    | ((with_reducible refine emit_struct_meta_base_frame _ _ ?_ _ _ _); first | rfl | assumption)
    | ((with_reducible refine emit_struct_meta_object_frame _ _ ?_ _); first | rfl | assumption)
    | ((with_reducible refine emit_struct_meta_frame _ _ ?_ _); first | rfl | assumption)
    | ((with_reducible refine linearize_loop_frame _ _ _ _ _ _ ?_); first | rfl | assumption)
    | (with_reducible refine framed_bind_state _ _ _ ?_ (fun _ _ => ?_))
    | (with_reducible refine framedV_bind_state _ _ _ ?_ (fun _ _ => ?_))
    | (with_reducible refine framed_bind_pair _ _ _ ?_ (fun _ _ _ => ?_))
    | (with_reducible refine framedV_bind_pair _ _ _ ?_ (fun _ _ _ => ?_))
    | (with_reducible apply framed_bind; intro _)
    | (with_reducible apply framedV_bind; intro _)
    | (with_reducible apply framed_ite)
    | (with_reducible apply framedV_ite)
    | (apply framed_pure; first | rfl | assumption)
    | (apply framedV_pure; first | rfl | assumption)
    | (dsimp only)
    | split

theorem visit_AtomicOpStmt_frame (cg base : CodeGen)
    (h : cg.bookkeeping = base.bookkeeping) (mask : Option StmtRef) (rt : VectorType)
    (op : AtomicOpType) (dest val : StmtRef) :
    Framed (cg.visit_AtomicOpStmt mask rt op dest val) base := by
  unfold CodeGen.visit_AtomicOpStmt
  split
  · exact for_lanes_frame _ (fun c b hc => atomic_lane_gpu_frame c b hc _ _ _ _) _ _ _ h
  · exact for_lanes_frame _ (fun c b hc => atomic_lane_host_frame c b hc _ _ _ _) _ _ _ h
theorem bind_eq_ok {α β : Type} (x : Except Err α) (f : α → Except Err β) (b : β)
    (h : (x >>= f) = .ok b) : ∃ a, x = .ok a ∧ f a = .ok b := by
  cases x with
  | error e => cases h
  | ok a => exact ⟨a, rfl, h⟩

@[simp] theorem bookkeeping_BasicBlock_Create (cg : CodeGen) (name : String) :
    (cg.BasicBlock_Create name).2.bookkeeping = cg.bookkeeping := rfl

@[simp] theorem bookkeeping_SetInsertPoint (cg : CodeGen) (bb : Nat) :
    (cg.SetInsertPoint bb).bookkeeping = cg.bookkeeping := rfl

@[simp] theorem bookkeeping_CreateBr (cg : CodeGen) (bb : Nat) :
    (cg.CreateBr bb).bookkeeping = cg.bookkeeping := rfl

@[simp] theorem bookkeeping_CreateCondBr (cg : CodeGen) (c : Value) (t f : Nat) :
    (cg.CreateCondBr c t f).bookkeeping = cg.bookkeeping := rfl

@[simp] theorem bookkeeping_CreateRetVoid (cg : CodeGen) :
    cg.CreateRetVoid.bookkeeping = cg.bookkeeping := rfl

@[simp] theorem bookkeeping_CreateStore (cg : CodeGen) (v p : Value) :
    (cg.CreateStore v p).bookkeeping = cg.bookkeeping := rfl

@[simp] theorem bookkeeping_CreateLoad (cg : CodeGen) (p : Value) :
    (cg.CreateLoad p).2.bookkeeping = cg.bookkeeping := rfl

@[simp] theorem bookkeeping_CreateICmp (cg : CodeGen) (p : ICmpPred) (a b : Value) :
    (cg.CreateICmp p a b).2.bookkeeping = cg.bookkeeping := rfl

@[simp] theorem bookkeeping_CreateSub (cg : CodeGen) (a b : Value) :
    (cg.CreateSub a b).2.bookkeeping = cg.bookkeeping := rfl

@[simp] theorem bookkeeping_CreateAdd (cg : CodeGen) (a b : Value) :
    (cg.CreateAdd a b).2.bookkeeping = cg.bookkeeping := rfl

@[simp] theorem bookkeeping_CreateMul (cg : CodeGen) (a b : Value) :
    (cg.CreateMul a b).2.bookkeeping = cg.bookkeeping := rfl

@[simp] theorem bookkeeping_CreateIntrinsic (cg : CodeGen) (n : String) (a : List Value) :
    (cg.CreateIntrinsic n a).2.bookkeeping = cg.bookkeeping := rfl

@[simp] theorem bookkeeping_CreateCall (cg : CodeGen) (f : Value) (a : List Value) :
    (cg.CreateCall f a).2.bookkeeping = cg.bookkeeping := rfl

@[simp] theorem bookkeeping_create_increment (cg : CodeGen) (p v : Value) :
    (cg.create_increment p v).bookkeeping = cg.bookkeeping := rfl

@[simp] theorem bookkeeping_create_entry_block_alloca (cg : CodeGen) (ty : LType) :
    (cg.create_entry_block_alloca ty).2.bookkeeping = cg.bookkeeping := rfl

@[simp] theorem bookkeeping_RuntimeObject_wrap (cg : CodeGen) (n : String) (v : Value) :
    (cg.RuntimeObject_wrap n v).2.bookkeeping = cg.bookkeeping := rfl

@[simp] theorem bookkeeping_RuntimeObject_get_ptr (cg : CodeGen) (o : RuntimeObject)
    (f : String) : (cg.RuntimeObject_get_ptr o f).2.bookkeeping = cg.bookkeeping := rfl

theorem visit_IfStmt_frame (cg base : CodeGen) (h : cg.bookkeeping = base.bookkeeping)
    (cond : StmtRef) (accept_true accept_false : CodeGen → Except Err CodeGen)
    (ht : ∀ c, c.bookkeeping = base.bookkeeping → Framed (accept_true c) base)
    (hf : ∀ c, c.bookkeeping = base.bookkeeping → Framed (accept_false c) base) :
    Framed (cg.visit_IfStmt cond accept_true accept_false) base := by
  unfold CodeGen.visit_IfStmt
  dsimp only
  refine framed_bind_state _ _ _ (ht _ ?_) (fun c hc => ?_)
  · simpa using h
  · refine framed_bind_state _ _ _ (hf _ ?_) (fun c2 hc2 => ?_)
    · simpa using hc
    · apply framed_pure
      simpa using hc2

theorem while_restore (c2 c X cg base : CodeGen) (w : Option Nat)
    (hc2 : c2.bookkeeping = c.bookkeeping)
    (hb : c.bookkeeping = ({ X with while_after_loop := w } : CodeGen).bookkeeping)
    (hX : X.bookkeeping = cg.bookkeeping) (h : cg.bookkeeping = base.bookkeeping) :
    ({ c2 with while_after_loop := cg.while_after_loop } : CodeGen).bookkeeping
      = base.bookkeeping := by
  show ({ c2.bookkeeping with while_after_loop := cg.while_after_loop } : CodeGen) = _
  rw [hc2, hb]
  show ({ X.bookkeeping with while_after_loop := cg.while_after_loop } : CodeGen) = _
  rw [hX, ← h]
  rfl

theorem visit_WhileStmt_frame (cg base : CodeGen) (h : cg.bookkeeping = base.bookkeeping)
    (accept_body : CodeGen → Except Err CodeGen)
    (hbody : ∀ c b, c.bookkeeping = b.bookkeeping → Framed (accept_body c) b) :
    Framed (cg.visit_WhileStmt accept_body) base := by
  unfold CodeGen.visit_WhileStmt
  dsimp only
  intro cg3 h3
  obtain ⟨c, hc, hfin⟩ := bind_eq_ok _ _ _ h3
  have hb := hbody _ _ rfl c hc
  have hfin2 : ∀ x : CodeGen, (pure x : Except Err CodeGen) = .ok cg3 → x = cg3 :=
    fun x hx => by injection hx
  rw [← hfin2 _ hfin]
  refine while_restore _ c _ cg base _ ?_ hb ?_ h
  · simp
  · simp

theorem bookkeeping_range_for_enter (cg : CodeGen) (loop_var begin_ end_ : Value)
    (reversed : Bool) :
    (cg.range_for_enter loop_var begin_ end_ reversed).2.bookkeeping = cg.bookkeeping := by
  cases reversed <;> rfl

theorem bookkeeping_range_for_leave (cg : CodeGen) (loop_var begin_ end_ : Value)
    (body after_loop : Nat) (reversed : Bool) :
    (cg.range_for_leave loop_var begin_ end_ body after_loop reversed).bookkeeping
      = cg.bookkeeping := by
  cases reversed <;> rfl

theorem create_naive_range_for_frame (cg base : CodeGen)
    (h : cg.bookkeeping = base.bookkeeping) (loop_var begin_ end_ : StmtRef)
    (reversed : Bool) (accept_body : CodeGen → Except Err CodeGen)
    (hbody : ∀ c, c.bookkeeping = base.bookkeeping → Framed (accept_body c) base) :
    Framed (cg.create_naive_range_for loop_var begin_ end_ reversed accept_body) base := by
  unfold CodeGen.create_naive_range_for
  refine framed_bind_state _ _ _ (hbody _ ?_) (fun c hc => ?_)
  · rw [bookkeeping_range_for_enter]; exact h
  · apply framed_pure
    rw [bookkeeping_range_for_leave]; exact hc

theorem offload_free_if_true (id : Nat) (cond : StmtRef) (b : Block) (f : Option Block)
    (h : (Stmt.IfStmt id cond (some b) f).offload_free = true) : b.offload_free = true := by
  unfold Stmt.offload_free at h
  simp only [Bool.and_eq_true] at h
  exact h.1

theorem offload_free_if_false (id : Nat) (cond : StmtRef) (t : Option Block) (b : Block)
    (h : (Stmt.IfStmt id cond t (some b)).offload_free = true) : b.offload_free = true := by
  unfold Stmt.offload_free at h
  simp only [Bool.and_eq_true] at h
  exact h.2

theorem offload_free_while (id : Nat) (b : Block)
    (h : (Stmt.WhileStmt id b).offload_free = true) : b.offload_free = true := by
  unfold Stmt.offload_free at h
  exact h

theorem offload_free_range_for (id : Nat) (lv b e : StmtRef) (rev : Bool) (body : Block)
    (h : (Stmt.RangeForStmt id lv b e rev body).offload_free = true) :
    body.offload_free = true := by
  unfold Stmt.offload_free at h
  exact h

theorem offload_free_block (mask : Option StmtRef) (ss : List Stmt)
    (h : (Block.mk mask ss).offload_free = true) : stmts_offload_free ss = true := by
  rw [Block.offload_free] at h
  exact h

theorem offload_free_cons (s : Stmt) (ss : List Stmt)
    (h : stmts_offload_free (s :: ss) = true) :
    s.offload_free = true ∧ stmts_offload_free ss = true := by
  rw [stmts_offload_free] at h
  simpa only [Bool.and_eq_true] using h

theorem not_offload_free_offloaded (id : Nat) (tt : TaskType) (body : Block) (b e : Int)
    (rev : Bool) (bs : Int) (sn : Option SNode)
    (h : (Stmt.OffloadedStmt id tt body b e rev bs sn).offload_free = true) : False := by
  unfold Stmt.offload_free at h
  exact Bool.false_ne_true h

mutual

theorem visit_frame : ∀ (s : Stmt) (mask : Option StmtRef) (cg base : CodeGen),
    s.offload_free = true → cg.bookkeeping = base.bookkeeping →
    Framed (visit s mask cg) base
  | .AllocaStmt id rt, _, cg, base, _, h => by
    rw [visit]; exact visit_AllocaStmt_frame cg base h id rt
  | .RandStmt _ rt, _, cg, base, _, h => by
    rw [visit]; exact visit_RandStmt_frame cg base h rt
  | .UnaryOpStmt id rt op operand cbv ct, _, cg, base, _, h => by
    rw [visit]; exact visit_UnaryOpStmt_frame cg base h id rt op operand cbv ct
  | .BinaryOpStmt id rt op lhs rhs, _, cg, base, _, h => by
    rw [visit]; exact visit_BinaryOpStmt_frame cg base h id rt op lhs rhs
  | .TernaryOpStmt id op a b c, _, cg, base, _, h => by
    rw [visit]; exact visit_TernaryOpStmt_frame cg base h id op a b c
  | .IfStmt id cond none none, _, cg, base, _, h => by
    rw [visit]
    exact visit_IfStmt_frame cg base h cond _ _ (fun c hc => framed_pure _ _ hc)
      (fun c hc => framed_pure _ _ hc)
  | .IfStmt id cond (some tb) none, _, cg, base, hf, h => by
    rw [visit]
    exact visit_IfStmt_frame cg base h cond _ _
      (fun c hc => visitBlock_frame tb c base (offload_free_if_true id cond tb none hf) hc)
      (fun c hc => framed_pure _ _ hc)
  | .IfStmt id cond none (some fb), _, cg, base, hf, h => by
    rw [visit]
    exact visit_IfStmt_frame cg base h cond _ _ (fun c hc => framed_pure _ _ hc)
      (fun c hc => visitBlock_frame fb c base (offload_free_if_false id cond none fb hf) hc)
  | .IfStmt id cond (some tb) (some fb), _, cg, base, hf, h => by
    rw [visit]
    exact visit_IfStmt_frame cg base h cond _ _
      (fun c hc => visitBlock_frame tb c base
        (offload_free_if_true id cond tb (some fb) hf) hc)
      (fun c hc => visitBlock_frame fb c base
        (offload_free_if_false id cond (some tb) fb hf) hc)
  | .PrintStmt id rt stmt str, _, cg, base, _, h => by
    rw [visit]; exact visit_PrintStmt_frame cg base h id rt stmt str
  | .ConstStmt id rt val, _, cg, base, _, h => by
    rw [visit]; exact visit_ConstStmt_frame cg base h id rt val
  | .WhileControlStmt _ cond, _, cg, base, _, h => by
    rw [visit]; exact visit_WhileControlStmt_frame cg base h cond
  | .WhileStmt id body, _, cg, base, hf, h => by
    rw [visit]
    exact visit_WhileStmt_frame cg base h _
      (fun c b hc => visitBlock_frame body c b (offload_free_while id body hf) hc)
  | .RangeForStmt id lv b e rev body, _, cg, base, hf, h => by
    rw [visit]
    exact create_naive_range_for_frame cg base h lv b e rev _
      (fun c hc => visitBlock_frame body c base
        (offload_free_range_for id lv b e rev body hf) hc)
  | .ArgLoadStmt id rt arg_id is_ptr, _, cg, base, _, h => by
    rw [visit]; exact visit_ArgLoadStmt_frame cg base h id rt arg_id is_ptr
  | .LocalLoadStmt id rt ptr, _, cg, base, _, h => by
    rw [visit]; exact visit_LocalLoadStmt_frame cg base h id rt ptr
  | .LocalStoreStmt _ rt ptr data, mask, cg, base, _, h => by
    rw [visit]; exact visit_LocalStoreStmt_frame cg base h mask rt ptr data
  | .SNodeOpStmt _ rt op, _, cg, base, _, h => by
    rw [visit]; exact visit_SNodeOpStmt_frame cg base h rt op
  | .AtomicOpStmt _ rt op dest val, mask, cg, base, _, h => by
    rw [visit]; exact visit_AtomicOpStmt_frame cg base h mask rt op dest val
  | .GlobalPtrStmt _, _, cg, base, _, h => by
    rw [visit]; exact visit_GlobalPtrStmt_frame cg base h
  | .GlobalStoreStmt _ rt ptr data, mask, cg, base, _, h => by
    rw [visit]; exact visit_GlobalStoreStmt_frame cg base h mask rt ptr data
  | .GlobalLoadStmt id rt ptr, _, cg, base, _, h => by
    rw [visit]; exact visit_GlobalLoadStmt_frame cg base h id rt ptr
  | .ElementShuffleStmt _, _, cg, base, _, h => by
    rw [visit]; exact emit_source_frame cg base h
  | .AssertStmt _, _, cg, base, _, h => by
    rw [visit]; exact emit_source_frame cg base h
  | .OffsetAndExtractBitsStmt id input offset bb be, _, cg, base, _, h => by
    rw [visit]; exact visit_OffsetAndExtractBitsStmt_frame cg base h id input offset bb be
  | .LinearizeStmt id inputs strides, _, cg, base, _, h => by
    rw [visit]; exact visit_LinearizeStmt_frame cg base h id inputs strides
  | .IntegerOffsetStmt _, _, cg, base, _, h => by
    rw [visit]; exact visit_IntegerOffsetStmt_frame cg base h
  | .SNodeLookupStmt id input_snode snode input_index activate, _, cg, base, _, h => by
    rw [visit]
    exact visit_SNodeLookupStmt_frame cg base h id input_snode snode input_index activate
  | .GetChStmt id input_ptr chid, _, cg, base, _, h => by
    rw [visit]; exact visit_GetChStmt_frame cg base h id input_ptr chid
  | .ExternalPtrStmt id rt base_ptrs indices, _, cg, base, _, h => by
    rw [visit]; exact visit_ExternalPtrStmt_frame cg base h id rt base_ptrs indices
  | .LoopIndexStmt id is_struct_for index, _, cg, base, _, h => by
    rw [visit]; exact visit_LoopIndexStmt_frame cg base h id is_struct_for index
  | .OffloadedStmt id tt body b e rev bs sn, _, _, _, hf, _ =>
    (not_offload_free_offloaded id tt body b e rev bs sn hf).elim

theorem visitBlock_frame : ∀ (b : Block) (cg base : CodeGen),
    b.offload_free = true → cg.bookkeeping = base.bookkeeping →
    Framed (visitBlock b cg) base
  | .mk mask statements, cg, base, hf, h => by
    rw [visitBlock]
    exact visitStmts_frame statements mask cg base (offload_free_block mask statements hf) h

theorem visitStmts_frame : ∀ (ss : List Stmt) (mask : Option StmtRef) (cg base : CodeGen),
    stmts_offload_free ss = true → cg.bookkeeping = base.bookkeeping →
    Framed (visitStmts ss mask cg) base
  | [], _, cg, base, _, h => by
    rw [visitStmts]; exact framed_pure _ _ h
  | s :: rest, mask, cg, base, hf, h => by
    rw [visitStmts]
    exact framed_bind_state _ _ _
      (visit_frame s mask cg base (offload_free_cons s rest hf).1 h)
      (fun c hc => visitStmts_frame rest mask c base (offload_free_cons s rest hf).2 hc)

end

/-! ### Offloaded statements: one task each -/

@[simp] theorem task_state_BasicBlock_Create (cg : CodeGen) (n : String) :
    (cg.BasicBlock_Create n).2.task_state = cg.task_state := rfl

@[simp] theorem functions_BasicBlock_Create (cg : CodeGen) (n : String) :
    (cg.BasicBlock_Create n).2.functions = cg.functions := rfl

@[simp] theorem task_state_SetInsertPoint (cg : CodeGen) (bb : Nat) :
    (cg.SetInsertPoint bb).task_state = cg.task_state := rfl

@[simp] theorem functions_SetInsertPoint (cg : CodeGen) (bb : Nat) :
    (cg.SetInsertPoint bb).functions = cg.functions := rfl

@[simp] theorem task_state_CreateBr (cg : CodeGen) (bb : Nat) :
    (cg.CreateBr bb).task_state = cg.task_state := rfl

@[simp] theorem functions_CreateBr (cg : CodeGen) (bb : Nat) :
    (cg.CreateBr bb).functions = cg.functions := rfl

@[simp] theorem task_state_CreateCondBr (cg : CodeGen) (c : Value) (t f : Nat) :
    (cg.CreateCondBr c t f).task_state = cg.task_state := rfl

@[simp] theorem functions_CreateCondBr (cg : CodeGen) (c : Value) (t f : Nat) :
    (cg.CreateCondBr c t f).functions = cg.functions := rfl

@[simp] theorem task_state_CreateRetVoid (cg : CodeGen) :
    cg.CreateRetVoid.task_state = cg.task_state := rfl

@[simp] theorem functions_CreateRetVoid (cg : CodeGen) :
    cg.CreateRetVoid.functions = cg.functions := rfl

@[simp] theorem task_state_CreateStore (cg : CodeGen) (v p : Value) :
    (cg.CreateStore v p).task_state = cg.task_state := rfl

@[simp] theorem functions_CreateStore (cg : CodeGen) (v p : Value) :
    (cg.CreateStore v p).functions = cg.functions := rfl

@[simp] theorem task_state_CreateLoad (cg : CodeGen) (p : Value) :
    (cg.CreateLoad p).2.task_state = cg.task_state := rfl

@[simp] theorem functions_CreateLoad (cg : CodeGen) (p : Value) :
    (cg.CreateLoad p).2.functions = cg.functions := rfl

@[simp] theorem task_state_CreateICmp (cg : CodeGen) (p : ICmpPred) (a b : Value) :
    (cg.CreateICmp p a b).2.task_state = cg.task_state := rfl

@[simp] theorem functions_CreateICmp (cg : CodeGen) (p : ICmpPred) (a b : Value) :
    (cg.CreateICmp p a b).2.functions = cg.functions := rfl

@[simp] theorem task_state_CreateSub (cg : CodeGen) (a b : Value) :
    (cg.CreateSub a b).2.task_state = cg.task_state := rfl

@[simp] theorem functions_CreateSub (cg : CodeGen) (a b : Value) :
    (cg.CreateSub a b).2.functions = cg.functions := rfl

@[simp] theorem task_state_CreateAdd (cg : CodeGen) (a b : Value) :
    (cg.CreateAdd a b).2.task_state = cg.task_state := rfl

@[simp] theorem functions_CreateAdd (cg : CodeGen) (a b : Value) :
    (cg.CreateAdd a b).2.functions = cg.functions := rfl

@[simp] theorem task_state_CreateMul (cg : CodeGen) (a b : Value) :
    (cg.CreateMul a b).2.task_state = cg.task_state := rfl

@[simp] theorem functions_CreateMul (cg : CodeGen) (a b : Value) :
    (cg.CreateMul a b).2.functions = cg.functions := rfl

@[simp] theorem task_state_CreateIntrinsic (cg : CodeGen) (n : String) (a : List Value) :
    (cg.CreateIntrinsic n a).2.task_state = cg.task_state := rfl

@[simp] theorem functions_CreateIntrinsic (cg : CodeGen) (n : String) (a : List Value) :
    (cg.CreateIntrinsic n a).2.functions = cg.functions := rfl

@[simp] theorem task_state_CreateCall (cg : CodeGen) (f : Value) (a : List Value) :
    (cg.CreateCall f a).2.task_state = cg.task_state := rfl

@[simp] theorem functions_CreateCall (cg : CodeGen) (f : Value) (a : List Value) :
    (cg.CreateCall f a).2.functions = cg.functions := rfl

@[simp] theorem task_state_CreateBitCast (cg : CodeGen) (v : Value) (ty : LType) :
    (cg.CreateBitCast v ty).2.task_state = cg.task_state := rfl

@[simp] theorem functions_CreateBitCast (cg : CodeGen) (v : Value) (ty : LType) :
    (cg.CreateBitCast v ty).2.functions = cg.functions := rfl

@[simp] theorem task_state_create_increment (cg : CodeGen) (p v : Value) :
    (cg.create_increment p v).task_state = cg.task_state := rfl

@[simp] theorem functions_create_increment (cg : CodeGen) (p v : Value) :
    (cg.create_increment p v).functions = cg.functions := rfl

@[simp] theorem task_state_create_entry_block_alloca (cg : CodeGen) (ty : LType) :
    (cg.create_entry_block_alloca ty).2.task_state = cg.task_state := rfl

@[simp] theorem functions_create_entry_block_alloca (cg : CodeGen) (ty : LType) :
    (cg.create_entry_block_alloca ty).2.functions = cg.functions := rfl

@[simp] theorem task_state_RuntimeObject_wrap (cg : CodeGen) (n : String) (v : Value) :
    (cg.RuntimeObject_wrap n v).2.task_state = cg.task_state := rfl

@[simp] theorem functions_RuntimeObject_wrap (cg : CodeGen) (n : String) (v : Value) :
    (cg.RuntimeObject_wrap n v).2.functions = cg.functions := rfl

@[simp] theorem task_state_RuntimeObject_get_ptr (cg : CodeGen) (o : RuntimeObject) (f : String) :
    (cg.RuntimeObject_get_ptr o f).2.task_state = cg.task_state := rfl

@[simp] theorem functions_RuntimeObject_get_ptr (cg : CodeGen) (o : RuntimeObject) (f : String) :
    (cg.RuntimeObject_get_ptr o f).2.functions = cg.functions := rfl

@[simp] theorem task_state_Function_Create (cg : CodeGen) (n : String) (l : Linkage)
    (ps : List LType) : (cg.Function_Create n l ps).2.task_state = cg.task_state := rfl

@[simp] theorem functions_Function_Create (cg : CodeGen) (n : String) (l : Linkage)
    (ps : List LType) :
    (cg.Function_Create n l ps).2.functions
      = cg.functions ++ [{ name := n, linkage := l, params := ps }] := rfl

@[simp] theorem task_state_set_loop_vars (cg : CodeGen) (l : List Value) :
    ({ cg with loop_vars_llvm := l } : CodeGen).task_state = cg.task_state := rfl

@[simp] theorem functions_set_loop_vars (cg : CodeGen) (l : List Value) :
    ({ cg with loop_vars_llvm := l } : CodeGen).functions = cg.functions := rfl

@[simp] theorem task_state_set_func (cg : CodeGen) (f : Nat) :
    ({ cg with func := f } : CodeGen).task_state = cg.task_state := rfl

@[simp] theorem functions_set_func (cg : CodeGen) (f : Nat) :
    ({ cg with func := f } : CodeGen).functions = cg.functions := rfl

@[simp] theorem task_state_set_entry_block (cg : CodeGen) (f : Nat) :
    ({ cg with entry_block := f } : CodeGen).task_state = cg.task_state := rfl

@[simp] theorem functions_set_entry_block (cg : CodeGen) (f : Nat) :
    ({ cg with entry_block := f } : CodeGen).functions = cg.functions := rfl

@[simp] theorem task_state_set_current_coordinates (cg : CodeGen) (v : Value) :
    ({ cg with current_coordinates := v } : CodeGen).task_state = cg.task_state := rfl

@[simp] theorem functions_set_current_coordinates (cg : CodeGen) (v : Value) :
    ({ cg with current_coordinates := v } : CodeGen).functions = cg.functions := rfl

@[simp] theorem task_state_set_grid (cg : CodeGen) (g b : Int) :
    ({ cg with kernel_grid_dim := g, kernel_block_dim := b } : CodeGen).task_state
      = cg.task_state := rfl

@[simp] theorem functions_set_grid (cg : CodeGen) (g b : Int) :
    ({ cg with kernel_grid_dim := g, kernel_block_dim := b } : CodeGen).functions
      = cg.functions := rfl

@[simp] theorem task_state_set_grid_dim (cg : CodeGen) (g : Int) :
    ({ cg with kernel_grid_dim := g } : CodeGen).task_state = cg.task_state := rfl

@[simp] theorem functions_set_grid_dim (cg : CodeGen) (g : Int) :
    ({ cg with kernel_grid_dim := g } : CodeGen).functions = cg.functions := rfl

@[simp] theorem task_state_set_block_dim (cg : CodeGen) (g : Int) :
    ({ cg with kernel_block_dim := g } : CodeGen).task_state = cg.task_state := rfl

@[simp] theorem functions_set_block_dim (cg : CodeGen) (g : Int) :
    ({ cg with kernel_block_dim := g } : CodeGen).functions = cg.functions := rfl

theorem task_state_of_bookkeeping (a b : CodeGen) (h : a.bookkeeping = b.bookkeeping) :
    a.task_state = b.task_state := by
  have e : ∀ x : CodeGen, x.task_state = x.bookkeeping.task_state := fun _ => rfl
  rw [e a, e b, h]

theorem functions_of_bookkeeping (a b : CodeGen) (h : a.bookkeeping = b.bookkeeping) :
    a.functions = b.functions := by
  have h2 := congrArg CodeGen.functions h
  exact h2

theorem taskStep_refl (cg : CodeGen) : TaskStep cg cg := ⟨rfl, [], by simp, by simp⟩

theorem taskStep_trans (a b c : CodeGen) (h1 : TaskStep a b) (h2 : TaskStep b c) :
    TaskStep a c := by
  obtain ⟨h1, e1, hf1, hl1⟩ := h1
  obtain ⟨h2, e2, hf2, hl2⟩ := h2
  refine ⟨h2.trans h1, e1 ++ e2, by rw [hf2, hf1, List.append_assoc], ?_⟩
  intro f hf
  rcases List.mem_append.1 hf with h | h
  · exact hl1 f h
  · exact hl2 f h

theorem taskStep_of_bookkeeping (a b : CodeGen) (h : b.bookkeeping = a.bookkeeping) :
    TaskStep a b :=
  ⟨task_state_of_bookkeeping _ _ h, [], by simp [functions_of_bookkeeping _ _ h], by simp⟩

theorem tframed_pure (base cg2 : CodeGen) (h : TaskStep base cg2) :
    TFramed (pure cg2) base := by
  intro cg3 h3
  injection h3 with h3
  rw [← h3]
  exact h

theorem tframed_error (base : CodeGen) (e : Err) : TFramed (.error e) base := by
  intro cg3 h3
  cases h3

theorem tframed_bind {α : Type} (base : CodeGen) (x : Except Err α)
    (f : α → Except Err CodeGen) (h : ∀ a, TFramed (f a) base) : TFramed (x >>= f) base := by
  intro cg3 h3
  cases x with
  | error e => cases h3
  | ok a => exact h a cg3 h3

theorem tframed_of_framed (base X : CodeGen) (x : Except Err CodeGen) (hx : Framed x X)
    (hX : TaskStep base X) : TFramed x base := by
  intro cg3 h3
  exact taskStep_trans _ _ _ hX (taskStep_of_bookkeeping _ _ (hx cg3 h3))

theorem tframed_bind_state (base X : CodeGen) (x : Except Err CodeGen)
    (f : CodeGen → Except Err CodeGen) (hx : Framed x X) (hX : TaskStep base X)
    (h : ∀ a, TaskStep base a → TFramed (f a) base) : TFramed (x >>= f) base := by
  intro cg3 h3
  cases x with
  | error e => cases h3
  | ok a =>
    exact h a (taskStep_trans _ _ _ hX (taskStep_of_bookkeeping _ _ (hx a rfl))) cg3 h3

theorem tframed_bind_pair {α : Type} (base X : CodeGen) (x : Except Err (α × CodeGen))
    (f : α × CodeGen → Except Err CodeGen) (hx : FramedV x X) (hX : TaskStep base X)
    (h : ∀ a c, TaskStep base c → TFramed (f (a, c)) base) : TFramed (x >>= f) base := by
  intro cg3 h3
  cases x with
  | error e => cases h3
  | ok p =>
    obtain ⟨a, c⟩ := p
    exact h a c (taskStep_trans _ _ _ hX (taskStep_of_bookkeeping _ _ (hx a c rfl))) cg3 h3

theorem taskStep_same (a b : CodeGen) (h1 : b.task_state = a.task_state)
    (h2 : b.functions = a.functions) : TaskStep a b :=
  ⟨h1, [], by rw [h2, List.append_nil], by simp⟩

theorem tframed_ite (base : CodeGen) (c : Prop) [Decidable c] (a b : Except Err CodeGen)
    (ha : TFramed a base) (hb : TFramed b base) : TFramed (if c then a else b) base := by
  split
  · exact ha
  · exact hb

theorem tframed_match_option {α : Type} (base : CodeGen) (o : Option α)
    (a : Except Err CodeGen) (b : α → Except Err CodeGen) (ha : TFramed a base)
    (hb : ∀ x, TFramed (b x) base) :
    TFramed (match o with
      | none => a
      | some x => b x) base := by
  cases o with
  | none => exact ha
  | some x => exact hb x

theorem create_offload_range_for_taskStep (cg base : CodeGen) (h0 : TaskStep base cg)
    (begin_ end_ : Int) (reversed : Bool) (accept_body : CodeGen → Except Err CodeGen)
    (hbody : ∀ c b, c.bookkeeping = b.bookkeeping → Framed (accept_body c) b) :
    TFramed (cg.create_offload_range_for begin_ end_ reversed accept_body) base := by
  unfold CodeGen.create_offload_range_for
  refine tframed_bind _ _ _ (fun ty => ?_)
  refine tframed_bind_state _ _ _ _ (hbody _ _ rfl) ?_ (fun c hc => ?_)
  · refine taskStep_trans _ _ _ h0 (taskStep_trans _ _ _ ?_
      (taskStep_of_bookkeeping _ _ (bookkeeping_range_for_enter _ _ _ _ _)))
    exact taskStep_same _ _ rfl rfl
  · exact tframed_pure _ _ (taskStep_trans _ _ _ hc
      (taskStep_of_bookkeeping _ _ (bookkeeping_range_for_leave _ _ _ _ _ _ _)))

theorem gpu_range_for_enter_taskStep (cg : CodeGen) (loop_var : Value)
    (begin_ end_ : Int) : TaskStep cg (cg.gpu_range_for_enter loop_var begin_ end_).2 :=
  taskStep_same _ _ rfl rfl

theorem create_offload_range_for_gpu_taskStep (cg base : CodeGen) (h0 : TaskStep base cg)
    (begin_ end_ block_size : Int) (accept_body : CodeGen → Except Err CodeGen)
    (hbody : ∀ c b, c.bookkeeping = b.bookkeeping → Framed (accept_body c) b) :
    TFramed (cg.create_offload_range_for_gpu begin_ end_ block_size accept_body) base := by
  unfold CodeGen.create_offload_range_for_gpu
  refine tframed_bind _ _ _ (fun ty => ?_)
  refine tframed_bind _ _ _ (fun p => ?_)
  obtain ⟨g, b⟩ := p
  refine tframed_bind_state _ _ _ _ (hbody _ _ rfl) ?_ (fun c hc => ?_)
  · refine taskStep_trans _ _ _ h0 (taskStep_trans _ _ _ ?_
      (gpu_range_for_enter_taskStep _ _ _ _))
    exact taskStep_same _ _ rfl rfl
  · exact tframed_pure _ _ (taskStep_trans _ _ _ hc (taskStep_same _ _ rfl rfl))

theorem emit_list_gen_taskStep (cg base : CodeGen) (h0 : TaskStep base cg)
    (snode : Option SNode) : TFramed (cg.emit_list_gen snode) base :=
  tframed_of_framed _ _ _ (emit_list_gen_frame cg cg rfl snode) h0

theorem struct_for_enter_taskStep (cg : CodeGen) (spmd : Bool) :
    TaskStep cg (cg.struct_for_enter spmd).2 := by
  cases spmd
  · exact ⟨rfl, [_], rfl, by simp⟩
  · exact ⟨rfl, [_], rfl, by simp⟩

theorem struct_for_refine_taskStep (cg : CodeGen) (l : CodeGen.StructForLocals)
    (refine : Value) : TaskStep cg (cg.struct_for_refine l refine) :=
  taskStep_same _ _ rfl rfl

theorem struct_for_leave_taskStep (cg : CodeGen) (l : CodeGen.StructForLocals)
    (spmd : Bool) : TaskStep cg (cg.struct_for_leave l spmd) := by
  refine taskStep_same _ _ ?_ ?_
  · unfold CodeGen.struct_for_leave
    cases spmd <;>
    simp only [task_state_set_entry_block, task_state_SetInsertPoint, task_state_CreateBr,
      task_state_set_func, task_state_CreateRetVoid, task_state_CreateCondBr,
      task_state_CreateICmp, task_state_CreateLoad, task_state_create_increment,
      task_state_BasicBlock_Create, if_true, Bool.false_eq_true, if_false]
  · unfold CodeGen.struct_for_leave
    cases spmd <;>
    simp only [functions_set_entry_block, functions_SetInsertPoint, functions_CreateBr,
      functions_set_func, functions_CreateRetVoid, functions_CreateCondBr,
      functions_CreateICmp, functions_CreateLoad, functions_create_increment,
      functions_BasicBlock_Create, if_true, Bool.false_eq_true, if_false]

theorem create_offload_struct_for_taskStep (cg base : CodeGen) (h0 : TaskStep base cg)
    (snode : Option SNode) (block_size : Int) (spmd : Bool)
    (accept_body : CodeGen → Except Err CodeGen)
    (hbody : ∀ c b, c.bookkeeping = b.bookkeeping → Framed (accept_body c) b) :
    TFramed (cg.create_offload_struct_for snode block_size spmd accept_body) base := by
  unfold CodeGen.create_offload_struct_for
  refine tframed_bind _ _ _ (fun sn => ?_)
  refine tframed_bind _ _ _ (fun leaf => ?_)
  refine tframed_bind _ _ _ (fun refine => ?_)
  refine tframed_bind_state _ _ _ _ (hbody _ _ rfl) ?_ (fun c hc => ?_)
  · exact taskStep_trans _ _ _ h0 (taskStep_trans _ _ _ (struct_for_enter_taskStep _ _)
      (struct_for_refine_taskStep _ _ _))
  · refine tframed_bind _ _ _ (fun num_splits => ?_)
    refine tframed_bind _ _ _ (fun leaf_parent => ?_)
    refine tframed_bind_pair _ _ _ _ (create_call_frame _ _ rfl _ _) ?_
      (fun a c2 hc2 => tframed_pure _ _ hc2)
    exact taskStep_trans _ _ _ hc (struct_for_leave_taskStep _ _ _)

theorem offload_dispatch_host_taskStep (cg base : CodeGen) (h0 : TaskStep base cg)
    (task_type : TaskType) (begin_ end_ : Int) (reversed : Bool) (block_size : Int)
    (snode : Option SNode) (accept_body : CodeGen → Except Err CodeGen)
    (hbody : ∀ c b, c.bookkeeping = b.bookkeeping → Framed (accept_body c) b) :
    TFramed (cg.offload_dispatch_host task_type begin_ end_ reversed block_size snode
      accept_body) base := by
  unfold CodeGen.offload_dispatch_host
  cases task_type
  · exact tframed_of_framed _ _ _ (hbody cg cg rfl) h0
  · exact create_offload_range_for_taskStep cg base h0 _ _ _ _ hbody
  · refine tframed_bind _ _ _ (fun sn => ?_)
    refine tframed_bind _ _ _ (fun leaf => ?_)
    exact create_offload_struct_for_taskStep cg base h0 _ _ _ _ hbody
  · exact emit_list_gen_taskStep cg base h0 snode

theorem offload_dispatch_gpu_taskStep (cg base : CodeGen) (h0 : TaskStep base cg)
    (task_type : TaskType) (begin_ end_ : Int) (block_size : Int)
    (snode : Option SNode) (accept_body : CodeGen → Except Err CodeGen)
    (hbody : ∀ c b, c.bookkeeping = b.bookkeeping → Framed (accept_body c) b) :
    TFramed (cg.offload_dispatch_gpu task_type begin_ end_ block_size snode
      accept_body) base := by
  unfold CodeGen.offload_dispatch_gpu
  cases task_type
  · exact tframed_of_framed _ _ _ (hbody cg cg rfl) h0
  · exact create_offload_range_for_gpu_taskStep cg base h0 _ _ _ _ hbody
  · refine tframed_bind _ _ _ (fun sn => ?_)
    refine tframed_bind _ _ _ (fun leaf => ?_)
    refine create_offload_struct_for_taskStep _ base ?_ _ _ _ _ hbody
    exact taskStep_trans _ _ _ h0 (taskStep_same _ _ rfl rfl)
  · exact emit_list_gen_taskStep cg base h0 snode

theorem init_task_function_task_state (cg : CodeGen) (id : Nat) :
    (cg.init_task_function id).task_state = { cg.task_state with
      task_counter := cg.task_counter + 1,
      current_task := some { name := cg.kernel_name ++ "_" ++ format_int cg.task_counter } } :=
  rfl

theorem init_task_function_functions (cg : CodeGen) (id : Nat) :
    (cg.init_task_function id).functions = cg.functions ++
      [task_function (cg.kernel_name ++ "_" ++ format_int cg.task_counter)] :=
  rfl

theorem finalize_task_function_taskStep (cg : CodeGen) :
    TaskStep cg cg.finalize_task_function :=
  taskStep_same _ _ rfl rfl

theorem end_current_task_eq (c : CodeGen) (t : OffloadedTask)
    (hc : c.current_task = some t) :
    c.end_current_task
      = .ok { c with offloaded_tasks := c.offloaded_tasks ++ [t], current_task := none } := by
  unfold CodeGen.end_current_task
  rw [hc]
  rfl

theorem task_state_end (c : CodeGen) (ts : List OffloadedTask) :
    ({ c with offloaded_tasks := ts, current_task := none } : CodeGen).task_state
      = { c.task_state with offloaded_tasks := ts, current_task := none } := rfl

theorem taskAdded_of_end (cg c cg2 : CodeGen) (t : OffloadedTask) (extra : List Function)
    (hn : t.name = cg.kernel_name ++ "_" ++ format_int cg.task_counter)
    (hfn : t.func = none)
    (ht : c.task_state = { cg.task_state with
      task_counter := cg.task_counter + 1, current_task := some t })
    (hf : c.functions = cg.functions ++ [task_function t.name] ++ extra)
    (hl : ∀ f ∈ extra, f.linkage = Linkage.InternalLinkage)
    (h : c.end_current_task = .ok cg2) : TaskAdded cg cg2 := by
  have hcur : c.current_task = some t := congrArg CodeGen.current_task ht
  have hot : c.offloaded_tasks = cg.offloaded_tasks := by
    have e := congrArg CodeGen.offloaded_tasks ht
    exact e
  rw [end_current_task_eq c t hcur] at h
  injection h with h
  subst h
  refine ⟨t, extra, hn, hfn, ?_, ?_, hl⟩
  · rw [task_state_end, ht, hot]
  · show c.functions = _
    rw [hf]
    simp

theorem visit_OffloadedStmt_host_taskAdded (cg cg2 : CodeGen) (id : Nat)
    (task_type : TaskType) (begin_ end_ : Int) (reversed : Bool) (block_size : Int)
    (snode : Option SNode) (accept_body : CodeGen → Except Err CodeGen)
    (hbody : ∀ c b, c.bookkeeping = b.bookkeeping → Framed (accept_body c) b)
    (h : cg.visit_OffloadedStmt_host id task_type begin_ end_ reversed block_size snode
      accept_body = .ok cg2) : TaskAdded cg cg2 := by
  unfold CodeGen.visit_OffloadedStmt_host at h
  obtain ⟨cg3, h3, h4⟩ := bind_eq_ok _ _ _ h
  have hs := offload_dispatch_host_taskStep _ _ (taskStep_refl _) _ _ _ _ _ _ _ hbody cg3 h3
  have hs2 := taskStep_trans _ _ _ hs (finalize_task_function_taskStep cg3)
  obtain ⟨ht, extra, hf, hl⟩ := hs2
  rw [init_task_function_task_state] at ht
  rw [init_task_function_functions] at hf
  exact taskAdded_of_end cg _ cg2 _ extra rfl rfl ht hf hl h4

theorem task_state_set_current_task (c : CodeGen) (t : Option OffloadedTask) :
    ({ c with current_task := t } : CodeGen).task_state
      = { c.task_state with current_task := t } := rfl

theorem visit_OffloadedStmt_gpu_taskAdded (cg cg2 : CodeGen) (id : Nat)
    (task_type : TaskType) (begin_ end_ : Int) (block_size : Int)
    (snode : Option SNode) (accept_body : CodeGen → Except Err CodeGen)
    (hbody : ∀ c b, c.bookkeeping = b.bookkeeping → Framed (accept_body c) b)
    (h : cg.visit_OffloadedStmt_gpu id task_type begin_ end_ block_size snode
      accept_body = .ok cg2) : TaskAdded cg cg2 := by
  unfold CodeGen.visit_OffloadedStmt_gpu at h
  obtain ⟨cg3, h3, h4⟩ := bind_eq_ok _ _ _ h
  have hs := offload_dispatch_gpu_taskStep _ _ (taskStep_refl _) _ _ _ _ _ _ hbody cg3 h3
  have hs2 := taskStep_trans _ _ _ hs (finalize_task_function_taskStep cg3)
  obtain ⟨ht, extra, hf, hl⟩ := hs2
  rw [init_task_function_task_state] at ht
  rw [init_task_function_functions] at hf
  have hcur : cg3.finalize_task_function.current_task
      = some { name := cg.kernel_name ++ "_" ++ format_int cg.task_counter } := by
    have e := congrArg CodeGen.current_task ht
    exact e
  refine taskAdded_of_end cg _ cg2
    { name := cg.kernel_name ++ "_" ++ format_int cg.task_counter,
      grid_dim := cg3.finalize_task_function.kernel_grid_dim,
      block_dim := cg3.finalize_task_function.kernel_block_dim } extra rfl rfl ?_ ?_ hl h4
  · rw [task_state_set_current_task, ht, hcur]
    rfl
  · exact hf

theorem visit_task_taskAdded (s : Stmt) (mask : Option StmtRef) (cg cg2 : CodeGen)
    (hs : s.is_task = true) (h : visit s mask cg = .ok cg2) : TaskAdded cg cg2 := by
  cases s
  case OffloadedStmt id task_type body begin_ end_ reversed block_size snode =>
    have hb : body.offload_free = true := hs
    have hbody : ∀ c b, c.bookkeeping = b.bookkeeping → Framed (visitBlock body c) b :=
      fun c b hcb => visitBlock_frame body c b hb hcb
    rw [visit] at h
    split at h
    · exact visit_OffloadedStmt_gpu_taskAdded cg cg2 _ _ _ _ _ _ _ hbody h
    · exact visit_OffloadedStmt_host_taskAdded cg cg2 _ _ _ _ _ _ _ _ hbody h
  all_goals (exact absurd hs (by simp [Stmt.is_task]))

theorem external_names_append (a b : List Function) :
    external_names (a ++ b) = external_names a ++ external_names b := by
  simp [external_names]

theorem external_names_internal (extra : List Function)
    (hl : ∀ f ∈ extra, f.linkage = Linkage.InternalLinkage) : external_names extra = [] := by
  simp only [external_names, List.map_eq_nil_iff, List.filter_eq_nil_iff]
  intro f hf
  rw [hl f hf]
  decide

theorem taskAdded_fields (cg cg2 : CodeGen) (h : TaskAdded cg cg2) :
    ∃ t : OffloadedTask, t.name = cg.kernel_name ++ "_" ++ format_int cg.task_counter ∧
      t.func = none ∧ cg2.offloaded_tasks = cg.offloaded_tasks ++ [t] ∧
      cg2.task_counter = cg.task_counter + 1 ∧ cg2.kernel_name = cg.kernel_name ∧
      cg2.gpu = cg.gpu ∧
      external_names cg2.functions = external_names cg.functions ++ [t.name] := by
  obtain ⟨t, extra, hn, hfn, ht, hf, hl⟩ := h
  refine ⟨t, hn, hfn, ?_, ?_, ?_, ?_, ?_⟩
  · have e := congrArg CodeGen.offloaded_tasks ht
    exact e
  · have e := congrArg CodeGen.task_counter ht
    exact e
  · have e := congrArg CodeGen.kernel_name ht
    exact e
  · have e := congrArg CodeGen.gpu ht
    exact e
  · rw [hf, external_names_append]
    have e : external_names (task_function t.name :: extra) = [t.name] := by
      have e2 := external_names_append [task_function t.name] extra
      rw [external_names_internal extra hl] at e2
      simpa [external_names, task_function] using e2
    rw [e]

theorem visitStmts_tasks : ∀ (ss : List Stmt) (mask : Option StmtRef) (cg cg2 : CodeGen),
    ss.all Stmt.is_task = true → visitStmts ss mask cg = .ok cg2 →
    ∃ ts : List OffloadedTask,
      cg2.offloaded_tasks = cg.offloaded_tasks ++ ts ∧
      ts.map (fun t => t.name) = (List.range ss.length).map
        (fun i => cg.kernel_name ++ "_" ++ format_int (cg.task_counter + i)) ∧
      (∀ t ∈ ts, t.func = none) ∧
      cg2.task_counter = cg.task_counter + ss.length ∧
      cg2.kernel_name = cg.kernel_name ∧ cg2.gpu = cg.gpu ∧
      external_names cg2.functions
        = external_names cg.functions ++ ts.map (fun t => t.name)
  | [], mask, cg, cg2, _, h => by
    rw [visitStmts] at h
    injection h with h
    subst h
    exact ⟨[], by simp, by simp, by simp, by simp, rfl, rfl, by simp⟩
  | s :: rest, mask, cg, cg2, hw, h => by
    rw [visitStmts] at h
    obtain ⟨cg1, h1, h2⟩ := bind_eq_ok _ _ _ h
    rw [List.all_cons, Bool.and_eq_true] at hw
    obtain ⟨t, hn, hfn, hot, hc, hk, hg, hx⟩ :=
      taskAdded_fields cg cg1 (visit_task_taskAdded s mask cg cg1 hw.1 h1)
    obtain ⟨ts, iot, inames, ifn, ic, ik, ig, ix⟩ := visitStmts_tasks rest mask cg1 cg2 hw.2 h2
    refine ⟨t :: ts, ?_, ?_, ?_, ?_, ?_, ?_, ?_⟩
    · rw [iot, hot]; simp
    · rw [List.length_cons, List.range_succ_eq_map, List.map_cons, List.map_cons, hn, inames,
        List.map_map, hk, hc]
      simp only [Nat.add_zero, List.cons.injEq, true_and]
      apply List.map_congr_left
      intro i _
      simp only [Function.comp]
      rw [Nat.succ_eq_add_one, Nat.add_assoc, Nat.add_comm 1 i]
    · intro x hx2
      rcases List.mem_cons.1 hx2 with e | e
      · rw [e]; exact hfn
      · exact ifn x e
    · rw [ic, hc, List.length_cons]; omega
    · rw [ik, hk]
    · rw [ig, hg]
    · rw [ix, hx]; simp

theorem lowered_spec (base : CodeGen) (gpu : Bool) (kernel : Kernel)
    (h : (lower base gpu kernel).toBool = true) :
    lower base gpu kernel = .ok (lowered base gpu kernel) := by
  unfold lowered
  cases hl : lower base gpu kernel with
  | ok cg => rfl
  | error e => rw [hl] at h; cases h

theorem make_kernel_name_task (kernel : Kernel) (N : Nat) :
    make_kernel_name kernel ++ "_" ++ format_int N = spec_task_name kernel N := by
  unfold make_kernel_name spec_task_name
  rw [String.append_assoc _ "_kernel" "_"]
  rfl

theorem spec_task_name_injective (kernel : Kernel) :
    Function.Injective (spec_task_name kernel) := by
  intro a b h
  unfold spec_task_name at h
  have h2 := congrArg String.data h
  rw [String.data_append, String.data_append] at h2
  have h3 := List.append_cancel_left h2
  exact format_int_injective a b (String.ext h3)

theorem lower_tasks (base : CodeGen) (gpu : Bool) (kernel : Kernel) (cg : CodeGen)
    (hwf : kernel.well_formed = true) (h : lower base gpu kernel = .ok cg) :
    cg.offloaded_tasks.map (fun t => t.name)
      = (List.range kernel.root_statements.length).map (spec_task_name kernel) ∧
    (∀ t ∈ cg.offloaded_tasks, t.func = none) ∧
    cg.task_counter = kernel.root_statements.length ∧
    cg.gpu = gpu ∧
    external_names cg.functions
      = (List.range kernel.root_statements.length).map (spec_task_name kernel) := by
  unfold lower CodeGen.emit_to_module at h
  unfold Kernel.well_formed at hwf
  unfold Kernel.root_statements at hwf ⊢
  cases hk : kernel.ir with
  | mk mask ss =>
    rw [hk] at h hwf
    rw [visitBlock] at h
    obtain ⟨ts, hot, hnames, hfn, hc, _, hg, hx⟩ := visitStmts_tasks ss mask _ cg hwf h
    have e0 : (CodeGen.create base gpu kernel).offloaded_tasks = [] := rfl
    have e1 : (CodeGen.create base gpu kernel).task_counter = 0 := rfl
    have e2 : (CodeGen.create base gpu kernel).kernel_name = make_kernel_name kernel := rfl
    have e3 : (CodeGen.create base gpu kernel).functions = [] := rfl
    have e4 : (CodeGen.create base gpu kernel).gpu = gpu := rfl
    rw [e0, List.nil_append] at hot
    rw [e1, e2] at hnames
    rw [e1, Nat.zero_add] at hc
    rw [e3] at hx
    have hn2 : ts.map (fun t => t.name) = (List.range ss.length).map (spec_task_name kernel) := by
      rw [hnames]
      apply List.map_congr_left
      intro i _
      rw [Nat.zero_add]
      exact make_kernel_name_task kernel i
    refine ⟨?_, ?_, hc, hg.trans e4, ?_⟩
    · rw [hot]; exact hn2
    · rw [hot]; exact hfn
    · rw [hx, hn2]; rfl

theorem mapM_eq_ok {α β : Type} (f : α → Except Err β) (g : α → β) :
    ∀ l : List α, (∀ a ∈ l, f a = .ok (g a)) → l.mapM f = .ok (l.map g)
  | [], _ => rfl
  | a :: l, h => by
    rw [List.mapM_cons, h a (List.mem_cons_self a l),
      mapM_eq_ok f g l (fun b hb => h b (List.mem_cons_of_mem a hb))]
    rfl

theorem any_name_of_external (fs : List Function) (n : String)
    (h : n ∈ external_names fs) : fs.any (fun f => f.name == n) = true := by
  unfold external_names at h
  obtain ⟨f, hf, hn⟩ := List.mem_map.1 h
  rw [List.any_eq_true]
  exact ⟨f, (List.mem_filter.1 hf).1, by simp [hn]⟩

theorem OffloadedTask_compile_ok (cg : CodeGen) (t : OffloadedTask) (hf : t.func = none)
    (hn : t.name ∈ external_names cg.functions) :
    cg.OffloadedTask_compile t = .ok { t with func := some t.name } := by
  unfold CodeGen.OffloadedTask_compile
  rw [hf, any_name_of_external _ _ hn]
  rfl

theorem invoke_host_map : ∀ l : List OffloadedTask,
    CodeGen.invoke_host (l.map (fun t => { t with func := some t.name }))
      = .ok (l.map (fun t => Launch.call t.name))
  | [] => rfl
  | t :: l => by
    rw [List.map_cons, CodeGen.invoke_host]
    simp only []
    rw [invoke_host_map l]
    rfl

theorem invoke_gpu_map : ∀ l : List OffloadedTask,
    CodeGen.invoke_gpu (l.map (fun t => { t with cuda_func := some t.name }))
      = l.map (fun t => Launch.launch t.name t.grid_dim t.block_dim)
  | [] => rfl
  | t :: l => by
    rw [List.map_cons, CodeGen.invoke_gpu, invoke_gpu_map l]
    rfl

theorem gen_and_call_launches (base : CodeGen) (gpu : Bool) (kernel : Kernel)
    (cg : CodeGen) (h : lower base gpu kernel = .ok cg)
    (hfn : ∀ t ∈ cg.offloaded_tasks, t.func = none)
    (hx : external_names cg.functions = cg.offloaded_tasks.map (fun t => t.name)) :
    CodeGen.gen_and_call base gpu kernel = .ok (cg.offloaded_tasks.map (launch_of gpu)) := by
  have hmem : ∀ t ∈ cg.offloaded_tasks, t.name ∈ external_names cg.functions := by
    intro t ht
    rw [hx]
    exact List.mem_map.2 ⟨t, ht, rfl⟩
  unfold CodeGen.gen_and_call
  unfold lower at h
  rw [h]
  cases gpu
  · have hc : cg.compile_module_to_executable_host
        = .ok (cg.offloaded_tasks.map (fun t => { t with func := some t.name })) :=
      mapM_eq_ok _ _ _ (fun t ht => OffloadedTask_compile_ok cg t (hfn t ht) (hmem t ht))
    show (cg.compile_module_to_executable_host >>= CodeGen.invoke_host) = _
    rw [hc]
    show CodeGen.invoke_host _ = _
    rw [invoke_host_map]
    rfl
  · have hc : cg.compile_module_to_executable_gpu
        = .ok (cg.offloaded_tasks.map (fun t => { t with cuda_func := some t.name })) := by
      refine mapM_eq_ok _ _ _ (fun t ht => ?_)
      rw [any_name_of_external _ _ (hmem t ht)]
      rfl
    show (cg.compile_module_to_executable_gpu >>= fun tasks => pure (CodeGen.invoke_gpu tasks))
      = _
    rw [hc]
    show Except.ok (CodeGen.invoke_gpu _) = _
    rw [invoke_gpu_map]
    rfl

/-- C5: for a kernel whose root block consists of `k` `OffloadedStmt`s (none holding a
further one), a successful lowering on either backend leaves exactly `k` task functions
(the functions of external linkage, in creation order), named
`kernel.name + ("_grad" if kernel.grad) + "_kernel_" + N` for `N = 0, ..., k-1` in visiting
order; `offloaded_tasks` carries the same names in the same order, the names are pairwise
distinct, and `task_counter` is `k`. -/
theorem task_functions_are_named_by_counter (base : CodeGen) (gpu : Bool) (kernel : Kernel)
    (cg : CodeGen) (hwf : kernel.well_formed = true)
    (h : lower base gpu kernel = .ok cg) :
    external_names cg.functions
      = (List.range kernel.root_statements.length).map (fun N =>
          kernel.name ++ (if kernel.grad then "_grad" else "") ++ "_kernel_"
            ++ format_int N) ∧
    cg.offloaded_tasks.map (fun t => t.name) = external_names cg.functions ∧
    (external_names cg.functions).Nodup ∧
    cg.task_counter = kernel.root_statements.length := by
  obtain ⟨hn, _, hc, _, hx⟩ := lower_tasks base gpu kernel cg hwf h
  refine ⟨hx, hn.trans hx.symm, ?_, hc⟩
  rw [hx]
  exact List.Nodup.map (spec_task_name_injective kernel) (List.nodup_range _)

theorem task_functions_are_named_by_counter_witness :
    three_task_kernel.well_formed = true ∧
    lower example_base true three_task_kernel
      = .ok (lowered example_base true three_task_kernel) ∧
    external_names (lowered example_base true three_task_kernel).functions
      = (List.range three_task_kernel.root_statements.length).map (fun N =>
          three_task_kernel.name ++ (if three_task_kernel.grad then "_grad" else "")
            ++ "_kernel_" ++ format_int N) ∧
    external_names (lowered example_base true three_task_kernel).functions
      = ["k_grad_kernel_0", "k_grad_kernel_1", "k_grad_kernel_2"] ∧
    (lowered example_base true three_task_kernel).task_counter = 3 :=
  have hw : three_task_kernel.well_formed = true := by decide
  have hl := lowered_spec example_base true three_task_kernel (by decide!)
  have ht := task_functions_are_named_by_counter example_base true three_task_kernel _ hw hl
  ⟨hw, hl, ht.1, ht.1.trans (by decide), ht.2.2.2⟩

/-- C6: for a kernel whose root block consists of `OffloadedStmt`s (none holding a further
one) and whose lowering succeeds, building the callable succeeds on the host and on the
GPU backend, and one call of it performs exactly one call (host) or launch (GPU) per
entry of `offloaded_tasks`, in the order of the list, which has one entry per visited
`OffloadedStmt`; the functions invoked are pairwise distinct. -/
theorem callable_invokes_tasks_in_visiting_order (base : CodeGen) (gpu : Bool)
    (kernel : Kernel) (cg : CodeGen) (hwf : kernel.well_formed = true)
    (h : lower base gpu kernel = .ok cg) :
    CodeGen.gen_and_call base gpu kernel
      = .ok (cg.offloaded_tasks.map (fun t =>
          if gpu then Launch.launch t.name t.grid_dim t.block_dim else Launch.call t.name)) ∧
    cg.offloaded_tasks.length = kernel.root_statements.length ∧
    (cg.offloaded_tasks.map (fun t => t.name)).Nodup := by
  obtain ⟨hn, hfn, _, _, hx⟩ := lower_tasks base gpu kernel cg hwf h
  refine ⟨gen_and_call_launches base gpu kernel cg h hfn (hx.trans hn.symm), ?_, ?_⟩
  · have e := congrArg List.length hn
    simpa using e
  · rw [hn]
    exact List.Nodup.map (spec_task_name_injective kernel) (List.nodup_range _)

theorem callable_invokes_tasks_in_visiting_order_witness :
    three_task_kernel.well_formed = true ∧
    lower example_base false three_task_kernel
      = .ok (lowered example_base false three_task_kernel) ∧
    CodeGen.gen_and_call example_base false three_task_kernel
      = .ok ((lowered example_base false three_task_kernel).offloaded_tasks.map (fun t =>
          if false = true then Launch.launch t.name t.grid_dim t.block_dim
          else Launch.call t.name)) ∧
    CodeGen.gen_and_call example_base false three_task_kernel
      = .ok [Launch.call "k_grad_kernel_0", Launch.call "k_grad_kernel_1",
          Launch.call "k_grad_kernel_2"] :=
  have hw : three_task_kernel.well_formed = true := by decide
  have hl := lowered_spec example_base false three_task_kernel (by decide!)
  have ht :=
    (callable_invokes_tasks_in_visiting_order example_base false three_task_kernel _ hw hl).1
  ⟨hw, hl, ht, ht.trans (congrArg Except.ok (by decide!))⟩

theorem range_for_leave_blocks (cg : CodeGen) (lv bv ev : Value) (body after_loop : Nat)
    (reversed : Bool) (l : Nat) :
    (cg.range_for_leave lv bv ev body after_loop reversed).blocks[l]?
      = if l = cg.insert_point then
          (cg.blocks[l]?).map (fun b => { b with insts := (b.insts ++
            loop_epilogue lv bv ev body after_loop reversed cg.next_id) })
        else cg.blocks[l]? := by
  by_cases h : l = cg.insert_point
  · subst h
    cases reversed <;>
    simp [CodeGen.range_for_leave, CodeGen.create_increment, CodeGen.CreateLoad,
      CodeGen.CreateAdd, CodeGen.CreateBinOp, CodeGen.CreateStore, CodeGen.CreateICmp,
      CodeGen.CreateCondBr, CodeGen.emit, CodeGen.emitValue, CodeGen.SetInsertPoint,
      appendTo_get_self, loop_epilogue, Function.comp_def]
  · cases reversed <;>
    simp [CodeGen.range_for_leave, CodeGen.create_increment, CodeGen.CreateLoad,
      CodeGen.CreateAdd, CodeGen.CreateBinOp, CodeGen.CreateStore, CodeGen.CreateICmp,
      CodeGen.CreateCondBr, CodeGen.emit, CodeGen.emitValue, CodeGen.SetInsertPoint,
      appendTo_get_other _ _ _ _ h, h]

theorem appendTo_append_left (i : Instr) (l : Nat) (xs ys : List BasicBlock)
    (h : l < xs.length) : appendTo i l (xs ++ ys) = appendTo i l xs ++ ys := by
  induction xs generalizing l with
  | nil => simp at h
  | cons x xs ih =>
    cases l with
    | zero => rfl
    | succ l =>
      have e := ih l (by simpa using h)
      show x :: appendTo i l (xs ++ ys) = x :: (appendTo i l xs ++ ys)
      rw [e]

theorem range_for_enter_spec (cg : CodeGen) (lv bv ev : Value) (reversed : Bool)
    (hip : cg.insert_point < cg.blocks.length) :
    (cg.range_for_enter lv bv ev reversed).1 = (cg.blocks.length, cg.blocks.length + 1) ∧
    (cg.range_for_enter lv bv ev reversed).2.insert_point = cg.blocks.length ∧
    (cg.range_for_enter lv bv ev reversed).2.blocks.length = cg.blocks.length + 2 ∧
    cg.next_id ≤ (cg.range_for_enter lv bv ev reversed).2.next_id ∧
    (cg.range_for_enter lv bv ev reversed).2.current_insts = [] ∧
    (∃ b : BasicBlock,
      (cg.range_for_enter lv bv ev reversed).2.blocks[cg.insert_point]? = some b ∧
      b.insts = cg.current_insts ++ loop_preamble lv bv ev reversed cg.next_id
        ++ [.br cg.blocks.length]) ∧
    ((cg.range_for_enter lv bv ev reversed).2.blocks[cg.blocks.length]?).map
      (fun b => b.name) = some "loop_body" := by
  obtain ⟨b0, hb0⟩ : ∃ b, cg.blocks[cg.insert_point]? = some b :=
    ⟨_, List.getElem?_eq_getElem hip⟩
  have hne : cg.blocks.length ≠ cg.insert_point := Nat.ne_of_gt hip
  have hlen2 : ∀ y : BasicBlock, cg.insert_point < (cg.blocks ++ [y]).length := by
    intro y
    simp
    omega
  cases reversed
  · simp [CodeGen.range_for_enter, CodeGen.BasicBlock_Create, CodeGen.CreateStore,
      CodeGen.CreateBr, CodeGen.emit, CodeGen.SetInsertPoint, CodeGen.current_insts,
      appendTo_length, appendTo_get_self, appendTo_get_other _ _ _ _ hne, loop_preamble,
      List.getElem?_append_left hip, List.getElem?_append_left (hlen2 _), hb0]
    constructor <;> simp [List.getElem_append_right]
  · simp [CodeGen.range_for_enter, CodeGen.BasicBlock_Create, CodeGen.CreateStore,
      CodeGen.CreateBr, CodeGen.emit, CodeGen.SetInsertPoint, CodeGen.current_insts,
      CodeGen.CreateSub, CodeGen.CreateBinOp, CodeGen.emitValue,
      appendTo_length, appendTo_get_self, appendTo_get_other _ _ _ _ hne, loop_preamble,
      List.getElem?_append_left hip, List.getElem?_append_left (hlen2 _), hb0]
    constructor <;> simp [List.getElem_append_right]

theorem storeTo_trace (m m2 : Machine) (v p : RVal) (h : storeTo m v p = some m2) :
    m2.trace = m.trace := by
  cases p <;> simp [storeTo] at h
  · subst h; rfl
  · split at h
    · injection h with h; subst h; rfl
    · cases h

theorem evalCall_trace (m m2 : Machine) (name : String) (args : List RVal) (v : RVal)
    (h : evalCall m name args = some (v, m2)) : m2.trace = m.trace := by
  unfold evalCall at h
  split at h
  · split at h
    · injection h with h; injection h with h1 h2; subst h2; rfl
    · cases h
  · split at h
    · split at h
      · split at h
        · injection h with h; injection h with h1 h2; subst h2; rfl
        · cases h
      · cases h
    · split at h
      · split at h
        · split at h
          · injection h with h; injection h with h1 h2; subst h2
            exact storeTo_trace _ _ _ _ (by assumption)
          · cases h
        · cases h
      · cases h

theorem execInstr_trace (m m2 : Machine) (i : Instr) (h : execInstr m i = some m2) :
    m2.trace = m.trace := by
  cases i <;> simp only [execInstr] at h
  all_goals
    repeat' split at h
  all_goals
    first
    | exact storeTo_trace _ _ _ _ h
    | (cases h <;> first
        | rfl
        | (refine Eq.trans ?_ (storeTo_trace _ _ _ _ (by assumption)); rfl)
        | (refine Eq.trans ?_ (evalCall_trace _ _ _ _ _ (by assumption)); rfl))

theorem execInstrs_trace : ∀ (xs : List Instr) (m m2 : Machine),
    execInstrs xs m = some m2 → m2.trace = m.trace
  | [], m, m2, h => by
    injection h with h
    rw [h]
  | x :: xs, m, m2, h => by
    rw [execInstrs] at h
    cases hx : execInstr m x with
    | none => simp only [hx] at h; cases h
    | some m1 =>
      simp only [hx] at h
      rw [execInstrs_trace xs m1 m2 h, execInstr_trace m m1 x hx]

theorem execBlock_append : ∀ (xs rest : List Instr) (m m2 : Machine),
    execInstrs xs m = some m2 → execBlock (xs ++ rest) m = execBlock rest m2
  | [], rest, m, m2, h => by
    injection h with h
    rw [h]
    rfl
  | x :: xs, rest, m, m2, h => by
    rw [execInstrs] at h
    cases hx : execInstr m x with
    | none => simp only [hx] at h; cases h
    | some m1 =>
      simp only [hx] at h
      have ih := execBlock_append xs rest m1 m2 h
      rw [← ih]
      cases x <;> first
        | (simp [execInstr] at hx; done)
        | (simp only [List.cons_append, execBlock, hx]; rfl)

theorem execInstr_load (m : Machine) (r k : Nat) (p : Value) (v : RVal)
    (hp : evalValue m p = some (.slot k)) (hk : getKey k m.stack = some v) :
    execInstr m (.load r p) = some (m.setReg r v) := by
  simp [execInstr, hp, loadFrom, hk]

theorem execInstr_store (m : Machine) (k : Nat) (x p : Value) (v : RVal)
    (hx : evalValue m x = some v) (hp : evalValue m p = some (.slot k)) :
    execInstr m (.store x p) = some (m.setSlot k v) := by
  simp [execInstr, hp, hx, storeTo, Machine.setSlot]

theorem evalValue_get_constant (m : Machine) (c : Int) :
    evalValue m (CodeGen.get_constant c) = some (.int 32 (ofInt 32 c)) := rfl

theorem execInstr_add (m : Machine) (r : Nat) (x y : Value) (a b : Int)
    (hx : evalValue m x = some (.int 32 (ofInt 32 a)))
    (hy : evalValue m y = some (.int 32 (ofInt 32 b))) :
    execInstr m (.binop r .add x y) = some (m.setReg r (.int 32 (ofInt 32 (a + b)))) := by
  have e := ofInt_add 32 a b
  simp only [execInstr, hx, hy, evalBinOp, if_true, e]

theorem execInstr_icmp (m : Machine) (r : Nat) (p : ICmpPred) (x y : Value) (a b : Nat)
    (hx : evalValue m x = some (.int 32 a)) (hy : evalValue m y = some (.int 32 b)) :
    execInstr m (.icmp r p x y)
      = some (m.setReg r (.int 1 (if evalICmp p 32 a b then 1 else 0))) := by
  simp [execInstr, hx, hy]

theorem execBlock_cond_br (m : Machine) (c : Value) (t f : Nat) (rest : List Instr)
    (b : Bool) (hc : evalValue m c = some (.int 1 (if b then 1 else 0))) :
    execBlock (.cond_br c t f :: rest) m = some (m, .goto (if b then t else f)) := by
  cases b <;> simp [execBlock, hc]

theorem exec_epilogue (Inv : Machine → Prop) (bs : List Instr) (lv bv ev : Value)
    (k n a : Nat) (hL : LoopBody Inv bs lv k n) (hna : n ≤ a) (reversed : Bool) (B : Int)
    (hbound : ∀ m, Inv m →
      evalValue m (if reversed then bv else ev) = some (.int 32 (ofInt 32 B)))
    (m : Machine) (hI : Inv m) (i : Int)
    (hs : getKey k m.stack = some (.int 32 (ofInt 32 i))) (body after_loop : Nat) :
    ∃ m2, execBlock (loop_epilogue lv bv ev body after_loop reversed a) m
        = some (m2, .goto (if evalICmp (if reversed then .sge else .slt) 32
            (ofInt 32 (i + (if reversed then -1 else 1))) (ofInt 32 B)
            then body else after_loop)) ∧
      Inv m2 ∧
      getKey k m2.stack = some (.int 32 (ofInt 32 (i + (if reversed then -1 else 1)))) ∧
      m2.trace = m.trace := by
  have I1 := hL.reg m a (.int 32 (ofInt 32 i)) hI hna
  have e1 := execInstr_load m a k lv _ (hL.lv_slot m hI) hs
  have I2 := hL.reg _ (a + 1) (.int 32 (ofInt 32 (i + (if reversed then -1 else 1)))) I1
    (by omega)
  have e2 := execInstr_add (m.setReg a (.int 32 (ofInt 32 i))) (a + 1) (.inst a)
    (CodeGen.get_constant (if reversed then -1 else 1)) i (if reversed then -1 else 1)
    (evalValue_setReg_self _ _ _) (evalValue_get_constant _ _)
  have I3 := hL.slot _ (.int 32 (ofInt 32 (i + (if reversed then -1 else 1)))) I2
  have e3 := execInstr_store _ k (.inst (a + 1)) lv _ (evalValue_setReg_self _ _ _)
    (hL.lv_slot _ I2)
  have I4 := hL.reg _ (a + 2) (.int 32 (ofInt 32 (i + (if reversed then -1 else 1)))) I3
    (by omega)
  have e4 := execInstr_load _ (a + 2) k lv _ (hL.lv_slot _ I3)
    (getKey_setKey_self k (RVal.int 32 (ofInt 32 (i + (if reversed then -1 else 1)))) _)
  have I5 := hL.reg _ (a + 3) (.int 1 (if evalICmp
      (if reversed then ICmpPred.sge else ICmpPred.slt) 32
      (ofInt 32 (i + (if reversed then -1 else 1))) (ofInt 32 B) then 1 else 0)) I4
    (by omega)
  have e5 := execInstr_icmp _ (a + 3) (if reversed then ICmpPred.sge else ICmpPred.slt)
    (.inst (a + 2))
    (if reversed then bv else ev) _ _ (evalValue_setReg_self _ _ _) (hbound _ I4)
  refine ⟨_, ?_, I5, ?_, ?_⟩
  · have hx : execInstrs [Instr.load a lv,
        .binop (a + 1) .add (.inst a) (CodeGen.get_constant (if reversed then -1 else 1)),
        .store (.inst (a + 1)) lv, .load (a + 2) lv,
        .icmp (a + 3) (if reversed then .sge else .slt) (.inst (a + 2))
          (if reversed then bv else ev)] m
        = some (((((m.setReg a (.int 32 (ofInt 32 i))).setReg (a + 1)
            (.int 32 (ofInt 32 (i + (if reversed then -1 else 1))))).setSlot k
            (.int 32 (ofInt 32 (i + (if reversed then -1 else 1))))).setReg (a + 2)
            (.int 32 (ofInt 32 (i + (if reversed then -1 else 1))))).setReg (a + 3)
            (.int 1 (if evalICmp (if reversed then ICmpPred.sge else ICmpPred.slt) 32
              (ofInt 32 (i + (if reversed then -1 else 1))) (ofInt 32 B) then 1 else 0))) := by
      simp only [execInstrs, e1, e2, e3, e4, e5]
    have hb := execBlock_append _ [Instr.cond_br (.inst (a + 3)) body after_loop] _ _ hx
    unfold loop_epilogue
    refine (hb.trans ?_)
    exact execBlock_cond_br _ _ _ _ _ _ (evalValue_setReg_self _ _ _)
  · exact getKey_setKey_self k _ _
  · rfl

theorem toSigned_ofInt (v : Int) (h1 : INT_MIN ≤ v) (h2 : v ≤ INT_MAX) :
    toSigned 32 (ofInt 32 v) = v := by
  unfold INT_MIN at h1
  unfold INT_MAX at h2
  unfold toSigned ofInt
  have e : ((2 : Int) ^ 32) = 4294967296 := by norm_num
  have e2 : (2 ^ 32 : Nat) = 4294967296 := by norm_num
  have e3 : (2 ^ (32 - 1) : Nat) = 2147483648 := by norm_num
  rw [e, e2, e3]
  split <;> omega

theorem evalICmp_slt_ofInt (x y : Int) (hx1 : INT_MIN ≤ x) (hx2 : x ≤ INT_MAX)
    (hy1 : INT_MIN ≤ y) (hy2 : y ≤ INT_MAX) :
    evalICmp .slt 32 (ofInt 32 x) (ofInt 32 y) = decide (x < y) := by
  simp [evalICmp, toSigned_ofInt, hx1, hx2, hy1, hy2]

theorem evalICmp_sge_ofInt (x y : Int) (hx1 : INT_MIN ≤ x) (hx2 : x ≤ INT_MAX)
    (hy1 : INT_MIN ≤ y) (hy2 : y ≤ INT_MAX) :
    evalICmp .sge 32 (ofInt 32 x) (ofInt 32 y) = decide (x ≥ y) := by
  simp [evalICmp, toSigned_ofInt, hx1, hx2, hy1, hy2]


theorem loop_iteration (Inv : Machine → Prop) (bs : List Instr) (lv bv ev : Value)
    (k n a : Nat) (hL : LoopBody Inv bs lv k n) (hna : n ≤ a) (reversed : Bool) (B : Int)
    (hbound : ∀ m, Inv m →
      evalValue m (if reversed then bv else ev) = some (.int 32 (ofInt 32 B)))
    (blocks : List BasicBlock) (body after_loop : Nat) (hne : body ≠ after_loop)
    (Bk : BasicBlock) (hB : blocks[body]? = some Bk)
    (hinsts : Bk.insts = bs ++ loop_epilogue lv bv ev body after_loop reversed a)
    (m : Machine) (hI : Inv m) (i : Int)
    (hs : getKey k m.stack = some (.int 32 (ofInt 32 i))) (fuel : Nat) :
    ∃ m2, run_to blocks after_loop (fuel + 1) body m
        = run_to blocks after_loop fuel
            (if evalICmp (if reversed then .sge else .slt) 32
              (ofInt 32 (i + (if reversed then -1 else 1))) (ofInt 32 B)
              then body else after_loop) m2 ∧
      Inv m2 ∧
      getKey k m2.stack = some (.int 32 (ofInt 32 (i + (if reversed then -1 else 1)))) ∧
      m2.trace = m.trace ++ [(body, m.stack)] := by
  have I0 := hL.trace m (m.trace ++ [(body, m.stack)]) hI
  obtain ⟨mb, hmb, Ib, hsb⟩ := hL.exec _ _ I0 hs
  have hsb2 : getKey k mb.stack = some (.int 32 (ofInt 32 i)) := hsb.trans hs
  obtain ⟨m2, hm2, I2, hs2, ht2⟩ := exec_epilogue Inv bs lv bv ev k n a hL hna reversed B
    hbound mb Ib i hsb2 body after_loop
  refine ⟨m2, ?_, I2, hs2, ?_⟩
  · have hblock : execBlock Bk.insts { m with trace := m.trace ++ [(body, m.stack)] }
        = some (m2, .goto (if evalICmp (if reversed then .sge else .slt) 32
              (ofInt 32 (i + (if reversed then -1 else 1))) (ofInt 32 B)
              then body else after_loop)) := by
      rw [hinsts, execBlock_append _ _ _ _ hmb]
      exact hm2
    rw [run_to]
    simp only [hne, if_false, List.get?_eq_getElem?, hB, hblock]
  · rw [ht2, execInstrs_trace _ _ _ hmb]

theorem loop_runs_up (Inv : Machine → Prop) (bs : List Instr) (lv bv ev : Value)
    (k n a : Nat) (hL : LoopBody Inv bs lv k n) (hna : n ≤ a) (b e : Int)
    (hb : INT_MIN ≤ b) (he : e ≤ INT_MAX)
    (hev : ∀ m, Inv m → evalValue m ev = some (.int 32 (ofInt 32 e)))
    (blocks : List BasicBlock) (body after_loop : Nat) (hne : body ≠ after_loop)
    (Bk : BasicBlock) (hB : blocks[body]? = some Bk)
    (hinsts : Bk.insts = bs ++ loop_epilogue lv bv ev body after_loop false a) :
    ∀ (cnt : Nat) (i : Int) (m : Machine), Inv m →
      getKey k m.stack = some (.int 32 (ofInt 32 i)) → b ≤ i → e - i = (cnt : Int) + 1 →
      ∃ m2 entries, run_to blocks after_loop (cnt + 1) body m = some m2 ∧ Inv m2 ∧
        m2.trace = m.trace ++ entries ∧
        entries.map (fun en => (en.1, getKey k en.2))
          = (List.range (cnt + 1)).map
              (fun (j : Nat) => (body, some (RVal.int 32 (ofInt 32 (i + (j : Int)))))) := by
  intro cnt
  induction cnt with
  | zero =>
    intro i m hI hs hbi hcnt
    obtain ⟨m2, hrun, I2, hs2, ht2⟩ := loop_iteration Inv bs lv bv ev k n a hL hna false e
      hev blocks body after_loop hne Bk hB hinsts m hI i hs 0
    have hc : evalICmp .slt 32 (ofInt 32 (i + 1)) (ofInt 32 e) = false := by
      rw [evalICmp_slt_ofInt _ _ (by omega) (by omega) (by omega) he]
      simp; omega
    simp only [Bool.false_eq_true, if_false, hc] at hrun
    refine ⟨m2, [(body, m.stack)], ?_, I2, ht2, ?_⟩
    · rw [hrun]; simp [run_to]
    · simp [hs, List.range_succ]
  | succ cnt ih =>
    intro i m hI hs hbi hcnt
    obtain ⟨m2, hrun, I2, hs2, ht2⟩ := loop_iteration Inv bs lv bv ev k n a hL hna false e
      hev blocks body after_loop hne Bk hB hinsts m hI i hs (cnt + 1)
    have hc : evalICmp .slt 32 (ofInt 32 (i + 1)) (ofInt 32 e) = true := by
      rw [evalICmp_slt_ofInt _ _ (by omega) (by omega) (by omega) he]
      simp; omega
    simp only [Bool.false_eq_true, if_false, hc, if_true] at hrun hs2
    obtain ⟨m3, entries, hrun3, I3, ht3, hen⟩ := ih (i + 1) m2 I2 hs2 (by omega)
      (by push_cast at hcnt ⊢; omega)
    refine ⟨m3, (body, m.stack) :: entries, ?_, I3, ?_, ?_⟩
    · rw [hrun, hrun3]
    · rw [ht3, ht2]; simp
    · rw [List.range_succ_eq_map, List.map_cons, List.map_cons, hen, List.map_map]
      simp only [hs, Nat.cast_zero, add_zero, List.cons.injEq, true_and]
      apply List.map_congr_left
      intro j _
      simp only [Function.comp, Nat.succ_eq_add_one, Nat.cast_add, Nat.cast_one]
      rw [add_assoc, add_comm 1 (j : Int)]

theorem loop_runs_down (Inv : Machine → Prop) (bs : List Instr) (lv bv ev : Value)
    (k n a : Nat) (hL : LoopBody Inv bs lv k n) (hna : n ≤ a) (b e : Int)
    (hb : INT_MIN < b) (he : e ≤ INT_MAX)
    (hbv : ∀ m, Inv m → evalValue m bv = some (.int 32 (ofInt 32 b)))
    (blocks : List BasicBlock) (body after_loop : Nat) (hne : body ≠ after_loop)
    (Bk : BasicBlock) (hB : blocks[body]? = some Bk)
    (hinsts : Bk.insts = bs ++ loop_epilogue lv bv ev body after_loop true a) :
    ∀ (cnt : Nat) (i : Int) (m : Machine), Inv m →
      getKey k m.stack = some (.int 32 (ofInt 32 i)) → i < e → i - b = (cnt : Int) →
      ∃ m2 entries, run_to blocks after_loop (cnt + 1) body m = some m2 ∧ Inv m2 ∧
        m2.trace = m.trace ++ entries ∧
        entries.map (fun en => (en.1, getKey k en.2))
          = (List.range (cnt + 1)).map
              (fun (j : Nat) => (body, some (RVal.int 32 (ofInt 32 (i - (j : Int)))))) := by
  intro cnt
  induction cnt with
  | zero =>
    intro i m hI hs hie hcnt
    obtain ⟨m2, hrun, I2, hs2, ht2⟩ := loop_iteration Inv bs lv bv ev k n a hL hna true b
      hbv blocks body after_loop hne Bk hB hinsts m hI i hs 0
    have hc : evalICmp .sge 32 (ofInt 32 (i + -1)) (ofInt 32 b) = false := by
      rw [evalICmp_sge_ofInt _ _ (by omega) (by omega) (by omega) (by omega)]
      simp; omega
    simp only [Bool.false_eq_true, if_false, hc, if_true] at hrun
    refine ⟨m2, [(body, m.stack)], ?_, I2, ht2, ?_⟩
    · rw [hrun]; simp [run_to]
    · simp [hs, List.range_succ]
  | succ cnt ih =>
    intro i m hI hs hie hcnt
    obtain ⟨m2, hrun, I2, hs2, ht2⟩ := loop_iteration Inv bs lv bv ev k n a hL hna true b
      hbv blocks body after_loop hne Bk hB hinsts m hI i hs (cnt + 1)
    have hc : evalICmp .sge 32 (ofInt 32 (i + -1)) (ofInt 32 b) = true := by
      rw [evalICmp_sge_ofInt _ _ (by omega) (by omega) (by omega) (by omega)]
      simp; omega
    simp only [Bool.false_eq_true, if_false, hc, if_true] at hrun hs2
    obtain ⟨m3, entries, hrun3, I3, ht3, hen⟩ := ih (i + -1) m2 I2 hs2 (by omega)
      (by push_cast at hcnt ⊢; omega)
    refine ⟨m3, (body, m.stack) :: entries, ?_, I3, ?_, ?_⟩
    · rw [hrun, hrun3]
    · rw [ht3, ht2]; simp
    · rw [List.range_succ_eq_map, List.map_cons, List.map_cons, hen, List.map_map]
      simp only [hs, Nat.cast_zero, sub_zero, List.cons.injEq, true_and]
      apply List.map_congr_left
      intro j _
      simp only [Function.comp, Nat.succ_eq_add_one, Nat.cast_add, Nat.cast_one]
      have e1 : i + -1 - (j : Int) = i - ((j : Int) + 1) := by omega
      rw [e1]

theorem ofInt_sub (a b : Int) :
    (ofInt 32 a + (2 ^ 32 - ofInt 32 b % 2 ^ 32)) % 2 ^ 32 = ofInt 32 (a - b) := by
  have ha := ofInt_cast 32 a
  have hb := ofInt_cast 32 b
  have hab := ofInt_cast 32 (a - b)
  have hlt := ofInt_lt 32 b
  have e : ((2 : Int) ^ 32) = 4294967296 := by norm_num
  have e2 : (2 ^ 32 : Nat) = 4294967296 := by norm_num
  rw [e] at ha hb hab
  rw [e2] at hlt ⊢
  omega

theorem execInstr_sub (m : Machine) (r : Nat) (x y : Value) (a b : Int)
    (hx : evalValue m x = some (.int 32 (ofInt 32 a)))
    (hy : evalValue m y = some (.int 32 (ofInt 32 b))) :
    execInstr m (.binop r .sub x y) = some (m.setReg r (.int 32 (ofInt 32 (a - b)))) := by
  have e := ofInt_sub a b
  simp only [execInstr, hx, hy, evalBinOp, if_true, e]

theorem exec_preamble (Inv : Machine → Prop) (bs : List Instr) (lv bv ev : Value)
    (k n a : Nat) (hL : LoopBody Inv bs lv k n) (hna : n ≤ a) (reversed : Bool) (b e : Int)
    (hbv : ∀ m, Inv m → evalValue m bv = some (.int 32 (ofInt 32 b)))
    (hev : ∀ m, Inv m → evalValue m ev = some (.int 32 (ofInt 32 e)))
    (m : Machine) (hI : Inv m) :
    ∃ m1, execInstrs (loop_preamble lv bv ev reversed a) m = some m1 ∧ Inv m1 ∧
      getKey k m1.stack = some (.int 32 (ofInt 32 (if reversed then e - 1 else b))) ∧
      m1.trace = m.trace := by
  cases reversed
  · have e1 := execInstr_store m k bv lv _ (hbv m hI) (hL.lv_slot m hI)
    refine ⟨_, ?_, hL.slot _ _ hI, getKey_setKey_self k _ _, rfl⟩
    simp only [loop_preamble, Bool.false_eq_true, if_false, execInstrs, e1]
  · have e1 := execInstr_sub m a ev (CodeGen.get_constant 1) e 1 (hev m hI)
      (evalValue_get_constant _ _)
    have I1 := hL.reg m a (.int 32 (ofInt 32 (e - 1))) hI hna
    have e2 := execInstr_store _ k (.inst a) lv _ (evalValue_setReg_self _ _ _)
      (hL.lv_slot _ I1)
    refine ⟨_, ?_, hL.slot _ _ I1, getKey_setKey_self k _ _, rfl⟩
    simp only [loop_preamble, if_true, execInstrs, e1, e2]

theorem range_for_indices_up (b e : Int) :
    range_for_indices b e false
      = (List.range (e - b).toNat).map (fun (j : Nat) => b + (j : Int)) := by
  simp [range_for_indices]

theorem range_for_indices_down (b e : Int) :
    range_for_indices b e true
      = (List.range (e - b).toNat).map (fun (j : Nat) => e - 1 - (j : Int)) := by
  simp only [range_for_indices, if_true]
  apply List.ext_getElem
  · simp
  · intro j h1 h2
    simp only [List.length_reverse, List.length_map, List.length_range] at h1
    simp only [List.getElem_reverse, List.getElem_map, List.getElem_range, List.length_map,
      List.length_range]
    omega

theorem range_for_leave_insert_point (cg : CodeGen) (lv bv ev : Value)
    (body after_loop : Nat) (reversed : Bool) :
    (cg.range_for_leave lv bv ev body after_loop reversed).insert_point = after_loop := by
  cases reversed <;> rfl

theorem current_insts_eq (cg : CodeGen) (b : BasicBlock)
    (h : cg.blocks[cg.insert_point]? = some b) : cg.current_insts = b.insts := by
  simp [CodeGen.current_insts, h]

theorem range_for_core (cg : CodeGen) (hip : cg.insert_point < cg.blocks.length)
    (lv bv ev : Value) (reversed : Bool) (c2 : CodeGen) (bs : List Instr)
    (hsl : StraightLine (cg.range_for_enter lv bv ev reversed).2 c2 bs)
    (Inv : Machine → Prop) (k : Nat) (hL : LoopBody Inv bs lv k cg.next_id)
    (b e : Int) (hb : INT_MIN ≤ b) (hlt : b < e) (he : e ≤ INT_MAX)
    (hrev : reversed = true → INT_MIN < b)
    (hbv : ∀ m, Inv m → evalValue m bv = some (.int 32 (ofInt 32 b)))
    (hev : ∀ m, Inv m → evalValue m ev = some (.int 32 (ofInt 32 e)))
    (cg0 : CodeGen) (h0ip : cg0.insert_point = cg.insert_point)
    (h0cur : cg0.current_insts = cg.current_insts) (m : Machine) (hI : Inv m) :
    ∃ m2 entries,
      exec_emitted cg0
        (c2.range_for_leave lv bv ev cg.blocks.length (cg.blocks.length + 1) reversed)
        (e - b).toNat m = some m2 ∧
      Inv m2 ∧ m2.trace = m.trace ++ entries ∧
      entries.map (fun en => (en.1, getKey k en.2))
        = (range_for_indices b e reversed).map
            (fun i => (cg.blocks.length, some (RVal.int 32 (ofInt 32 i)))) := by
  obtain ⟨_, hc1ip, hc1len, hc1id, hc1cur, ⟨bp, hbp, hbpi⟩, _⟩ :=
    range_for_enter_spec cg lv bv ev reversed hip
  obtain ⟨h2ip, h2len, h2id, h2cur, hext⟩ := hsl
  rw [hc1ip] at h2ip
  rw [hc1len] at h2len
  rw [hc1cur, List.nil_append] at h2cur
  have hL2 : cg.blocks.length < c2.blocks.length := by omega
  obtain ⟨Bk, hBk⟩ : ∃ Bk, c2.blocks[cg.blocks.length]? = some Bk :=
    ⟨_, List.getElem?_eq_getElem hL2⟩
  have hBki : Bk.insts = bs := by
    rw [← h2cur]
    exact (current_insts_eq c2 Bk (by rw [h2ip]; exact hBk)).symm
  obtain ⟨bq, extra, hbq, hbqi⟩ := hext _ _ hbp
  have hneip : cg.insert_point ≠ c2.insert_point := by rw [h2ip]; omega
  have hblk_ip :
      (c2.range_for_leave lv bv ev cg.blocks.length (cg.blocks.length + 1)
        reversed).blocks[cg.insert_point]? = some bq := by
    rw [range_for_leave_blocks, if_neg hneip, hbq]
  have hblk_body :
      (c2.range_for_leave lv bv ev cg.blocks.length (cg.blocks.length + 1)
        reversed).blocks[cg.blocks.length]?
        = some { Bk with insts := (Bk.insts ++ loop_epilogue lv bv ev cg.blocks.length
            (cg.blocks.length + 1) reversed c2.next_id) } := by
    rw [range_for_leave_blocks, if_pos h2ip.symm, hBk]
    rfl
  have happ : appended_at cg0
      (c2.range_for_leave lv bv ev cg.blocks.length (cg.blocks.length + 1) reversed)
      = loop_preamble lv bv ev reversed cg.next_id
          ++ ([Instr.br cg.blocks.length] ++ extra) := by
    unfold appended_at
    rw [h0ip, h0cur, List.get?_eq_getElem?, hblk_ip]
    simp [hbqi, hbpi]
  obtain ⟨m1, hm1, I1, hs1, ht1⟩ := exec_preamble Inv bs lv bv ev k cg.next_id cg.next_id hL
    (le_refl _) reversed b e hbv hev m hI
  have hna : cg.next_id ≤ c2.next_id := le_trans hc1id h2id
  have hne : cg.blocks.length ≠ cg.blocks.length + 1 := by omega
  have hstart : exec_emitted cg0
      (c2.range_for_leave lv bv ev cg.blocks.length (cg.blocks.length + 1) reversed)
      (e - b).toNat m
      = run_to (c2.range_for_leave lv bv ev cg.blocks.length (cg.blocks.length + 1)
          reversed).blocks (cg.blocks.length + 1) (e - b).toNat cg.blocks.length m1 := by
    unfold exec_emitted
    rw [happ, execBlock_append _ _ _ _ hm1, range_for_leave_insert_point]
    rfl
  rw [hstart]
  obtain ⟨cnt, hcnt⟩ : ∃ cnt : Nat, (e - b).toNat = cnt + 1 :=
    ⟨(e - b).toNat - 1, by omega⟩
  cases reversed
  · obtain ⟨m2, entries, hrun, I2, ht2, hen⟩ := loop_runs_up Inv bs lv bv ev k cg.next_id
      c2.next_id hL hna b e hb he hev _ _ _ hne _ hblk_body (by rw [hBki]) cnt b m1 I1
      (by simpa using hs1) (le_refl _) (by omega)
    refine ⟨m2, entries, ?_, I2, ?_, ?_⟩
    · rw [hcnt]; exact hrun
    · rw [ht2, ht1]
    · rw [hen, range_for_indices_up, hcnt, List.map_map]
      rfl
  · obtain ⟨m2, entries, hrun, I2, ht2, hen⟩ := loop_runs_down Inv bs lv bv ev k cg.next_id
      c2.next_id hL hna b e (hrev rfl) he hbv _ _ _ hne _ hblk_body (by rw [hBki]) cnt
      (e - 1) m1 I1 (by simpa using hs1) (by omega) (by omega)
    refine ⟨m2, entries, ?_, I2, ?_, ?_⟩
    · rw [hcnt]; exact hrun
    · rw [ht2, ht1]
    · rw [hen, range_for_indices_down, hcnt, List.map_map]
      rfl

theorem range_for_indices_length (b e : Int) (reversed : Bool) :
    (range_for_indices b e reversed).length = (e - b).toNat := by
  cases reversed <;> simp [range_for_indices]

theorem naive_range_for_runs (cg : CodeGen) (reversed : Bool)
    (accept_body : CodeGen → Except Err CodeGen) (c2 : CodeGen) (bs : List Instr)
    (Inv : Machine → Prop) (k : Nat) (b e : Int)
    (hip : cg.insert_point < cg.blocks.length)
    (hb : INT_MIN ≤ b) (hlt : b < e) (he : e ≤ INT_MAX)
    (hrev : reversed = true → INT_MIN < b) (loop_var begin_ end_ : StmtRef)
    (hacc : accept_body (cg.naive_range_for_body_state loop_var begin_ end_ reversed)
      = .ok c2)
    (hsl : StraightLine (cg.naive_range_for_body_state loop_var begin_ end_ reversed) c2 bs)
    (hv1 : c2.value loop_var = cg.value loop_var) (hv2 : c2.value begin_ = cg.value begin_)
    (hv3 : c2.value end_ = cg.value end_)
    (hL : LoopBody Inv bs (cg.value loop_var) k cg.next_id)
    (hbv : ∀ m, Inv m → evalValue m (cg.value begin_) = some (.int 32 (ofInt 32 b)))
    (hev : ∀ m, Inv m → evalValue m (cg.value end_) = some (.int 32 (ofInt 32 e))) :
    ∃ cg2, cg.create_naive_range_for loop_var begin_ end_ reversed accept_body = .ok cg2 ∧
      RunsBodyOver cg cg2 Inv k cg.blocks.length (range_for_indices b e reversed) := by
  have h1 := (range_for_enter_spec cg (cg.value loop_var) (cg.value begin_)
    (cg.value end_) reversed hip).1
  refine ⟨c2.range_for_leave (cg.value loop_var) (cg.value begin_) (cg.value end_)
    cg.blocks.length (cg.blocks.length + 1) reversed, ?_, ?_⟩
  · unfold CodeGen.create_naive_range_for
    unfold CodeGen.naive_range_for_body_state at hacc
    simp only [hacc, h1]
    show Except.ok _ = _
    rw [hv1, hv2, hv3]
  · intro m hI
    rw [range_for_indices_length]
    exact range_for_core cg hip _ _ _ reversed c2 bs hsl Inv k hL b e hb hlt he hrev hbv hev
      cg rfl rfl m hI

theorem offload_range_for_runs (cg : CodeGen) (reversed : Bool)
    (accept_body : CodeGen → Except Err CodeGen) (c2 : CodeGen) (bs : List Instr)
    (Inv : Machine → Prop) (k : Nat) (b e : Int)
    (hip : cg.insert_point < cg.blocks.length)
    (hb : INT_MIN ≤ b) (hlt : b < e) (he : e ≤ INT_MAX)
    (hrev : reversed = true → INT_MIN < b)
    (hne : cg.entry_block ≠ cg.insert_point)
    (hacc : accept_body (cg.offload_range_for_body_state b e reversed) = .ok c2)
    (hsl : StraightLine (cg.offload_range_for_body_state b e reversed) c2 bs)
    (hL : LoopBody Inv bs (.inst cg.next_id) k (cg.next_id + 1)) :
    ∃ cg2, cg.create_offload_range_for b e reversed accept_body = .ok cg2 ∧
      RunsBodyOver cg cg2 Inv k cg.blocks.length (range_for_indices b e reversed) := by
  obtain ⟨cgA, hA⟩ : ∃ cgA : CodeGen, cgA =
      { (cg.create_entry_block_alloca .i32).2 with
        loop_vars_llvm := (cg.create_entry_block_alloca .i32).2.loop_vars_llvm
          ++ [(cg.create_entry_block_alloca .i32).1] } := ⟨_, rfl⟩
  have hAip : cgA.insert_point = cg.insert_point := by rw [hA]; rfl
  have hAid : cgA.next_id = cg.next_id + 1 := by rw [hA]; rfl
  have hAblocks : cgA.blocks = appendTo (.alloca cg.next_id .i32) cg.entry_block cg.blocks := by
    rw [hA]; rfl
  have hAlen : cgA.blocks.length = cg.blocks.length := by rw [hAblocks, appendTo_length]
  have hAcur : cg.current_insts = cgA.current_insts := by
    unfold CodeGen.current_insts
    rw [hAip, hAblocks, List.get?_eq_getElem?, List.get?_eq_getElem?,
      appendTo_get_other _ _ _ _ (Ne.symm hne)]
  have hstate : cg.offload_range_for_body_state b e reversed
      = (cgA.range_for_enter (.inst cg.next_id) (CodeGen.get_constant b)
          (CodeGen.get_constant e) reversed).2 := by
    rw [hA]; rfl
  have hipA : cgA.insert_point < cgA.blocks.length := by rw [hAip, hAlen]; exact hip
  have h1 := (range_for_enter_spec cgA (.inst cg.next_id) (CodeGen.get_constant b)
    (CodeGen.get_constant e) reversed hipA).1
  rw [hstate] at hacc hsl
  rw [← hAid] at hL
  refine ⟨c2.range_for_leave (.inst cg.next_id) (CodeGen.get_constant b)
    (CodeGen.get_constant e) cg.blocks.length (cg.blocks.length + 1) reversed, ?_, ?_⟩
  · have hunf : cg.create_offload_range_for b e reversed accept_body
        = (accept_body (cgA.range_for_enter (.inst cg.next_id) (CodeGen.get_constant b)
            (CodeGen.get_constant e) reversed).2 >>= fun c =>
          pure (c.range_for_leave (.inst cg.next_id) (CodeGen.get_constant b)
            (CodeGen.get_constant e)
            (cgA.range_for_enter (.inst cg.next_id) (CodeGen.get_constant b)
              (CodeGen.get_constant e) reversed).1.1
            (cgA.range_for_enter (.inst cg.next_id) (CodeGen.get_constant b)
              (CodeGen.get_constant e) reversed).1.2 reversed)) := by
      rw [hA]; rfl
    rw [hunf, hacc, h1, hAlen]
    rfl
  · intro m hI
    rw [range_for_indices_length]
    have hcore := range_for_core cgA hipA _ _ _ reversed c2 bs hsl Inv k hL b e hb hlt he
      hrev (fun m _ => evalValue_get_constant m b) (fun m _ => evalValue_get_constant m e)
      cg hAip.symm hAcur m hI
    rw [hAlen] at hcore
    exact hcore

theorem result_or_spec {α : Type} (d : α) (x : Except Err α) (h : x.toBool = true) :
    x = .ok (result_or d x) := by
  cases x with
  | ok a => rfl
  | error e => cases h

theorem blocksExtend_of_check : ∀ (bs1 bs2 : List BasicBlock),
    blocks_extend_check bs1 bs2 = true → BlocksExtend bs1 bs2
  | [], _, _ => by
    intro l b h
    simp at h
  | _ :: _, [], h => by
    simp [blocks_extend_check] at h
  | b :: bs, b2 :: bs2, h => by
    simp only [blocks_extend_check, Bool.and_eq_true] at h
    intro l x hx
    cases l with
    | zero =>
      simp only [List.getElem?_cons_zero, Option.some.injEq] at hx
      subst hx
      obtain ⟨t, ht⟩ := List.isPrefixOf_iff_prefix.1 h.1
      exact ⟨b2, t, by simp, ht.symm⟩
    | succ l =>
      simp only [List.getElem?_cons_succ] at hx
      obtain ⟨y, extra, hy, he⟩ := blocksExtend_of_check bs bs2 h.2 l x hx
      exact ⟨y, extra, by simpa using hy, he⟩

theorem print_index_body_straight_line :
    StraightLine (example_task_builder.offload_range_for_body_state 0 3 false)
      (print_index_body_result 0 3 false)
      [.load 1 (.inst 0),
       .call 2 (.function "printf") [.global_string "[debug] i = %d\n", .inst 1]] := by
  refine ⟨by decide!, by decide!, by decide!, by decide!, blocksExtend_of_check _ _ ?_⟩
  decide!

theorem loop_var_ready_body :
    LoopBody (loop_var_ready 0)
      [.load 1 (.inst 0),
       .call 2 (.function "printf") [.global_string "[debug] i = %d\n", .inst 1]]
      (.inst 0) 0 1 := by
  refine ⟨?_, ?_, ?_, ?_, ?_⟩
  · intro m hI
    exact hI
  · intro m i hr hv
    have e1 := execInstr_load m 1 0 (.inst 0) _ hr hv
    have e2 : execInstr (m.setReg 1 (.int 32 i)) (.call 2 (.function "printf")
        [.global_string "[debug] i = %d\n", .inst 1])
        = some (({ m.setReg 1 (.int 32 i) with
            out := (m.setReg 1 (.int 32 i)).out ++ [.int 32 i] } : Machine).setReg 2
            (.int 32 0)) := by
      simp [execInstr, evalValue, evalValues, evalCall, Machine.setReg, getKey_setKey_self]
    have hx : execInstrs [Instr.load 1 (.inst 0),
        .call 2 (.function "printf") [.global_string "[debug] i = %d\n", .inst 1]] m
        = some (({ m.setReg 1 (.int 32 i) with
            out := (m.setReg 1 (.int 32 i)).out ++ [.int 32 i] } : Machine).setReg 2
            (.int 32 0)) := by
      simp only [execInstrs, e1, e2]
    refine ⟨_, hx, ?_, rfl⟩
    show getKey 0 (setKey 2 _ (setKey 1 _ m.regs)) = _
    rw [getKey_setKey_other _ _ _ _ (by decide), getKey_setKey_other _ _ _ _ (by decide)]
    exact hr
  · intro m id v hr hid
    show getKey 0 (setKey id v m.regs) = _
    rw [getKey_setKey_other _ _ _ _ (by omega)]
    exact hr
  · intro m v hI
    exact hI
  · intro m t hI
    exact hI

/-- C3 (counterexample): a reversed host range-for with `begin = -2147483648` and
`end = -2147483647` is claimed to run its body once.  The decrement of the loop variable
wraps from `INT_MIN` to `INT_MAX`, which still satisfies `>= begin`: after six basic
blocks the loops of `create_offload_range_for` and `create_naive_range_for` have each run
the body four times, with indices `INT_MIN`, `INT_MAX`, `INT_MAX - 1`, `INT_MAX - 2`, and
are about to enter `loop_body` (block 2) again. -/
theorem reversed_range_for_from_int_min_runs_on :
    observe_for example_base false
        (offload_range_for_kernel (-2147483648) (-2147483647) true) "k_kernel_0" 6
        (one_cell_machine 0)
      = some ([.int 32 2147483648, .int 32 2147483647, .int 32 2147483646,
                .int 32 2147483645],
              ["entry", "body", "loop_body", "loop_body", "loop_body", "loop_body"],
              .running 2)
    ∧ observe_for example_base false
        (naive_range_for_kernel (-2147483648) (-2147483647) true) "k_kernel_0" 6
        (one_cell_machine 0)
      = some ([.int 32 2147483648, .int 32 2147483647, .int 32 2147483646,
                .int 32 2147483645],
              ["entry", "body", "loop_body", "loop_body", "loop_body", "loop_body"],
              .running 2) := by
  decide!

/-- C3 (amended): let `INT_MIN <= b < e <= INT_MAX`, and `INT_MIN < b` when the loop is
reversed.  Let the body be lowered, in the state in which the loop visits it, to
straight-line code `bs` that runs to completion from every machine satisfying `Inv` and
leaves the loop variable alone (`LoopBody`).  Then the host `create_offload_range_for`
(first part) and `create_naive_range_for` whose bounds evaluate to `b` and `e` (second
part) succeed, and the emitted loop, run from any machine satisfying `Inv`, terminates
having entered `loop_body` exactly `e - b` times, the loop variable holding
`b, b+1, ..., e-1` at the successive entries, or `e-1, ..., b` when reversed.  Third
part: the kernel that adds the loop index over `[0, 100)` to a cell holding 0 leaves
4950 in it. -/
theorem host_range_for_runs_body_for_each_index (cg : CodeGen) (reversed : Bool)
    (accept_body : CodeGen → Except Err CodeGen) (c2 : CodeGen) (bs : List Instr)
    (Inv : Machine → Prop) (k : Nat) (b e : Int)
    (hip : cg.insert_point < cg.blocks.length)
    (hb : INT_MIN ≤ b) (hlt : b < e) (he : e ≤ INT_MAX)
    (hrev : reversed = true → INT_MIN < b) :
    (cg.entry_block ≠ cg.insert_point →
      accept_body (cg.offload_range_for_body_state b e reversed) = .ok c2 →
      StraightLine (cg.offload_range_for_body_state b e reversed) c2 bs →
      LoopBody Inv bs (.inst cg.next_id) k (cg.next_id + 1) →
      ∃ cg2, cg.create_offload_range_for b e reversed accept_body = .ok cg2 ∧
        RunsBodyOver cg cg2 Inv k cg.blocks.length (range_for_indices b e reversed)) ∧
    (∀ loop_var begin_ end_ : StmtRef,
      accept_body (cg.naive_range_for_body_state loop_var begin_ end_ reversed) = .ok c2 →
      StraightLine (cg.naive_range_for_body_state loop_var begin_ end_ reversed) c2 bs →
      c2.value loop_var = cg.value loop_var → c2.value begin_ = cg.value begin_ →
      c2.value end_ = cg.value end_ →
      LoopBody Inv bs (cg.value loop_var) k cg.next_id →
      (∀ m, Inv m → evalValue m (cg.value begin_) = some (.int 32 (ofInt 32 b))) →
      (∀ m, Inv m → evalValue m (cg.value end_) = some (.int 32 (ofInt 32 e))) →
      ∃ cg2, cg.create_naive_range_for loop_var begin_ end_ reversed accept_body
          = .ok cg2 ∧
        RunsBodyOver cg cg2 Inv k cg.blocks.length (range_for_indices b e reversed)) ∧
    (observe example_base false (range_for_sum_kernel 0 100 false) "k_kernel_0" 103
        (one_cell_machine 0)).map (fun o => o.mem) = some [(0, .int 32 4950)] := by
  refine ⟨?_, ?_, by decide!⟩
  · intro hne hacc hsl hL
    exact offload_range_for_runs cg reversed accept_body c2 bs Inv k b e hip hb hlt he hrev
      hne hacc hsl hL
  · intro loop_var begin_ end_ hacc hsl hv1 hv2 hv3 hL hbv hev
    exact naive_range_for_runs cg reversed accept_body c2 bs Inv k b e hip hb hlt he hrev
      loop_var begin_ end_ hacc hsl hv1 hv2 hv3 hL hbv hev

/-- Witness of C3 (amended): the host offloaded range-for over `[0, 3)` whose body prints
the loop index, created in a fresh task function and run on the machine left by the
alloca of the loop variable. -/
theorem host_range_for_runs_body_for_each_index_witness :
    range_for_indices 0 3 false = [0, 1, 2] ∧
    loop_var_ready 0 machine_after_alloca ∧
    ∃ cg2, example_task_builder.create_offload_range_for 0 3 false
        (visitBlock print_index_body) = .ok cg2 ∧
      RunsBodyOver example_task_builder cg2 (loop_var_ready 0) 0
        example_task_builder.blocks.length (range_for_indices 0 3 false) :=
  ⟨by decide, rfl,
    (host_range_for_runs_body_for_each_index example_task_builder false
      (visitBlock print_index_body) (print_index_body_result 0 3 false) _ (loop_var_ready 0)
      0 0 3 (by decide) (by decide) (by decide) (by decide) (by decide)).1 (by decide)
      (result_or_spec _ _ (by decide!)) print_index_body_straight_line
      loop_var_ready_body⟩

/-- C9 (counterexample): for `begin = 2147483646`, `end = 2147483647` and the default
block size the launch shape is `(1, 256)`.  Thread 2 of block 0 computes
`loop_id = begin + 2`, which wraps to `-2147483648`; that is below `end`, so the thread
runs the body with an index outside `[begin, end)` (the body stores the index to the
buffer).  Thread 1 computes `2147483647` and skips the body. -/
theorem gpu_range_for_index_wraps_past_int_max :
    CodeGen.range_for_launch_shape 256 2147483646 2147483647 0 = some (1, 256)
    ∧ observe example_base true (range_for_store_kernel 2147483646 2147483647 0)
        "k_kernel_0" 10 (thread_machine 0 2 256)
      = some { mem := [(0, .int 32 2147483648)], out := [],
               blocks_entered := ["entry", "body", "loop_body", "block"] }
    ∧ toSigned 32 2147483648 = -2147483648
    ∧ observe example_base true (range_for_store_kernel 2147483646 2147483647 0)
        "k_kernel_0" 10 (thread_machine 0 1 256)
      = some { mem := [(0, .int 32 0)], out := [],
               blocks_entered := ["entry", "body", "block"] } := by
  decide!

theorem gpu_range_for_enter_spec (cg : CodeGen) (lv : Value) (begin_ end_ : Int)
    (hip : cg.insert_point < cg.blocks.length) :
    (cg.gpu_range_for_enter lv begin_ end_).1 = (cg.blocks.length, cg.blocks.length + 1) ∧
    (cg.gpu_range_for_enter lv begin_ end_).2.insert_point = cg.blocks.length ∧
    (cg.gpu_range_for_enter lv begin_ end_).2.blocks.length = cg.blocks.length + 2 ∧
    cg.next_id ≤ (cg.gpu_range_for_enter lv begin_ end_).2.next_id ∧
    (cg.gpu_range_for_enter lv begin_ end_).2.current_insts = [] ∧
    (∃ b : BasicBlock,
      (cg.gpu_range_for_enter lv begin_ end_).2.blocks[cg.insert_point]? = some b ∧
      b.insts = cg.current_insts
        ++ gpu_guard_code lv begin_ end_ cg.blocks.length (cg.blocks.length + 1)
            cg.next_id) := by
  obtain ⟨b0, hb0⟩ : ∃ b, cg.blocks[cg.insert_point]? = some b :=
    ⟨_, List.getElem?_eq_getElem hip⟩
  have hne : cg.blocks.length ≠ cg.insert_point := Nat.ne_of_gt hip
  have hlen2 : ∀ y : BasicBlock, cg.insert_point < (cg.blocks ++ [y]).length := by
    intro y
    simp
    omega
  simp [CodeGen.gpu_range_for_enter, CodeGen.BasicBlock_Create, CodeGen.CreateStore,
    CodeGen.CreateCondBr, CodeGen.emit, CodeGen.SetInsertPoint, CodeGen.current_insts,
    CodeGen.CreateIntrinsic, CodeGen.CreateMul, CodeGen.CreateAdd, CodeGen.CreateLoad,
    CodeGen.CreateICmp, CodeGen.CreateBinOp, CodeGen.emitValue,
    appendTo_length, appendTo_get_self, appendTo_get_other _ _ _ _ hne, gpu_guard_code,
    List.getElem?_append_left hip, List.getElem?_append_left (hlen2 _), hb0]
  constructor
  · omega
  · simp [List.getElem_append_right]

theorem ofInt_natCast (n : Nat) : ofInt 32 (n : Int) = n % 2 ^ 32 := by
  apply Int.ofNat_inj.mp
  rw [ofInt_cast]
  push_cast
  rfl

theorem evalValue_setReg_inst (m : Machine) (r r2 : Nat) (v : RVal) (h : r2 ≠ r) :
    evalValue (m.setReg r v) (.inst r2) = evalValue m (.inst r2) :=
  evalValue_setReg m r v (.inst r2) (fun e => h (by injection e))

theorem execInstr_intrinsic (m : Machine) (r : Nat) (name : String) (args : List Value)
    (v : RVal) (h : evalIntrinsic m name = some v) :
    execInstr m (.intrinsic r name args) = some (m.setReg r v) := by
  simp [execInstr, h]

theorem execInstr_mul (m : Machine) (r : Nat) (x y : Value) (a b : Int)
    (hx : evalValue m x = some (.int 32 (ofInt 32 a)))
    (hy : evalValue m y = some (.int 32 (ofInt 32 b))) :
    execInstr m (.binop r .mul x y) = some (m.setReg r (.int 32 (ofInt 32 (a * b)))) := by
  have e := ofInt_mul 32 a b
  simp only [execInstr, hx, hy, evalBinOp, if_true, e]

theorem exec_gpu_guard (Inv : Machine → Prop) (bs : List Instr) (lv : Value) (k n a : Nat)
    (hL : LoopBody Inv bs lv k n) (hna : n ≤ a) (begin_ end_ : Int)
    (body after_loop : Nat) (m : Machine) (hI : Inv m)
    (h1 : INT_MIN ≤ begin_ + ((m.tid : Int) + (m.ctaid : Int) * (m.ntid : Int)))
    (h2 : begin_ + ((m.tid : Int) + (m.ctaid : Int) * (m.ntid : Int)) ≤ INT_MAX)
    (he1 : INT_MIN ≤ end_) (he2 : end_ ≤ INT_MAX) (rest : List Instr) :
    ∃ m1, execBlock (gpu_guard_code lv begin_ end_ body after_loop a ++ rest) m
        = some (m1, .goto (if begin_ + ((m.tid : Int) + (m.ctaid : Int) * (m.ntid : Int))
            < end_ then body else after_loop)) ∧
      Inv m1 ∧
      getKey k m1.stack = some (.int 32
        (ofInt 32 (begin_ + ((m.tid : Int) + (m.ctaid : Int) * (m.ntid : Int))))) ∧
      m1.trace = m.trace := by
  have e1 := execInstr_intrinsic m a "nvvm_read_ptx_sreg_tid_x" []
    (.int 32 (ofInt 32 (m.tid : Int))) (by simp [evalIntrinsic, ofInt_natCast])
  have I1 := hL.reg m a (.int 32 (ofInt 32 (m.tid : Int))) hI hna
  have e2 := execInstr_intrinsic (m.setReg a (.int 32 (ofInt 32 (m.tid : Int)))) (a + 1)
    "nvvm_read_ptx_sreg_ctaid_x" [] (.int 32 (ofInt 32 (m.ctaid : Int)))
    (by simp [evalIntrinsic, ofInt_natCast, Machine.setReg])
  have I2 := hL.reg _ (a + 1) (.int 32 (ofInt 32 (m.ctaid : Int))) I1 (by omega)
  have e3 := execInstr_intrinsic ((m.setReg a (.int 32 (ofInt 32 (m.tid : Int)))).setReg
    (a + 1) (.int 32 (ofInt 32 (m.ctaid : Int)))) (a + 2)
    "nvvm_read_ptx_sreg_ntid_x" [] (.int 32 (ofInt 32 (m.ntid : Int)))
    (by simp [evalIntrinsic, ofInt_natCast, Machine.setReg])
  have I3 := hL.reg _ (a + 2) (.int 32 (ofInt 32 (m.ntid : Int))) I2 (by omega)
  have e4 := execInstr_mul _ (a + 3) (.inst (a + 1)) (.inst (a + 2)) (m.ctaid : Int)
    (m.ntid : Int)
    ((evalValue_setReg_inst _ _ _ _ (by omega)).trans (evalValue_setReg_self _ _ _))
    (evalValue_setReg_self
      ((m.setReg a (.int 32 (ofInt 32 (m.tid : Int)))).setReg (a + 1)
        (.int 32 (ofInt 32 (m.ctaid : Int)))) (a + 2) (.int 32 (ofInt 32 (m.ntid : Int))))
  have I4 := hL.reg _ (a + 3) (.int 32 (ofInt 32 ((m.ctaid : Int) * (m.ntid : Int)))) I3
    (by omega)
  have e5 := execInstr_add _ (a + 4) (.inst a) (.inst (a + 3)) (m.tid : Int)
    ((m.ctaid : Int) * (m.ntid : Int))
    ((evalValue_setReg_inst _ _ _ _ (by omega)).trans
      ((evalValue_setReg_inst _ _ _ _ (by omega)).trans
        ((evalValue_setReg_inst _ _ _ _ (by omega)).trans (evalValue_setReg_self _ _ _))))
    (evalValue_setReg_self
      (((m.setReg a (.int 32 (ofInt 32 (m.tid : Int)))).setReg (a + 1)
        (.int 32 (ofInt 32 (m.ctaid : Int)))).setReg (a + 2)
        (.int 32 (ofInt 32 (m.ntid : Int)))) (a + 3)
      (.int 32 (ofInt 32 ((m.ctaid : Int) * (m.ntid : Int)))))
  have I5 := hL.reg _ (a + 4)
    (.int 32 (ofInt 32 ((m.tid : Int) + (m.ctaid : Int) * (m.ntid : Int)))) I4 (by omega)
  have e6 := execInstr_add _ (a + 5) (CodeGen.get_constant begin_) (.inst (a + 4)) begin_
    ((m.tid : Int) + (m.ctaid : Int) * (m.ntid : Int)) (evalValue_get_constant _ _)
    (evalValue_setReg_self
      ((((m.setReg a (.int 32 (ofInt 32 (m.tid : Int)))).setReg (a + 1)
        (.int 32 (ofInt 32 (m.ctaid : Int)))).setReg (a + 2)
        (.int 32 (ofInt 32 (m.ntid : Int)))).setReg (a + 3)
        (.int 32 (ofInt 32 ((m.ctaid : Int) * (m.ntid : Int))))) (a + 4)
      (.int 32 (ofInt 32 ((m.tid : Int) + (m.ctaid : Int) * (m.ntid : Int)))))
  have I6 := hL.reg _ (a + 5)
    (.int 32 (ofInt 32 (begin_ + ((m.tid : Int) + (m.ctaid : Int) * (m.ntid : Int))))) I5
    (by omega)
  have e7 := execInstr_store _ k (.inst (a + 5)) lv _ (evalValue_setReg_self _ _ _)
    (hL.lv_slot _ I6)
  have I7 := hL.slot _
    (.int 32 (ofInt 32 (begin_ + ((m.tid : Int) + (m.ctaid : Int) * (m.ntid : Int))))) I6
  have e8 := execInstr_load _ (a + 6) k lv _ (hL.lv_slot _ I7)
    (getKey_setKey_self k
      (RVal.int 32 (ofInt 32 (begin_ + ((m.tid : Int) + (m.ctaid : Int) * (m.ntid : Int)))))
      _)
  have I8 := hL.reg _ (a + 6)
    (.int 32 (ofInt 32 (begin_ + ((m.tid : Int) + (m.ctaid : Int) * (m.ntid : Int))))) I7
    (by omega)
  have e9 := (fun (M : Machine) (_ : Inv M) (x : Nat)
      (hx : evalValue M (.inst (a + 6)) = some (.int 32 x)) =>
    execInstr_icmp M (a + 7) .slt (.inst (a + 6)) (CodeGen.get_constant end_) x
      (ofInt 32 end_) hx (evalValue_get_constant M end_)) _ I8 _
    (evalValue_setReg_self _ _ _)
  have I9 := hL.reg _ (a + 7) (.int 1 (if evalICmp .slt 32
      (ofInt 32 (begin_ + ((m.tid : Int) + (m.ctaid : Int) * (m.ntid : Int))))
      (ofInt 32 end_) then 1 else 0)) I8 (by omega)
  rw [evalICmp_slt_ofInt _ _ h1 h2 he1 he2] at e9 I9
  refine ⟨_, ?_, I9, ?_, ?_⟩
  · have hx := (fun (M : Machine) (_ : Inv M)
        (h : execInstrs [Instr.intrinsic a "nvvm_read_ptx_sreg_tid_x" [],
          .intrinsic (a + 1) "nvvm_read_ptx_sreg_ctaid_x" [],
          .intrinsic (a + 2) "nvvm_read_ptx_sreg_ntid_x" [],
          .binop (a + 3) .mul (.inst (a + 1)) (.inst (a + 2)),
          .binop (a + 4) .add (.inst a) (.inst (a + 3)),
          .binop (a + 5) .add (CodeGen.get_constant begin_) (.inst (a + 4)),
          .store (.inst (a + 5)) lv,
          .load (a + 6) lv,
          .icmp (a + 7) .slt (.inst (a + 6)) (CodeGen.get_constant end_)] m = some M) => h)
      _ I9 (by simp only [execInstrs, e1, e2, e3, e4, e5, e6, e7, e8, e9])
    have hb := execBlock_append _
      (Instr.cond_br (.inst (a + 7)) body after_loop :: rest) _ _ hx
    have hl : gpu_guard_code lv begin_ end_ body after_loop a ++ rest
        = [Instr.intrinsic a "nvvm_read_ptx_sreg_tid_x" [],
        .intrinsic (a + 1) "nvvm_read_ptx_sreg_ctaid_x" [],
        .intrinsic (a + 2) "nvvm_read_ptx_sreg_ntid_x" [],
        .binop (a + 3) .mul (.inst (a + 1)) (.inst (a + 2)),
        .binop (a + 4) .add (.inst a) (.inst (a + 3)),
        .binop (a + 5) .add (CodeGen.get_constant begin_) (.inst (a + 4)),
        .store (.inst (a + 5)) lv,
        .load (a + 6) lv,
        .icmp (a + 7) .slt (.inst (a + 6)) (CodeGen.get_constant end_)]
          ++ (Instr.cond_br (.inst (a + 7)) body after_loop :: rest) := rfl
    rw [hl]
    refine (hb.trans ?_)
    have hc := (fun (M : Machine) (_ : Inv M) =>
      execBlock_cond_br (M.setReg (a + 7) (.int 1
        (if decide (begin_ + ((m.tid : Int) + (m.ctaid : Int) * (m.ntid : Int)) < end_)
          then 1 else 0))) (.inst (a + 7)) body after_loop rest
        (decide (begin_ + ((m.tid : Int) + (m.ctaid : Int) * (m.ntid : Int)) < end_))
        (evalValue_setReg_self M (a + 7) _)) _ I8
    rw [hc]
    simp only [decide_eq_true_eq]
  · exact getKey_setKey_self k _ _
  · rfl

theorem wrap32_of_range (v : Int) (h1 : INT_MIN ≤ v) (h2 : v ≤ INT_MAX) : wrap32 v = v :=
  toSigned_ofInt v h1 h2

theorem range_for_launch_shape_eq (d begin_ end_ block_size block : Int)
    (hblock_def : block = if block_size = 0 then d else block_size)
    (hlt : begin_ < end_) (hblock : 1 ≤ block)
    (hshape : end_ - begin_ + block ≤ INT_MAX) :
    CodeGen.range_for_launch_shape d begin_ end_ block_size
      = some ((end_ - begin_ + block - 1) / block, block) := by
  unfold CodeGen.range_for_launch_shape
  simp only [← hblock_def]
  have hne : block ≠ 0 := by omega
  have hI : INT_MIN = -2147483648 := rfl
  have hA : INT_MAX = 2147483647 := rfl
  rw [if_neg hne, wrap32_of_range (end_ - begin_) (by omega) (by omega),
    wrap32_of_range (end_ - begin_ + block) (by omega) (by omega),
    wrap32_of_range (end_ - begin_ + block - 1) (by omega) (by omega)]
  unfold cdiv
  rw [Int.tdiv_eq_ediv (by omega) (by omega)]

theorem index_map_bijective (begin_ end_ block : Int) (hblock : 1 ≤ block) (i : Int)
    (hi1 : begin_ ≤ i) (hi2 : i < end_) :
    ∃! p : Int × Int, (0 ≤ p.1 ∧ p.1 < (end_ - begin_ + block - 1) / block) ∧
      (0 ≤ p.2 ∧ p.2 < block) ∧ begin_ + p.2 + p.1 * block = i := by
  have hpos : 0 < block := by omega
  have hd := Int.emod_add_ediv (i - begin_) block
  have hm0 := Int.emod_nonneg (i - begin_) (ne_of_gt hpos)
  have hm1 := Int.emod_lt_of_pos (i - begin_) hpos
  have hq0 : 0 ≤ (i - begin_) / block := Int.ediv_nonneg (by omega) (by omega)
  have hgrid : (i - begin_) / block < (end_ - begin_ + block - 1) / block := by
    have e1 : end_ - begin_ + block - 1 = (end_ - begin_ - 1) + block * 1 := by ring
    rw [e1, Int.add_mul_ediv_left _ _ (ne_of_gt hpos)]
    have : (i - begin_) / block ≤ (end_ - begin_ - 1) / block :=
      Int.ediv_le_ediv hpos (by omega)
    omega
  refine ⟨((i - begin_) / block, (i - begin_) % block), ⟨⟨hq0, hgrid⟩, ⟨hm0, hm1⟩, ?_⟩, ?_⟩
  · have : block * ((i - begin_) / block) = (i - begin_) / block * block := by ring
    simp only
    omega
  · rintro ⟨q, r⟩ ⟨⟨hq1, _⟩, ⟨hr1, hr2⟩, heq⟩
    simp only at hq1 hr1 hr2 heq
    have hir : i - begin_ = r + q * block := by omega
    have hq : (i - begin_) / block = q := by
      rw [hir, Int.add_mul_ediv_right _ _ (ne_of_gt hpos), Int.ediv_eq_zero_of_lt hr1 hr2]
      omega
    have hr : (i - begin_) % block = r := by
      rw [hir, Int.add_mul_emod_self, Int.emod_eq_of_lt hr1 hr2]
    rw [hq, hr]

theorem gpu_range_for_runs (cg : CodeGen) (begin_ end_ block_size block grid : Int)
    (accept_body : CodeGen → Except Err CodeGen) (c2 : CodeGen) (bs : List Instr)
    (Inv : Machine → Prop) (k : Nat)
    (hshape : CodeGen.range_for_launch_shape cg.default_gpu_block_size begin_ end_
      block_size = some (grid, block))
    (hip : cg.insert_point < cg.blocks.length) (hne : cg.entry_block ≠ cg.insert_point)
    (hb : INT_MIN ≤ begin_) (he1 : INT_MIN ≤ end_) (he : end_ ≤ INT_MAX)
    (hblock : 1 ≤ block) (hmax : begin_ + grid * block - 1 ≤ INT_MAX)
    (hacc : accept_body (cg.offload_range_for_gpu_body_state begin_ end_ grid block)
      = .ok c2)
    (hsl : StraightLine (cg.offload_range_for_gpu_body_state begin_ end_ grid block) c2 bs)
    (hL : LoopBody Inv bs (.inst cg.next_id) k (cg.next_id + 1)) :
    ∃ cg2, cg.create_offload_range_for_gpu begin_ end_ block_size accept_body = .ok cg2 ∧
      ∀ m, Inv m → (m.ntid : Int) = block → (m.tid : Int) < block →
        (m.ctaid : Int) < grid →
        RunsBodyIf cg cg2 Inv k cg.blocks.length m
          (decide (begin_ + (m.tid : Int) + (m.ctaid : Int) * block < end_))
          (begin_ + (m.tid : Int) + (m.ctaid : Int) * block) := by
  obtain ⟨cgA, hA⟩ : ∃ cgA : CodeGen, cgA = cg.gpu_range_for_loop_var_state grid block :=
    ⟨_, rfl⟩
  have hAip : cgA.insert_point = cg.insert_point := by rw [hA]; rfl
  have hAid : cgA.next_id = cg.next_id + 1 := by rw [hA]; rfl
  have hAblocks : cgA.blocks = appendTo (.alloca cg.next_id .i32) cg.entry_block cg.blocks := by
    rw [hA]; rfl
  have hAlen : cgA.blocks.length = cg.blocks.length := by rw [hAblocks, appendTo_length]
  have hAcur : cg.current_insts = cgA.current_insts := by
    unfold CodeGen.current_insts
    rw [hAip, hAblocks, List.get?_eq_getElem?, List.get?_eq_getElem?,
      appendTo_get_other _ _ _ _ (Ne.symm hne)]
  have hstate : cg.offload_range_for_gpu_body_state begin_ end_ grid block
      = (cgA.gpu_range_for_enter (.inst cg.next_id) begin_ end_).2 := by
    rw [hA]; rfl
  have hipA : cgA.insert_point < cgA.blocks.length := by rw [hAip, hAlen]; exact hip
  obtain ⟨h1, hc1ip, hc1len, hc1id, hc1cur, ⟨bp, hbp, hbpi⟩⟩ :=
    gpu_range_for_enter_spec cgA (.inst cg.next_id) begin_ end_ hipA
  rw [hstate] at hacc hsl
  obtain ⟨h2ip, h2len, h2id, h2cur, hext⟩ := hsl
  rw [hc1ip] at h2ip
  rw [hc1len] at h2len
  rw [hc1cur, List.nil_append] at h2cur
  rw [hAlen] at h2ip h2len h1 hbpi
  rw [hAip] at hbp
  rw [← hAcur] at hbpi
  have hL2 : cg.blocks.length < c2.blocks.length := by omega
  obtain ⟨Bk, hBk⟩ : ∃ Bk, c2.blocks[cg.blocks.length]? = some Bk :=
    ⟨_, List.getElem?_eq_getElem hL2⟩
  have hBki : Bk.insts = bs := by
    rw [← h2cur]
    exact (current_insts_eq c2 Bk (by rw [h2ip]; exact hBk)).symm
  obtain ⟨bq, extra, hbq, hbqi⟩ := hext _ _ hbp
  have hneip : cg.insert_point ≠ c2.insert_point := by rw [h2ip]; omega
  refine ⟨(c2.CreateBr (cg.blocks.length + 1)).SetInsertPoint (cg.blocks.length + 1),
    ?_, ?_⟩
  · have hunf : cg.create_offload_range_for_gpu begin_ end_ block_size accept_body
        = (deref (CodeGen.range_for_launch_shape cg.default_gpu_block_size begin_
            end_ block_size) >>= fun (p : Int × Int) =>
          accept_body ((cg.gpu_range_for_loop_var_state p.1 p.2).gpu_range_for_enter
            (.inst cg.next_id) begin_ end_).2 >>= fun c =>
          pure ((c.CreateBr ((cg.gpu_range_for_loop_var_state p.1 p.2).gpu_range_for_enter
              (.inst cg.next_id) begin_ end_).1.2).SetInsertPoint
            ((cg.gpu_range_for_loop_var_state p.1 p.2).gpu_range_for_enter
              (.inst cg.next_id) begin_ end_).1.2)) := rfl
    rw [hunf, hshape]
    show (accept_body ((cg.gpu_range_for_loop_var_state grid block).gpu_range_for_enter
      (.inst cg.next_id) begin_ end_).2 >>= _) = _
    rw [← hA, hacc]
    show Except.ok _ = _
    rw [h1]
  · intro m hI hnt htid hbid
    have hblk_ip : ((c2.CreateBr (cg.blocks.length + 1)).SetInsertPoint
        (cg.blocks.length + 1)).blocks[cg.insert_point]? = some bq := by
      show (appendTo _ c2.insert_point c2.blocks)[cg.insert_point]? = _
      rw [appendTo_get_other _ _ _ _ hneip, hbq]
    have hblk_body : ((c2.CreateBr (cg.blocks.length + 1)).SetInsertPoint
        (cg.blocks.length + 1)).blocks[cg.blocks.length]?
        = some { Bk with insts := Bk.insts ++ [Instr.br (cg.blocks.length + 1)] } := by
      show (appendTo _ c2.insert_point c2.blocks)[cg.blocks.length]? = _
      rw [h2ip, appendTo_get_self, hBk]
      rfl
    have happ : appended_at cg ((c2.CreateBr (cg.blocks.length + 1)).SetInsertPoint
        (cg.blocks.length + 1))
        = gpu_guard_code (.inst cg.next_id) begin_ end_ cg.blocks.length
            (cg.blocks.length + 1) (cg.next_id + 1) ++ extra := by
      unfold appended_at
      rw [List.get?_eq_getElem?, hblk_ip]
      simp [hbqi, hbpi, hAid]
    have hidx : begin_ + ((m.tid : Int) + (m.ctaid : Int) * (m.ntid : Int))
        = begin_ + (m.tid : Int) + (m.ctaid : Int) * block := by
      rw [hnt]; ring
    have hI0 : INT_MIN = -2147483648 := rfl
    have hlo : INT_MIN ≤ begin_ + ((m.tid : Int) + (m.ctaid : Int) * (m.ntid : Int)) := by
      have h0 : (0 : Int) ≤ (m.ctaid : Int) * (m.ntid : Int) :=
        mul_nonneg (Int.ofNat_nonneg _) (Int.ofNat_nonneg _)
      have h1 : (0 : Int) ≤ (m.tid : Int) := Int.ofNat_nonneg _
      omega
    have hhi : begin_ + ((m.tid : Int) + (m.ctaid : Int) * (m.ntid : Int)) ≤ INT_MAX := by
      rw [hnt]
      have h0 : (m.ctaid : Int) * block ≤ (grid - 1) * block :=
        mul_le_mul_of_nonneg_right (by omega) (by omega)
      have h3 : (grid - 1) * block = grid * block - block := by ring
      omega
    obtain ⟨m1, hm1, I1, hs1, ht1⟩ := exec_gpu_guard Inv bs (.inst cg.next_id) k
      (cg.next_id + 1) (cg.next_id + 1) hL (le_refl _) begin_ end_ cg.blocks.length
      (cg.blocks.length + 1) m hI hlo hhi he1 he extra
    rw [hidx] at hm1 hs1
    have hne2 : cg.blocks.length ≠ cg.blocks.length + 1 := by omega
    unfold RunsBodyIf exec_emitted
    rw [happ, hm1]
    show ∃ m2 entries, run_to _ (cg.blocks.length + 1) 1 _ m1 = some m2 ∧ _
    by_cases hc : begin_ + (m.tid : Int) + (m.ctaid : Int) * block < end_
    · simp only [hc, if_true, decide_True]
      have I1t := hL.trace m1 (m1.trace ++ [(cg.blocks.length, m1.stack)]) I1
      obtain ⟨mb, hmb, Ib, hsb⟩ := hL.exec _ _ I1t hs1
      have hblock2 : execBlock (bs ++ [Instr.br (cg.blocks.length + 1)])
          { m1 with trace := m1.trace ++ [(cg.blocks.length, m1.stack)] }
          = some (mb, .goto (cg.blocks.length + 1)) := by
        rw [execBlock_append _ _ _ _ hmb]
        rfl
      refine ⟨mb, [(cg.blocks.length, m1.stack)], ?_, Ib, ?_, ?_⟩
      · rw [run_to]
        simp only [hne2, if_false, List.get?_eq_getElem?, hblk_body, hBki, hblock2]
        simp [run_to]
      · rw [execInstrs_trace _ _ _ hmb, ht1]
      · simp [hs1]
    · simp only [hc, if_false, decide_False]
      refine ⟨m1, [], ?_, I1, ?_, ?_⟩
      · simp [run_to]
      · rw [ht1]; simp
      · simp

theorem read_index_body_straight_line :
    StraightLine (example_task_builder.offload_range_for_gpu_body_state 0 5 2 4)
      read_index_body_result [.load 9 (.inst 0)] := by
  refine ⟨by decide!, by decide!, by decide!, by decide!, blocksExtend_of_check _ _ ?_⟩
  decide!

theorem loop_var_ready_read_body :
    LoopBody (loop_var_ready 0) [.load 9 (.inst 0)] (.inst 0) 0 1 := by
  refine ⟨?_, ?_, ?_, ?_, ?_⟩
  · intro m hI
    exact hI
  · intro m i hr hv
    have e1 := execInstr_load m 9 0 (.inst 0) _ hr hv
    have hx : execInstrs [Instr.load 9 (.inst 0)] m = some (m.setReg 9 (.int 32 i)) := by
      simp only [execInstrs, e1]
    refine ⟨_, hx, ?_, rfl⟩
    show getKey 0 (setKey 9 _ m.regs) = _
    rw [getKey_setKey_other _ _ _ _ (by decide)]
    exact hr
  · intro m id v hr hid
    show getKey 0 (setKey id v m.regs) = _
    rw [getKey_setKey_other _ _ _ _ (by omega)]
    exact hr
  · intro m v hI
    exact hI
  · intro m t hI
    exact hI

/-- C9 (amended): let `INT_MIN <= begin < end <= INT_MAX`, let `block` be the block
dimension `create_offload_range_for` chooses (`stmt->block_size`, or the default when
that is 0) with `block >= 1`, let `grid = (end - begin + block - 1) / block`, and let
neither the computation of `grid` nor the largest `loop_id` of the launch,
`begin + grid * block - 1`, exceed `INT_MAX`.  Then (1) the function computes the launch
shape `(grid, block)`; (2) the map `(bid, tid) -> begin + tid + bid * block` with
`0 <= bid < grid` and `0 <= tid < block` hits every index of `[begin, end)` exactly
once; (3) no thread computes an index below `begin`; (4) for a body lowered to
straight-line code that leaves the loop variable alone, the function succeeds and each
thread `(bid, tid)` of the launch enters `loop_body` exactly once, with the loop variable
holding `begin + tid + bid * block`, when that index is below `end`, and enters no block
at all otherwise. -/
theorem gpu_range_for_runs_each_index_once (cg : CodeGen)
    (begin_ end_ block_size block grid : Int)
    (accept_body : CodeGen → Except Err CodeGen) (c2 : CodeGen) (bs : List Instr)
    (Inv : Machine → Prop) (k : Nat)
    (hblock_def : block = if block_size = 0 then cg.default_gpu_block_size else block_size)
    (hgrid_def : grid = (end_ - begin_ + block - 1) / block)
    (hb : INT_MIN ≤ begin_) (hlt : begin_ < end_) (he : end_ ≤ INT_MAX)
    (hblock : 1 ≤ block) (hshape : end_ - begin_ + block ≤ INT_MAX)
    (hmax : begin_ + grid * block - 1 ≤ INT_MAX) :
    CodeGen.range_for_launch_shape cg.default_gpu_block_size begin_ end_ block_size
      = some (grid, block) ∧
    (∀ i, begin_ ≤ i → i < end_ →
      ∃! p : Int × Int, (0 ≤ p.1 ∧ p.1 < grid) ∧ (0 ≤ p.2 ∧ p.2 < block) ∧
        begin_ + p.2 + p.1 * block = i) ∧
    (∀ ctaid tid : Nat, begin_ ≤ begin_ + (tid : Int) + (ctaid : Int) * block) ∧
    (cg.insert_point < cg.blocks.length → cg.entry_block ≠ cg.insert_point →
      accept_body (cg.offload_range_for_gpu_body_state begin_ end_ grid block) = .ok c2 →
      StraightLine (cg.offload_range_for_gpu_body_state begin_ end_ grid block) c2 bs →
      LoopBody Inv bs (.inst cg.next_id) k (cg.next_id + 1) →
      ∃ cg2, cg.create_offload_range_for_gpu begin_ end_ block_size accept_body
          = .ok cg2 ∧
        ∀ m, Inv m → (m.ntid : Int) = block → (m.tid : Int) < block →
          (m.ctaid : Int) < grid →
          RunsBodyIf cg cg2 Inv k cg.blocks.length m
            (decide (begin_ + (m.tid : Int) + (m.ctaid : Int) * block < end_))
            (begin_ + (m.tid : Int) + (m.ctaid : Int) * block)) := by
  have hs := range_for_launch_shape_eq cg.default_gpu_block_size begin_ end_ block_size
    block hblock_def hlt hblock hshape
  rw [← hgrid_def] at hs
  refine ⟨hs, ?_, ?_, ?_⟩
  · intro i hi1 hi2
    rw [hgrid_def]
    exact index_map_bijective begin_ end_ block hblock i hi1 hi2
  · intro ctaid tid
    have h0 : (0 : Int) ≤ (ctaid : Int) * block :=
      mul_nonneg (Int.ofNat_nonneg _) (by omega)
    have h1 : (0 : Int) ≤ (tid : Int) := Int.ofNat_nonneg _
    omega
  · intro hip hne hacc hsl hL
    have hI0 : INT_MIN = -2147483648 := rfl
    exact gpu_range_for_runs cg begin_ end_ block_size block grid accept_body c2 bs Inv k hs
      hip hne hb (by omega) he hblock hmax hacc hsl hL

/-- Witness of C9 (amended): the GPU offloaded range-for over `[0, 5)` with block size 4
(launch shape `(2, 4)`) whose body reads the loop index, created in a fresh task
function. -/
theorem gpu_range_for_runs_each_index_once_witness :
    CodeGen.range_for_launch_shape example_task_builder.default_gpu_block_size 0 5 4
      = some (2, 4) ∧
    loop_var_ready 0 { machine_after_alloca with ctaid := 1, tid := 0, ntid := 4 } ∧
    ∃ cg2, example_task_builder.create_offload_range_for_gpu 0 5 4
        (visitBlock read_index_body) = .ok cg2 ∧
      ∀ m, loop_var_ready 0 m → (m.ntid : Int) = 4 → (m.tid : Int) < 4 →
        (m.ctaid : Int) < 2 →
        RunsBodyIf example_task_builder cg2 (loop_var_ready 0) 0
          example_task_builder.blocks.length m
          (decide ((0 : Int) + (m.tid : Int) + (m.ctaid : Int) * 4 < 5))
          (0 + (m.tid : Int) + (m.ctaid : Int) * 4) :=
  have h := gpu_range_for_runs_each_index_once example_task_builder 0 5 4 4 2
    (visitBlock read_index_body) read_index_body_result [.load 9 (.inst 0)]
    (loop_var_ready 0) 0 (by decide) (by decide) (by decide) (by decide) (by decide)
    (by decide) (by decide) (by decide)
  ⟨h.1, rfl, h.2.2.2 (by decide) (by decide) (result_or_spec _ _ (by decide!))
    read_index_body_straight_line loop_var_ready_read_body⟩

/-! ### Every block of a task function ends with one terminator -/

theorem simple_refl (a : CodeGen) : Simple a a := Simple.same a rfl rfl rfl rfl

theorem simple_same (a b c : CodeGen) (h : Simple a b) (h1 : c.func = b.func)
    (h2 : c.entry_block = b.entry_block) (h3 : c.insert_point = b.insert_point)
    (h4 : c.blocks = b.blocks) : Simple a c := by
  cases h with
  | same _ e1 e2 e3 e4 =>
    exact Simple.same c (h1.trans e1) (h2.trans e2) (h3.trans e3) (h4.trans e4)
  | emitted b0 _ i l h0 hi hl e1 e2 e3 e4 =>
    exact Simple.emitted b0 c i l h0 hi hl (h1.trans e1) (h2.trans e2) (h3.trans e3)
      (h4.trans e4)

theorem simple_trans (a b c : CodeGen) (h1 : Simple a b) (h2 : Simple b c) : Simple a c := by
  induction h2 with
  | same c e1 e2 e3 e4 => exact simple_same a b c h1 e1 e2 e3 e4
  | emitted b0 c i l _ hi hl e1 e2 e3 e4 ih =>
    exact Simple.emitted b0 c i l ih hi hl e1 e2 e3 e4

theorem simple_fields (a b : CodeGen) (h : Simple a b) :
    b.func = a.func ∧ b.entry_block = a.entry_block ∧ b.insert_point = a.insert_point ∧
      b.blocks.length = a.blocks.length := by
  induction h with
  | same b e1 e2 e3 e4 => exact ⟨e1, e2, e3, by rw [e4]⟩
  | emitted b0 c i l _ hi hl e1 e2 e3 e4 ih =>
    exact ⟨e1.trans ih.1, e2.trans ih.2.1, e3.trans ih.2.2.1,
      by rw [e4, appendTo_length]; exact ih.2.2.2⟩

theorem is_open_append (b : BasicBlock) (i : Instr) (hi : i.isTerminator = false)
    (h : b.is_open = true) :
    ({ b with insts := b.insts ++ [i] } : BasicBlock).is_open = true := by
  unfold BasicBlock.is_open at *
  simp only [List.all_append, h, List.all_cons, hi, List.all_nil]
  rfl

theorem well_terminated_append (b : BasicBlock) (i : Instr) (hi : i.isTerminator = true)
    (h : b.is_open = true) :
    ({ b with insts := b.insts ++ [i] } : BasicBlock).well_terminated = true := by
  unfold BasicBlock.is_open at h
  unfold BasicBlock.well_terminated
  simp only [List.reverse_append, List.reverse_cons, List.reverse_nil, List.nil_append,
    List.singleton_append, hi, List.all_reverse, h]
  rfl

theorem shape_congr (N : Nat) (O O2 : Nat → Prop) (bs : List BasicBlock)
    (h : Shape N O bs) (e : ∀ i, i < bs.length → (O i ↔ O2 i)) : Shape N O2 bs := by
  intro i b hN hb
  have hlt : i < bs.length := by
    rcases List.getElem?_eq_some_iff.mp hb with ⟨hl, _⟩
    exact hl
  have := h i b hN hb
  rw [← e i hlt]
  exact this

theorem shape_appendTo_open (N : Nat) (O : Nat → Prop) (bs : List BasicBlock) (i : Instr)
    (l : Nat) (hi : i.isTerminator = false) (hl : O l) (h : Shape N O bs) :
    Shape N O (appendTo i l bs) := by
  intro k b hN hb
  by_cases hk : k = l
  · subst hk
    rw [appendTo_get_self] at hb
    cases hbs : bs[k]? with
    | none => rw [hbs] at hb; cases hb
    | some b0 =>
      rw [hbs] at hb
      injection hb with hb
      subst hb
      exact ⟨fun _ => is_open_append b0 i hi ((h k b0 hN hbs).1 hl), fun hn => absurd hl hn⟩
  · rw [appendTo_get_other _ _ _ _ hk] at hb
    exact h k b hN hb

theorem shape_appendTo_close (N : Nat) (O : Nat → Prop) (bs : List BasicBlock) (i : Instr)
    (l : Nat) (hi : i.isTerminator = true) (hl : O l) (h : Shape N O bs) :
    Shape N (fun k => O k ∧ k ≠ l) (appendTo i l bs) := by
  intro k b hN hb
  by_cases hk : k = l
  · subst hk
    rw [appendTo_get_self] at hb
    cases hbs : bs[k]? with
    | none => rw [hbs] at hb; cases hb
    | some b0 =>
      rw [hbs] at hb
      injection hb with hb
      subst hb
      exact ⟨fun hh => absurd rfl hh.2,
        fun _ => well_terminated_append b0 i hi ((h k b0 hN hbs).1 hl)⟩
  · rw [appendTo_get_other _ _ _ _ hk] at hb
    have := h k b hN hb
    exact ⟨fun hh => this.1 hh.1, fun hn => this.2 (fun ho => hn ⟨ho, hk⟩)⟩

theorem shape_create (N : Nat) (O : Nat → Prop) (bs : List BasicBlock) (name : String)
    (F : Nat) (h : Shape N O bs) :
    Shape N (fun k => O k ∨ k = bs.length) (bs ++ [{ name := name, parent := F, insts := [] }])
    := by
  intro k b hN hb
  by_cases hk : k < bs.length
  · rw [List.getElem?_append_left hk] at hb
    have := h k b hN hb
    refine ⟨fun hh => ?_, fun hn => this.2 (fun ho => hn (Or.inl ho))⟩
    rcases hh with hh | hh
    · exact this.1 hh
    · omega
  · have hk2 : bs.length ≤ k := by omega
    rw [List.getElem?_append_right hk2] at hb
    have hk3 : k = bs.length := by
      by_contra hne
      have : k - bs.length ≠ 0 := by omega
      obtain ⟨m, hm⟩ := Nat.exists_eq_succ_of_ne_zero this
      rw [hm] at hb
      simp at hb
    subst hk3
    simp at hb
    subst hb
    exact ⟨fun _ => rfl, fun hn => absurd (Or.inr rfl) hn⟩

theorem simple_shape (a b : CodeGen) (h : Simple a b) (N : Nat) (O : Nat → Prop)
    (hip : O a.insert_point) (he : O a.entry_block) (hs : Shape N O a.blocks) :
    Shape N O b.blocks := by
  induction h with
  | same b e1 e2 e3 e4 => rw [e4]; exact hs
  | emitted b0 c i l h0 hi hl e1 e2 e3 e4 ih =>
    rw [e4]
    have f := simple_fields a b0 h0
    refine shape_appendTo_open N O _ i l hi ?_ ih
    rcases hl with hl | hl
    · rw [hl, f.2.2.1]; exact hip
    · rw [hl, f.2.1]; exact he

theorem ret_count_nil (F : Nat) : ret_count F [] = 0 := rfl

theorem ret_count_cons (F : Nat) (b : BasicBlock) (bs : List BasicBlock) :
    ret_count F (b :: bs)
      = (if b.parent = F then b.insts.count Instr.ret_void else 0) + ret_count F bs := by
  unfold ret_count
  by_cases h : b.parent = F
  · simp [List.filter_cons, h]
  · simp [List.filter_cons, h]

theorem ret_count_append (F : Nat) (xs ys : List BasicBlock) :
    ret_count F (xs ++ ys) = ret_count F xs + ret_count F ys := by
  unfold ret_count
  simp [List.filter_append]

theorem appendTo_parent (i : Instr) (l k : Nat) (bs : List BasicBlock) :
    ((appendTo i l bs)[k]?).map BasicBlock.parent = (bs[k]?).map BasicBlock.parent := by
  by_cases hk : k = l
  · subst hk
    rw [appendTo_get_self]
    cases bs[k]? <;> rfl
  · rw [appendTo_get_other _ _ _ _ hk]

theorem appendTo_drop (i : Instr) (l N : Nat) (bs : List BasicBlock) :
    (appendTo i l bs).drop N
      = if l < N then bs.drop N else appendTo i (l - N) (bs.drop N) := by
  induction bs generalizing l N with
  | nil => cases l <;> cases N <;> simp [appendTo]
  | cons b bs ih =>
    cases N with
    | zero => simp
    | succ N =>
      cases l with
      | zero => simp [appendTo]
      | succ l =>
        simp only [appendTo, List.drop_succ_cons, ih l N, Nat.add_lt_add_iff_right,
          Nat.add_sub_add_right]

theorem ret_count_appendTo (F : Nat) (i : Instr) (l : Nat) (bs : List BasicBlock) :
    ret_count F (appendTo i l bs)
      = ret_count F bs +
        (if i = Instr.ret_void ∧ (bs[l]?).map BasicBlock.parent = some F then 1 else 0) := by
  induction bs generalizing l with
  | nil => cases l <;> simp [appendTo, ret_count_nil]
  | cons b bs ih =>
    cases l with
    | zero =>
      simp only [appendTo, ret_count_cons, List.getElem?_cons_zero, Option.map_some',
        Option.some.injEq]
      by_cases hp : b.parent = F
      · by_cases hi : i = Instr.ret_void
        · simp [hp, hi]; omega
        · simp [hp, hi, List.count_append, List.count_singleton]
      · simp [hp]
    | succ l =>
      simp only [appendTo, ret_count_cons, List.getElem?_cons_succ, ih l]
      omega

theorem ret_count_appendTo_drop (F : Nat) (i : Instr) (l N : Nat) (bs : List BasicBlock) :
    ret_count F ((appendTo i l bs).drop N)
      = ret_count F (bs.drop N) +
        (if i = Instr.ret_void ∧ N ≤ l ∧ (bs[l]?).map BasicBlock.parent = some F
          then 1 else 0) := by
  rw [appendTo_drop]
  by_cases h : l < N
  · have h2 : ¬ N ≤ l := by omega
    simp [h, h2]
  · have h2 : N ≤ l := by omega
    rw [if_neg h, ret_count_appendTo, List.getElem?_drop]
    have e : N + (l - N) = l := by omega
    rw [e]
    simp [h2]

theorem simple_rets (a b : CodeGen) (h : Simple a b) (F N : Nat) :
    ret_count F (b.blocks.drop N) = ret_count F (a.blocks.drop N) := by
  induction h with
  | same b e1 e2 e3 e4 => rw [e4]
  | emitted b0 c i l h0 hi hl e1 e2 e3 e4 ih =>
    rw [e4, ret_count_appendTo_drop, ih]
    have : i ≠ Instr.ret_void := by
      intro hh; rw [hh] at hi; cases hi
    simp [this]

theorem simple_parent (a b : CodeGen) (h : Simple a b) (k : Nat) :
    (b.blocks[k]?).map BasicBlock.parent = (a.blocks[k]?).map BasicBlock.parent := by
  induction h with
  | same b e1 e2 e3 e4 => rw [e4]
  | emitted b0 c i l h0 hi hl e1 e2 e3 e4 ih =>
    rw [e4, appendTo_parent, ih]

theorem simple_emit (base cg : CodeGen) (i : Instr) (hi : i.isTerminator = false)
    (h : Simple base cg) : Simple base (cg.emit i) :=
  Simple.emitted cg _ i cg.insert_point h hi (Or.inl rfl) rfl rfl rfl rfl

theorem simple_emitValue (base cg : CodeGen) (mk : Nat → Instr)
    (hmk : ∀ r, (mk r).isTerminator = false) (h : Simple base cg) :
    Simple base (cg.emitValue mk).2 :=
  Simple.emitted cg _ (mk cg.next_id) cg.insert_point h (hmk _) (Or.inl rfl) rfl rfl rfl rfl

theorem simple_setValue (base cg : CodeGen) (id : Nat) (v : Value) (h : Simple base cg) :
    Simple base (cg.setValue id v) := simple_same base cg _ h rfl rfl rfl rfl

theorem simple_CreateStore (base cg : CodeGen) (x y : Value) (h : Simple base cg) :
    Simple base (cg.CreateStore x y) := simple_emit base cg _ rfl h

theorem simple_CreateGlobalStringPtr (base cg : CodeGen) (s : String) (h : Simple base cg) :
    Simple base (cg.CreateGlobalStringPtr s).2 := h

theorem simple_create_entry_block_alloca (base cg : CodeGen) (ty : LType)
    (h : Simple base cg) : Simple base (cg.create_entry_block_alloca ty).2 :=
  Simple.emitted cg _ (.alloca cg.next_id ty) cg.entry_block h rfl (Or.inr rfl) rfl rfl rfl rfl

theorem simple_CreateLoad (base cg : CodeGen) (p : Value) (h : Simple base cg) :
    Simple base (cg.CreateLoad p).2 := simple_emitValue base cg _ (fun _ => rfl) h

theorem simple_CreateBinOp (base cg : CodeGen) (op : BinOp) (x : Value) (y : Value) (h : Simple base cg) :
    Simple base (cg.CreateBinOp op x y).2 := simple_emitValue base cg _ (fun _ => rfl) h

theorem simple_CreateAdd (base cg : CodeGen) (x : Value) (y : Value) (h : Simple base cg) :
    Simple base (cg.CreateAdd x y).2 := simple_emitValue base cg _ (fun _ => rfl) h

theorem simple_CreateSub (base cg : CodeGen) (x : Value) (y : Value) (h : Simple base cg) :
    Simple base (cg.CreateSub x y).2 := simple_emitValue base cg _ (fun _ => rfl) h

theorem simple_CreateMul (base cg : CodeGen) (x : Value) (y : Value) (h : Simple base cg) :
    Simple base (cg.CreateMul x y).2 := simple_emitValue base cg _ (fun _ => rfl) h

theorem simple_CreateAnd (base cg : CodeGen) (x : Value) (y : Value) (h : Simple base cg) :
    Simple base (cg.CreateAnd x y).2 := simple_emitValue base cg _ (fun _ => rfl) h

theorem simple_CreateLShr (base cg : CodeGen) (x : Value) (n : Int) (h : Simple base cg) :
    Simple base (cg.CreateLShr x n).2 := simple_emitValue base cg _ (fun _ => rfl) h

theorem simple_CreateICmp (base cg : CodeGen) (p : ICmpPred) (x : Value) (y : Value) (h : Simple base cg) :
    Simple base (cg.CreateICmp p x y).2 := simple_emitValue base cg _ (fun _ => rfl) h

theorem simple_CreateFCmp (base cg : CodeGen) (p : FCmpPred) (x : Value) (y : Value) (h : Simple base cg) :
    Simple base (cg.CreateFCmp p x y).2 := simple_emitValue base cg _ (fun _ => rfl) h

theorem simple_CreateCast (base cg : CodeGen) (op : CastOps) (x : Value) (ty : LType) (h : Simple base cg) :
    Simple base (cg.CreateCast op x ty).2 := simple_emitValue base cg _ (fun _ => rfl) h

theorem simple_CreateBitCast (base cg : CodeGen) (x : Value) (ty : LType) (h : Simple base cg) :
    Simple base (cg.CreateBitCast x ty).2 := simple_emitValue base cg _ (fun _ => rfl) h

theorem simple_CreateSelect (base cg : CodeGen) (x : Value) (y : Value) (z : Value) (h : Simple base cg) :
    Simple base (cg.CreateSelect x y z).2 := simple_emitValue base cg _ (fun _ => rfl) h

theorem simple_CreateGEP (base cg : CodeGen) (x : Value) (ys : List Value) (h : Simple base cg) :
    Simple base (cg.CreateGEP x ys).2 := simple_emitValue base cg _ (fun _ => rfl) h

theorem simple_CreateCall (base cg : CodeGen) (x : Value) (ys : List Value) (h : Simple base cg) :
    Simple base (cg.CreateCall x ys).2 := simple_emitValue base cg _ (fun _ => rfl) h

theorem simple_CreateIntrinsic (base cg : CodeGen) (s : String) (ys : List Value) (h : Simple base cg) :
    Simple base (cg.CreateIntrinsic s ys).2 := simple_emitValue base cg _ (fun _ => rfl) h

theorem simple_CreateAlloca (base cg : CodeGen) (ty : LType) (h : Simple base cg) :
    Simple base (cg.CreateAlloca ty).2 := simple_emitValue base cg _ (fun _ => rfl) h

theorem simple_RuntimeObject_new (base cg : CodeGen) (s : String) (h : Simple base cg) :
    Simple base (cg.RuntimeObject_new s).2 := simple_CreateIntrinsic base cg _ _ h

theorem simple_RuntimeObject_wrap (base cg : CodeGen) (s : String) (x : Value)
    (h : Simple base cg) : Simple base (cg.RuntimeObject_wrap s x).2 :=
  simple_CreateBitCast base cg _ _ h

theorem simple_RuntimeObject_get_ptr (base cg : CodeGen) (o : RuntimeObject) (s : String)
    (h : Simple base cg) : Simple base (cg.RuntimeObject_get_ptr o s).2 :=
  simple_emitValue base cg (fun r => .field_ptr r o.ptr s) (fun _ => rfl) h

theorem simple_RuntimeObject_set (base cg : CodeGen) (o : RuntimeObject) (s : String)
    (x : Value) (h : Simple base cg) : Simple base (cg.RuntimeObject_set o s x) :=
  simple_CreateStore base _ _ _ (simple_RuntimeObject_get_ptr base cg o s h)

theorem simple_cast_pointer (base cg : CodeGen) (x : Value) (s : String)
    (h : Simple base cg) : Simple base (cg.cast_pointer x s).2 :=
  simple_CreateBitCast base cg _ _ h

theorem simple_create_increment (base cg : CodeGen) (x y : Value) (h : Simple base cg) :
    Simple base (cg.create_increment x y) :=
  simple_CreateStore base _ _ _ (simple_CreateAdd base _ _ _ (simple_CreateLoad base cg _ h))

theorem sframed_ok (cg cg2 : CodeGen) (h : Simple cg cg2) :
    SFramed (.ok cg2) cg := by
  intro cg3 h3
  injection h3 with h3
  rw [← h3]; exact h

theorem sframed_pure (cg cg2 : CodeGen) (h : Simple cg cg2) :
    SFramed (pure cg2) cg := sframed_ok cg cg2 h

theorem sframed_error (cg : CodeGen) (e : Err) : SFramed (.error e) cg := by
  intro cg3 h3
  cases h3

theorem sframed_bind {α : Type} (cg : CodeGen) (x : Except Err α)
    (f : α → Except Err CodeGen) (h : ∀ a, SFramed (f a) cg) : SFramed (x >>= f) cg := by
  intro cg3 h3
  cases x with
  | error e => cases h3
  | ok a => exact h a cg3 h3

theorem sframed_bind_state (cg : CodeGen) (x : Except Err CodeGen)
    (f : CodeGen → Except Err CodeGen) (hx : SFramed x cg)
    (h : ∀ a, Simple cg a → SFramed (f a) cg) : SFramed (x >>= f) cg := by
  intro cg3 h3
  cases x with
  | error e => cases h3
  | ok a => exact h a (hx a rfl) cg3 h3

theorem sframed_ite (cg : CodeGen) (c : Prop) [Decidable c] (a b : Except Err CodeGen)
    (ha : SFramed a cg) (hb : SFramed b cg) : SFramed (if c then a else b) cg := by
  split
  · exact ha
  · exact hb

theorem sframedV_pure {α : Type} (cg cg2 : CodeGen) (a : α)
    (h : Simple cg cg2) : SFramedV (pure (a, cg2)) cg := by
  intro b cg3 h3
  injection h3 with h3
  injection h3 with _ h4
  rw [← h4]; exact h

theorem sframedV_error {α : Type} (cg : CodeGen) (e : Err) :
    SFramedV (.error e : Except Err (α × CodeGen)) cg := by
  intro b cg3 h3
  cases h3

theorem sframedV_bind {α β : Type} (cg : CodeGen) (x : Except Err α)
    (f : α → Except Err (β × CodeGen)) (h : ∀ a, SFramedV (f a) cg) :
    SFramedV (x >>= f) cg := by
  intro b cg3 h3
  cases x with
  | error e => cases h3
  | ok a => exact h a b cg3 h3

theorem sframedV_ite {α : Type} (cg : CodeGen) (c : Prop) [Decidable c]
    (a b : Except Err (α × CodeGen)) (ha : SFramedV a cg) (hb : SFramedV b cg) :
    SFramedV (if c then a else b) cg := by
  split
  · exact ha
  · exact hb

theorem sframedV_bind_state {β : Type} (cg : CodeGen) (x : Except Err CodeGen)
    (f : CodeGen → Except Err (β × CodeGen)) (hx : SFramed x cg)
    (h : ∀ a, Simple cg a → SFramedV (f a) cg) : SFramedV (x >>= f) cg := by
  intro b cg3 h3
  cases x with
  | error e => cases h3
  | ok a => exact h a (hx a rfl) b cg3 h3

theorem sframed_bind_pair {α : Type} (cg : CodeGen) (x : Except Err (α × CodeGen))
    (f : α × CodeGen → Except Err CodeGen) (hx : SFramedV x cg)
    (h : ∀ a cg2, Simple cg cg2 → SFramed (f (a, cg2)) cg) :
    SFramed (x >>= f) cg := by
  intro cg3 h3
  cases x with
  | error e => cases h3
  | ok p =>
    obtain ⟨a, cg2⟩ := p
    exact h a cg2 (hx a cg2 rfl) cg3 h3

theorem sframedV_bind_pair {α β : Type} (cg : CodeGen) (x : Except Err (α × CodeGen))
    (f : α × CodeGen → Except Err (β × CodeGen)) (hx : SFramedV x cg)
    (h : ∀ a cg2, Simple cg cg2 → SFramedV (f (a, cg2)) cg) :
    SFramedV (x >>= f) cg := by
  intro b cg3 h3
  cases x with
  | error e => cases h3
  | ok p =>
    obtain ⟨a, cg2⟩ := p
    exact h a cg2 (hx a cg2 rfl) b cg3 h3


theorem sframedV_pure_pair {α : Type} (cg : CodeGen) (p : α × CodeGen)
    (h : Simple cg p.2) : SFramedV (pure p) cg := by
  intro b cg3 h3
  injection h3 with h3
  rw [h3] at h
  exact h

theorem set_functions_simple (o : RuntimeObject) (name : String) (fs : List String) :
    ∀ (cg base : CodeGen), Simple base cg →
      SFramed (CodeGen.set_functions o name fs cg) base := by
  induction fs with
  | nil =>
    intro cg base h
    exact sframed_pure _ _ h
  | cons f rest ih =>
    intro cg base h
    unfold CodeGen.set_functions
    apply sframed_bind
    intro fn
    exact ih _ _ (simple_RuntimeObject_set _ _ _ _ _ h)

theorem for_lanes_simple (lane : CodeGen → Except Err CodeGen)
    (hl : ∀ cg base : CodeGen, Simple base cg → SFramed (lane cg) base)
    (n : Nat) : ∀ (cg base : CodeGen), Simple base cg →
      SFramed (CodeGen.for_lanes lane n cg) base := by
  induction n with
  | zero =>
    intro cg base h
    exact sframed_pure _ _ h
  | succ n ih =>
    intro cg base h
    unfold CodeGen.for_lanes
    exact sframed_bind_state _ _ _ (hl cg base h) (fun a ha => ih a base ha)

theorem linearize_loop_simple (strides : List Int) (inputs : List StmtRef) :
    ∀ (i : Nat) (val : Value) (cg base : CodeGen), Simple base cg →
      SFramedV (CodeGen.linearize_loop strides inputs i val cg) base := by
  induction inputs with
  | nil =>
    intro i val cg base h
    exact sframedV_pure _ _ _ h
  | cons s rest ih =>
    intro i val cg base h
    unfold CodeGen.linearize_loop
    split
    · exact sframedV_error _ _
    · exact ih _ _ _ _ (simple_CreateAdd _ _ _ _ (simple_CreateMul _ _ _ _ h))

theorem emit_source_simple (cg base : CodeGen) (_h : Simple base cg) :
    SFramed (cg.emit_source) base := by
  unfold CodeGen.emit_source TC_NOT_IMPLEMENTED
  repeat' first
    | exact sframed_error _ _
    | exact sframedV_error _ _
    | assumption | exact simple_refl _
    | (with_reducible apply simple_setValue) | (with_reducible apply simple_CreateStore)
    | (with_reducible apply simple_CreateLoad) | (with_reducible apply simple_CreateBinOp)
    | (with_reducible apply simple_CreateAdd) | (with_reducible apply simple_CreateSub)
    | (with_reducible apply simple_CreateMul) | (with_reducible apply simple_CreateAnd)
    | (with_reducible apply simple_CreateLShr) | (with_reducible apply simple_CreateICmp)
    | (with_reducible apply simple_CreateFCmp) | (with_reducible apply simple_CreateCast)
    | (with_reducible apply simple_CreateBitCast) | (with_reducible apply simple_CreateSelect)
    | (with_reducible apply simple_CreateGEP) | (with_reducible apply simple_CreateCall)
    | (with_reducible apply simple_CreateIntrinsic) | (with_reducible apply simple_CreateAlloca)
    | (with_reducible apply simple_CreateGlobalStringPtr)
    | (with_reducible apply simple_create_entry_block_alloca)
    | (with_reducible apply simple_RuntimeObject_new)
    | (with_reducible apply simple_RuntimeObject_wrap)
    | (with_reducible apply simple_RuntimeObject_get_ptr)
    | (with_reducible apply simple_RuntimeObject_set)
    | (with_reducible apply simple_cast_pointer)
    | (with_reducible apply simple_create_increment)
    | ((with_reducible refine simple_emitValue _ _ _ ?hmk ?_); case hmk => intro _; rfl)
    | (with_reducible refine sframed_bind_state _ _ _ ?_ (fun _ _ => ?_))
    | (with_reducible refine sframedV_bind_state _ _ _ ?_ (fun _ _ => ?_))
    | (with_reducible refine sframed_bind_pair _ _ _ ?_ (fun _ _ _ => ?_))
    | (with_reducible refine sframedV_bind_pair _ _ _ ?_ (fun _ _ _ => ?_))
    | (with_reducible apply sframed_bind; intro _)
    | (with_reducible apply sframedV_bind; intro _)
    | (with_reducible apply sframed_ite)
    | (with_reducible apply sframedV_ite)
    | (with_reducible apply sframed_pure)
    | (with_reducible apply sframedV_pure_pair)
    | (dsimp only)
    | split

theorem create_call_simple (cg base : CodeGen) (h : Simple base cg) (name : String) (args : List Value) :
    SFramedV (cg.create_call name args) base := by
  unfold CodeGen.create_call
  repeat' first
    | exact sframed_error _ _
    | exact sframedV_error _ _
    | assumption | exact simple_refl _
    | (with_reducible apply simple_setValue) | (with_reducible apply simple_CreateStore)
    | (with_reducible apply simple_CreateLoad) | (with_reducible apply simple_CreateBinOp)
    | (with_reducible apply simple_CreateAdd) | (with_reducible apply simple_CreateSub)
    | (with_reducible apply simple_CreateMul) | (with_reducible apply simple_CreateAnd)
    | (with_reducible apply simple_CreateLShr) | (with_reducible apply simple_CreateICmp)
    | (with_reducible apply simple_CreateFCmp) | (with_reducible apply simple_CreateCast)
    | (with_reducible apply simple_CreateBitCast) | (with_reducible apply simple_CreateSelect)
    | (with_reducible apply simple_CreateGEP) | (with_reducible apply simple_CreateCall)
    | (with_reducible apply simple_CreateIntrinsic) | (with_reducible apply simple_CreateAlloca)
    | (with_reducible apply simple_CreateGlobalStringPtr)
    | (with_reducible apply simple_create_entry_block_alloca)
    | (with_reducible apply simple_RuntimeObject_new)
    | (with_reducible apply simple_RuntimeObject_wrap)
    | (with_reducible apply simple_RuntimeObject_get_ptr)
    | (with_reducible apply simple_RuntimeObject_set)
    | (with_reducible apply simple_cast_pointer)
    | (with_reducible apply simple_create_increment)
    | ((with_reducible refine simple_emitValue _ _ _ ?hmk ?_); case hmk => intro _; rfl)
    | (with_reducible refine emit_source_simple _ _ ?_)
    | (with_reducible refine sframed_bind_state _ _ _ ?_ (fun _ _ => ?_))
    | (with_reducible refine sframedV_bind_state _ _ _ ?_ (fun _ _ => ?_))
    | (with_reducible refine sframed_bind_pair _ _ _ ?_ (fun _ _ _ => ?_))
    | (with_reducible refine sframedV_bind_pair _ _ _ ?_ (fun _ _ _ => ?_))
    | (with_reducible apply sframed_bind; intro _)
    | (with_reducible apply sframedV_bind; intro _)
    | (with_reducible apply sframed_ite)
    | (with_reducible apply sframedV_ite)
    | (with_reducible apply sframed_pure)
    | (with_reducible apply sframedV_pure_pair)
    | (dsimp only)
    | split

theorem get_root_simple (cg base : CodeGen) (h : Simple base cg) :
    SFramedV (cg.get_root) base := by
  unfold CodeGen.get_root
  repeat' first
    | exact sframed_error _ _
    | exact sframedV_error _ _
    | assumption | exact simple_refl _
    | (with_reducible apply simple_setValue) | (with_reducible apply simple_CreateStore)
    | (with_reducible apply simple_CreateLoad) | (with_reducible apply simple_CreateBinOp)
    | (with_reducible apply simple_CreateAdd) | (with_reducible apply simple_CreateSub)
    | (with_reducible apply simple_CreateMul) | (with_reducible apply simple_CreateAnd)
    | (with_reducible apply simple_CreateLShr) | (with_reducible apply simple_CreateICmp)
    | (with_reducible apply simple_CreateFCmp) | (with_reducible apply simple_CreateCast)
    | (with_reducible apply simple_CreateBitCast) | (with_reducible apply simple_CreateSelect)
    | (with_reducible apply simple_CreateGEP) | (with_reducible apply simple_CreateCall)
    | (with_reducible apply simple_CreateIntrinsic) | (with_reducible apply simple_CreateAlloca)
    | (with_reducible apply simple_CreateGlobalStringPtr)
    | (with_reducible apply simple_create_entry_block_alloca)
    | (with_reducible apply simple_RuntimeObject_new)
    | (with_reducible apply simple_RuntimeObject_wrap)
    | (with_reducible apply simple_RuntimeObject_get_ptr)
    | (with_reducible apply simple_RuntimeObject_set)
    | (with_reducible apply simple_cast_pointer)
    | (with_reducible apply simple_create_increment)
    | ((with_reducible refine simple_emitValue _ _ _ ?hmk ?_); case hmk => intro _; rfl)
    | (with_reducible refine emit_source_simple _ _ ?_)
    | (with_reducible refine create_call_simple _ _ ?_ _ _)
    | (with_reducible refine sframed_bind_state _ _ _ ?_ (fun _ _ => ?_))
    | (with_reducible refine sframedV_bind_state _ _ _ ?_ (fun _ _ => ?_))
    | (with_reducible refine sframed_bind_pair _ _ _ ?_ (fun _ _ _ => ?_))
    | (with_reducible refine sframedV_bind_pair _ _ _ ?_ (fun _ _ _ => ?_))
    | (with_reducible apply sframed_bind; intro _)
    | (with_reducible apply sframedV_bind; intro _)
    | (with_reducible apply sframed_ite)
    | (with_reducible apply sframedV_ite)
    | (with_reducible apply sframed_pure)
    | (with_reducible apply sframedV_pure_pair)
    | (dsimp only)
    | split

theorem get_runtime_simple (cg base : CodeGen) (h : Simple base cg) :
    SFramedV (cg.get_runtime) base := by
  unfold CodeGen.get_runtime
  repeat' first
    | exact sframed_error _ _
    | exact sframedV_error _ _
    | assumption | exact simple_refl _
    | (with_reducible apply simple_setValue) | (with_reducible apply simple_CreateStore)
    | (with_reducible apply simple_CreateLoad) | (with_reducible apply simple_CreateBinOp)
    | (with_reducible apply simple_CreateAdd) | (with_reducible apply simple_CreateSub)
    | (with_reducible apply simple_CreateMul) | (with_reducible apply simple_CreateAnd)
    | (with_reducible apply simple_CreateLShr) | (with_reducible apply simple_CreateICmp)
    | (with_reducible apply simple_CreateFCmp) | (with_reducible apply simple_CreateCast)
    | (with_reducible apply simple_CreateBitCast) | (with_reducible apply simple_CreateSelect)
    | (with_reducible apply simple_CreateGEP) | (with_reducible apply simple_CreateCall)
    | (with_reducible apply simple_CreateIntrinsic) | (with_reducible apply simple_CreateAlloca)
    | (with_reducible apply simple_CreateGlobalStringPtr)
    | (with_reducible apply simple_create_entry_block_alloca)
    | (with_reducible apply simple_RuntimeObject_new)
    | (with_reducible apply simple_RuntimeObject_wrap)
    | (with_reducible apply simple_RuntimeObject_get_ptr)
    | (with_reducible apply simple_RuntimeObject_set)
    | (with_reducible apply simple_cast_pointer)
    | (with_reducible apply simple_create_increment)
    | ((with_reducible refine simple_emitValue _ _ _ ?hmk ?_); case hmk => intro _; rfl)
    | (with_reducible refine emit_source_simple _ _ ?_)
    | (with_reducible refine create_call_simple _ _ ?_ _ _)
    | (with_reducible refine get_root_simple _ _ ?_)
    | (with_reducible refine sframed_bind_state _ _ _ ?_ (fun _ _ => ?_))
    | (with_reducible refine sframedV_bind_state _ _ _ ?_ (fun _ _ => ?_))
    | (with_reducible refine sframed_bind_pair _ _ _ ?_ (fun _ _ _ => ?_))
    | (with_reducible refine sframedV_bind_pair _ _ _ ?_ (fun _ _ _ => ?_))
    | (with_reducible apply sframed_bind; intro _)
    | (with_reducible apply sframedV_bind; intro _)
    | (with_reducible apply sframed_ite)
    | (with_reducible apply sframedV_ite)
    | (with_reducible apply sframed_pure)
    | (with_reducible apply sframedV_pure_pair)
    | (dsimp only)
    | split

theorem RuntimeObject_call_simple (cg base : CodeGen) (h : Simple base cg) (o : RuntimeObject) (method : String) (args : List Value) :
    SFramedV (cg.RuntimeObject_call o method args) base := by
  unfold CodeGen.RuntimeObject_call
  repeat' first
    | exact sframed_error _ _
    | exact sframedV_error _ _
    | assumption | exact simple_refl _
    | (with_reducible apply simple_setValue) | (with_reducible apply simple_CreateStore)
    | (with_reducible apply simple_CreateLoad) | (with_reducible apply simple_CreateBinOp)
    | (with_reducible apply simple_CreateAdd) | (with_reducible apply simple_CreateSub)
    | (with_reducible apply simple_CreateMul) | (with_reducible apply simple_CreateAnd)
    | (with_reducible apply simple_CreateLShr) | (with_reducible apply simple_CreateICmp)
    | (with_reducible apply simple_CreateFCmp) | (with_reducible apply simple_CreateCast)
    | (with_reducible apply simple_CreateBitCast) | (with_reducible apply simple_CreateSelect)
    | (with_reducible apply simple_CreateGEP) | (with_reducible apply simple_CreateCall)
    | (with_reducible apply simple_CreateIntrinsic) | (with_reducible apply simple_CreateAlloca)
    | (with_reducible apply simple_CreateGlobalStringPtr)
    | (with_reducible apply simple_create_entry_block_alloca)
    | (with_reducible apply simple_RuntimeObject_new)
    | (with_reducible apply simple_RuntimeObject_wrap)
    | (with_reducible apply simple_RuntimeObject_get_ptr)
    | (with_reducible apply simple_RuntimeObject_set)
    | (with_reducible apply simple_cast_pointer)
    | (with_reducible apply simple_create_increment)
    | ((with_reducible refine simple_emitValue _ _ _ ?hmk ?_); case hmk => intro _; rfl)
    | (with_reducible refine emit_source_simple _ _ ?_)
    | (with_reducible refine create_call_simple _ _ ?_ _ _)
    | (with_reducible refine get_root_simple _ _ ?_)
    | (with_reducible refine get_runtime_simple _ _ ?_)
    | (with_reducible refine sframed_bind_state _ _ _ ?_ (fun _ _ => ?_))
    | (with_reducible refine sframedV_bind_state _ _ _ ?_ (fun _ _ => ?_))
    | (with_reducible refine sframed_bind_pair _ _ _ ?_ (fun _ _ _ => ?_))
    | (with_reducible refine sframedV_bind_pair _ _ _ ?_ (fun _ _ _ => ?_))
    | (with_reducible apply sframed_bind; intro _)
    | (with_reducible apply sframedV_bind; intro _)
    | (with_reducible apply sframed_ite)
    | (with_reducible apply sframedV_ite)
    | (with_reducible apply sframed_pure)
    | (with_reducible apply sframedV_pure_pair)
    | (dsimp only)
    | split

theorem print_call_host_simple (cg base : CodeGen) (h : Simple base cg) (id : Nat) (str format : String) (value : Value) :
    SFramed (cg.print_call_host id str format value) base := by
  unfold CodeGen.print_call_host
  repeat' first
    | exact sframed_error _ _
    | exact sframedV_error _ _
    | assumption | exact simple_refl _
    | (with_reducible apply simple_setValue) | (with_reducible apply simple_CreateStore)
    | (with_reducible apply simple_CreateLoad) | (with_reducible apply simple_CreateBinOp)
    | (with_reducible apply simple_CreateAdd) | (with_reducible apply simple_CreateSub)
    | (with_reducible apply simple_CreateMul) | (with_reducible apply simple_CreateAnd)
    | (with_reducible apply simple_CreateLShr) | (with_reducible apply simple_CreateICmp)
    | (with_reducible apply simple_CreateFCmp) | (with_reducible apply simple_CreateCast)
    | (with_reducible apply simple_CreateBitCast) | (with_reducible apply simple_CreateSelect)
    | (with_reducible apply simple_CreateGEP) | (with_reducible apply simple_CreateCall)
    | (with_reducible apply simple_CreateIntrinsic) | (with_reducible apply simple_CreateAlloca)
    | (with_reducible apply simple_CreateGlobalStringPtr)
    | (with_reducible apply simple_create_entry_block_alloca)
    | (with_reducible apply simple_RuntimeObject_new)
    | (with_reducible apply simple_RuntimeObject_wrap)
    | (with_reducible apply simple_RuntimeObject_get_ptr)
    | (with_reducible apply simple_RuntimeObject_set)
    | (with_reducible apply simple_cast_pointer)
    | (with_reducible apply simple_create_increment)
    | ((with_reducible refine simple_emitValue _ _ _ ?hmk ?_); case hmk => intro _; rfl)
    | (with_reducible refine emit_source_simple _ _ ?_)
    | (with_reducible refine create_call_simple _ _ ?_ _ _)
    | (with_reducible refine get_root_simple _ _ ?_)
    | (with_reducible refine get_runtime_simple _ _ ?_)
    | (with_reducible refine RuntimeObject_call_simple _ _ ?_ _ _ _)
    | (with_reducible refine sframed_bind_state _ _ _ ?_ (fun _ _ => ?_))
    | (with_reducible refine sframedV_bind_state _ _ _ ?_ (fun _ _ => ?_))
    | (with_reducible refine sframed_bind_pair _ _ _ ?_ (fun _ _ _ => ?_))
    | (with_reducible refine sframedV_bind_pair _ _ _ ?_ (fun _ _ _ => ?_))
    | (with_reducible apply sframed_bind; intro _)
    | (with_reducible apply sframedV_bind; intro _)
    | (with_reducible apply sframed_ite)
    | (with_reducible apply sframedV_ite)
    | (with_reducible apply sframed_pure)
    | (with_reducible apply sframedV_pure_pair)
    | (dsimp only)
    | split

theorem print_call_gpu_simple (cg base : CodeGen) (h : Simple base cg) (id : Nat) (str format : String) (value_type : LType) (value : Value) :
    SFramed (cg.print_call_gpu id str format value_type value) base := by
  unfold CodeGen.print_call_gpu
  repeat' first
    | exact sframed_error _ _
    | exact sframedV_error _ _
    | assumption | exact simple_refl _
    | (with_reducible apply simple_setValue) | (with_reducible apply simple_CreateStore)
    | (with_reducible apply simple_CreateLoad) | (with_reducible apply simple_CreateBinOp)
    | (with_reducible apply simple_CreateAdd) | (with_reducible apply simple_CreateSub)
    | (with_reducible apply simple_CreateMul) | (with_reducible apply simple_CreateAnd)
    | (with_reducible apply simple_CreateLShr) | (with_reducible apply simple_CreateICmp)
    | (with_reducible apply simple_CreateFCmp) | (with_reducible apply simple_CreateCast)
    | (with_reducible apply simple_CreateBitCast) | (with_reducible apply simple_CreateSelect)
    | (with_reducible apply simple_CreateGEP) | (with_reducible apply simple_CreateCall)
    | (with_reducible apply simple_CreateIntrinsic) | (with_reducible apply simple_CreateAlloca)
    | (with_reducible apply simple_CreateGlobalStringPtr)
    | (with_reducible apply simple_create_entry_block_alloca)
    | (with_reducible apply simple_RuntimeObject_new)
    | (with_reducible apply simple_RuntimeObject_wrap)
    | (with_reducible apply simple_RuntimeObject_get_ptr)
    | (with_reducible apply simple_RuntimeObject_set)
    | (with_reducible apply simple_cast_pointer)
    | (with_reducible apply simple_create_increment)
    | ((with_reducible refine simple_emitValue _ _ _ ?hmk ?_); case hmk => intro _; rfl)
    | (with_reducible refine emit_source_simple _ _ ?_)
    | (with_reducible refine create_call_simple _ _ ?_ _ _)
    | (with_reducible refine get_root_simple _ _ ?_)
    | (with_reducible refine get_runtime_simple _ _ ?_)
    | (with_reducible refine RuntimeObject_call_simple _ _ ?_ _ _ _)
    | (with_reducible refine print_call_host_simple _ _ ?_ _ _ _ _)
    | (with_reducible refine sframed_bind_state _ _ _ ?_ (fun _ _ => ?_))
    | (with_reducible refine sframedV_bind_state _ _ _ ?_ (fun _ _ => ?_))
    | (with_reducible refine sframed_bind_pair _ _ _ ?_ (fun _ _ _ => ?_))
    | (with_reducible refine sframedV_bind_pair _ _ _ ?_ (fun _ _ _ => ?_))
    | (with_reducible apply sframed_bind; intro _)
    | (with_reducible apply sframedV_bind; intro _)
    | (with_reducible apply sframed_ite)
    | (with_reducible apply sframedV_ite)
    | (with_reducible apply sframed_pure)
    | (with_reducible apply sframedV_pure_pair)
    | (dsimp only)
    | split

theorem emit_struct_meta_base_simple (cg base : CodeGen) (h : Simple base cg) (name : String) (node_meta : Value) (snode : SNode) :
    SFramed (cg.emit_struct_meta_base name node_meta snode) base := by
  unfold CodeGen.emit_struct_meta_base UNDEFINED
  repeat' first
    | exact sframed_error _ _
    | exact sframedV_error _ _
    | assumption | exact simple_refl _
    | (with_reducible apply simple_setValue) | (with_reducible apply simple_CreateStore)
    | (with_reducible apply simple_CreateLoad) | (with_reducible apply simple_CreateBinOp)
    | (with_reducible apply simple_CreateAdd) | (with_reducible apply simple_CreateSub)
    | (with_reducible apply simple_CreateMul) | (with_reducible apply simple_CreateAnd)
    | (with_reducible apply simple_CreateLShr) | (with_reducible apply simple_CreateICmp)
    | (with_reducible apply simple_CreateFCmp) | (with_reducible apply simple_CreateCast)
    | (with_reducible apply simple_CreateBitCast) | (with_reducible apply simple_CreateSelect)
    | (with_reducible apply simple_CreateGEP) | (with_reducible apply simple_CreateCall)
    | (with_reducible apply simple_CreateIntrinsic) | (with_reducible apply simple_CreateAlloca)
    | (with_reducible apply simple_CreateGlobalStringPtr)
    | (with_reducible apply simple_create_entry_block_alloca)
    | (with_reducible apply simple_RuntimeObject_new)
    | (with_reducible apply simple_RuntimeObject_wrap)
    | (with_reducible apply simple_RuntimeObject_get_ptr)
    | (with_reducible apply simple_RuntimeObject_set)
    | (with_reducible apply simple_cast_pointer)
    | (with_reducible apply simple_create_increment)
    | ((with_reducible refine simple_emitValue _ _ _ ?hmk ?_); case hmk => intro _; rfl)
    | (with_reducible refine emit_source_simple _ _ ?_)
    | (with_reducible refine create_call_simple _ _ ?_ _ _)
    | (with_reducible refine get_root_simple _ _ ?_)
    | (with_reducible refine get_runtime_simple _ _ ?_)
    | (with_reducible refine RuntimeObject_call_simple _ _ ?_ _ _ _)
    | (with_reducible refine print_call_host_simple _ _ ?_ _ _ _ _)
    | (with_reducible refine print_call_gpu_simple _ _ ?_ _ _ _ _ _)
    | (with_reducible refine set_functions_simple _ _ _ _ _ ?_)
    | (with_reducible refine sframed_bind_state _ _ _ ?_ (fun _ _ => ?_))
    | (with_reducible refine sframedV_bind_state _ _ _ ?_ (fun _ _ => ?_))
    | (with_reducible refine sframed_bind_pair _ _ _ ?_ (fun _ _ _ => ?_))
    | (with_reducible refine sframedV_bind_pair _ _ _ ?_ (fun _ _ _ => ?_))
    | (with_reducible apply sframed_bind; intro _)
    | (with_reducible apply sframedV_bind; intro _)
    | (with_reducible apply sframed_ite)
    | (with_reducible apply sframedV_ite)
    | (with_reducible apply sframed_pure)
    | (with_reducible apply sframedV_pure_pair)
    | (dsimp only)
    | split

theorem emit_struct_meta_object_simple (cg base : CodeGen) (h : Simple base cg) (snode : SNode) :
    SFramedV (cg.emit_struct_meta_object snode) base := by
  unfold CodeGen.emit_struct_meta_object TC_NOT_IMPLEMENTED
  repeat' first
    | exact sframed_error _ _
    | exact sframedV_error _ _
    | assumption | exact simple_refl _
    | (with_reducible apply simple_setValue) | (with_reducible apply simple_CreateStore)
    | (with_reducible apply simple_CreateLoad) | (with_reducible apply simple_CreateBinOp)
    | (with_reducible apply simple_CreateAdd) | (with_reducible apply simple_CreateSub)
    | (with_reducible apply simple_CreateMul) | (with_reducible apply simple_CreateAnd)
    | (with_reducible apply simple_CreateLShr) | (with_reducible apply simple_CreateICmp)
    | (with_reducible apply simple_CreateFCmp) | (with_reducible apply simple_CreateCast)
    | (with_reducible apply simple_CreateBitCast) | (with_reducible apply simple_CreateSelect)
    | (with_reducible apply simple_CreateGEP) | (with_reducible apply simple_CreateCall)
    | (with_reducible apply simple_CreateIntrinsic) | (with_reducible apply simple_CreateAlloca)
    | (with_reducible apply simple_CreateGlobalStringPtr)
    | (with_reducible apply simple_create_entry_block_alloca)
    | (with_reducible apply simple_RuntimeObject_new)
    | (with_reducible apply simple_RuntimeObject_wrap)
    | (with_reducible apply simple_RuntimeObject_get_ptr)
    | (with_reducible apply simple_RuntimeObject_set)
    | (with_reducible apply simple_cast_pointer)
    | (with_reducible apply simple_create_increment)
    | ((with_reducible refine simple_emitValue _ _ _ ?hmk ?_); case hmk => intro _; rfl)
    | (with_reducible refine emit_source_simple _ _ ?_)
    | (with_reducible refine create_call_simple _ _ ?_ _ _)
    | (with_reducible refine get_root_simple _ _ ?_)
    | (with_reducible refine get_runtime_simple _ _ ?_)
    | (with_reducible refine RuntimeObject_call_simple _ _ ?_ _ _ _)
    | (with_reducible refine print_call_host_simple _ _ ?_ _ _ _ _)
    | (with_reducible refine print_call_gpu_simple _ _ ?_ _ _ _ _ _)
    | (with_reducible refine set_functions_simple _ _ _ _ _ ?_)
    | (with_reducible refine emit_struct_meta_base_simple _ _ ?_ _ _ _)
    | (with_reducible refine sframed_bind_state _ _ _ ?_ (fun _ _ => ?_))
    | (with_reducible refine sframedV_bind_state _ _ _ ?_ (fun _ _ => ?_))
    | (with_reducible refine sframed_bind_pair _ _ _ ?_ (fun _ _ _ => ?_))
    | (with_reducible refine sframedV_bind_pair _ _ _ ?_ (fun _ _ _ => ?_))
    | (with_reducible apply sframed_bind; intro _)
    | (with_reducible apply sframedV_bind; intro _)
    | (with_reducible apply sframed_ite)
    | (with_reducible apply sframedV_ite)
    | (with_reducible apply sframed_pure)
    | (with_reducible apply sframedV_pure_pair)
    | (dsimp only)
    | split

theorem emit_struct_meta_simple (cg base : CodeGen) (h : Simple base cg) (snode : SNode) :
    SFramedV (cg.emit_struct_meta snode) base := by
  unfold CodeGen.emit_struct_meta
  repeat' first
    | exact sframed_error _ _
    | exact sframedV_error _ _
    | assumption | exact simple_refl _
    | (with_reducible apply simple_setValue) | (with_reducible apply simple_CreateStore)
    | (with_reducible apply simple_CreateLoad) | (with_reducible apply simple_CreateBinOp)
    | (with_reducible apply simple_CreateAdd) | (with_reducible apply simple_CreateSub)
    | (with_reducible apply simple_CreateMul) | (with_reducible apply simple_CreateAnd)
    | (with_reducible apply simple_CreateLShr) | (with_reducible apply simple_CreateICmp)
    | (with_reducible apply simple_CreateFCmp) | (with_reducible apply simple_CreateCast)
    | (with_reducible apply simple_CreateBitCast) | (with_reducible apply simple_CreateSelect)
    | (with_reducible apply simple_CreateGEP) | (with_reducible apply simple_CreateCall)
    | (with_reducible apply simple_CreateIntrinsic) | (with_reducible apply simple_CreateAlloca)
    | (with_reducible apply simple_CreateGlobalStringPtr)
    | (with_reducible apply simple_create_entry_block_alloca)
    | (with_reducible apply simple_RuntimeObject_new)
    | (with_reducible apply simple_RuntimeObject_wrap)
    | (with_reducible apply simple_RuntimeObject_get_ptr)
    | (with_reducible apply simple_RuntimeObject_set)
    | (with_reducible apply simple_cast_pointer)
    | (with_reducible apply simple_create_increment)
    | ((with_reducible refine simple_emitValue _ _ _ ?hmk ?_); case hmk => intro _; rfl)
    | (with_reducible refine emit_source_simple _ _ ?_)
    | (with_reducible refine create_call_simple _ _ ?_ _ _)
    | (with_reducible refine get_root_simple _ _ ?_)
    | (with_reducible refine get_runtime_simple _ _ ?_)
    | (with_reducible refine RuntimeObject_call_simple _ _ ?_ _ _ _)
    | (with_reducible refine print_call_host_simple _ _ ?_ _ _ _ _)
    | (with_reducible refine print_call_gpu_simple _ _ ?_ _ _ _ _ _)
    | (with_reducible refine set_functions_simple _ _ _ _ _ ?_)
    | (with_reducible refine emit_struct_meta_base_simple _ _ ?_ _ _ _)
    | (with_reducible refine emit_struct_meta_object_simple _ _ ?_ _)
    | (with_reducible refine sframed_bind_state _ _ _ ?_ (fun _ _ => ?_))
    | (with_reducible refine sframedV_bind_state _ _ _ ?_ (fun _ _ => ?_))
    | (with_reducible refine sframed_bind_pair _ _ _ ?_ (fun _ _ _ => ?_))
    | (with_reducible refine sframedV_bind_pair _ _ _ ?_ (fun _ _ _ => ?_))
    | (with_reducible apply sframed_bind; intro _)
    | (with_reducible apply sframedV_bind; intro _)
    | (with_reducible apply sframed_ite)
    | (with_reducible apply sframedV_ite)
    | (with_reducible apply sframed_pure)
    | (with_reducible apply sframedV_pure_pair)
    | (dsimp only)
    | split

theorem visit_AllocaStmt_simple (cg base : CodeGen) (h : Simple base cg) (id : Nat) (rt : VectorType) :
    SFramed (cg.visit_AllocaStmt id rt) base := by
  unfold CodeGen.visit_AllocaStmt
  repeat' first
    | exact sframed_error _ _
    | exact sframedV_error _ _
    | assumption | exact simple_refl _
    | (with_reducible apply simple_setValue) | (with_reducible apply simple_CreateStore)
    | (with_reducible apply simple_CreateLoad) | (with_reducible apply simple_CreateBinOp)
    | (with_reducible apply simple_CreateAdd) | (with_reducible apply simple_CreateSub)
    | (with_reducible apply simple_CreateMul) | (with_reducible apply simple_CreateAnd)
    | (with_reducible apply simple_CreateLShr) | (with_reducible apply simple_CreateICmp)
    | (with_reducible apply simple_CreateFCmp) | (with_reducible apply simple_CreateCast)
    | (with_reducible apply simple_CreateBitCast) | (with_reducible apply simple_CreateSelect)
    | (with_reducible apply simple_CreateGEP) | (with_reducible apply simple_CreateCall)
    | (with_reducible apply simple_CreateIntrinsic) | (with_reducible apply simple_CreateAlloca)
    | (with_reducible apply simple_CreateGlobalStringPtr)
    | (with_reducible apply simple_create_entry_block_alloca)
    | (with_reducible apply simple_RuntimeObject_new)
    | (with_reducible apply simple_RuntimeObject_wrap)
    | (with_reducible apply simple_RuntimeObject_get_ptr)
    | (with_reducible apply simple_RuntimeObject_set)
    | (with_reducible apply simple_cast_pointer)
    | (with_reducible apply simple_create_increment)
    | ((with_reducible refine simple_emitValue _ _ _ ?hmk ?_); case hmk => intro _; rfl)
    | (with_reducible refine emit_source_simple _ _ ?_)
    | (with_reducible refine create_call_simple _ _ ?_ _ _)
    | (with_reducible refine get_root_simple _ _ ?_)
    | (with_reducible refine get_runtime_simple _ _ ?_)
    | (with_reducible refine RuntimeObject_call_simple _ _ ?_ _ _ _)
    | (with_reducible refine print_call_host_simple _ _ ?_ _ _ _ _)
    | (with_reducible refine print_call_gpu_simple _ _ ?_ _ _ _ _ _)
    | (with_reducible refine set_functions_simple _ _ _ _ _ ?_)
    | (with_reducible refine emit_struct_meta_base_simple _ _ ?_ _ _ _)
    | (with_reducible refine emit_struct_meta_object_simple _ _ ?_ _)
    | (with_reducible refine emit_struct_meta_simple _ _ ?_ _)
    | (with_reducible refine linearize_loop_simple _ _ _ _ _ _ ?_)
    | (with_reducible refine sframed_bind_state _ _ _ ?_ (fun _ _ => ?_))
    | (with_reducible refine sframedV_bind_state _ _ _ ?_ (fun _ _ => ?_))
    | (with_reducible refine sframed_bind_pair _ _ _ ?_ (fun _ _ _ => ?_))
    | (with_reducible refine sframedV_bind_pair _ _ _ ?_ (fun _ _ _ => ?_))
    | (with_reducible apply sframed_bind; intro _)
    | (with_reducible apply sframedV_bind; intro _)
    | (with_reducible apply sframed_ite)
    | (with_reducible apply sframedV_ite)
    | (with_reducible apply sframed_pure)
    | (with_reducible apply sframedV_pure_pair)
    | (dsimp only)
    | split

theorem visit_RandStmt_simple (cg base : CodeGen) (_h : Simple base cg) (rt : VectorType) :
    SFramed (cg.visit_RandStmt rt) base := by
  unfold CodeGen.visit_RandStmt
  repeat' first
    | exact sframed_error _ _
    | exact sframedV_error _ _
    | assumption | exact simple_refl _
    | (with_reducible apply simple_setValue) | (with_reducible apply simple_CreateStore)
    | (with_reducible apply simple_CreateLoad) | (with_reducible apply simple_CreateBinOp)
    | (with_reducible apply simple_CreateAdd) | (with_reducible apply simple_CreateSub)
    | (with_reducible apply simple_CreateMul) | (with_reducible apply simple_CreateAnd)
    | (with_reducible apply simple_CreateLShr) | (with_reducible apply simple_CreateICmp)
    | (with_reducible apply simple_CreateFCmp) | (with_reducible apply simple_CreateCast)
    | (with_reducible apply simple_CreateBitCast) | (with_reducible apply simple_CreateSelect)
    | (with_reducible apply simple_CreateGEP) | (with_reducible apply simple_CreateCall)
    | (with_reducible apply simple_CreateIntrinsic) | (with_reducible apply simple_CreateAlloca)
    | (with_reducible apply simple_CreateGlobalStringPtr)
    | (with_reducible apply simple_create_entry_block_alloca)
    | (with_reducible apply simple_RuntimeObject_new)
    | (with_reducible apply simple_RuntimeObject_wrap)
    | (with_reducible apply simple_RuntimeObject_get_ptr)
    | (with_reducible apply simple_RuntimeObject_set)
    | (with_reducible apply simple_cast_pointer)
    | (with_reducible apply simple_create_increment)
    | ((with_reducible refine simple_emitValue _ _ _ ?hmk ?_); case hmk => intro _; rfl)
    | (with_reducible refine emit_source_simple _ _ ?_)
    | (with_reducible refine create_call_simple _ _ ?_ _ _)
    | (with_reducible refine get_root_simple _ _ ?_)
    | (with_reducible refine get_runtime_simple _ _ ?_)
    | (with_reducible refine RuntimeObject_call_simple _ _ ?_ _ _ _)
    | (with_reducible refine print_call_host_simple _ _ ?_ _ _ _ _)
    | (with_reducible refine print_call_gpu_simple _ _ ?_ _ _ _ _ _)
    | (with_reducible refine set_functions_simple _ _ _ _ _ ?_)
    | (with_reducible refine emit_struct_meta_base_simple _ _ ?_ _ _ _)
    | (with_reducible refine emit_struct_meta_object_simple _ _ ?_ _)
    | (with_reducible refine emit_struct_meta_simple _ _ ?_ _)
    | (with_reducible refine linearize_loop_simple _ _ _ _ _ _ ?_)
    | (with_reducible refine sframed_bind_state _ _ _ ?_ (fun _ _ => ?_))
    | (with_reducible refine sframedV_bind_state _ _ _ ?_ (fun _ _ => ?_))
    | (with_reducible refine sframed_bind_pair _ _ _ ?_ (fun _ _ _ => ?_))
    | (with_reducible refine sframedV_bind_pair _ _ _ ?_ (fun _ _ _ => ?_))
    | (with_reducible apply sframed_bind; intro _)
    | (with_reducible apply sframedV_bind; intro _)
    | (with_reducible apply sframed_ite)
    | (with_reducible apply sframedV_ite)
    | (with_reducible apply sframed_pure)
    | (with_reducible apply sframedV_pure_pair)
    | (dsimp only)
    | split

theorem visit_UnaryOpStmt_simple (cg base : CodeGen) (h : Simple base cg) (id : Nat) (rt : VectorType) (op : UnaryOpType) (operand : StmtRef) (cbv : Bool) (ct : DataType) :
    SFramed (cg.visit_UnaryOpStmt id rt op operand cbv ct) base := by
  unfold CodeGen.visit_UnaryOpStmt CodeGen.emit_extra_unary CodeGen.emit_extra_unary_gpu CodeGen.emit_extra_unary_host CodeGen.UNARY_STD CodeGen.UNARY_STD_gpu TC_NOT_IMPLEMENTED
  repeat' first
    | exact sframed_error _ _
    | exact sframedV_error _ _
    | assumption | exact simple_refl _
    | (with_reducible apply simple_setValue) | (with_reducible apply simple_CreateStore)
    | (with_reducible apply simple_CreateLoad) | (with_reducible apply simple_CreateBinOp)
    | (with_reducible apply simple_CreateAdd) | (with_reducible apply simple_CreateSub)
    | (with_reducible apply simple_CreateMul) | (with_reducible apply simple_CreateAnd)
    | (with_reducible apply simple_CreateLShr) | (with_reducible apply simple_CreateICmp)
    | (with_reducible apply simple_CreateFCmp) | (with_reducible apply simple_CreateCast)
    | (with_reducible apply simple_CreateBitCast) | (with_reducible apply simple_CreateSelect)
    | (with_reducible apply simple_CreateGEP) | (with_reducible apply simple_CreateCall)
    | (with_reducible apply simple_CreateIntrinsic) | (with_reducible apply simple_CreateAlloca)
    | (with_reducible apply simple_CreateGlobalStringPtr)
    | (with_reducible apply simple_create_entry_block_alloca)
    | (with_reducible apply simple_RuntimeObject_new)
    | (with_reducible apply simple_RuntimeObject_wrap)
    | (with_reducible apply simple_RuntimeObject_get_ptr)
    | (with_reducible apply simple_RuntimeObject_set)
    | (with_reducible apply simple_cast_pointer)
    | (with_reducible apply simple_create_increment)
    | ((with_reducible refine simple_emitValue _ _ _ ?hmk ?_); case hmk => intro _; rfl)
    | (with_reducible refine emit_source_simple _ _ ?_)
    | (with_reducible refine create_call_simple _ _ ?_ _ _)
    | (with_reducible refine get_root_simple _ _ ?_)
    | (with_reducible refine get_runtime_simple _ _ ?_)
    | (with_reducible refine RuntimeObject_call_simple _ _ ?_ _ _ _)
    | (with_reducible refine print_call_host_simple _ _ ?_ _ _ _ _)
    | (with_reducible refine print_call_gpu_simple _ _ ?_ _ _ _ _ _)
    | (with_reducible refine set_functions_simple _ _ _ _ _ ?_)
    | (with_reducible refine emit_struct_meta_base_simple _ _ ?_ _ _ _)
    | (with_reducible refine emit_struct_meta_object_simple _ _ ?_ _)
    | (with_reducible refine emit_struct_meta_simple _ _ ?_ _)
    | (with_reducible refine linearize_loop_simple _ _ _ _ _ _ ?_)
    | (with_reducible refine sframed_bind_state _ _ _ ?_ (fun _ _ => ?_))
    | (with_reducible refine sframedV_bind_state _ _ _ ?_ (fun _ _ => ?_))
    | (with_reducible refine sframed_bind_pair _ _ _ ?_ (fun _ _ _ => ?_))
    | (with_reducible refine sframedV_bind_pair _ _ _ ?_ (fun _ _ _ => ?_))
    | (with_reducible apply sframed_bind; intro _)
    | (with_reducible apply sframedV_bind; intro _)
    | (with_reducible apply sframed_ite)
    | (with_reducible apply sframedV_ite)
    | (with_reducible apply sframed_pure)
    | (with_reducible apply sframedV_pure_pair)
    | (dsimp only)
    | split

theorem visit_BinaryOpStmt_simple (cg base : CodeGen) (h : Simple base cg) (id : Nat) (rt : VectorType) (op : BinaryOpType) (lhs rhs : StmtRef) :
    SFramed (cg.visit_BinaryOpStmt id rt op lhs rhs) base := by
  unfold CodeGen.visit_BinaryOpStmt CodeGen.create_cmp TC_NOT_IMPLEMENTED
  repeat' first
    | exact sframed_error _ _
    | exact sframedV_error _ _
    | assumption | exact simple_refl _
    | (with_reducible apply simple_setValue) | (with_reducible apply simple_CreateStore)
    | (with_reducible apply simple_CreateLoad) | (with_reducible apply simple_CreateBinOp)
    | (with_reducible apply simple_CreateAdd) | (with_reducible apply simple_CreateSub)
    | (with_reducible apply simple_CreateMul) | (with_reducible apply simple_CreateAnd)
    | (with_reducible apply simple_CreateLShr) | (with_reducible apply simple_CreateICmp)
    | (with_reducible apply simple_CreateFCmp) | (with_reducible apply simple_CreateCast)
    | (with_reducible apply simple_CreateBitCast) | (with_reducible apply simple_CreateSelect)
    | (with_reducible apply simple_CreateGEP) | (with_reducible apply simple_CreateCall)
    | (with_reducible apply simple_CreateIntrinsic) | (with_reducible apply simple_CreateAlloca)
    | (with_reducible apply simple_CreateGlobalStringPtr)
    | (with_reducible apply simple_create_entry_block_alloca)
    | (with_reducible apply simple_RuntimeObject_new)
    | (with_reducible apply simple_RuntimeObject_wrap)
    | (with_reducible apply simple_RuntimeObject_get_ptr)
    | (with_reducible apply simple_RuntimeObject_set)
    | (with_reducible apply simple_cast_pointer)
    | (with_reducible apply simple_create_increment)
    | ((with_reducible refine simple_emitValue _ _ _ ?hmk ?_); case hmk => intro _; rfl)
    | (with_reducible refine emit_source_simple _ _ ?_)
    | (with_reducible refine create_call_simple _ _ ?_ _ _)
    | (with_reducible refine get_root_simple _ _ ?_)
    | (with_reducible refine get_runtime_simple _ _ ?_)
    | (with_reducible refine RuntimeObject_call_simple _ _ ?_ _ _ _)
    | (with_reducible refine print_call_host_simple _ _ ?_ _ _ _ _)
    | (with_reducible refine print_call_gpu_simple _ _ ?_ _ _ _ _ _)
    | (with_reducible refine set_functions_simple _ _ _ _ _ ?_)
    | (with_reducible refine emit_struct_meta_base_simple _ _ ?_ _ _ _)
    | (with_reducible refine emit_struct_meta_object_simple _ _ ?_ _)
    | (with_reducible refine emit_struct_meta_simple _ _ ?_ _)
    | (with_reducible refine linearize_loop_simple _ _ _ _ _ _ ?_)
    | (with_reducible refine sframed_bind_state _ _ _ ?_ (fun _ _ => ?_))
    | (with_reducible refine sframedV_bind_state _ _ _ ?_ (fun _ _ => ?_))
    | (with_reducible refine sframed_bind_pair _ _ _ ?_ (fun _ _ _ => ?_))
    | (with_reducible refine sframedV_bind_pair _ _ _ ?_ (fun _ _ _ => ?_))
    | (with_reducible apply sframed_bind; intro _)
    | (with_reducible apply sframedV_bind; intro _)
    | (with_reducible apply sframed_ite)
    | (with_reducible apply sframedV_ite)
    | (with_reducible apply sframed_pure)
    | (with_reducible apply sframedV_pure_pair)
    | (dsimp only)
    | split

theorem visit_TernaryOpStmt_simple (cg base : CodeGen) (h : Simple base cg) (id : Nat) (op : TernaryOpType) (a b c : StmtRef) :
    SFramed (cg.visit_TernaryOpStmt id op a b c) base := by
  unfold CodeGen.visit_TernaryOpStmt
  repeat' first
    | exact sframed_error _ _
    | exact sframedV_error _ _
    | assumption | exact simple_refl _
    | (with_reducible apply simple_setValue) | (with_reducible apply simple_CreateStore)
    | (with_reducible apply simple_CreateLoad) | (with_reducible apply simple_CreateBinOp)
    | (with_reducible apply simple_CreateAdd) | (with_reducible apply simple_CreateSub)
    | (with_reducible apply simple_CreateMul) | (with_reducible apply simple_CreateAnd)
    | (with_reducible apply simple_CreateLShr) | (with_reducible apply simple_CreateICmp)
    | (with_reducible apply simple_CreateFCmp) | (with_reducible apply simple_CreateCast)
    | (with_reducible apply simple_CreateBitCast) | (with_reducible apply simple_CreateSelect)
    | (with_reducible apply simple_CreateGEP) | (with_reducible apply simple_CreateCall)
    | (with_reducible apply simple_CreateIntrinsic) | (with_reducible apply simple_CreateAlloca)
    | (with_reducible apply simple_CreateGlobalStringPtr)
    | (with_reducible apply simple_create_entry_block_alloca)
    | (with_reducible apply simple_RuntimeObject_new)
    | (with_reducible apply simple_RuntimeObject_wrap)
    | (with_reducible apply simple_RuntimeObject_get_ptr)
    | (with_reducible apply simple_RuntimeObject_set)
    | (with_reducible apply simple_cast_pointer)
    | (with_reducible apply simple_create_increment)
    | ((with_reducible refine simple_emitValue _ _ _ ?hmk ?_); case hmk => intro _; rfl)
    | (with_reducible refine emit_source_simple _ _ ?_)
    | (with_reducible refine create_call_simple _ _ ?_ _ _)
    | (with_reducible refine get_root_simple _ _ ?_)
    | (with_reducible refine get_runtime_simple _ _ ?_)
    | (with_reducible refine RuntimeObject_call_simple _ _ ?_ _ _ _)
    | (with_reducible refine print_call_host_simple _ _ ?_ _ _ _ _)
    | (with_reducible refine print_call_gpu_simple _ _ ?_ _ _ _ _ _)
    | (with_reducible refine set_functions_simple _ _ _ _ _ ?_)
    | (with_reducible refine emit_struct_meta_base_simple _ _ ?_ _ _ _)
    | (with_reducible refine emit_struct_meta_object_simple _ _ ?_ _)
    | (with_reducible refine emit_struct_meta_simple _ _ ?_ _)
    | (with_reducible refine linearize_loop_simple _ _ _ _ _ _ ?_)
    | (with_reducible refine sframed_bind_state _ _ _ ?_ (fun _ _ => ?_))
    | (with_reducible refine sframedV_bind_state _ _ _ ?_ (fun _ _ => ?_))
    | (with_reducible refine sframed_bind_pair _ _ _ ?_ (fun _ _ _ => ?_))
    | (with_reducible refine sframedV_bind_pair _ _ _ ?_ (fun _ _ _ => ?_))
    | (with_reducible apply sframed_bind; intro _)
    | (with_reducible apply sframedV_bind; intro _)
    | (with_reducible apply sframed_ite)
    | (with_reducible apply sframedV_ite)
    | (with_reducible apply sframed_pure)
    | (with_reducible apply sframedV_pure_pair)
    | (dsimp only)
    | split

theorem visit_PrintStmt_simple (cg base : CodeGen) (h : Simple base cg) (id : Nat) (rt : VectorType) (stmt : StmtRef) (str : String) :
    SFramed (cg.visit_PrintStmt id rt stmt str) base := by
  unfold CodeGen.visit_PrintStmt CodeGen.visit_PrintStmt_gpu CodeGen.visit_PrintStmt_host TC_NOT_IMPLEMENTED
  repeat' first
    | exact sframed_error _ _
    | exact sframedV_error _ _
    | assumption | exact simple_refl _
    | (with_reducible apply simple_setValue) | (with_reducible apply simple_CreateStore)
    | (with_reducible apply simple_CreateLoad) | (with_reducible apply simple_CreateBinOp)
    | (with_reducible apply simple_CreateAdd) | (with_reducible apply simple_CreateSub)
    | (with_reducible apply simple_CreateMul) | (with_reducible apply simple_CreateAnd)
    | (with_reducible apply simple_CreateLShr) | (with_reducible apply simple_CreateICmp)
    | (with_reducible apply simple_CreateFCmp) | (with_reducible apply simple_CreateCast)
    | (with_reducible apply simple_CreateBitCast) | (with_reducible apply simple_CreateSelect)
    | (with_reducible apply simple_CreateGEP) | (with_reducible apply simple_CreateCall)
    | (with_reducible apply simple_CreateIntrinsic) | (with_reducible apply simple_CreateAlloca)
    | (with_reducible apply simple_CreateGlobalStringPtr)
    | (with_reducible apply simple_create_entry_block_alloca)
    | (with_reducible apply simple_RuntimeObject_new)
    | (with_reducible apply simple_RuntimeObject_wrap)
    | (with_reducible apply simple_RuntimeObject_get_ptr)
    | (with_reducible apply simple_RuntimeObject_set)
    | (with_reducible apply simple_cast_pointer)
    | (with_reducible apply simple_create_increment)
    | ((with_reducible refine simple_emitValue _ _ _ ?hmk ?_); case hmk => intro _; rfl)
    | (with_reducible refine emit_source_simple _ _ ?_)
    | (with_reducible refine create_call_simple _ _ ?_ _ _)
    | (with_reducible refine get_root_simple _ _ ?_)
    | (with_reducible refine get_runtime_simple _ _ ?_)
    | (with_reducible refine RuntimeObject_call_simple _ _ ?_ _ _ _)
    | (with_reducible refine print_call_host_simple _ _ ?_ _ _ _ _)
    | (with_reducible refine print_call_gpu_simple _ _ ?_ _ _ _ _ _)
    | (with_reducible refine set_functions_simple _ _ _ _ _ ?_)
    | (with_reducible refine emit_struct_meta_base_simple _ _ ?_ _ _ _)
    | (with_reducible refine emit_struct_meta_object_simple _ _ ?_ _)
    | (with_reducible refine emit_struct_meta_simple _ _ ?_ _)
    | (with_reducible refine linearize_loop_simple _ _ _ _ _ _ ?_)
    | (with_reducible refine sframed_bind_state _ _ _ ?_ (fun _ _ => ?_))
    | (with_reducible refine sframedV_bind_state _ _ _ ?_ (fun _ _ => ?_))
    | (with_reducible refine sframed_bind_pair _ _ _ ?_ (fun _ _ _ => ?_))
    | (with_reducible refine sframedV_bind_pair _ _ _ ?_ (fun _ _ _ => ?_))
    | (with_reducible apply sframed_bind; intro _)
    | (with_reducible apply sframedV_bind; intro _)
    | (with_reducible apply sframed_ite)
    | (with_reducible apply sframedV_ite)
    | (with_reducible apply sframed_pure)
    | (with_reducible apply sframedV_pure_pair)
    | (dsimp only)
    | split

theorem visit_ConstStmt_simple (cg base : CodeGen) (h : Simple base cg) (id : Nat) (rt : VectorType) (val : List TypedConstant) :
    SFramed (cg.visit_ConstStmt id rt val) base := by
  unfold CodeGen.visit_ConstStmt TC_NOT_IMPLEMENTED UNDEFINED
  repeat' first
    | exact sframed_error _ _
    | exact sframedV_error _ _
    | assumption | exact simple_refl _
    | (with_reducible apply simple_setValue) | (with_reducible apply simple_CreateStore)
    | (with_reducible apply simple_CreateLoad) | (with_reducible apply simple_CreateBinOp)
    | (with_reducible apply simple_CreateAdd) | (with_reducible apply simple_CreateSub)
    | (with_reducible apply simple_CreateMul) | (with_reducible apply simple_CreateAnd)
    | (with_reducible apply simple_CreateLShr) | (with_reducible apply simple_CreateICmp)
    | (with_reducible apply simple_CreateFCmp) | (with_reducible apply simple_CreateCast)
    | (with_reducible apply simple_CreateBitCast) | (with_reducible apply simple_CreateSelect)
    | (with_reducible apply simple_CreateGEP) | (with_reducible apply simple_CreateCall)
    | (with_reducible apply simple_CreateIntrinsic) | (with_reducible apply simple_CreateAlloca)
    | (with_reducible apply simple_CreateGlobalStringPtr)
    | (with_reducible apply simple_create_entry_block_alloca)
    | (with_reducible apply simple_RuntimeObject_new)
    | (with_reducible apply simple_RuntimeObject_wrap)
    | (with_reducible apply simple_RuntimeObject_get_ptr)
    | (with_reducible apply simple_RuntimeObject_set)
    | (with_reducible apply simple_cast_pointer)
    | (with_reducible apply simple_create_increment)
    | ((with_reducible refine simple_emitValue _ _ _ ?hmk ?_); case hmk => intro _; rfl)
    | (with_reducible refine emit_source_simple _ _ ?_)
    | (with_reducible refine create_call_simple _ _ ?_ _ _)
    | (with_reducible refine get_root_simple _ _ ?_)
    | (with_reducible refine get_runtime_simple _ _ ?_)
    | (with_reducible refine RuntimeObject_call_simple _ _ ?_ _ _ _)
    | (with_reducible refine print_call_host_simple _ _ ?_ _ _ _ _)
    | (with_reducible refine print_call_gpu_simple _ _ ?_ _ _ _ _ _)
    | (with_reducible refine set_functions_simple _ _ _ _ _ ?_)
    | (with_reducible refine emit_struct_meta_base_simple _ _ ?_ _ _ _)
    | (with_reducible refine emit_struct_meta_object_simple _ _ ?_ _)
    | (with_reducible refine emit_struct_meta_simple _ _ ?_ _)
    | (with_reducible refine linearize_loop_simple _ _ _ _ _ _ ?_)
    | (with_reducible refine sframed_bind_state _ _ _ ?_ (fun _ _ => ?_))
    | (with_reducible refine sframedV_bind_state _ _ _ ?_ (fun _ _ => ?_))
    | (with_reducible refine sframed_bind_pair _ _ _ ?_ (fun _ _ _ => ?_))
    | (with_reducible refine sframedV_bind_pair _ _ _ ?_ (fun _ _ _ => ?_))
    | (with_reducible apply sframed_bind; intro _)
    | (with_reducible apply sframedV_bind; intro _)
    | (with_reducible apply sframed_ite)
    | (with_reducible apply sframedV_ite)
    | (with_reducible apply sframed_pure)
    | (with_reducible apply sframedV_pure_pair)
    | (dsimp only)
    | split

theorem visit_ArgLoadStmt_simple (cg base : CodeGen) (h : Simple base cg) (id : Nat) (rt : VectorType) (arg_id : Int) (is_ptr : Bool) :
    SFramed (cg.visit_ArgLoadStmt id rt arg_id is_ptr) base := by
  unfold CodeGen.visit_ArgLoadStmt
  repeat' first
    | exact sframed_error _ _
    | exact sframedV_error _ _
    | assumption | exact simple_refl _
    | (with_reducible apply simple_setValue) | (with_reducible apply simple_CreateStore)
    | (with_reducible apply simple_CreateLoad) | (with_reducible apply simple_CreateBinOp)
    | (with_reducible apply simple_CreateAdd) | (with_reducible apply simple_CreateSub)
    | (with_reducible apply simple_CreateMul) | (with_reducible apply simple_CreateAnd)
    | (with_reducible apply simple_CreateLShr) | (with_reducible apply simple_CreateICmp)
    | (with_reducible apply simple_CreateFCmp) | (with_reducible apply simple_CreateCast)
    | (with_reducible apply simple_CreateBitCast) | (with_reducible apply simple_CreateSelect)
    | (with_reducible apply simple_CreateGEP) | (with_reducible apply simple_CreateCall)
    | (with_reducible apply simple_CreateIntrinsic) | (with_reducible apply simple_CreateAlloca)
    | (with_reducible apply simple_CreateGlobalStringPtr)
    | (with_reducible apply simple_create_entry_block_alloca)
    | (with_reducible apply simple_RuntimeObject_new)
    | (with_reducible apply simple_RuntimeObject_wrap)
    | (with_reducible apply simple_RuntimeObject_get_ptr)
    | (with_reducible apply simple_RuntimeObject_set)
    | (with_reducible apply simple_cast_pointer)
    | (with_reducible apply simple_create_increment)
    | ((with_reducible refine simple_emitValue _ _ _ ?hmk ?_); case hmk => intro _; rfl)
    | (with_reducible refine emit_source_simple _ _ ?_)
    | (with_reducible refine create_call_simple _ _ ?_ _ _)
    | (with_reducible refine get_root_simple _ _ ?_)
    | (with_reducible refine get_runtime_simple _ _ ?_)
    | (with_reducible refine RuntimeObject_call_simple _ _ ?_ _ _ _)
    | (with_reducible refine print_call_host_simple _ _ ?_ _ _ _ _)
    | (with_reducible refine print_call_gpu_simple _ _ ?_ _ _ _ _ _)
    | (with_reducible refine set_functions_simple _ _ _ _ _ ?_)
    | (with_reducible refine emit_struct_meta_base_simple _ _ ?_ _ _ _)
    | (with_reducible refine emit_struct_meta_object_simple _ _ ?_ _)
    | (with_reducible refine emit_struct_meta_simple _ _ ?_ _)
    | (with_reducible refine linearize_loop_simple _ _ _ _ _ _ ?_)
    | (with_reducible refine sframed_bind_state _ _ _ ?_ (fun _ _ => ?_))
    | (with_reducible refine sframedV_bind_state _ _ _ ?_ (fun _ _ => ?_))
    | (with_reducible refine sframed_bind_pair _ _ _ ?_ (fun _ _ _ => ?_))
    | (with_reducible refine sframedV_bind_pair _ _ _ ?_ (fun _ _ _ => ?_))
    | (with_reducible apply sframed_bind; intro _)
    | (with_reducible apply sframedV_bind; intro _)
    | (with_reducible apply sframed_ite)
    | (with_reducible apply sframedV_ite)
    | (with_reducible apply sframed_pure)
    | (with_reducible apply sframedV_pure_pair)
    | (dsimp only)
    | split

theorem visit_LocalLoadStmt_simple (cg base : CodeGen) (h : Simple base cg) (id : Nat) (rt : VectorType) (ptr : List StmtRef) :
    SFramed (cg.visit_LocalLoadStmt id rt ptr) base := by
  unfold CodeGen.visit_LocalLoadStmt UNDEFINED
  repeat' first
    | exact sframed_error _ _
    | exact sframedV_error _ _
    | assumption | exact simple_refl _
    | (with_reducible apply simple_setValue) | (with_reducible apply simple_CreateStore)
    | (with_reducible apply simple_CreateLoad) | (with_reducible apply simple_CreateBinOp)
    | (with_reducible apply simple_CreateAdd) | (with_reducible apply simple_CreateSub)
    | (with_reducible apply simple_CreateMul) | (with_reducible apply simple_CreateAnd)
    | (with_reducible apply simple_CreateLShr) | (with_reducible apply simple_CreateICmp)
    | (with_reducible apply simple_CreateFCmp) | (with_reducible apply simple_CreateCast)
    | (with_reducible apply simple_CreateBitCast) | (with_reducible apply simple_CreateSelect)
    | (with_reducible apply simple_CreateGEP) | (with_reducible apply simple_CreateCall)
    | (with_reducible apply simple_CreateIntrinsic) | (with_reducible apply simple_CreateAlloca)
    | (with_reducible apply simple_CreateGlobalStringPtr)
    | (with_reducible apply simple_create_entry_block_alloca)
    | (with_reducible apply simple_RuntimeObject_new)
    | (with_reducible apply simple_RuntimeObject_wrap)
    | (with_reducible apply simple_RuntimeObject_get_ptr)
    | (with_reducible apply simple_RuntimeObject_set)
    | (with_reducible apply simple_cast_pointer)
    | (with_reducible apply simple_create_increment)
    | ((with_reducible refine simple_emitValue _ _ _ ?hmk ?_); case hmk => intro _; rfl)
    | (with_reducible refine emit_source_simple _ _ ?_)
    | (with_reducible refine create_call_simple _ _ ?_ _ _)
    | (with_reducible refine get_root_simple _ _ ?_)
    | (with_reducible refine get_runtime_simple _ _ ?_)
    | (with_reducible refine RuntimeObject_call_simple _ _ ?_ _ _ _)
    | (with_reducible refine print_call_host_simple _ _ ?_ _ _ _ _)
    | (with_reducible refine print_call_gpu_simple _ _ ?_ _ _ _ _ _)
    | (with_reducible refine set_functions_simple _ _ _ _ _ ?_)
    | (with_reducible refine emit_struct_meta_base_simple _ _ ?_ _ _ _)
    | (with_reducible refine emit_struct_meta_object_simple _ _ ?_ _)
    | (with_reducible refine emit_struct_meta_simple _ _ ?_ _)
    | (with_reducible refine linearize_loop_simple _ _ _ _ _ _ ?_)
    | (with_reducible refine sframed_bind_state _ _ _ ?_ (fun _ _ => ?_))
    | (with_reducible refine sframedV_bind_state _ _ _ ?_ (fun _ _ => ?_))
    | (with_reducible refine sframed_bind_pair _ _ _ ?_ (fun _ _ _ => ?_))
    | (with_reducible refine sframedV_bind_pair _ _ _ ?_ (fun _ _ _ => ?_))
    | (with_reducible apply sframed_bind; intro _)
    | (with_reducible apply sframedV_bind; intro _)
    | (with_reducible apply sframed_ite)
    | (with_reducible apply sframedV_ite)
    | (with_reducible apply sframed_pure)
    | (with_reducible apply sframedV_pure_pair)
    | (dsimp only)
    | split

theorem visit_LocalStoreStmt_simple (cg base : CodeGen) (h : Simple base cg) (mask : Option StmtRef) (rt : VectorType) (ptr data : StmtRef) :
    SFramed (cg.visit_LocalStoreStmt mask rt ptr data) base := by
  unfold CodeGen.visit_LocalStoreStmt TC_NOT_IMPLEMENTED
  repeat' first
    | exact sframed_error _ _
    | exact sframedV_error _ _
    | assumption | exact simple_refl _
    | (with_reducible apply simple_setValue) | (with_reducible apply simple_CreateStore)
    | (with_reducible apply simple_CreateLoad) | (with_reducible apply simple_CreateBinOp)
    | (with_reducible apply simple_CreateAdd) | (with_reducible apply simple_CreateSub)
    | (with_reducible apply simple_CreateMul) | (with_reducible apply simple_CreateAnd)
    | (with_reducible apply simple_CreateLShr) | (with_reducible apply simple_CreateICmp)
    | (with_reducible apply simple_CreateFCmp) | (with_reducible apply simple_CreateCast)
    | (with_reducible apply simple_CreateBitCast) | (with_reducible apply simple_CreateSelect)
    | (with_reducible apply simple_CreateGEP) | (with_reducible apply simple_CreateCall)
    | (with_reducible apply simple_CreateIntrinsic) | (with_reducible apply simple_CreateAlloca)
    | (with_reducible apply simple_CreateGlobalStringPtr)
    | (with_reducible apply simple_create_entry_block_alloca)
    | (with_reducible apply simple_RuntimeObject_new)
    | (with_reducible apply simple_RuntimeObject_wrap)
    | (with_reducible apply simple_RuntimeObject_get_ptr)
    | (with_reducible apply simple_RuntimeObject_set)
    | (with_reducible apply simple_cast_pointer)
    | (with_reducible apply simple_create_increment)
    | ((with_reducible refine simple_emitValue _ _ _ ?hmk ?_); case hmk => intro _; rfl)
    | (with_reducible refine emit_source_simple _ _ ?_)
    | (with_reducible refine create_call_simple _ _ ?_ _ _)
    | (with_reducible refine get_root_simple _ _ ?_)
    | (with_reducible refine get_runtime_simple _ _ ?_)
    | (with_reducible refine RuntimeObject_call_simple _ _ ?_ _ _ _)
    | (with_reducible refine print_call_host_simple _ _ ?_ _ _ _ _)
    | (with_reducible refine print_call_gpu_simple _ _ ?_ _ _ _ _ _)
    | (with_reducible refine set_functions_simple _ _ _ _ _ ?_)
    | (with_reducible refine emit_struct_meta_base_simple _ _ ?_ _ _ _)
    | (with_reducible refine emit_struct_meta_object_simple _ _ ?_ _)
    | (with_reducible refine emit_struct_meta_simple _ _ ?_ _)
    | (with_reducible refine linearize_loop_simple _ _ _ _ _ _ ?_)
    | (with_reducible refine sframed_bind_state _ _ _ ?_ (fun _ _ => ?_))
    | (with_reducible refine sframedV_bind_state _ _ _ ?_ (fun _ _ => ?_))
    | (with_reducible refine sframed_bind_pair _ _ _ ?_ (fun _ _ _ => ?_))
    | (with_reducible refine sframedV_bind_pair _ _ _ ?_ (fun _ _ _ => ?_))
    | (with_reducible apply sframed_bind; intro _)
    | (with_reducible apply sframedV_bind; intro _)
    | (with_reducible apply sframed_ite)
    | (with_reducible apply sframedV_ite)
    | (with_reducible apply sframed_pure)
    | (with_reducible apply sframedV_pure_pair)
    | (dsimp only)
    | split

theorem visit_SNodeOpStmt_simple (cg base : CodeGen) (h : Simple base cg) (rt : VectorType) (op : SNodeOpType) :
    SFramed (cg.visit_SNodeOpStmt rt op) base := by
  unfold CodeGen.visit_SNodeOpStmt
  repeat' first
    | exact sframed_error _ _
    | exact sframedV_error _ _
    | assumption | exact simple_refl _
    | (with_reducible apply simple_setValue) | (with_reducible apply simple_CreateStore)
    | (with_reducible apply simple_CreateLoad) | (with_reducible apply simple_CreateBinOp)
    | (with_reducible apply simple_CreateAdd) | (with_reducible apply simple_CreateSub)
    | (with_reducible apply simple_CreateMul) | (with_reducible apply simple_CreateAnd)
    | (with_reducible apply simple_CreateLShr) | (with_reducible apply simple_CreateICmp)
    | (with_reducible apply simple_CreateFCmp) | (with_reducible apply simple_CreateCast)
    | (with_reducible apply simple_CreateBitCast) | (with_reducible apply simple_CreateSelect)
    | (with_reducible apply simple_CreateGEP) | (with_reducible apply simple_CreateCall)
    | (with_reducible apply simple_CreateIntrinsic) | (with_reducible apply simple_CreateAlloca)
    | (with_reducible apply simple_CreateGlobalStringPtr)
    | (with_reducible apply simple_create_entry_block_alloca)
    | (with_reducible apply simple_RuntimeObject_new)
    | (with_reducible apply simple_RuntimeObject_wrap)
    | (with_reducible apply simple_RuntimeObject_get_ptr)
    | (with_reducible apply simple_RuntimeObject_set)
    | (with_reducible apply simple_cast_pointer)
    | (with_reducible apply simple_create_increment)
    | ((with_reducible refine simple_emitValue _ _ _ ?hmk ?_); case hmk => intro _; rfl)
    | (with_reducible refine emit_source_simple _ _ ?_)
    | (with_reducible refine create_call_simple _ _ ?_ _ _)
    | (with_reducible refine get_root_simple _ _ ?_)
    | (with_reducible refine get_runtime_simple _ _ ?_)
    | (with_reducible refine RuntimeObject_call_simple _ _ ?_ _ _ _)
    | (with_reducible refine print_call_host_simple _ _ ?_ _ _ _ _)
    | (with_reducible refine print_call_gpu_simple _ _ ?_ _ _ _ _ _)
    | (with_reducible refine set_functions_simple _ _ _ _ _ ?_)
    | (with_reducible refine emit_struct_meta_base_simple _ _ ?_ _ _ _)
    | (with_reducible refine emit_struct_meta_object_simple _ _ ?_ _)
    | (with_reducible refine emit_struct_meta_simple _ _ ?_ _)
    | (with_reducible refine linearize_loop_simple _ _ _ _ _ _ ?_)
    | (with_reducible refine sframed_bind_state _ _ _ ?_ (fun _ _ => ?_))
    | (with_reducible refine sframedV_bind_state _ _ _ ?_ (fun _ _ => ?_))
    | (with_reducible refine sframed_bind_pair _ _ _ ?_ (fun _ _ _ => ?_))
    | (with_reducible refine sframedV_bind_pair _ _ _ ?_ (fun _ _ _ => ?_))
    | (with_reducible apply sframed_bind; intro _)
    | (with_reducible apply sframedV_bind; intro _)
    | (with_reducible apply sframed_ite)
    | (with_reducible apply sframedV_ite)
    | (with_reducible apply sframed_pure)
    | (with_reducible apply sframedV_pure_pair)
    | (dsimp only)
    | split

theorem atomic_lane_host_simple (cg base : CodeGen) (h : Simple base cg) (mask : Option StmtRef) (op : AtomicOpType) (dest val : StmtRef) :
    SFramed (cg.atomic_lane_host mask op dest val) base := by
  unfold CodeGen.atomic_lane_host TC_NOT_IMPLEMENTED
  repeat' first
    | exact sframed_error _ _
    | exact sframedV_error _ _
    | assumption | exact simple_refl _
    | (with_reducible apply simple_setValue) | (with_reducible apply simple_CreateStore)
    | (with_reducible apply simple_CreateLoad) | (with_reducible apply simple_CreateBinOp)
    | (with_reducible apply simple_CreateAdd) | (with_reducible apply simple_CreateSub)
    | (with_reducible apply simple_CreateMul) | (with_reducible apply simple_CreateAnd)
    | (with_reducible apply simple_CreateLShr) | (with_reducible apply simple_CreateICmp)
    | (with_reducible apply simple_CreateFCmp) | (with_reducible apply simple_CreateCast)
    | (with_reducible apply simple_CreateBitCast) | (with_reducible apply simple_CreateSelect)
    | (with_reducible apply simple_CreateGEP) | (with_reducible apply simple_CreateCall)
    | (with_reducible apply simple_CreateIntrinsic) | (with_reducible apply simple_CreateAlloca)
    | (with_reducible apply simple_CreateGlobalStringPtr)
    | (with_reducible apply simple_create_entry_block_alloca)
    | (with_reducible apply simple_RuntimeObject_new)
    | (with_reducible apply simple_RuntimeObject_wrap)
    | (with_reducible apply simple_RuntimeObject_get_ptr)
    | (with_reducible apply simple_RuntimeObject_set)
    | (with_reducible apply simple_cast_pointer)
    | (with_reducible apply simple_create_increment)
    | ((with_reducible refine simple_emitValue _ _ _ ?hmk ?_); case hmk => intro _; rfl)
    | (with_reducible refine emit_source_simple _ _ ?_)
    | (with_reducible refine create_call_simple _ _ ?_ _ _)
    | (with_reducible refine get_root_simple _ _ ?_)
    | (with_reducible refine get_runtime_simple _ _ ?_)
    | (with_reducible refine RuntimeObject_call_simple _ _ ?_ _ _ _)
    | (with_reducible refine print_call_host_simple _ _ ?_ _ _ _ _)
    | (with_reducible refine print_call_gpu_simple _ _ ?_ _ _ _ _ _)
    | (with_reducible refine set_functions_simple _ _ _ _ _ ?_)
    | (with_reducible refine emit_struct_meta_base_simple _ _ ?_ _ _ _)
    | (with_reducible refine emit_struct_meta_object_simple _ _ ?_ _)
    | (with_reducible refine emit_struct_meta_simple _ _ ?_ _)
    | (with_reducible refine linearize_loop_simple _ _ _ _ _ _ ?_)
    | (with_reducible refine sframed_bind_state _ _ _ ?_ (fun _ _ => ?_))
    | (with_reducible refine sframedV_bind_state _ _ _ ?_ (fun _ _ => ?_))
    | (with_reducible refine sframed_bind_pair _ _ _ ?_ (fun _ _ _ => ?_))
    | (with_reducible refine sframedV_bind_pair _ _ _ ?_ (fun _ _ _ => ?_))
    | (with_reducible apply sframed_bind; intro _)
    | (with_reducible apply sframedV_bind; intro _)
    | (with_reducible apply sframed_ite)
    | (with_reducible apply sframedV_ite)
    | (with_reducible apply sframed_pure)
    | (with_reducible apply sframedV_pure_pair)
    | (dsimp only)
    | split

theorem atomic_lane_gpu_simple (cg base : CodeGen) (h : Simple base cg) (mask : Option StmtRef) (op : AtomicOpType) (dest val : StmtRef) :
    SFramed (cg.atomic_lane_gpu mask op dest val) base := by
  unfold CodeGen.atomic_lane_gpu TC_NOT_IMPLEMENTED
  repeat' first
    | exact sframed_error _ _
    | exact sframedV_error _ _
    | assumption | exact simple_refl _
    | (with_reducible apply simple_setValue) | (with_reducible apply simple_CreateStore)
    | (with_reducible apply simple_CreateLoad) | (with_reducible apply simple_CreateBinOp)
    | (with_reducible apply simple_CreateAdd) | (with_reducible apply simple_CreateSub)
    | (with_reducible apply simple_CreateMul) | (with_reducible apply simple_CreateAnd)
    | (with_reducible apply simple_CreateLShr) | (with_reducible apply simple_CreateICmp)
    | (with_reducible apply simple_CreateFCmp) | (with_reducible apply simple_CreateCast)
    | (with_reducible apply simple_CreateBitCast) | (with_reducible apply simple_CreateSelect)
    | (with_reducible apply simple_CreateGEP) | (with_reducible apply simple_CreateCall)
    | (with_reducible apply simple_CreateIntrinsic) | (with_reducible apply simple_CreateAlloca)
    | (with_reducible apply simple_CreateGlobalStringPtr)
    | (with_reducible apply simple_create_entry_block_alloca)
    | (with_reducible apply simple_RuntimeObject_new)
    | (with_reducible apply simple_RuntimeObject_wrap)
    | (with_reducible apply simple_RuntimeObject_get_ptr)
    | (with_reducible apply simple_RuntimeObject_set)
    | (with_reducible apply simple_cast_pointer)
    | (with_reducible apply simple_create_increment)
    | ((with_reducible refine simple_emitValue _ _ _ ?hmk ?_); case hmk => intro _; rfl)
    | (with_reducible refine emit_source_simple _ _ ?_)
    | (with_reducible refine create_call_simple _ _ ?_ _ _)
    | (with_reducible refine get_root_simple _ _ ?_)
    | (with_reducible refine get_runtime_simple _ _ ?_)
    | (with_reducible refine RuntimeObject_call_simple _ _ ?_ _ _ _)
    | (with_reducible refine print_call_host_simple _ _ ?_ _ _ _ _)
    | (with_reducible refine print_call_gpu_simple _ _ ?_ _ _ _ _ _)
    | (with_reducible refine set_functions_simple _ _ _ _ _ ?_)
    | (with_reducible refine emit_struct_meta_base_simple _ _ ?_ _ _ _)
    | (with_reducible refine emit_struct_meta_object_simple _ _ ?_ _)
    | (with_reducible refine emit_struct_meta_simple _ _ ?_ _)
    | (with_reducible refine linearize_loop_simple _ _ _ _ _ _ ?_)
    | (with_reducible refine sframed_bind_state _ _ _ ?_ (fun _ _ => ?_))
    | (with_reducible refine sframedV_bind_state _ _ _ ?_ (fun _ _ => ?_))
    | (with_reducible refine sframed_bind_pair _ _ _ ?_ (fun _ _ _ => ?_))
    | (with_reducible refine sframedV_bind_pair _ _ _ ?_ (fun _ _ _ => ?_))
    | (with_reducible apply sframed_bind; intro _)
    | (with_reducible apply sframedV_bind; intro _)
    | (with_reducible apply sframed_ite)
    | (with_reducible apply sframedV_ite)
    | (with_reducible apply sframed_pure)
    | (with_reducible apply sframedV_pure_pair)
    | (dsimp only)
    | split

theorem visit_GlobalPtrStmt_simple (cg base : CodeGen) (_h : Simple base cg) :
    SFramed (cg.visit_GlobalPtrStmt) base := by
  unfold CodeGen.visit_GlobalPtrStmt
  repeat' first
    | exact sframed_error _ _
    | exact sframedV_error _ _
    | assumption | exact simple_refl _
    | (with_reducible apply simple_setValue) | (with_reducible apply simple_CreateStore)
    | (with_reducible apply simple_CreateLoad) | (with_reducible apply simple_CreateBinOp)
    | (with_reducible apply simple_CreateAdd) | (with_reducible apply simple_CreateSub)
    | (with_reducible apply simple_CreateMul) | (with_reducible apply simple_CreateAnd)
    | (with_reducible apply simple_CreateLShr) | (with_reducible apply simple_CreateICmp)
    | (with_reducible apply simple_CreateFCmp) | (with_reducible apply simple_CreateCast)
    | (with_reducible apply simple_CreateBitCast) | (with_reducible apply simple_CreateSelect)
    | (with_reducible apply simple_CreateGEP) | (with_reducible apply simple_CreateCall)
    | (with_reducible apply simple_CreateIntrinsic) | (with_reducible apply simple_CreateAlloca)
    | (with_reducible apply simple_CreateGlobalStringPtr)
    | (with_reducible apply simple_create_entry_block_alloca)
    | (with_reducible apply simple_RuntimeObject_new)
    | (with_reducible apply simple_RuntimeObject_wrap)
    | (with_reducible apply simple_RuntimeObject_get_ptr)
    | (with_reducible apply simple_RuntimeObject_set)
    | (with_reducible apply simple_cast_pointer)
    | (with_reducible apply simple_create_increment)
    | ((with_reducible refine simple_emitValue _ _ _ ?hmk ?_); case hmk => intro _; rfl)
    | (with_reducible refine emit_source_simple _ _ ?_)
    | (with_reducible refine create_call_simple _ _ ?_ _ _)
    | (with_reducible refine get_root_simple _ _ ?_)
    | (with_reducible refine get_runtime_simple _ _ ?_)
    | (with_reducible refine RuntimeObject_call_simple _ _ ?_ _ _ _)
    | (with_reducible refine print_call_host_simple _ _ ?_ _ _ _ _)
    | (with_reducible refine print_call_gpu_simple _ _ ?_ _ _ _ _ _)
    | (with_reducible refine set_functions_simple _ _ _ _ _ ?_)
    | (with_reducible refine emit_struct_meta_base_simple _ _ ?_ _ _ _)
    | (with_reducible refine emit_struct_meta_object_simple _ _ ?_ _)
    | (with_reducible refine emit_struct_meta_simple _ _ ?_ _)
    | (with_reducible refine linearize_loop_simple _ _ _ _ _ _ ?_)
    | (with_reducible refine sframed_bind_state _ _ _ ?_ (fun _ _ => ?_))
    | (with_reducible refine sframedV_bind_state _ _ _ ?_ (fun _ _ => ?_))
    | (with_reducible refine sframed_bind_pair _ _ _ ?_ (fun _ _ _ => ?_))
    | (with_reducible refine sframedV_bind_pair _ _ _ ?_ (fun _ _ _ => ?_))
    | (with_reducible apply sframed_bind; intro _)
    | (with_reducible apply sframedV_bind; intro _)
    | (with_reducible apply sframed_ite)
    | (with_reducible apply sframedV_ite)
    | (with_reducible apply sframed_pure)
    | (with_reducible apply sframedV_pure_pair)
    | (dsimp only)
    | split

theorem visit_GlobalStoreStmt_simple (cg base : CodeGen) (h : Simple base cg) (mask : Option StmtRef) (rt : VectorType) (ptr data : StmtRef) :
    SFramed (cg.visit_GlobalStoreStmt mask rt ptr data) base := by
  unfold CodeGen.visit_GlobalStoreStmt
  repeat' first
    | exact sframed_error _ _
    | exact sframedV_error _ _
    | assumption | exact simple_refl _
    | (with_reducible apply simple_setValue) | (with_reducible apply simple_CreateStore)
    | (with_reducible apply simple_CreateLoad) | (with_reducible apply simple_CreateBinOp)
    | (with_reducible apply simple_CreateAdd) | (with_reducible apply simple_CreateSub)
    | (with_reducible apply simple_CreateMul) | (with_reducible apply simple_CreateAnd)
    | (with_reducible apply simple_CreateLShr) | (with_reducible apply simple_CreateICmp)
    | (with_reducible apply simple_CreateFCmp) | (with_reducible apply simple_CreateCast)
    | (with_reducible apply simple_CreateBitCast) | (with_reducible apply simple_CreateSelect)
    | (with_reducible apply simple_CreateGEP) | (with_reducible apply simple_CreateCall)
    | (with_reducible apply simple_CreateIntrinsic) | (with_reducible apply simple_CreateAlloca)
    | (with_reducible apply simple_CreateGlobalStringPtr)
    | (with_reducible apply simple_create_entry_block_alloca)
    | (with_reducible apply simple_RuntimeObject_new)
    | (with_reducible apply simple_RuntimeObject_wrap)
    | (with_reducible apply simple_RuntimeObject_get_ptr)
    | (with_reducible apply simple_RuntimeObject_set)
    | (with_reducible apply simple_cast_pointer)
    | (with_reducible apply simple_create_increment)
    | ((with_reducible refine simple_emitValue _ _ _ ?hmk ?_); case hmk => intro _; rfl)
    | (with_reducible refine emit_source_simple _ _ ?_)
    | (with_reducible refine create_call_simple _ _ ?_ _ _)
    | (with_reducible refine get_root_simple _ _ ?_)
    | (with_reducible refine get_runtime_simple _ _ ?_)
    | (with_reducible refine RuntimeObject_call_simple _ _ ?_ _ _ _)
    | (with_reducible refine print_call_host_simple _ _ ?_ _ _ _ _)
    | (with_reducible refine print_call_gpu_simple _ _ ?_ _ _ _ _ _)
    | (with_reducible refine set_functions_simple _ _ _ _ _ ?_)
    | (with_reducible refine emit_struct_meta_base_simple _ _ ?_ _ _ _)
    | (with_reducible refine emit_struct_meta_object_simple _ _ ?_ _)
    | (with_reducible refine emit_struct_meta_simple _ _ ?_ _)
    | (with_reducible refine linearize_loop_simple _ _ _ _ _ _ ?_)
    | (with_reducible refine sframed_bind_state _ _ _ ?_ (fun _ _ => ?_))
    | (with_reducible refine sframedV_bind_state _ _ _ ?_ (fun _ _ => ?_))
    | (with_reducible refine sframed_bind_pair _ _ _ ?_ (fun _ _ _ => ?_))
    | (with_reducible refine sframedV_bind_pair _ _ _ ?_ (fun _ _ _ => ?_))
    | (with_reducible apply sframed_bind; intro _)
    | (with_reducible apply sframedV_bind; intro _)
    | (with_reducible apply sframed_ite)
    | (with_reducible apply sframedV_ite)
    | (with_reducible apply sframed_pure)
    | (with_reducible apply sframedV_pure_pair)
    | (dsimp only)
    | split

theorem visit_GlobalLoadStmt_simple (cg base : CodeGen) (h : Simple base cg) (id : Nat) (rt : VectorType) (ptr : StmtRef) :
    SFramed (cg.visit_GlobalLoadStmt id rt ptr) base := by
  unfold CodeGen.visit_GlobalLoadStmt
  repeat' first
    | exact sframed_error _ _
    | exact sframedV_error _ _
    | assumption | exact simple_refl _
    | (with_reducible apply simple_setValue) | (with_reducible apply simple_CreateStore)
    | (with_reducible apply simple_CreateLoad) | (with_reducible apply simple_CreateBinOp)
    | (with_reducible apply simple_CreateAdd) | (with_reducible apply simple_CreateSub)
    | (with_reducible apply simple_CreateMul) | (with_reducible apply simple_CreateAnd)
    | (with_reducible apply simple_CreateLShr) | (with_reducible apply simple_CreateICmp)
    | (with_reducible apply simple_CreateFCmp) | (with_reducible apply simple_CreateCast)
    | (with_reducible apply simple_CreateBitCast) | (with_reducible apply simple_CreateSelect)
    | (with_reducible apply simple_CreateGEP) | (with_reducible apply simple_CreateCall)
    | (with_reducible apply simple_CreateIntrinsic) | (with_reducible apply simple_CreateAlloca)
    | (with_reducible apply simple_CreateGlobalStringPtr)
    | (with_reducible apply simple_create_entry_block_alloca)
    | (with_reducible apply simple_RuntimeObject_new)
    | (with_reducible apply simple_RuntimeObject_wrap)
    | (with_reducible apply simple_RuntimeObject_get_ptr)
    | (with_reducible apply simple_RuntimeObject_set)
    | (with_reducible apply simple_cast_pointer)
    | (with_reducible apply simple_create_increment)
    | ((with_reducible refine simple_emitValue _ _ _ ?hmk ?_); case hmk => intro _; rfl)
    | (with_reducible refine emit_source_simple _ _ ?_)
    | (with_reducible refine create_call_simple _ _ ?_ _ _)
    | (with_reducible refine get_root_simple _ _ ?_)
    | (with_reducible refine get_runtime_simple _ _ ?_)
    | (with_reducible refine RuntimeObject_call_simple _ _ ?_ _ _ _)
    | (with_reducible refine print_call_host_simple _ _ ?_ _ _ _ _)
    | (with_reducible refine print_call_gpu_simple _ _ ?_ _ _ _ _ _)
    | (with_reducible refine set_functions_simple _ _ _ _ _ ?_)
    | (with_reducible refine emit_struct_meta_base_simple _ _ ?_ _ _ _)
    | (with_reducible refine emit_struct_meta_object_simple _ _ ?_ _)
    | (with_reducible refine emit_struct_meta_simple _ _ ?_ _)
    | (with_reducible refine linearize_loop_simple _ _ _ _ _ _ ?_)
    | (with_reducible refine sframed_bind_state _ _ _ ?_ (fun _ _ => ?_))
    | (with_reducible refine sframedV_bind_state _ _ _ ?_ (fun _ _ => ?_))
    | (with_reducible refine sframed_bind_pair _ _ _ ?_ (fun _ _ _ => ?_))
    | (with_reducible refine sframedV_bind_pair _ _ _ ?_ (fun _ _ _ => ?_))
    | (with_reducible apply sframed_bind; intro _)
    | (with_reducible apply sframedV_bind; intro _)
    | (with_reducible apply sframed_ite)
    | (with_reducible apply sframedV_ite)
    | (with_reducible apply sframed_pure)
    | (with_reducible apply sframedV_pure_pair)
    | (dsimp only)
    | split

theorem visit_OffsetAndExtractBitsStmt_simple (cg base : CodeGen) (h : Simple base cg) (id : Nat) (input : StmtRef) (offset bit_begin bit_end : Int) :
    SFramed (cg.visit_OffsetAndExtractBitsStmt id input offset bit_begin bit_end) base := by
  unfold CodeGen.visit_OffsetAndExtractBitsStmt UNDEFINED
  repeat' first
    | exact sframed_error _ _
    | exact sframedV_error _ _
    | assumption | exact simple_refl _
    | (with_reducible apply simple_setValue) | (with_reducible apply simple_CreateStore)
    | (with_reducible apply simple_CreateLoad) | (with_reducible apply simple_CreateBinOp)
    | (with_reducible apply simple_CreateAdd) | (with_reducible apply simple_CreateSub)
    | (with_reducible apply simple_CreateMul) | (with_reducible apply simple_CreateAnd)
    | (with_reducible apply simple_CreateLShr) | (with_reducible apply simple_CreateICmp)
    | (with_reducible apply simple_CreateFCmp) | (with_reducible apply simple_CreateCast)
    | (with_reducible apply simple_CreateBitCast) | (with_reducible apply simple_CreateSelect)
    | (with_reducible apply simple_CreateGEP) | (with_reducible apply simple_CreateCall)
    | (with_reducible apply simple_CreateIntrinsic) | (with_reducible apply simple_CreateAlloca)
    | (with_reducible apply simple_CreateGlobalStringPtr)
    | (with_reducible apply simple_create_entry_block_alloca)
    | (with_reducible apply simple_RuntimeObject_new)
    | (with_reducible apply simple_RuntimeObject_wrap)
    | (with_reducible apply simple_RuntimeObject_get_ptr)
    | (with_reducible apply simple_RuntimeObject_set)
    | (with_reducible apply simple_cast_pointer)
    | (with_reducible apply simple_create_increment)
    | ((with_reducible refine simple_emitValue _ _ _ ?hmk ?_); case hmk => intro _; rfl)
    | (with_reducible refine emit_source_simple _ _ ?_)
    | (with_reducible refine create_call_simple _ _ ?_ _ _)
    | (with_reducible refine get_root_simple _ _ ?_)
    | (with_reducible refine get_runtime_simple _ _ ?_)
    | (with_reducible refine RuntimeObject_call_simple _ _ ?_ _ _ _)
    | (with_reducible refine print_call_host_simple _ _ ?_ _ _ _ _)
    | (with_reducible refine print_call_gpu_simple _ _ ?_ _ _ _ _ _)
    | (with_reducible refine set_functions_simple _ _ _ _ _ ?_)
    | (with_reducible refine emit_struct_meta_base_simple _ _ ?_ _ _ _)
    | (with_reducible refine emit_struct_meta_object_simple _ _ ?_ _)
    | (with_reducible refine emit_struct_meta_simple _ _ ?_ _)
    | (with_reducible refine linearize_loop_simple _ _ _ _ _ _ ?_)
    | (with_reducible refine sframed_bind_state _ _ _ ?_ (fun _ _ => ?_))
    | (with_reducible refine sframedV_bind_state _ _ _ ?_ (fun _ _ => ?_))
    | (with_reducible refine sframed_bind_pair _ _ _ ?_ (fun _ _ _ => ?_))
    | (with_reducible refine sframedV_bind_pair _ _ _ ?_ (fun _ _ _ => ?_))
    | (with_reducible apply sframed_bind; intro _)
    | (with_reducible apply sframedV_bind; intro _)
    | (with_reducible apply sframed_ite)
    | (with_reducible apply sframedV_ite)
    | (with_reducible apply sframed_pure)
    | (with_reducible apply sframedV_pure_pair)
    | (dsimp only)
    | split

theorem visit_LinearizeStmt_simple (cg base : CodeGen) (h : Simple base cg) (id : Nat) (inputs : List StmtRef) (strides : List Int) :
    SFramed (cg.visit_LinearizeStmt id inputs strides) base := by
  unfold CodeGen.visit_LinearizeStmt
  repeat' first
    | exact sframed_error _ _
    | exact sframedV_error _ _
    | assumption | exact simple_refl _
    | (with_reducible apply simple_setValue) | (with_reducible apply simple_CreateStore)
    | (with_reducible apply simple_CreateLoad) | (with_reducible apply simple_CreateBinOp)
    | (with_reducible apply simple_CreateAdd) | (with_reducible apply simple_CreateSub)
    | (with_reducible apply simple_CreateMul) | (with_reducible apply simple_CreateAnd)
    | (with_reducible apply simple_CreateLShr) | (with_reducible apply simple_CreateICmp)
    | (with_reducible apply simple_CreateFCmp) | (with_reducible apply simple_CreateCast)
    | (with_reducible apply simple_CreateBitCast) | (with_reducible apply simple_CreateSelect)
    | (with_reducible apply simple_CreateGEP) | (with_reducible apply simple_CreateCall)
    | (with_reducible apply simple_CreateIntrinsic) | (with_reducible apply simple_CreateAlloca)
    | (with_reducible apply simple_CreateGlobalStringPtr)
    | (with_reducible apply simple_create_entry_block_alloca)
    | (with_reducible apply simple_RuntimeObject_new)
    | (with_reducible apply simple_RuntimeObject_wrap)
    | (with_reducible apply simple_RuntimeObject_get_ptr)
    | (with_reducible apply simple_RuntimeObject_set)
    | (with_reducible apply simple_cast_pointer)
    | (with_reducible apply simple_create_increment)
    | ((with_reducible refine simple_emitValue _ _ _ ?hmk ?_); case hmk => intro _; rfl)
    | (with_reducible refine emit_source_simple _ _ ?_)
    | (with_reducible refine create_call_simple _ _ ?_ _ _)
    | (with_reducible refine get_root_simple _ _ ?_)
    | (with_reducible refine get_runtime_simple _ _ ?_)
    | (with_reducible refine RuntimeObject_call_simple _ _ ?_ _ _ _)
    | (with_reducible refine print_call_host_simple _ _ ?_ _ _ _ _)
    | (with_reducible refine print_call_gpu_simple _ _ ?_ _ _ _ _ _)
    | (with_reducible refine set_functions_simple _ _ _ _ _ ?_)
    | (with_reducible refine emit_struct_meta_base_simple _ _ ?_ _ _ _)
    | (with_reducible refine emit_struct_meta_object_simple _ _ ?_ _)
    | (with_reducible refine emit_struct_meta_simple _ _ ?_ _)
    | (with_reducible refine linearize_loop_simple _ _ _ _ _ _ ?_)
    | (with_reducible refine sframed_bind_state _ _ _ ?_ (fun _ _ => ?_))
    | (with_reducible refine sframedV_bind_state _ _ _ ?_ (fun _ _ => ?_))
    | (with_reducible refine sframed_bind_pair _ _ _ ?_ (fun _ _ _ => ?_))
    | (with_reducible refine sframedV_bind_pair _ _ _ ?_ (fun _ _ _ => ?_))
    | (with_reducible apply sframed_bind; intro _)
    | (with_reducible apply sframedV_bind; intro _)
    | (with_reducible apply sframed_ite)
    | (with_reducible apply sframedV_ite)
    | (with_reducible apply sframed_pure)
    | (with_reducible apply sframedV_pure_pair)
    | (dsimp only)
    | split

theorem visit_IntegerOffsetStmt_simple (cg base : CodeGen) (_h : Simple base cg) :
    SFramed (cg.visit_IntegerOffsetStmt) base := by
  unfold CodeGen.visit_IntegerOffsetStmt TC_NOT_IMPLEMENTED
  repeat' first
    | exact sframed_error _ _
    | exact sframedV_error _ _
    | assumption | exact simple_refl _
    | (with_reducible apply simple_setValue) | (with_reducible apply simple_CreateStore)
    | (with_reducible apply simple_CreateLoad) | (with_reducible apply simple_CreateBinOp)
    | (with_reducible apply simple_CreateAdd) | (with_reducible apply simple_CreateSub)
    | (with_reducible apply simple_CreateMul) | (with_reducible apply simple_CreateAnd)
    | (with_reducible apply simple_CreateLShr) | (with_reducible apply simple_CreateICmp)
    | (with_reducible apply simple_CreateFCmp) | (with_reducible apply simple_CreateCast)
    | (with_reducible apply simple_CreateBitCast) | (with_reducible apply simple_CreateSelect)
    | (with_reducible apply simple_CreateGEP) | (with_reducible apply simple_CreateCall)
    | (with_reducible apply simple_CreateIntrinsic) | (with_reducible apply simple_CreateAlloca)
    | (with_reducible apply simple_CreateGlobalStringPtr)
    | (with_reducible apply simple_create_entry_block_alloca)
    | (with_reducible apply simple_RuntimeObject_new)
    | (with_reducible apply simple_RuntimeObject_wrap)
    | (with_reducible apply simple_RuntimeObject_get_ptr)
    | (with_reducible apply simple_RuntimeObject_set)
    | (with_reducible apply simple_cast_pointer)
    | (with_reducible apply simple_create_increment)
    | ((with_reducible refine simple_emitValue _ _ _ ?hmk ?_); case hmk => intro _; rfl)
    | (with_reducible refine emit_source_simple _ _ ?_)
    | (with_reducible refine create_call_simple _ _ ?_ _ _)
    | (with_reducible refine get_root_simple _ _ ?_)
    | (with_reducible refine get_runtime_simple _ _ ?_)
    | (with_reducible refine RuntimeObject_call_simple _ _ ?_ _ _ _)
    | (with_reducible refine print_call_host_simple _ _ ?_ _ _ _ _)
    | (with_reducible refine print_call_gpu_simple _ _ ?_ _ _ _ _ _)
    | (with_reducible refine set_functions_simple _ _ _ _ _ ?_)
    | (with_reducible refine emit_struct_meta_base_simple _ _ ?_ _ _ _)
    | (with_reducible refine emit_struct_meta_object_simple _ _ ?_ _)
    | (with_reducible refine emit_struct_meta_simple _ _ ?_ _)
    | (with_reducible refine linearize_loop_simple _ _ _ _ _ _ ?_)
    | (with_reducible refine sframed_bind_state _ _ _ ?_ (fun _ _ => ?_))
    | (with_reducible refine sframedV_bind_state _ _ _ ?_ (fun _ _ => ?_))
    | (with_reducible refine sframed_bind_pair _ _ _ ?_ (fun _ _ _ => ?_))
    | (with_reducible refine sframedV_bind_pair _ _ _ ?_ (fun _ _ _ => ?_))
    | (with_reducible apply sframed_bind; intro _)
    | (with_reducible apply sframedV_bind; intro _)
    | (with_reducible apply sframed_ite)
    | (with_reducible apply sframedV_ite)
    | (with_reducible apply sframed_pure)
    | (with_reducible apply sframedV_pure_pair)
    | (dsimp only)
    | split

set_option maxHeartbeats 2000000 in
theorem visit_SNodeLookupStmt_simple (cg base : CodeGen) (h : Simple base cg) (id : Nat) (input_snode : Option StmtRef) (snode : SNode) (input_index : StmtRef) (activate : Bool) :
    SFramed (cg.visit_SNodeLookupStmt id input_snode snode input_index activate) base := by
  unfold CodeGen.visit_SNodeLookupStmt UNDEFINED
  repeat' first
    | exact sframed_error _ _
    | exact sframedV_error _ _
    | assumption | exact simple_refl _
    | (with_reducible apply simple_setValue) | (with_reducible apply simple_CreateStore)
    | (with_reducible apply simple_CreateLoad) | (with_reducible apply simple_CreateBinOp)
    | (with_reducible apply simple_CreateAdd) | (with_reducible apply simple_CreateSub)
    | (with_reducible apply simple_CreateMul) | (with_reducible apply simple_CreateAnd)
    | (with_reducible apply simple_CreateLShr) | (with_reducible apply simple_CreateICmp)
    | (with_reducible apply simple_CreateFCmp) | (with_reducible apply simple_CreateCast)
    | (with_reducible apply simple_CreateBitCast) | (with_reducible apply simple_CreateSelect)
    | (with_reducible apply simple_CreateGEP) | (with_reducible apply simple_CreateCall)
    | (with_reducible apply simple_CreateIntrinsic) | (with_reducible apply simple_CreateAlloca)
    | (with_reducible apply simple_CreateGlobalStringPtr)
    | (with_reducible apply simple_create_entry_block_alloca)
    | (with_reducible apply simple_RuntimeObject_new)
    | (with_reducible apply simple_RuntimeObject_wrap)
    | (with_reducible apply simple_RuntimeObject_get_ptr)
    | (with_reducible apply simple_RuntimeObject_set)
    | (with_reducible apply simple_cast_pointer)
    | (with_reducible apply simple_create_increment)
    | ((with_reducible refine simple_emitValue _ _ _ ?hmk ?_); case hmk => intro _; rfl)
    | (with_reducible refine emit_source_simple _ _ ?_)
    | (with_reducible refine create_call_simple _ _ ?_ _ _)
    | (with_reducible refine get_root_simple _ _ ?_)
    | (with_reducible refine get_runtime_simple _ _ ?_)
    | (with_reducible refine RuntimeObject_call_simple _ _ ?_ _ _ _)
    | (with_reducible refine print_call_host_simple _ _ ?_ _ _ _ _)
    | (with_reducible refine print_call_gpu_simple _ _ ?_ _ _ _ _ _)
    | (with_reducible refine set_functions_simple _ _ _ _ _ ?_)
    | (with_reducible refine emit_struct_meta_base_simple _ _ ?_ _ _ _)
    | (with_reducible refine emit_struct_meta_object_simple _ _ ?_ _)
    | (with_reducible refine emit_struct_meta_simple _ _ ?_ _)
    | (with_reducible refine linearize_loop_simple _ _ _ _ _ _ ?_)
    | (with_reducible refine sframed_bind_state _ _ _ ?_ (fun _ _ => ?_))
    | (with_reducible refine sframedV_bind_state _ _ _ ?_ (fun _ _ => ?_))
    | (with_reducible refine sframed_bind_pair _ _ _ ?_ (fun _ _ _ => ?_))
    | (with_reducible refine sframedV_bind_pair _ _ _ ?_ (fun _ _ _ => ?_))
    | (with_reducible apply sframed_bind; intro _)
    | (with_reducible apply sframedV_bind; intro _)
    | (with_reducible apply sframed_ite)
    | (with_reducible apply sframedV_ite)
    | (with_reducible apply sframed_pure)
    | (with_reducible apply sframedV_pure_pair)
    | (dsimp only)
    | split

theorem visit_GetChStmt_simple (cg base : CodeGen) (h : Simple base cg) (id : Nat) (input_ptr : StmtRef) (chid : Int) :
    SFramed (cg.visit_GetChStmt id input_ptr chid) base := by
  unfold CodeGen.visit_GetChStmt
  repeat' first
    | exact sframed_error _ _
    | exact sframedV_error _ _
    | assumption | exact simple_refl _
    | (with_reducible apply simple_setValue) | (with_reducible apply simple_CreateStore)
    | (with_reducible apply simple_CreateLoad) | (with_reducible apply simple_CreateBinOp)
    | (with_reducible apply simple_CreateAdd) | (with_reducible apply simple_CreateSub)
    | (with_reducible apply simple_CreateMul) | (with_reducible apply simple_CreateAnd)
    | (with_reducible apply simple_CreateLShr) | (with_reducible apply simple_CreateICmp)
    | (with_reducible apply simple_CreateFCmp) | (with_reducible apply simple_CreateCast)
    | (with_reducible apply simple_CreateBitCast) | (with_reducible apply simple_CreateSelect)
    | (with_reducible apply simple_CreateGEP) | (with_reducible apply simple_CreateCall)
    | (with_reducible apply simple_CreateIntrinsic) | (with_reducible apply simple_CreateAlloca)
    | (with_reducible apply simple_CreateGlobalStringPtr)
    | (with_reducible apply simple_create_entry_block_alloca)
    | (with_reducible apply simple_RuntimeObject_new)
    | (with_reducible apply simple_RuntimeObject_wrap)
    | (with_reducible apply simple_RuntimeObject_get_ptr)
    | (with_reducible apply simple_RuntimeObject_set)
    | (with_reducible apply simple_cast_pointer)
    | (with_reducible apply simple_create_increment)
    | ((with_reducible refine simple_emitValue _ _ _ ?hmk ?_); case hmk => intro _; rfl)
    | (with_reducible refine emit_source_simple _ _ ?_)
    | (with_reducible refine create_call_simple _ _ ?_ _ _)
    | (with_reducible refine get_root_simple _ _ ?_)
    | (with_reducible refine get_runtime_simple _ _ ?_)
    | (with_reducible refine RuntimeObject_call_simple _ _ ?_ _ _ _)
    | (with_reducible refine print_call_host_simple _ _ ?_ _ _ _ _)
    | (with_reducible refine print_call_gpu_simple _ _ ?_ _ _ _ _ _)
    | (with_reducible refine set_functions_simple _ _ _ _ _ ?_)
    | (with_reducible refine emit_struct_meta_base_simple _ _ ?_ _ _ _)
    | (with_reducible refine emit_struct_meta_object_simple _ _ ?_ _)
    | (with_reducible refine emit_struct_meta_simple _ _ ?_ _)
    | (with_reducible refine linearize_loop_simple _ _ _ _ _ _ ?_)
    | (with_reducible refine sframed_bind_state _ _ _ ?_ (fun _ _ => ?_))
    | (with_reducible refine sframedV_bind_state _ _ _ ?_ (fun _ _ => ?_))
    | (with_reducible refine sframed_bind_pair _ _ _ ?_ (fun _ _ _ => ?_))
    | (with_reducible refine sframedV_bind_pair _ _ _ ?_ (fun _ _ _ => ?_))
    | (with_reducible apply sframed_bind; intro _)
    | (with_reducible apply sframedV_bind; intro _)
    | (with_reducible apply sframed_ite)
    | (with_reducible apply sframedV_ite)
    | (with_reducible apply sframed_pure)
    | (with_reducible apply sframedV_pure_pair)
    | (dsimp only)
    | split

theorem visit_ExternalPtrStmt_simple (cg base : CodeGen) (h : Simple base cg) (id : Nat) (rt : VectorType) (base_ptrs indices : List StmtRef) :
    SFramed (cg.visit_ExternalPtrStmt id rt base_ptrs indices) base := by
  unfold CodeGen.visit_ExternalPtrStmt UNDEFINED
  repeat' first
    | exact sframed_error _ _
    | exact sframedV_error _ _
    | assumption | exact simple_refl _
    | (with_reducible apply simple_setValue) | (with_reducible apply simple_CreateStore)
    | (with_reducible apply simple_CreateLoad) | (with_reducible apply simple_CreateBinOp)
    | (with_reducible apply simple_CreateAdd) | (with_reducible apply simple_CreateSub)
    | (with_reducible apply simple_CreateMul) | (with_reducible apply simple_CreateAnd)
    | (with_reducible apply simple_CreateLShr) | (with_reducible apply simple_CreateICmp)
    | (with_reducible apply simple_CreateFCmp) | (with_reducible apply simple_CreateCast)
    | (with_reducible apply simple_CreateBitCast) | (with_reducible apply simple_CreateSelect)
    | (with_reducible apply simple_CreateGEP) | (with_reducible apply simple_CreateCall)
    | (with_reducible apply simple_CreateIntrinsic) | (with_reducible apply simple_CreateAlloca)
    | (with_reducible apply simple_CreateGlobalStringPtr)
    | (with_reducible apply simple_create_entry_block_alloca)
    | (with_reducible apply simple_RuntimeObject_new)
    | (with_reducible apply simple_RuntimeObject_wrap)
    | (with_reducible apply simple_RuntimeObject_get_ptr)
    | (with_reducible apply simple_RuntimeObject_set)
    | (with_reducible apply simple_cast_pointer)
    | (with_reducible apply simple_create_increment)
    | ((with_reducible refine simple_emitValue _ _ _ ?hmk ?_); case hmk => intro _; rfl)
    | (with_reducible refine emit_source_simple _ _ ?_)
    | (with_reducible refine create_call_simple _ _ ?_ _ _)
    | (with_reducible refine get_root_simple _ _ ?_)
    | (with_reducible refine get_runtime_simple _ _ ?_)
    | (with_reducible refine RuntimeObject_call_simple _ _ ?_ _ _ _)
    | (with_reducible refine print_call_host_simple _ _ ?_ _ _ _ _)
    | (with_reducible refine print_call_gpu_simple _ _ ?_ _ _ _ _ _)
    | (with_reducible refine set_functions_simple _ _ _ _ _ ?_)
    | (with_reducible refine emit_struct_meta_base_simple _ _ ?_ _ _ _)
    | (with_reducible refine emit_struct_meta_object_simple _ _ ?_ _)
    | (with_reducible refine emit_struct_meta_simple _ _ ?_ _)
    | (with_reducible refine linearize_loop_simple _ _ _ _ _ _ ?_)
    | (with_reducible refine sframed_bind_state _ _ _ ?_ (fun _ _ => ?_))
    | (with_reducible refine sframedV_bind_state _ _ _ ?_ (fun _ _ => ?_))
    | (with_reducible refine sframed_bind_pair _ _ _ ?_ (fun _ _ _ => ?_))
    | (with_reducible refine sframedV_bind_pair _ _ _ ?_ (fun _ _ _ => ?_))
    | (with_reducible apply sframed_bind; intro _)
    | (with_reducible apply sframedV_bind; intro _)
    | (with_reducible apply sframed_ite)
    | (with_reducible apply sframedV_ite)
    | (with_reducible apply sframed_pure)
    | (with_reducible apply sframedV_pure_pair)
    | (dsimp only)
    | split

theorem visit_LoopIndexStmt_simple (cg base : CodeGen) (h : Simple base cg) (id : Nat) (is_struct_for : Bool) (index : Nat) :
    SFramed (cg.visit_LoopIndexStmt id is_struct_for index) base := by
  unfold CodeGen.visit_LoopIndexStmt UNDEFINED
  repeat' first
    | exact sframed_error _ _
    | exact sframedV_error _ _
    | assumption | exact simple_refl _
    | (with_reducible apply simple_setValue) | (with_reducible apply simple_CreateStore)
    | (with_reducible apply simple_CreateLoad) | (with_reducible apply simple_CreateBinOp)
    | (with_reducible apply simple_CreateAdd) | (with_reducible apply simple_CreateSub)
    | (with_reducible apply simple_CreateMul) | (with_reducible apply simple_CreateAnd)
    | (with_reducible apply simple_CreateLShr) | (with_reducible apply simple_CreateICmp)
    | (with_reducible apply simple_CreateFCmp) | (with_reducible apply simple_CreateCast)
    | (with_reducible apply simple_CreateBitCast) | (with_reducible apply simple_CreateSelect)
    | (with_reducible apply simple_CreateGEP) | (with_reducible apply simple_CreateCall)
    | (with_reducible apply simple_CreateIntrinsic) | (with_reducible apply simple_CreateAlloca)
    | (with_reducible apply simple_CreateGlobalStringPtr)
    | (with_reducible apply simple_create_entry_block_alloca)
    | (with_reducible apply simple_RuntimeObject_new)
    | (with_reducible apply simple_RuntimeObject_wrap)
    | (with_reducible apply simple_RuntimeObject_get_ptr)
    | (with_reducible apply simple_RuntimeObject_set)
    | (with_reducible apply simple_cast_pointer)
    | (with_reducible apply simple_create_increment)
    | ((with_reducible refine simple_emitValue _ _ _ ?hmk ?_); case hmk => intro _; rfl)
    | (with_reducible refine emit_source_simple _ _ ?_)
    | (with_reducible refine create_call_simple _ _ ?_ _ _)
    | (with_reducible refine get_root_simple _ _ ?_)
    | (with_reducible refine get_runtime_simple _ _ ?_)
    | (with_reducible refine RuntimeObject_call_simple _ _ ?_ _ _ _)
    | (with_reducible refine print_call_host_simple _ _ ?_ _ _ _ _)
    | (with_reducible refine print_call_gpu_simple _ _ ?_ _ _ _ _ _)
    | (with_reducible refine set_functions_simple _ _ _ _ _ ?_)
    | (with_reducible refine emit_struct_meta_base_simple _ _ ?_ _ _ _)
    | (with_reducible refine emit_struct_meta_object_simple _ _ ?_ _)
    | (with_reducible refine emit_struct_meta_simple _ _ ?_ _)
    | (with_reducible refine linearize_loop_simple _ _ _ _ _ _ ?_)
    | (with_reducible refine sframed_bind_state _ _ _ ?_ (fun _ _ => ?_))
    | (with_reducible refine sframedV_bind_state _ _ _ ?_ (fun _ _ => ?_))
    | (with_reducible refine sframed_bind_pair _ _ _ ?_ (fun _ _ _ => ?_))
    | (with_reducible refine sframedV_bind_pair _ _ _ ?_ (fun _ _ _ => ?_))
    | (with_reducible apply sframed_bind; intro _)
    | (with_reducible apply sframedV_bind; intro _)
    | (with_reducible apply sframed_ite)
    | (with_reducible apply sframedV_ite)
    | (with_reducible apply sframed_pure)
    | (with_reducible apply sframedV_pure_pair)
    | (dsimp only)
    | split

theorem emit_list_gen_simple (cg base : CodeGen) (h : Simple base cg) (snode : Option SNode) :
    SFramed (cg.emit_list_gen snode) base := by
  unfold CodeGen.emit_list_gen
  repeat' first
    | exact sframed_error _ _
    | exact sframedV_error _ _
    | assumption | exact simple_refl _
    | (with_reducible apply simple_setValue) | (with_reducible apply simple_CreateStore)
    | (with_reducible apply simple_CreateLoad) | (with_reducible apply simple_CreateBinOp)
    | (with_reducible apply simple_CreateAdd) | (with_reducible apply simple_CreateSub)
    | (with_reducible apply simple_CreateMul) | (with_reducible apply simple_CreateAnd)
    | (with_reducible apply simple_CreateLShr) | (with_reducible apply simple_CreateICmp)
    | (with_reducible apply simple_CreateFCmp) | (with_reducible apply simple_CreateCast)
    | (with_reducible apply simple_CreateBitCast) | (with_reducible apply simple_CreateSelect)
    | (with_reducible apply simple_CreateGEP) | (with_reducible apply simple_CreateCall)
    | (with_reducible apply simple_CreateIntrinsic) | (with_reducible apply simple_CreateAlloca)
    | (with_reducible apply simple_CreateGlobalStringPtr)
    | (with_reducible apply simple_create_entry_block_alloca)
    | (with_reducible apply simple_RuntimeObject_new)
    | (with_reducible apply simple_RuntimeObject_wrap)
    | (with_reducible apply simple_RuntimeObject_get_ptr)
    | (with_reducible apply simple_RuntimeObject_set)
    | (with_reducible apply simple_cast_pointer)
    | (with_reducible apply simple_create_increment)
    | ((with_reducible refine simple_emitValue _ _ _ ?hmk ?_); case hmk => intro _; rfl)
    | (with_reducible refine emit_source_simple _ _ ?_)
    | (with_reducible refine create_call_simple _ _ ?_ _ _)
    | (with_reducible refine get_root_simple _ _ ?_)
    | (with_reducible refine get_runtime_simple _ _ ?_)
    | (with_reducible refine RuntimeObject_call_simple _ _ ?_ _ _ _)
    | (with_reducible refine print_call_host_simple _ _ ?_ _ _ _ _)
    | (with_reducible refine print_call_gpu_simple _ _ ?_ _ _ _ _ _)
    | (with_reducible refine set_functions_simple _ _ _ _ _ ?_)
    | (with_reducible refine emit_struct_meta_base_simple _ _ ?_ _ _ _)
    | (with_reducible refine emit_struct_meta_object_simple _ _ ?_ _)
    | (with_reducible refine emit_struct_meta_simple _ _ ?_ _)
    | (with_reducible refine linearize_loop_simple _ _ _ _ _ _ ?_)
    | (with_reducible refine sframed_bind_state _ _ _ ?_ (fun _ _ => ?_))
    | (with_reducible refine sframedV_bind_state _ _ _ ?_ (fun _ _ => ?_))
    | (with_reducible refine sframed_bind_pair _ _ _ ?_ (fun _ _ _ => ?_))
    | (with_reducible refine sframedV_bind_pair _ _ _ ?_ (fun _ _ _ => ?_))
    | (with_reducible apply sframed_bind; intro _)
    | (with_reducible apply sframedV_bind; intro _)
    | (with_reducible apply sframed_ite)
    | (with_reducible apply sframedV_ite)
    | (with_reducible apply sframed_pure)
    | (with_reducible apply sframedV_pure_pair)
    | (dsimp only)
    | split

theorem visit_AtomicOpStmt_simple (cg base : CodeGen)
    (h : Simple base cg) (mask : Option StmtRef) (rt : VectorType)
    (op : AtomicOpType) (dest val : StmtRef) :
    SFramed (cg.visit_AtomicOpStmt mask rt op dest val) base := by
  unfold CodeGen.visit_AtomicOpStmt
  split
  · exact for_lanes_simple _ (fun c b hc => atomic_lane_gpu_simple c b hc _ _ _ _) _ _ _ h
  · exact for_lanes_simple _ (fun c b hc => atomic_lane_host_simple c b hc _ _ _ _) _ _ _ h

theorem ret_count_drop_empty_block (F k : Nat) (name : String) (p : Nat) :
    ret_count F (List.drop k [({ name := name, parent := p, insts := [] } : BasicBlock)])
      = 0 := by
  cases k with
  | zero =>
    show ret_count F [_] = 0
    rw [ret_count_cons, ret_count_nil]
    simp
  | succ k => simp [ret_count_nil]

theorem build_refl (a : CodeGen) : Build (fun _ => False) (fun _ => False) a a where
  func := rfl
  entry := rfl
  len := Nat.le_refl _
  A_new := fun _ h => h.elim
  A_parent := fun _ h => h.elim
  C_lt := fun _ h => h.elim
  C_entry := fun h => h
  ip := ⟨Or.inr rfl, fun h => h⟩
  parent_old := fun _ _ => rfl
  rets := fun _ _ => rfl
  shape := fun N O hs _ _ _ => shape_congr N O _ _ hs (fun i _ => by simp)

theorem build_positioned (A C : Nat → Prop) (a b : CodeGen) (hp : Positioned a)
    (h : Build A C a b) : Positioned b := by
  have hip := h.ip
  refine ⟨?_, ?_, ?_⟩
  · rw [h.entry]
    rcases hip.1 with hA | he
    · have := (h.A_new _ hA).1
      have := hp.entry_lt
      omega
    · rw [he]; exact hp.ne
  · rcases hip.1 with hA | he
    · exact (h.A_new _ hA).2
    · rw [he]; exact Nat.lt_of_lt_of_le hp.ip_lt h.len
  · rw [h.entry]; exact Nat.lt_of_lt_of_le hp.entry_lt h.len

theorem build_same (A C : Nat → Prop) (a b c : CodeGen) (h : Build A C a b)
    (h1 : c.func = b.func) (h2 : c.entry_block = b.entry_block)
    (h3 : c.insert_point = b.insert_point) (h4 : c.blocks = b.blocks) : Build A C a c where
  func := h1.trans h.func
  entry := h2.trans h.entry
  len := by rw [h4]; exact h.len
  A_new := by rw [h4]; exact h.A_new
  A_parent := by rw [h4]; exact h.A_parent
  C_lt := by rw [h4]; exact h.C_lt
  C_entry := h.C_entry
  ip := by rw [h3]; exact h.ip
  parent_old := by rw [h4]; exact h.parent_old
  rets := by rw [h4]; exact h.rets
  shape := by rw [h4]; exact h.shape

theorem build_congr (A C A2 C2 : Nat → Prop) (a b : CodeGen) (h : Build A C a b)
    (hA : ∀ i, A2 i ↔ A i) (hC : ∀ i, C2 i ↔ C i) : Build A2 C2 a b := by
  have eA : A2 = A := funext (fun i => propext (hA i))
  have eC : C2 = C := funext (fun i => propext (hC i))
  rw [eA, eC]
  exact h

theorem build_simple (A C : Nat → Prop) (a b c : CodeGen) (h : Build A C a b)
    (hs : Simple b c) : Build A C a c := by
  have f := simple_fields b c hs
  exact {
    func := f.1.trans h.func
    entry := f.2.1.trans h.entry
    len := by rw [f.2.2.2]; exact h.len
    A_new := by rw [f.2.2.2]; exact h.A_new
    A_parent := fun i hi => by rw [simple_parent b c hs]; exact h.A_parent i hi
    C_lt := by rw [f.2.2.2]; exact h.C_lt
    C_entry := h.C_entry
    ip := by rw [f.2.2.1]; exact h.ip
    parent_old := fun i hi => by rw [simple_parent b c hs]; exact h.parent_old i hi
    rets := fun F N => by rw [simple_rets b c hs]; exact h.rets F N
    shape := fun N O hsh hip he hb => by
      have s1 := h.shape N O hsh hip he hb
      refine simple_shape b c hs N _ ⟨?_, h.ip.2⟩ ⟨?_, ?_⟩ s1
      · rcases h.ip.1 with hA | e
        · exact Or.inr hA
        · rw [e]; exact Or.inl hip
      · rw [h.entry]; exact Or.inl he
      · rw [h.entry]; exact h.C_entry }

theorem build_create (A C : Nat → Prop) (a b : CodeGen) (name : String)
    (h : Build A C a b) :
    Build (fun i => A i ∨ i = b.blocks.length) C a (b.BasicBlock_Create name).2 := by
  have hlen : (b.BasicBlock_Create name).2.blocks.length = b.blocks.length + 1 := by
    simp [CodeGen.BasicBlock_Create]
  have hget : ∀ i, i < b.blocks.length →
      (b.BasicBlock_Create name).2.blocks[i]? = b.blocks[i]? := by
    intro i hi
    simp [CodeGen.BasicBlock_Create, List.getElem?_append_left hi]
  exact {
    func := h.func
    entry := h.entry
    len := by rw [hlen]; exact Nat.le_succ_of_le h.len
    A_new := fun i hi => by
      rw [hlen]
      rcases hi with hi | hi
      · have := h.A_new i hi; omega
      · have := h.len; omega
    A_parent := fun i hi => by
      rcases hi with hi | hi
      · rw [hget i (h.A_new i hi).2]; exact h.A_parent i hi
      · subst hi
        simp [CodeGen.BasicBlock_Create, h.func]
    C_lt := fun i hi => by rw [hlen]; exact Nat.lt_succ_of_lt (h.C_lt i hi)
    C_entry := h.C_entry
    ip := ⟨by
      rcases h.ip.1 with hA | e
      · exact Or.inl (Or.inl hA)
      · exact Or.inr e, h.ip.2⟩
    parent_old := fun i hi => by
      rw [hget i (Nat.lt_of_lt_of_le hi h.len)]; exact h.parent_old i hi
    rets := fun F N => by
      rw [← h.rets F N]
      show ret_count F ((b.blocks ++ _).drop N) = _
      rw [List.drop_append_eq_append_drop, ret_count_append]
      rw [ret_count_drop_empty_block]; rfl
    shape := fun N O hsh hip he hb => by
      have s1 := shape_create N _ _ name b.func (h.shape N O hsh hip he hb)
      refine shape_congr N _ _ _ s1 (fun i _ => ?_)
      constructor
      · rintro (⟨h1, h2⟩ | h1)
        · exact ⟨h1.elim Or.inl (fun x => Or.inr (Or.inl x)), h2⟩
        · refine ⟨Or.inr (Or.inr h1), fun hc => ?_⟩
          have := h.C_lt i hc
          omega
      · rintro ⟨h1 | h1 | h1, h2⟩
        · exact Or.inl ⟨Or.inl h1, h2⟩
        · exact Or.inl ⟨Or.inr h1, h2⟩
        · exact Or.inr h1 }

theorem build_close (A C : Nat → Prop) (a b : CodeGen) (t : Instr) (j : Nat)
    (hp : Positioned a) (h : Build A C a b) (ht : t.isTerminator = true)
    (hr : t ≠ Instr.ret_void) (hj : A j) (hjC : ¬ C j) (hjne : j ≠ b.insert_point) :
    Build A (fun i => C i ∨ i = b.insert_point) a ((b.emit t).SetInsertPoint j) := by
  have hpb := build_positioned A C a b hp h
  have hlen : ((b.emit t).SetInsertPoint j).blocks.length = b.blocks.length := by
    simp [CodeGen.emit, CodeGen.SetInsertPoint, appendTo_length]
  have hpar : ∀ i, (((b.emit t).SetInsertPoint j).blocks[i]?).map BasicBlock.parent
      = (b.blocks[i]?).map BasicBlock.parent := fun i => appendTo_parent _ _ _ _
  exact {
    func := h.func
    entry := h.entry
    len := by rw [hlen]; exact h.len
    A_new := by rw [hlen]; exact h.A_new
    A_parent := fun i hi => by rw [hpar]; exact h.A_parent i hi
    C_lt := fun i hi => by
      rw [hlen]
      rcases hi with hi | hi
      · exact h.C_lt i hi
      · rw [hi]; exact hpb.ip_lt
    C_entry := fun hc => by
      rcases hc with hc | hc
      · exact h.C_entry hc
      · rw [← h.entry] at hc; exact hpb.ne hc.symm
    ip := ⟨Or.inl hj, fun hc => by
      rcases hc with hc | hc
      · exact hjC hc
      · exact hjne hc⟩
    parent_old := fun i hi => by rw [hpar]; exact h.parent_old i hi
    rets := fun F N => by
      rw [← h.rets F N]
      show ret_count F ((appendTo t b.insert_point b.blocks).drop N) = _
      rw [ret_count_appendTo_drop]
      simp [hr]
    shape := fun N O hsh hip he hb => by
      have s1 := h.shape N O hsh hip he hb
      have hO : (fun i => (O i ∨ A i) ∧ ¬ C i) b.insert_point := by
        refine ⟨?_, h.ip.2⟩
        rcases h.ip.1 with hA | e
        · exact Or.inr hA
        · rw [e]; exact Or.inl hip
      have s2 := shape_appendTo_close N _ _ t b.insert_point ht hO s1
      refine shape_congr N _ _ _ s2 (fun i _ => ?_)
      constructor
      · rintro ⟨⟨h1, h2⟩, h3⟩
        exact ⟨h1, fun hc => hc.elim h2 h3⟩
      · rintro ⟨h1, h2⟩
        exact ⟨⟨h1, fun hc => h2 (Or.inl hc)⟩, fun hc => h2 (Or.inr hc)⟩ }

theorem build_trans (A1 C1 A2 C2 : Nat → Prop) (a b c : CodeGen)
    (h1 : Build A1 C1 a b) (h2 : Build A2 C2 b c) :
    Build (fun i => A1 i ∨ A2 i) (fun i => C1 i ∨ C2 i) a c where
  func := h2.func.trans h1.func
  entry := h2.entry.trans h1.entry
  len := Nat.le_trans h1.len h2.len
  A_new := fun i hi => by
    rcases hi with hi | hi
    · have := h1.A_new i hi; have := h2.len; omega
    · have := h2.A_new i hi; have := h1.len; omega
  A_parent := fun i hi => by
    rcases hi with hi | hi
    · rw [h2.parent_old i (h1.A_new i hi).2]; exact h1.A_parent i hi
    · rw [h2.A_parent i hi, h1.func]
  C_lt := fun i hi => by
    rcases hi with hi | hi
    · exact Nat.lt_of_lt_of_le (h1.C_lt i hi) h2.len
    · exact h2.C_lt i hi
  C_entry := fun hc => by
    rcases hc with hc | hc
    · exact h1.C_entry hc
    · rw [← h1.entry] at hc; exact h2.C_entry hc
  ip := by
    refine ⟨?_, fun hc => ?_⟩
    · rcases h2.ip.1 with hA | e
      · exact Or.inl (Or.inr hA)
      · rw [e]
        rcases h1.ip.1 with hA | e1
        · exact Or.inl (Or.inl hA)
        · exact Or.inr e1
    · rcases hc with hc | hc
      · rcases h2.ip.1 with hA | e
        · have := (h2.A_new _ hA).1
          have := h1.C_lt _ hc
          omega
        · rw [e] at hc; exact h1.ip.2 hc
      · exact h2.ip.2 hc
  parent_old := fun i hi => by
    rw [h2.parent_old i (Nat.lt_of_lt_of_le hi h1.len)]; exact h1.parent_old i hi
  rets := fun F N => (h2.rets F N).trans (h1.rets F N)
  shape := fun N O hsh hip he hb => by
    have s1 := h1.shape N O hsh hip he hb
    have hO1 : (fun i => (O i ∨ A1 i) ∧ ¬ C1 i) b.insert_point := by
      refine ⟨?_, h1.ip.2⟩
      rcases h1.ip.1 with hA | e
      · exact Or.inr hA
      · rw [e]; exact Or.inl hip
    have hO2 : (fun i => (O i ∨ A1 i) ∧ ¬ C1 i) b.entry_block := by
      rw [h1.entry]; exact ⟨Or.inl he, h1.C_entry⟩
    have hb1 : ∀ i, (fun i => (O i ∨ A1 i) ∧ ¬ C1 i) i → i < b.blocks.length := by
      rintro i ⟨h | h, _⟩
      · exact Nat.lt_of_lt_of_le (hb i h) h1.len
      · exact (h1.A_new i h).2
    have s2 := h2.shape N _ s1 hO1 hO2 hb1
    refine shape_congr N _ _ _ s2 (fun i _ => ?_)
    constructor
    · rintro ⟨⟨h3, h4⟩ | h3, h5⟩
      · exact ⟨h3.elim Or.inl (fun x => Or.inr (Or.inl x)), fun hc => hc.elim h4 h5⟩
      · refine ⟨Or.inr (Or.inr h3), fun hc => hc.elim (fun hc1 => ?_) h5⟩
        have := (h2.A_new i h3).1
        have := h1.C_lt i hc1
        omega
    · rintro ⟨h3 | h3 | h3, h4⟩
      · exact ⟨Or.inl ⟨Or.inl h3, fun hc => h4 (Or.inl hc)⟩, fun hc => h4 (Or.inr hc)⟩
      · exact ⟨Or.inl ⟨Or.inr h3, fun hc => h4 (Or.inl hc)⟩, fun hc => h4 (Or.inr hc)⟩
      · exact ⟨Or.inr h3, fun hc => h4 (Or.inr hc)⟩

theorem lowers_of_build (A C : Nat → Prop) (a b : CodeGen) (hp : Positioned a)
    (h : Build A C a b) (h1 : ∀ i, C i → i = a.insert_point ∨ a.blocks.length ≤ i)
    (h2 : ∀ i, A i → ¬ C i → i = b.insert_point)
    (h3 : b.insert_point ≠ a.insert_point → C a.insert_point) : Lowers a b := by
  have hipA : b.insert_point ≠ a.insert_point → A b.insert_point := fun hne =>
    h.ip.1.elim id (fun e => absurd e hne)
  exact {
    func := h.func
    entry := h.entry
    len := h.len
    A_new := fun i hi => by rw [hi.1]; exact h.A_new _ (hipA hi.2)
    A_parent := fun i hi => by rw [hi.1]; exact h.A_parent _ (hipA hi.2)
    C_lt := fun i hi => by rw [hi.1]; exact Nat.lt_of_lt_of_le hp.ip_lt h.len
    C_entry := fun hc => hp.ne hc.1.symm
    ip := by
      by_cases e : b.insert_point = a.insert_point
      · exact ⟨Or.inr e, fun hc => hc.2 e⟩
      · exact ⟨Or.inl ⟨rfl, e⟩, fun hc => e hc.1⟩
    parent_old := h.parent_old
    rets := h.rets
    shape := fun N O hsh hip he hb => by
      have s1 := h.shape N O hsh hip he hb
      refine shape_congr N _ _ _ s1 (fun i _ => ?_)
      constructor
      · rintro ⟨hO | hA, hC⟩
        · exact ⟨Or.inl hO, fun hc => hC (by rw [hc.1]; exact h3 hc.2)⟩
        · have e := h2 i hA hC
          have hge := (h.A_new i hA).1
          have hlt := hp.ip_lt
          have hne : b.insert_point ≠ a.insert_point := by omega
          exact ⟨Or.inr ⟨e, hne⟩, fun hc => by have := hc.1; omega⟩
      · rintro ⟨hO | hA, hC⟩
        · refine ⟨Or.inl hO, fun hc => ?_⟩
          have hlt := hb i hO
          rcases h1 i hc with e | e
          · by_cases hne : b.insert_point = a.insert_point
            · apply h.ip.2; rw [hne, ← e]; exact hc
            · exact hC ⟨e, hne⟩
          · omega
        · rw [hA.1]
          exact ⟨Or.inr (hipA hA.2), h.ip.2⟩ }

theorem lowers_trans (a b c : CodeGen) (hp : Positioned a) (h1 : Lowers a b)
    (h2 : Lowers b c) : Lowers a c := by
  have hpb := build_positioned _ _ a b hp h1
  refine lowers_of_build _ _ a c hp (build_trans _ _ _ _ a b c h1 h2) ?_ ?_ ?_
  · rintro i (⟨e, _⟩ | ⟨e, _⟩)
    · exact Or.inl e
    · rw [e]
      rcases h1.ip.1 with hA | e1
      · exact Or.inr (h1.A_new _ hA).1
      · exact Or.inl e1
  · rintro i (⟨e, hne⟩ | ⟨e, _⟩) hC
    · by_contra hcon
      apply hC
      refine Or.inr ⟨e, fun e2 => hcon (e.trans e2.symm)⟩
    · exact e
  · intro hne
    by_cases e : b.insert_point = a.insert_point
    · refine Or.inr ⟨e.symm, fun e2 => hne (e2.trans e)⟩
    · exact Or.inl ⟨rfl, e⟩

theorem lowers_of_simple (a b : CodeGen) (h : Simple a b) : Lowers a b := by
  have f := simple_fields a b h
  refine build_congr _ _ _ _ a b (build_simple _ _ a a b (build_refl a) h) ?_ ?_
  · intro i; constructor
    · rintro ⟨_, hne⟩; exact hne f.2.2.1
    · exact False.elim
  · intro i; constructor
    · rintro ⟨_, hne⟩; exact hne f.2.2.1
    · exact False.elim

theorem lowersTo_of_sframed (r : Except Err CodeGen) (a : CodeGen) (h : SFramed r a) :
    LowersTo r a := fun b hb _ => lowers_of_simple a b (h b hb)

theorem pure_eq_ok (x y : CodeGen) (h : (pure x : Except Err CodeGen) = .ok y) : x = y := by
  injection h

theorem visit_WhileControlStmt_lowers (cg : CodeGen) (cond : StmtRef) :
    LowersTo (cg.visit_WhileControlStmt cond) cg := by
  intro res hres hp
  unfold CodeGen.visit_WhileControlStmt at hres
  dsimp only at hres
  split at hres
  · cases hres
  · have e := pure_eq_ok _ _ hres
    rw [← e]
    refine lowers_of_build _ _ cg _ hp
      (build_close _ _ cg _ _ _ hp
        (build_simple _ _ cg _ _ (build_create _ _ cg cg _ (build_refl cg))
          (simple_CreateICmp _ _ _ _ _ (simple_refl _)))
        (by rfl) (fun h => by cases h) (Or.inr rfl) (fun h => h) (Nat.ne_of_gt hp.ip_lt))
      ?_ ?_ ?_
    · rintro i (h | h)
      · exact h.elim
      · exact Or.inl h
    · rintro i (h | h) _
      · exact h.elim
      · exact h
    · intro _
      exact Or.inr rfl

theorem build_created (a : CodeGen) (name : String) :
    (a.BasicBlock_Create name).2.blocks.length = a.blocks.length + 1 := by
  simp [CodeGen.BasicBlock_Create]

theorem if_lowers_aux (cg c0 : CodeGen) (cv : Value) (t f a : Nat)
    (accept_true accept_false : CodeGen → Except Err CodeGen)
    (ht : ∀ c, LowersTo (accept_true c) c) (hf : ∀ c, LowersTo (accept_false c) c)
    (ht0 : t = cg.blocks.length) (hf0 : f = cg.blocks.length + 1)
    (ha0 : a = cg.blocks.length + 2) (hip : c0.insert_point = cg.insert_point)
    (hlen : c0.blocks.length = cg.blocks.length + 3)
    (B0 : Build (fun i => i = cg.blocks.length ∨ i = cg.blocks.length + 1
      ∨ i = cg.blocks.length + 2) (fun _ => False) cg c0) :
    LowersTo (do
      let c ← accept_true ((c0.CreateCondBr cv t f).SetInsertPoint t)
      let c ← accept_false ((c.CreateBr f).SetInsertPoint f)
      pure ((c.CreateBr a).SetInsertPoint a)) cg := by
  intro res hres hp
  obtain ⟨c2, hc2, hres⟩ := bind_eq_ok _ _ _ hres
  obtain ⟨c4, hc4, hres⟩ := bind_eq_ok _ _ _ hres
  have e := pure_eq_ok _ _ hres
  have hip0 := hp.ip_lt
  have n1 : t ≠ c0.insert_point := by rw [hip]; omega
  have n2 : f ≠ cg.insert_point := by omega
  have n3 : f ≠ t := by omega
  have n4 : a ≠ cg.insert_point := by omega
  have n5 : a ≠ t := by omega
  have n6 : a ≠ f := by omega
  have n7 : cg.blocks.length ≤ t := by omega
  have n8 : cg.blocks.length ≤ f := by omega
  have B1 : Build _ (fun i => i = cg.insert_point) cg
      ((c0.CreateCondBr cv t f).SetInsertPoint t) :=
    build_congr _ _ _ _ cg _
      (build_close _ _ cg c0 (Instr.cond_br cv t f) t hp B0 rfl (fun h => by cases h)
        (Or.inl ht0) (fun h => h) n1)
      (fun i => Iff.rfl) (fun i => by rw [hip, false_or])
  have L2 := ht _ c2 hc2 (build_positioned _ _ cg _ hp B1)
  have B2 := build_trans _ _ _ _ cg _ c2 B1 L2
  have hXip : ((c0.CreateCondBr cv t f).SetInsertPoint t).insert_point = t := rfl
  have hXlen : ((c0.CreateCondBr cv t f).SetInsertPoint t).blocks.length
      = cg.blocks.length + 3 := by
    rw [← hlen]; exact appendTo_length _ _ _
  have h2ip : c2.insert_point = t ∨ cg.blocks.length + 3 ≤ c2.insert_point := by
    rcases L2.ip.1 with h | h
    · right; rw [← hXlen]; exact (L2.A_new _ h).1
    · left; exact h.trans hXip
  have m1 : f ≠ c2.insert_point := by omega
  have m2 : a ≠ c2.insert_point := by omega
  have m3 : cg.blocks.length ≤ c2.insert_point := by omega
  have B3 : Build _ _ cg ((c2.CreateBr f).SetInsertPoint f) :=
    build_close _ _ cg c2 (Instr.br f) f hp B2 rfl (fun h => by cases h)
      (Or.inl (Or.inr (Or.inl hf0)))
      (by rintro (h | ⟨h, _⟩)
          · exact n2 h
          · exact n3 h) m1
  have L4 := hf _ c4 hc4 (build_positioned _ _ cg _ hp B3)
  have B4 := build_trans _ _ _ _ cg _ c4 B3 L4
  have hYip : ((c2.CreateBr f).SetInsertPoint f).insert_point = f := rfl
  have hYlen : ((c2.CreateBr f).SetInsertPoint f).blocks.length = c2.blocks.length :=
    appendTo_length _ _ _
  have hl2 : cg.blocks.length + 3 ≤ c2.blocks.length := by
    rw [← hXlen]; exact L2.len
  have h4ip : c4.insert_point = f ∨ cg.blocks.length + 3 ≤ c4.insert_point := by
    rcases L4.ip.1 with h | h
    · right
      have := (L4.A_new _ h).1
      rw [hYlen] at this
      exact Nat.le_trans hl2 this
    · left; exact h.trans hYip
  have k1 : a ≠ c4.insert_point := by omega
  have k2 : cg.blocks.length ≤ c4.insert_point := by omega
  rw [← e]
  refine lowers_of_build _ _ cg _ hp
    (build_close _ _ cg c4 (Instr.br a) a hp B4 rfl (fun h => by cases h)
      (Or.inl (Or.inl (Or.inr (Or.inr ha0))))
      (by rintro (((h | ⟨h, _⟩) | h) | ⟨h, _⟩)
          · exact n4 h
          · exact n5 h
          · exact m2 h
          · exact n6 h) k1) ?_ ?_ ?_
  · rintro i ((((h | ⟨h, _⟩) | h) | ⟨h, _⟩) | h)
    · exact Or.inl h
    · right; rw [h]; exact n7
    · right; rw [h]; exact m3
    · right; rw [h]; exact n8
    · right; rw [h]; exact k2
  · rintro i (((h | h | h) | ⟨h, h2⟩) | ⟨h, h2⟩) hC
    · exfalso
      by_cases hc : c2.insert_point = t
      · exact hC (Or.inl (Or.inl (Or.inr ((h.trans ht0.symm).trans hc.symm))))
      · exact hC (Or.inl (Or.inl (Or.inl (Or.inr ⟨h.trans ht0.symm, hc⟩))))
    · exfalso
      by_cases hc : c4.insert_point = f
      · exact hC (Or.inr ((h.trans hf0.symm).trans hc.symm))
      · exact hC (Or.inl (Or.inr ⟨h.trans hf0.symm, hc⟩))
    · exact h.trans ha0.symm
    · exact absurd (Or.inl (Or.inl (Or.inr h))) hC
    · exact absurd (Or.inr h) hC
  · intro _
    exact Or.inl (Or.inl (Or.inl (Or.inl rfl)))

theorem visit_IfStmt_lowers (cg : CodeGen) (cond : StmtRef)
    (accept_true accept_false : CodeGen → Except Err CodeGen)
    (ht : ∀ c, LowersTo (accept_true c) c) (hf : ∀ c, LowersTo (accept_false c) c) :
    LowersTo (cg.visit_IfStmt cond accept_true accept_false) cg := by
  unfold CodeGen.visit_IfStmt
  refine if_lowers_aux cg _ _ _ _ _ accept_true accept_false ht hf rfl ?_ ?_ rfl ?_
    (build_congr _ _ _ _ cg _
      (build_simple _ _ cg _ _
        (build_create _ _ cg _ "after_if" (build_create _ _ cg _ "false_block"
          (build_create _ _ cg cg "true_block" (build_refl cg))))
        (simple_CreateICmp _ _ _ _ _ (simple_refl _))) ?_ ?_)
  · simp [CodeGen.BasicBlock_Create]
  · simp [CodeGen.BasicBlock_Create]
  · simp [CodeGen.CreateICmp, CodeGen.emitValue, CodeGen.BasicBlock_Create, appendTo_length]
  · intro i; simp [CodeGen.BasicBlock_Create]; omega
  · intro i; exact Iff.rfl

theorem loop_lowers_aux (cg c0 : CodeGen) (a : Nat)
    (accept : CodeGen → Except Err CodeGen) (finish : CodeGen → CodeGen)
    (hbody : ∀ c, LowersTo (accept c) c)
    (B0 : Build (fun i => i = cg.blocks.length ∨ i = cg.blocks.length + 1)
      (fun i => i = cg.insert_point) cg c0)
    (hb : c0.insert_point = cg.blocks.length) (ha : a = cg.blocks.length + 1)
    (hlen : c0.blocks.length = cg.blocks.length + 2)
    (hfin : ∀ c, ∃ (c1 : CodeGen) (t : Instr), Simple c c1 ∧ t.isTerminator = true ∧
      t ≠ Instr.ret_void ∧ (finish c).func = c1.func ∧
      (finish c).entry_block = c1.entry_block ∧ (finish c).insert_point = a ∧
      (finish c).blocks = appendTo t c1.insert_point c1.blocks) :
    LowersTo (do
      let c ← accept c0
      pure (finish c)) cg := by
  intro res hres hp
  obtain ⟨c2, hc2, hres⟩ := bind_eq_ok _ _ _ hres
  have e := pure_eq_ok _ _ hres
  obtain ⟨c1, t, hs, ht, hr, f1, f2, f3, f4⟩ := hfin c2
  have hip0 := hp.ip_lt
  have n1 : a ≠ cg.insert_point := by omega
  have n2 : a ≠ c0.insert_point := by omega
  have n3 : cg.blocks.length ≤ c0.insert_point := by omega
  have L2 := hbody _ c2 hc2 (build_positioned _ _ cg _ hp B0)
  have B2 := build_simple _ _ cg c2 c1 (build_trans _ _ _ _ cg _ c2 B0 L2) hs
  have hsf := simple_fields c2 c1 hs
  have h2ip : c2.insert_point = c0.insert_point ∨ cg.blocks.length + 2 ≤ c2.insert_point := by
    rcases L2.ip.1 with h | h
    · right; rw [← hlen]; exact (L2.A_new _ h).1
    · left; exact h
  have m1 : a ≠ c2.insert_point := by omega
  have m2 : cg.blocks.length ≤ c2.insert_point := by omega
  have B3 := build_same _ _ cg _ (finish c2)
    (build_close _ _ cg c1 t a hp B2 ht hr (Or.inl (Or.inr ha))
      (by rintro (h | ⟨h, _⟩)
          · exact n1 h
          · exact n2 h) (by rw [hsf.2.2.1]; exact m1))
    f1 f2 f3 f4
  rw [← e]
  refine lowers_of_build _ _ cg _ hp B3 ?_ ?_ ?_
  · rintro i ((h | ⟨h, _⟩) | h)
    · exact Or.inl h
    · right; rw [h]; exact n3
    · right; rw [h, hsf.2.2.1]; exact m2
  · rintro i ((h | h) | ⟨h, h2⟩) hC
    · exfalso
      by_cases hc : c2.insert_point = c0.insert_point
      · exact hC (Or.inr (((h.trans hb.symm).trans hc.symm).trans hsf.2.2.1.symm))
      · exact hC (Or.inl (Or.inr ⟨h.trans hb.symm, hc⟩))
    · rw [f3]; exact h.trans ha.symm
    · exact absurd (Or.inr (h.trans hsf.2.2.1.symm)) hC
  · intro _
    exact Or.inl (Or.inl rfl)

theorem visit_WhileStmt_lowers (cg : CodeGen) (accept_body : CodeGen → Except Err CodeGen)
    (hbody : ∀ c, LowersTo (accept_body c) c) :
    LowersTo (cg.visit_WhileStmt accept_body) cg := by
  by_cases hp : Positioned cg
  · unfold CodeGen.visit_WhileStmt
    refine loop_lowers_aux cg _ (cg.blocks.length + 1) accept_body _ hbody
      (build_congr _ _ _ _ cg _
        (build_same _ _ cg _ _
          (build_create _ _ cg _ "after_while"
            (build_close _ _ cg _ (Instr.br (cg.BasicBlock_Create "while_loop_body").1)
              (cg.BasicBlock_Create "while_loop_body").1 hp
              (build_create _ _ cg cg "while_loop_body" (build_refl cg))
              rfl (fun h => by cases h) (Or.inr rfl) (fun h => h) (Nat.ne_of_gt hp.ip_lt)))
          rfl rfl rfl rfl) ?_ ?_)
      rfl rfl ?_ ?_
    · intro i
      simp [CodeGen.BasicBlock_Create, CodeGen.SetInsertPoint, CodeGen.emit, appendTo_length]
    · intro i
      simp [CodeGen.BasicBlock_Create]
    · simp [CodeGen.BasicBlock_Create, CodeGen.SetInsertPoint, CodeGen.CreateBr, CodeGen.emit,
        appendTo_length]
    · intro c
      refine ⟨c, Instr.br (cg.BasicBlock_Create "while_loop_body").1, simple_refl c, rfl,
        (fun h => by cases h), rfl, rfl, ?_, rfl⟩
      simp [CodeGen.BasicBlock_Create, CodeGen.SetInsertPoint, CodeGen.CreateBr, CodeGen.emit,
        appendTo_length]
  · intro b _ hp2
    exact absurd hp2 hp

theorem range_for_enter_build (cg : CodeGen) (lv bv ev : Value) (reversed : Bool)
    (hp : Positioned cg) :
    Build (fun i => i = cg.blocks.length ∨ i = cg.blocks.length + 1)
      (fun i => i = cg.insert_point) cg (cg.range_for_enter lv bv ev reversed).2 ∧
    (cg.range_for_enter lv bv ev reversed).2.insert_point = cg.blocks.length ∧
    (cg.range_for_enter lv bv ev reversed).1.2 = cg.blocks.length + 1 ∧
    (cg.range_for_enter lv bv ev reversed).2.blocks.length = cg.blocks.length + 2 := by
  have hA : ∀ i, (i = cg.blocks.length ∨ i = cg.blocks.length + 1) ↔
      ((False ∨ i = cg.blocks.length) ∨ i = (cg.BasicBlock_Create "loop_body").2.blocks.length)
      := by
    intro i; simp [CodeGen.BasicBlock_Create]
  have hC : ∀ i, i = cg.insert_point ↔ (False ∨ i = cg.insert_point) := by
    intro i; simp
  cases reversed
  · refine ⟨build_congr _ _ _ _ cg _
      (build_close _ _ cg _ (Instr.br (cg.BasicBlock_Create "loop_body").1)
        (cg.BasicBlock_Create "loop_body").1 hp
        (build_simple _ _ cg _ _
          (build_create _ _ cg _ "block" (build_create _ _ cg cg "loop_body" (build_refl cg)))
          (simple_CreateStore _ _ bv lv (simple_refl _)))
        rfl (fun h => by cases h) (Or.inl (Or.inr rfl)) (fun h => h)
        (Nat.ne_of_gt hp.ip_lt)) hA hC, rfl, ?_, ?_⟩
    · simp [CodeGen.range_for_enter, CodeGen.BasicBlock_Create]
    · simp [CodeGen.range_for_enter, CodeGen.BasicBlock_Create, CodeGen.SetInsertPoint,
        CodeGen.CreateBr, CodeGen.CreateStore, CodeGen.emit, appendTo_length]
  · refine ⟨build_congr _ _ _ _ cg _
      (build_close _ _ cg _ (Instr.br (cg.BasicBlock_Create "loop_body").1)
        (cg.BasicBlock_Create "loop_body").1 hp
        (build_simple _ _ cg _ _
          (build_create _ _ cg _ "block" (build_create _ _ cg cg "loop_body" (build_refl cg)))
          (simple_CreateStore _ _ _ lv
            (simple_CreateSub _ _ ev (CodeGen.get_constant 1) (simple_refl _))))
        rfl (fun h => by cases h) (Or.inl (Or.inr rfl)) (fun h => h)
        (Nat.ne_of_gt hp.ip_lt)) hA hC, rfl, ?_, ?_⟩
    · simp [CodeGen.range_for_enter, CodeGen.BasicBlock_Create]
    · simp [CodeGen.range_for_enter, CodeGen.BasicBlock_Create, CodeGen.SetInsertPoint,
        CodeGen.CreateBr, CodeGen.CreateStore, CodeGen.CreateSub, CodeGen.CreateBinOp,
        CodeGen.emitValue, CodeGen.emit, appendTo_length]

theorem range_for_leave_finish (c : CodeGen) (lv bv ev : Value) (body after_loop : Nat)
    (reversed : Bool) :
    ∃ (c1 : CodeGen) (t : Instr), Simple c c1 ∧ t.isTerminator = true ∧
      t ≠ Instr.ret_void ∧
      (c.range_for_leave lv bv ev body after_loop reversed).func = c1.func ∧
      (c.range_for_leave lv bv ev body after_loop reversed).entry_block = c1.entry_block ∧
      (c.range_for_leave lv bv ev body after_loop reversed).insert_point = after_loop ∧
      (c.range_for_leave lv bv ev body after_loop reversed).blocks
        = appendTo t c1.insert_point c1.blocks := by
  cases reversed
  · exact ⟨_, Instr.cond_br _ body after_loop,
      simple_CreateICmp _ _ ICmpPred.slt _ ev (simple_CreateLoad _ _ lv
        (simple_create_increment _ _ lv (CodeGen.get_constant 1) (simple_refl c))),
      rfl, (fun h => by cases h), rfl, rfl, rfl, rfl⟩
  · exact ⟨_, Instr.cond_br _ body after_loop,
      simple_CreateICmp _ _ ICmpPred.sge _ bv (simple_CreateLoad _ _ lv
        (simple_create_increment _ _ lv (CodeGen.get_constant (-1)) (simple_refl c))),
      rfl, (fun h => by cases h), rfl, rfl, rfl, rfl⟩

theorem create_naive_range_for_lowers (cg : CodeGen) (loop_var begin_ end_ : StmtRef)
    (reversed : Bool) (accept_body : CodeGen → Except Err CodeGen)
    (hbody : ∀ c, LowersTo (accept_body c) c) :
    LowersTo (cg.create_naive_range_for loop_var begin_ end_ reversed accept_body) cg := by
  by_cases hp : Positioned cg
  · unfold CodeGen.create_naive_range_for
    have E := range_for_enter_build cg (cg.value loop_var) (cg.value begin_)
      (cg.value end_) reversed hp
    exact loop_lowers_aux cg _ _ accept_body _ hbody E.1 E.2.1 E.2.2.1 E.2.2.2
      (fun c => range_for_leave_finish c _ _ _ _ _ _)
  · intro b _ hp2
    exact absurd hp2 hp

mutual

theorem visit_lowers : ∀ (s : Stmt) (mask : Option StmtRef) (cg : CodeGen),
    s.offload_free = true → LowersTo (visit s mask cg) cg
  | .AllocaStmt id rt, _, cg, _ => by
    rw [visit]
    exact lowersTo_of_sframed _ _ (visit_AllocaStmt_simple cg cg (simple_refl cg) id rt)
  | .RandStmt _ rt, _, cg, _ => by
    rw [visit]
    exact lowersTo_of_sframed _ _ (visit_RandStmt_simple cg cg (simple_refl cg) rt)
  | .UnaryOpStmt id rt op operand cbv ct, _, cg, _ => by
    rw [visit]
    exact lowersTo_of_sframed _ _ (visit_UnaryOpStmt_simple cg cg (simple_refl cg) id rt op operand cbv ct)
  | .BinaryOpStmt id rt op lhs rhs, _, cg, _ => by
    rw [visit]
    exact lowersTo_of_sframed _ _ (visit_BinaryOpStmt_simple cg cg (simple_refl cg) id rt op lhs rhs)
  | .TernaryOpStmt id op a b c, _, cg, _ => by
    rw [visit]
    exact lowersTo_of_sframed _ _ (visit_TernaryOpStmt_simple cg cg (simple_refl cg) id op a b c)
  | .PrintStmt id rt stmt str, _, cg, _ => by
    rw [visit]
    exact lowersTo_of_sframed _ _ (visit_PrintStmt_simple cg cg (simple_refl cg) id rt stmt str)
  | .ConstStmt id rt val, _, cg, _ => by
    rw [visit]
    exact lowersTo_of_sframed _ _ (visit_ConstStmt_simple cg cg (simple_refl cg) id rt val)
  | .ArgLoadStmt id rt arg_id is_ptr, _, cg, _ => by
    rw [visit]
    exact lowersTo_of_sframed _ _ (visit_ArgLoadStmt_simple cg cg (simple_refl cg) id rt arg_id is_ptr)
  | .LocalLoadStmt id rt ptr, _, cg, _ => by
    rw [visit]
    exact lowersTo_of_sframed _ _ (visit_LocalLoadStmt_simple cg cg (simple_refl cg) id rt ptr)
  | .LocalStoreStmt _ rt ptr data, mask, cg, _ => by
    rw [visit]
    exact lowersTo_of_sframed _ _ (visit_LocalStoreStmt_simple cg cg (simple_refl cg) mask rt ptr data)
  | .SNodeOpStmt _ rt op, _, cg, _ => by
    rw [visit]
    exact lowersTo_of_sframed _ _ (visit_SNodeOpStmt_simple cg cg (simple_refl cg) rt op)
  | .AtomicOpStmt _ rt op dest val, mask, cg, _ => by
    rw [visit]
    exact lowersTo_of_sframed _ _ (visit_AtomicOpStmt_simple cg cg (simple_refl cg) mask rt op dest val)
  | .GlobalPtrStmt _, _, cg, _ => by
    rw [visit]
    exact lowersTo_of_sframed _ _ (visit_GlobalPtrStmt_simple cg cg (simple_refl cg) )
  | .GlobalStoreStmt _ rt ptr data, mask, cg, _ => by
    rw [visit]
    exact lowersTo_of_sframed _ _ (visit_GlobalStoreStmt_simple cg cg (simple_refl cg) mask rt ptr data)
  | .GlobalLoadStmt id rt ptr, _, cg, _ => by
    rw [visit]
    exact lowersTo_of_sframed _ _ (visit_GlobalLoadStmt_simple cg cg (simple_refl cg) id rt ptr)
  | .ElementShuffleStmt _, _, cg, _ => by
    rw [visit]
    exact lowersTo_of_sframed _ _ (emit_source_simple cg cg (simple_refl cg) )
  | .AssertStmt _, _, cg, _ => by
    rw [visit]
    exact lowersTo_of_sframed _ _ (emit_source_simple cg cg (simple_refl cg) )
  | .OffsetAndExtractBitsStmt id input offset bb be, _, cg, _ => by
    rw [visit]
    exact lowersTo_of_sframed _ _ (visit_OffsetAndExtractBitsStmt_simple cg cg (simple_refl cg) id input offset bb be)
  | .LinearizeStmt id inputs strides, _, cg, _ => by
    rw [visit]
    exact lowersTo_of_sframed _ _ (visit_LinearizeStmt_simple cg cg (simple_refl cg) id inputs strides)
  | .IntegerOffsetStmt _, _, cg, _ => by
    rw [visit]
    exact lowersTo_of_sframed _ _ (visit_IntegerOffsetStmt_simple cg cg (simple_refl cg) )
  | .SNodeLookupStmt id input_snode snode input_index activate, _, cg, _ => by
    rw [visit]
    exact lowersTo_of_sframed _ _ (visit_SNodeLookupStmt_simple cg cg (simple_refl cg) id input_snode snode input_index activate)
  | .GetChStmt id input_ptr chid, _, cg, _ => by
    rw [visit]
    exact lowersTo_of_sframed _ _ (visit_GetChStmt_simple cg cg (simple_refl cg) id input_ptr chid)
  | .ExternalPtrStmt id rt base_ptrs indices, _, cg, _ => by
    rw [visit]
    exact lowersTo_of_sframed _ _ (visit_ExternalPtrStmt_simple cg cg (simple_refl cg) id rt base_ptrs indices)
  | .LoopIndexStmt id is_struct_for index, _, cg, _ => by
    rw [visit]
    exact lowersTo_of_sframed _ _ (visit_LoopIndexStmt_simple cg cg (simple_refl cg) id is_struct_for index)
  | .IfStmt id cond none none, _, cg, _ => by
    rw [visit]
    exact visit_IfStmt_lowers cg cond _ _
      (fun c => lowersTo_of_sframed _ _ (sframed_pure _ _ (simple_refl c)))
      (fun c => lowersTo_of_sframed _ _ (sframed_pure _ _ (simple_refl c)))
  | .IfStmt id cond (some tb) none, _, cg, hf => by
    rw [visit]
    exact visit_IfStmt_lowers cg cond _ _
      (fun c => visitBlock_lowers tb c (offload_free_if_true id cond tb none hf))
      (fun c => lowersTo_of_sframed _ _ (sframed_pure _ _ (simple_refl c)))
  | .IfStmt id cond none (some fb), _, cg, hf => by
    rw [visit]
    exact visit_IfStmt_lowers cg cond _ _
      (fun c => lowersTo_of_sframed _ _ (sframed_pure _ _ (simple_refl c)))
      (fun c => visitBlock_lowers fb c (offload_free_if_false id cond none fb hf))
  | .IfStmt id cond (some tb) (some fb), _, cg, hf => by
    rw [visit]
    exact visit_IfStmt_lowers cg cond _ _
      (fun c => visitBlock_lowers tb c (offload_free_if_true id cond tb (some fb) hf))
      (fun c => visitBlock_lowers fb c (offload_free_if_false id cond (some tb) fb hf))
  | .WhileControlStmt _ cond, _, cg, _ => by
    rw [visit]; exact visit_WhileControlStmt_lowers cg cond
  | .WhileStmt id body, _, cg, hf => by
    rw [visit]
    exact visit_WhileStmt_lowers cg _
      (fun c => visitBlock_lowers body c (offload_free_while id body hf))
  | .RangeForStmt id lv b e rev body, _, cg, hf => by
    rw [visit]
    exact create_naive_range_for_lowers cg lv b e rev _
      (fun c => visitBlock_lowers body c (offload_free_range_for id lv b e rev body hf))
  | .OffloadedStmt id tt body b e rev bs sn, _, _, hf =>
    (not_offload_free_offloaded id tt body b e rev bs sn hf).elim

theorem visitBlock_lowers : ∀ (b : Block) (cg : CodeGen),
    b.offload_free = true → LowersTo (visitBlock b cg) cg
  | .mk mask statements, cg, hf => by
    rw [visitBlock]
    exact visitStmts_lowers statements mask cg (offload_free_block mask statements hf)

theorem visitStmts_lowers : ∀ (ss : List Stmt) (mask : Option StmtRef) (cg : CodeGen),
    stmts_offload_free ss = true → LowersTo (visitStmts ss mask cg) cg
  | [], _, cg, _ => by
    rw [visitStmts]
    exact lowersTo_of_sframed _ _ (sframed_pure _ _ (simple_refl cg))
  | s :: rest, mask, cg, hf => by
    rw [visitStmts]
    intro res hres hp
    obtain ⟨c, hc, hres⟩ := bind_eq_ok _ _ _ hres
    have L1 := visit_lowers s mask cg (offload_free_cons s rest hf).1 c hc hp
    have L2 := visitStmts_lowers rest mask c (offload_free_cons s rest hf).2 res hres
      (build_positioned _ _ cg c hp L1)
    exact lowers_trans cg c res hp L1 L2

end

theorem dispatched_of_lowers (a b : CodeGen) (hr : TaskReady a) (L : Lowers a b) :
    Dispatched a b where
  func := L.func
  entry := L.entry
  len := L.len
  ip_lt := (build_positioned _ _ a b hr.pos L).ip_lt
  ip := by
    rcases L.ip.1 with h | h
    · exact Or.inr (L.A_new _ h).1
    · exact Or.inl h
  parent := by
    rcases L.ip.1 with h | h
    · exact L.A_parent _ h
    · rw [h, L.parent_old _ hr.pos.ip_lt]; exact hr.parent
  rets := fun N => L.rets _ N
  shape := fun N O hs hip he hb => by
    refine shape_congr N _ _ _ (L.shape N O hs hip he hb) (fun i _ => ?_)
    constructor
    · rintro ⟨h1 | h1, h2⟩
      · by_cases e : i = a.insert_point
        · left
          by_contra hne
          exact h2 ⟨e, fun e2 => hne (e.trans e2.symm)⟩
        · exact Or.inr ⟨h1, e⟩
      · exact Or.inl h1.1
    · rintro (h1 | ⟨h1, h2⟩)
      · by_cases e : b.insert_point = a.insert_point
        · exact ⟨Or.inl (by rw [h1, e]; exact hip), fun hc => hc.2 e⟩
        · exact ⟨Or.inr ⟨h1, e⟩, fun hc => e (h1.symm.trans hc.1)⟩
      · exact ⟨Or.inl h1, fun hc => h2 hc.1⟩

theorem lowers_fresh_block (c c1 c2 : CodeGen) (name : String) (t : Instr)
    (hp : Positioned c) (hs : Simple (c.BasicBlock_Create name).2 c1)
    (ht : t.isTerminator = true) (hr : t ≠ Instr.ret_void)
    (h1 : c2.func = c1.func) (h2 : c2.entry_block = c1.entry_block)
    (h3 : c2.insert_point = c.blocks.length)
    (h4 : c2.blocks = appendTo t c1.insert_point c1.blocks) : Lowers c c2 := by
  have f := simple_fields _ _ hs
  have hip : c1.insert_point = c.insert_point := f.2.2.1
  have B := build_same _ _ c _ c2
    (build_close _ _ c c1 t c.blocks.length hp
      (build_simple _ _ c _ c1 (build_create _ _ c c name (build_refl c)) hs)
      ht hr (Or.inr rfl) (fun h => h) (by rw [hip]; exact Nat.ne_of_gt hp.ip_lt))
    h1 h2 h3 h4
  refine lowers_of_build _ _ c c2 hp B ?_ ?_ ?_
  · rintro i (h | h)
    · exact h.elim
    · exact Or.inl (h.trans hip)
  · rintro i (h | h) _
    · exact h.elim
    · exact h.trans h3.symm
  · intro _
    exact Or.inr hip.symm

theorem struct_for_frame_fields (cg : CodeGen) :
    cg.struct_for_frame.blocks
      = (cg.blocks ++ [{ name := "allocs", parent := cg.functions.length, insts := [] }])
        ++ [{ name := "entry", parent := cg.functions.length, insts := [] }] ∧
    cg.struct_for_frame.func = cg.functions.length ∧
    cg.struct_for_frame.entry_block = cg.blocks.length ∧
    cg.struct_for_frame.insert_point = cg.blocks.length + 1 := by
  refine ⟨rfl, rfl, rfl, ?_⟩
  simp [CodeGen.struct_for_frame, CodeGen.Function_Create, CodeGen.BasicBlock_Create,
    CodeGen.SetInsertPoint]

theorem struct_for_enter_fields (cg : CodeGen) (spmd : Bool) :
    (∃ (X : CodeGen) (t : Instr),
      Simple (cg.struct_for_frame.BasicBlock_Create "loop_body").2 X ∧
      t.isTerminator = true ∧ t ≠ Instr.ret_void ∧
      (cg.struct_for_enter spmd).2.func = X.func ∧
      (cg.struct_for_enter spmd).2.entry_block = X.entry_block ∧
      (cg.struct_for_enter spmd).2.insert_point = cg.struct_for_frame.blocks.length ∧
      (cg.struct_for_enter spmd).2.blocks = appendTo t X.insert_point X.blocks) ∧
    (cg.struct_for_enter spmd).1.old_func = cg.func ∧
    (cg.struct_for_enter spmd).1.old_entry = cg.entry_block ∧
    (cg.struct_for_enter spmd).1.ip = cg.insert_point ∧
    (cg.struct_for_enter spmd).1.allocas = cg.blocks.length := by
  cases spmd
  · exact ⟨⟨_, Instr.br _, simple_CreateStore _ _ _ _
      (simple_create_entry_block_alloca _ _ LType.i32 (simple_refl _)),
      rfl, (fun h => by cases h), rfl, rfl, rfl, rfl⟩, rfl, rfl, rfl, rfl⟩
  · exact ⟨⟨_, Instr.br _, simple_CreateStore _ _ _ _
      (simple_CreateAdd _ _ _ _
        (simple_CreateIntrinsic _ _ "nvvm_read_ptx_sreg_ntid_x" []
          (simple_CreateIntrinsic _ _ "nvvm_read_ptx_sreg_tid_x" []
            (simple_create_entry_block_alloca _ _ LType.i32 (simple_refl _))))),
      rfl, (fun h => by cases h), rfl, rfl, rfl, rfl⟩, rfl, rfl, rfl, rfl⟩

theorem struct_for_refine_simple (cg : CodeGen) (l : CodeGen.StructForLocals)
    (refine : Value) : Simple cg (cg.struct_for_refine l refine) :=
  simple_same _ _ _
    (simple_CreateCall _ _ _ _ (simple_CreateLoad _ _ _
      (simple_RuntimeObject_get_ptr _ _ _ "pcoord"
        (simple_RuntimeObject_wrap _ _ "Element" _
          (simple_create_entry_block_alloca _ _ (LType.runtime "PhysicalCoordinates")
            (simple_refl cg))))))
    rfl rfl rfl rfl

theorem struct_for_leave_fields (c : CodeGen) (l : CodeGen.StructForLocals) (spmd : Bool) :
    ∃ (X cX : CodeGen) (t : Instr),
      Simple (c.BasicBlock_Create "block").2 X ∧
      t.isTerminator = true ∧ t ≠ Instr.ret_void ∧
      cX.func = X.func ∧ cX.entry_block = X.entry_block ∧
      cX.insert_point = c.blocks.length ∧
      cX.blocks = appendTo t X.insert_point X.blocks ∧
      (c.struct_for_leave l spmd).blocks
        = appendTo (Instr.br l.entry) l.allocas
            (appendTo Instr.ret_void c.blocks.length cX.blocks) ∧
      (c.struct_for_leave l spmd).func = l.old_func ∧
      (c.struct_for_leave l spmd).entry_block = l.old_entry ∧
      (c.struct_for_leave l spmd).insert_point = l.ip := by
  cases spmd
  · let X0 := (c.BasicBlock_Create "block").2.create_increment l.loop_index
      (CodeGen.get_constant 1)
    let X1 := X0.CreateLoad l.loop_index
    let X2 := X1.2.CreateICmp ICmpPred.slt X1.1 (Value.arg 3)
    exact ⟨X2.2, (X2.2.CreateCondBr X2.1 l.body_bb c.blocks.length).SetInsertPoint
        c.blocks.length, Instr.cond_br X2.1 l.body_bb c.blocks.length,
      simple_CreateICmp _ _ ICmpPred.slt _ _ (simple_CreateLoad _ _ l.loop_index
        (simple_create_increment _ _ l.loop_index (CodeGen.get_constant 1) (simple_refl _))),
      rfl, (fun h => by cases h), rfl, rfl, rfl, rfl, rfl, rfl, rfl, rfl⟩
  · let X0 := (c.BasicBlock_Create "block").2.create_increment l.loop_index l.blockDim
    let X1 := X0.CreateLoad l.loop_index
    let X2 := X1.2.CreateICmp ICmpPred.slt X1.1 (Value.arg 3)
    exact ⟨X2.2, (X2.2.CreateCondBr X2.1 l.body_bb c.blocks.length).SetInsertPoint
        c.blocks.length, Instr.cond_br X2.1 l.body_bb c.blocks.length,
      simple_CreateICmp _ _ ICmpPred.slt _ _ (simple_CreateLoad _ _ l.loop_index
        (simple_create_increment _ _ l.loop_index l.blockDim (simple_refl _))),
      rfl, (fun h => by cases h), rfl, rfl, rfl, rfl, rfl, rfl, rfl, rfl⟩

theorem ret_count_drop_append_empty (F N : Nat) (bs : List BasicBlock) (name : String)
    (p : Nat) :
    ret_count F ((bs ++ [({ name := name, parent := p, insts := [] } : BasicBlock)]).drop N)
      = ret_count F (bs.drop N) := by
  rw [List.drop_append_eq_append_drop, ret_count_append, ret_count_drop_empty_block]
  rfl

theorem parent_append_left (bs : List BasicBlock) (b : BasicBlock) (i : Nat)
    (h : i < bs.length) :
    ((bs ++ [b])[i]?).map BasicBlock.parent = (bs[i]?).map BasicBlock.parent := by
  rw [List.getElem?_append_left h]

theorem create_offload_struct_for_dispatched (cg : CodeGen) (snode : Option SNode)
    (block_size : Int) (spmd : Bool) (accept : CodeGen → Except Err CodeGen)
    (hbody : ∀ c, LowersTo (accept c) c) (b : CodeGen)
    (h : cg.create_offload_struct_for snode block_size spmd accept = .ok b)
    (hr : TaskReady cg) : Dispatched cg b := by
  unfold CodeGen.create_offload_struct_for at h
  obtain ⟨sn, _, h⟩ := bind_eq_ok _ _ _ h
  obtain ⟨leaf, _, h⟩ := bind_eq_ok _ _ _ h
  dsimp only at h
  obtain ⟨refine, _, h⟩ := bind_eq_ok _ _ _ h
  obtain ⟨c3, hc3, h⟩ := bind_eq_ok _ _ _ h
  obtain ⟨ns, _, h⟩ := bind_eq_ok _ _ _ h
  obtain ⟨lp, _, h⟩ := bind_eq_ok _ _ _ h
  obtain ⟨⟨v, c5⟩, hc5, h⟩ := bind_eq_ok _ _ _ h
  have e5 : c5 = b := pure_eq_ok _ _ h
  subst e5
  obtain ⟨hFb, hFf, hFe, hFi⟩ := struct_for_frame_fields cg
  obtain ⟨⟨X, t, hs, ht, htr, e1, e2, e3, e4⟩, l1, l2, l3, l4⟩ :=
    struct_for_enter_fields cg spmd
  have hBlen : cg.struct_for_frame.blocks.length = cg.blocks.length + 2 := by
    rw [hFb]; simp
  have hpB : Positioned cg.struct_for_frame :=
    ⟨by rw [hFi, hFe]; omega, by rw [hFi, hBlen]; omega, by rw [hFe, hBlen]; omega⟩
  have L1 : Lowers cg.struct_for_frame (cg.struct_for_enter spmd).2 :=
    lowers_fresh_block _ X _ "loop_body" t hpB hs ht htr e1 e2 e3 e4
  have hp1 := build_positioned _ _ _ _ hpB L1
  have L2 := lowers_of_simple _ _
    (struct_for_refine_simple (cg.struct_for_enter spmd).2 (cg.struct_for_enter spmd).1 refine)
  have hp2 := build_positioned _ _ _ _ hp1 L2
  have L3 := hbody _ c3 hc3 hp2
  have L13 := lowers_trans _ _ _ hpB (lowers_trans _ _ _ hpB L1 L2) L3
  have hp3 := build_positioned _ _ _ _ hpB L13
  obtain ⟨X2, cX, t2, hs2, ht2, htr2, g1, g2, g3, g4, hblocks, hfunc, hentry, hip⟩ :=
    struct_for_leave_fields c3 (cg.struct_for_enter spmd).1 spmd
  have L4 : Lowers c3 cX := lowers_fresh_block c3 X2 cX "block" t2 hp3 hs2 ht2 htr2 g1 g2 g3 g4
  have L := lowers_trans _ _ _ hpB L13 L4
  have hS5 : Simple (c3.struct_for_leave (cg.struct_for_enter spmd).1 spmd) c5 :=
    create_call_simple _ _ (simple_refl _) _ _ v c5 hc5
  have f5 := simple_fields _ _ hS5
  have hc3len : cg.blocks.length + 2 ≤ c3.blocks.length := by
    rw [← hBlen]; exact L13.len
  have hXlen : c3.blocks.length ≤ cX.blocks.length := L4.len
  have hip0 := hr.pos.ip_lt
  have he0 := hr.pos.entry_lt
  have hm1 : cX.insert_point ≠ c3.insert_point := by
    rw [g3]; exact Nat.ne_of_gt hp3.ip_lt
  have hm2 : cX.insert_point ≠ cg.struct_for_frame.insert_point := by
    rw [g3, hFi]; omega
  have hGF : cg.functions.length ≠ cg.func := Nat.ne_of_gt hr.func_lt
  have hparX : (cX.blocks[c3.blocks.length]?).map BasicBlock.parent
      = some cg.functions.length := by
    have := L4.A_parent c3.blocks.length ⟨g3.symm, hm1⟩
    rw [this, L13.func, hFf]
  have hlen4 : (c3.struct_for_leave (cg.struct_for_enter spmd).1 spmd).blocks.length
      = cX.blocks.length := by
    rw [hblocks, appendTo_length, appendTo_length]
  have hpar4 : ∀ i : Nat, ((c3.struct_for_leave (cg.struct_for_enter spmd).1 spmd).blocks[i]?).map
      BasicBlock.parent = (cX.blocks[i]?).map BasicBlock.parent := by
    intro i; rw [hblocks, appendTo_parent, appendTo_parent]
  exact {
    func := by rw [f5.1, hfunc, l1]
    entry := by rw [f5.2.1, hentry, l2]
    len := by rw [f5.2.2.2, hlen4]; omega
    ip_lt := by rw [f5.2.2.1, hip, l3, f5.2.2.2, hlen4]; omega
    ip := by left; rw [f5.2.2.1, hip, l3]
    parent := by
      rw [f5.2.2.1, hip, l3, simple_parent _ _ hS5, hpar4,
        L.parent_old _ (by rw [hBlen]; omega), hFb,
        parent_append_left _ _ _ (by simp; omega), parent_append_left _ _ _ hip0]
      exact hr.parent
    rets := fun N => by
      rw [simple_rets _ _ hS5, hblocks, ret_count_appendTo_drop, ret_count_appendTo_drop,
        L.rets, hFb, ret_count_drop_append_empty, ret_count_drop_append_empty, hparX]
      have e : (some cg.functions.length = some cg.func) = False := by
        simp [hGF]
      simp [e]
    shape := fun N O hsh hOip hOe hOb => by
      have S0 : Shape N (fun i => (O i ∨ i = cg.blocks.length) ∨ i = cg.blocks.length + 1)
          cg.struct_for_frame.blocks := by
        rw [hFb]
        have s := shape_create N _ _ "entry" cg.functions.length
          (shape_create N O cg.blocks "allocs" cg.functions.length hsh)
        refine shape_congr N _ _ _ s (fun i _ => ?_)
        simp
      have S1 := L.shape N _ S0 (by rw [hFi]; exact Or.inr rfl)
        (by rw [hFe]; exact Or.inl (Or.inr rfl))
        (by
          rintro i ((h | h) | h)
          · have := hOb i h; omega
          · omega
          · omega)
      have S2 := shape_appendTo_close N _ _ Instr.ret_void c3.blocks.length rfl
        ⟨Or.inr ⟨g3.symm, hm2⟩,
          fun hc => by have := hc.1; rw [hFi] at this; omega⟩ S1
      have S3 := shape_appendTo_close N _ _ (Instr.br (cg.struct_for_enter spmd).1.entry)
        (cg.struct_for_enter spmd).1.allocas rfl
        ⟨⟨Or.inl (Or.inl (Or.inr l4)), fun hc => by
            have := hc.1; rw [hFi, l4] at this; omega⟩, by rw [l4]; omega⟩ S2
      rw [← hblocks] at S3
      have S4 := simple_shape _ _ hS5 N _
        (by
          rw [hip, l3]
          exact ⟨⟨⟨Or.inl (Or.inl (Or.inl hOip)), fun hc => by
            have := hc.1; rw [hFi] at this; omega⟩, by omega⟩, by rw [l4]; omega⟩)
        (by
          rw [hentry, l2]
          exact ⟨⟨⟨Or.inl (Or.inl (Or.inl hOe)), fun hc => by
            have := hc.1; rw [hFi] at this; omega⟩, by omega⟩, by rw [l4]; omega⟩)
        S3
      refine shape_congr N _ _ _ S4 (fun i _ => ?_)
      rw [f5.2.2.1, hip, l3]
      constructor
      · rintro ⟨⟨⟨((h | h) | h) | h, h2⟩, h3⟩, h4⟩
        · by_cases e : i = cg.insert_point
          · exact Or.inl e
          · exact Or.inr ⟨h, e⟩
        · exact absurd (h.trans l4.symm) h4
        · exact absurd ⟨h.trans hFi.symm, hm2⟩ h2
        · exact absurd (h.1.trans g3) h3
      · rintro (h | ⟨h, _⟩)
        · rw [h]
          exact ⟨⟨⟨Or.inl (Or.inl (Or.inl hOip)), fun hc => by
            have := hc.1; rw [hFi] at this; omega⟩, by omega⟩, by rw [l4]; omega⟩
        · have := hOb i h
          exact ⟨⟨⟨Or.inl (Or.inl (Or.inl h)), fun hc => by
            have := hc.1; rw [hFi] at this; omega⟩, by omega⟩, by rw [l4]; omega⟩ }

theorem create_offload_range_for_lowers (cg : CodeGen) (begin_ end_ : Int)
    (reversed : Bool) (accept_body : CodeGen → Except Err CodeGen)
    (hbody : ∀ c, LowersTo (accept_body c) c) :
    LowersTo (cg.create_offload_range_for begin_ end_ reversed accept_body) cg := by
  intro res h hp
  unfold CodeGen.create_offload_range_for at h
  obtain ⟨ty, _, h⟩ := bind_eq_ok _ _ _ h
  dsimp only at h
  have hs : Simple cg ({ (cg.create_entry_block_alloca ty).2 with
      loop_vars_llvm := (cg.create_entry_block_alloca ty).2.loop_vars_llvm
        ++ [(cg.create_entry_block_alloca ty).1] } : CodeGen) :=
    simple_same _ _ _ (simple_create_entry_block_alloca cg cg ty (simple_refl cg))
      rfl rfl rfl rfl
  have L1 := lowers_of_simple _ _ hs
  have hp1 := build_positioned _ _ _ _ hp L1
  have E := range_for_enter_build _ (cg.create_entry_block_alloca ty).1
    (CodeGen.get_constant begin_) (CodeGen.get_constant end_) reversed hp1
  have L2 := loop_lowers_aux _ _ _ accept_body _ hbody E.1 E.2.1 E.2.2.1 E.2.2.2
    (fun c => range_for_leave_finish c _ _ _ _ _ _) res h hp1
  exact lowers_trans _ _ _ hp L1 L2

theorem gpu_range_for_enter_build (cg : CodeGen) (lv : Value) (begin_ end_ : Int)
    (hp : Positioned cg) :
    Build (fun i => i = cg.blocks.length ∨ i = cg.blocks.length + 1)
      (fun i => i = cg.insert_point) cg (cg.gpu_range_for_enter lv begin_ end_).2 ∧
    (cg.gpu_range_for_enter lv begin_ end_).2.insert_point = cg.blocks.length ∧
    (cg.gpu_range_for_enter lv begin_ end_).1.2 = cg.blocks.length + 1 ∧
    (cg.gpu_range_for_enter lv begin_ end_).2.blocks.length = cg.blocks.length + 2 := by
  have hA : ∀ i, (i = cg.blocks.length ∨ i = cg.blocks.length + 1) ↔
      ((False ∨ i = cg.blocks.length) ∨ i = (cg.BasicBlock_Create "loop_body").2.blocks.length)
      := by
    intro i; simp [CodeGen.BasicBlock_Create]
  have hC : ∀ i, i = cg.insert_point ↔ (False ∨ i = cg.insert_point) := by
    intro i; simp
  refine ⟨build_congr _ _ _ _ cg _
    (build_close _ _ cg _ (Instr.cond_br _ (cg.BasicBlock_Create "loop_body").1
        ((cg.BasicBlock_Create "loop_body").2.BasicBlock_Create "block").1)
      (cg.BasicBlock_Create "loop_body").1 hp
      (build_simple _ _ cg _ _
        (build_create _ _ cg _ "block" (build_create _ _ cg cg "loop_body" (build_refl cg)))
        (simple_CreateICmp _ _ ICmpPred.slt _ (CodeGen.get_constant end_)
          (simple_CreateLoad _ _ lv (simple_CreateStore _ _ _ lv
            (simple_CreateAdd _ _ (CodeGen.get_constant begin_) _
              (simple_CreateAdd _ _ _ _ (simple_CreateMul _ _ _ _
                (simple_CreateIntrinsic _ _ "nvvm_read_ptx_sreg_ntid_x" []
                  (simple_CreateIntrinsic _ _ "nvvm_read_ptx_sreg_ctaid_x" []
                    (simple_CreateIntrinsic _ _ "nvvm_read_ptx_sreg_tid_x" []
                      (simple_refl _)))))))))))
      rfl (fun h => by cases h) (Or.inl (Or.inr rfl)) (fun h => h)
      (Nat.ne_of_gt hp.ip_lt)) hA hC, rfl, ?_, ?_⟩
  · simp [CodeGen.gpu_range_for_enter, CodeGen.BasicBlock_Create]
  · simp [CodeGen.gpu_range_for_enter, CodeGen.BasicBlock_Create, CodeGen.SetInsertPoint,
      CodeGen.CreateCondBr, CodeGen.CreateStore, CodeGen.CreateICmp, CodeGen.CreateLoad,
      CodeGen.CreateAdd, CodeGen.CreateMul, CodeGen.CreateBinOp, CodeGen.CreateIntrinsic,
      CodeGen.emitValue, CodeGen.emit, appendTo_length]

theorem create_offload_range_for_gpu_lowers (cg : CodeGen) (begin_ end_ block_size : Int)
    (accept_body : CodeGen → Except Err CodeGen)
    (hbody : ∀ c, LowersTo (accept_body c) c) :
    LowersTo (cg.create_offload_range_for_gpu begin_ end_ block_size accept_body) cg := by
  intro res h hp
  unfold CodeGen.create_offload_range_for_gpu at h
  obtain ⟨ty, _, h⟩ := bind_eq_ok _ _ _ h
  dsimp only at h
  obtain ⟨gb, _, h⟩ := bind_eq_ok _ _ _ h
  have hs : Simple cg ({ (cg.create_entry_block_alloca ty).2 with
      loop_vars_llvm := (cg.create_entry_block_alloca ty).2.loop_vars_llvm
        ++ [(cg.create_entry_block_alloca ty).1],
      kernel_grid_dim := gb.1, kernel_block_dim := gb.2 } : CodeGen) :=
    simple_same _ _ _ (simple_create_entry_block_alloca cg cg ty (simple_refl cg))
      rfl rfl rfl rfl
  have L1 := lowers_of_simple _ _ hs
  have hp1 := build_positioned _ _ _ _ hp L1
  have E := gpu_range_for_enter_build _ (cg.create_entry_block_alloca ty).1 begin_ end_ hp1
  have L2 := loop_lowers_aux _ _ _ accept_body _ hbody E.1 E.2.1 E.2.2.1 E.2.2.2
    (by
      intro c
      exact ⟨c, Instr.br _, simple_refl c, rfl, (fun h => by cases h), rfl, rfl, rfl, rfl⟩)
    res h hp1
  exact lowers_trans _ _ _ hp L1 L2

theorem offload_dispatch_host_dispatched (cg : CodeGen) (task_type : TaskType)
    (begin_ end_ : Int) (reversed : Bool) (block_size : Int) (snode : Option SNode)
    (accept_body : CodeGen → Except Err CodeGen)
    (hbody : ∀ c, LowersTo (accept_body c) c) (res : CodeGen)
    (h : cg.offload_dispatch_host task_type begin_ end_ reversed block_size snode
      accept_body = .ok res) (hr : TaskReady cg) : Dispatched cg res := by
  unfold CodeGen.offload_dispatch_host at h
  cases task_type with
  | serial => exact dispatched_of_lowers _ _ hr (hbody cg res h hr.pos)
  | range_for =>
    exact dispatched_of_lowers _ _ hr
      (create_offload_range_for_lowers cg begin_ end_ reversed accept_body hbody res h hr.pos)
  | struct_for =>
    dsimp only at h
    obtain ⟨sn, _, h⟩ := bind_eq_ok _ _ _ h
    obtain ⟨leaf, _, h⟩ := bind_eq_ok _ _ _ h
    exact create_offload_struct_for_dispatched cg snode _ false accept_body hbody res h hr
  | listgen =>
    exact dispatched_of_lowers _ _ hr
      (lowersTo_of_sframed _ _ (emit_list_gen_simple cg cg (simple_refl cg) snode) res h
        hr.pos)

theorem offload_dispatch_gpu_dispatched (cg : CodeGen) (task_type : TaskType)
    (begin_ end_ : Int) (block_size : Int) (snode : Option SNode)
    (accept_body : CodeGen → Except Err CodeGen)
    (hbody : ∀ c, LowersTo (accept_body c) c) (res : CodeGen)
    (h : cg.offload_dispatch_gpu task_type begin_ end_ block_size snode
      accept_body = .ok res) (hr : TaskReady cg) : Dispatched cg res := by
  unfold CodeGen.offload_dispatch_gpu at h
  cases task_type with
  | serial => exact dispatched_of_lowers _ _ hr (hbody cg res h hr.pos)
  | range_for =>
    exact dispatched_of_lowers _ _ hr
      (create_offload_range_for_gpu_lowers cg begin_ end_ block_size accept_body hbody res h
        hr.pos)
  | struct_for =>
    dsimp only at h
    obtain ⟨sn, _, h⟩ := bind_eq_ok _ _ _ h
    obtain ⟨leaf, _, h⟩ := bind_eq_ok _ _ _ h
    have d := create_offload_struct_for_dispatched _ snode _ true accept_body hbody res h
      ⟨⟨hr.pos.ne, hr.pos.ip_lt, hr.pos.entry_lt⟩, hr.parent, hr.func_lt⟩
    exact ⟨d.func, d.entry, d.len, d.ip_lt, d.ip, d.parent, d.rets, d.shape⟩
  | listgen =>
    exact dispatched_of_lowers _ _ hr
      (lowersTo_of_sframed _ _ (emit_list_gen_simple cg cg (simple_refl cg) snode) res h
        hr.pos)

theorem init_task_function_fields (cg : CodeGen) (id : Nat) :
    (cg.init_task_function id).blocks
      = (cg.blocks ++ [{ name := "entry", parent := cg.functions.length, insts := [] }])
        ++ [{ name := "body", parent := cg.functions.length, insts := [] }] ∧
    (cg.init_task_function id).func = cg.functions.length ∧
    (cg.init_task_function id).entry_block = cg.blocks.length ∧
    (cg.init_task_function id).insert_point = cg.blocks.length + 1 ∧
    (cg.init_task_function id).functions.length = cg.functions.length + 1 := by
  refine ⟨rfl, rfl, rfl, ?_, ?_⟩
  · simp [CodeGen.init_task_function, CodeGen.Function_Create, CodeGen.BasicBlock_Create,
      CodeGen.SetInsertPoint]
  · simp [CodeGen.init_task_function, CodeGen.Function_Create, CodeGen.BasicBlock_Create,
      CodeGen.SetInsertPoint]

theorem shape_beyond (N : Nat) (O : Nat → Prop) (bs : List BasicBlock)
    (h : bs.length ≤ N) : Shape N O bs := by
  intro i b hN hb
  rcases List.getElem?_eq_some_iff.mp hb with ⟨hl, _⟩
  omega

theorem well_terminated_of_shape (N : Nat) (bs : List BasicBlock)
    (h : Shape N (fun _ => False) bs) :
    ∀ blk ∈ bs.drop N, blk.well_terminated = true := by
  intro blk hmem
  obtain ⟨i, hi⟩ := List.mem_iff_getElem?.mp hmem
  rw [List.getElem?_drop] at hi
  exact (h (N + i) blk (Nat.le_add_right N i) hi).2 (fun hf => hf)

theorem task_finalized (cg c0 cb : CodeGen)
    (hb : c0.blocks
      = (cg.blocks ++ [{ name := "entry", parent := cg.functions.length, insts := [] }])
        ++ [{ name := "body", parent := cg.functions.length, insts := [] }])
    (hf : c0.func = cg.functions.length) (he : c0.entry_block = cg.blocks.length)
    (hi : c0.insert_point = cg.blocks.length + 1) (D : Dispatched c0 cb) :
    (∀ blk ∈ cb.finalize_task_function.blocks.drop cg.blocks.length,
      blk.well_terminated = true) ∧
    ret_count cg.functions.length (cb.finalize_task_function.blocks.drop cg.blocks.length)
      = 1 ∧
    cg.blocks.length ≤ cb.insert_point ∧
    ∃ blk, cb.finalize_task_function.blocks[cb.insert_point]? = some blk ∧
      blk.parent = cg.functions.length ∧ blk.insts.getLast? = some Instr.ret_void := by
  have hfin : cb.finalize_task_function.blocks
      = appendTo (Instr.br cb.func_body_bb) cb.entry_block
          (appendTo Instr.ret_void cb.insert_point cb.blocks) := rfl
  have hlen0 : c0.blocks.length = cg.blocks.length + 2 := by rw [hb]; simp
  have hipge : cg.blocks.length + 1 ≤ cb.insert_point := by
    rcases D.ip with h | h
    · rw [h, hi]
    · rw [hlen0] at h; omega
  have hne : cb.insert_point ≠ cb.entry_block := by
    rw [D.entry, he]; omega
  have S0 : Shape cg.blocks.length
      (fun i => i = cg.blocks.length ∨ i = cg.blocks.length + 1) c0.blocks := by
    rw [hb]
    have s := shape_create cg.blocks.length _ _ "body" cg.functions.length
      (shape_create cg.blocks.length (fun _ => False) cg.blocks "entry" cg.functions.length
        (shape_beyond _ _ _ (Nat.le_refl _)))
    refine shape_congr _ _ _ _ s (fun i _ => ?_)
    simp
  have S1 := D.shape cg.blocks.length _ S0 (by rw [hi]; exact Or.inr rfl)
    (by rw [he]; exact Or.inl rfl)
    (by
      rintro i (h | h)
      · rw [hlen0]; omega
      · rw [hlen0]; omega)
  have S2 := shape_appendTo_close _ _ _ Instr.ret_void cb.insert_point rfl (Or.inl rfl) S1
  have S3 := shape_appendTo_close _ _ _ (Instr.br cb.func_body_bb) cb.entry_block rfl
    (by
      rw [D.entry, he]
      exact ⟨Or.inr ⟨Or.inl rfl, by rw [hi]; omega⟩, by omega⟩) S2
  rw [← hfin] at S3
  have S4 : Shape cg.blocks.length (fun _ => False) cb.finalize_task_function.blocks := by
    refine shape_congr _ _ _ _ S3 (fun i _ => ?_)
    rw [D.entry, he, hi]
    constructor
    · rintro ⟨⟨h1 | ⟨h1 | h1, h2⟩, h3⟩, h4⟩
      · exact h3 h1
      · exact h4 h1
      · exact h2 h1
    · exact False.elim
  obtain ⟨blk0, hblk0⟩ : ∃ blk0, cb.blocks[cb.insert_point]? = some blk0 :=
    ⟨_, List.getElem?_eq_getElem D.ip_lt⟩
  have hpar0 : blk0.parent = cg.functions.length := by
    have := D.parent
    rw [hblk0, hf] at this
    injection this
  refine ⟨well_terminated_of_shape _ _ S4, ?_, Nat.le_of_succ_le hipge, ?_⟩
  · rw [hfin, ret_count_appendTo_drop, ret_count_appendTo_drop, ← hf, D.rets, hb,
      ret_count_drop_append_empty, ret_count_drop_append_empty, List.drop_length,
      ret_count_nil, D.parent]
    have : cg.blocks.length ≤ cb.insert_point := Nat.le_of_succ_le hipge
    simp [this]
  · refine ⟨{ blk0 with insts := blk0.insts ++ [Instr.ret_void] }, ?_, hpar0, ?_⟩
    · rw [hfin, appendTo_get_other _ _ _ _ hne, appendTo_get_self, hblk0]
      rfl
    · simp

theorem end_current_task_blocks (c c2 : CodeGen) (h : c.end_current_task = .ok c2) :
    c2.blocks = c.blocks := by
  unfold CodeGen.end_current_task at h
  split at h
  · cases h
  · have e := pure_eq_ok _ _ h
    rw [← e]

theorem taskReady_init (c0 : CodeGen) (N F : Nat) (e b : BasicBlock) (bs : List BasicBlock)
    (hN : bs.length = N) (hpar : b.parent = F)
    (hb : c0.blocks = (bs ++ [e]) ++ [b]) (hf : c0.func = F) (he : c0.entry_block = N)
    (hi : c0.insert_point = N + 1) (hfl : c0.functions.length = F + 1) : TaskReady c0 := by
  have hlen : c0.blocks.length = N + 2 := by rw [hb]; simp [hN]
  refine ⟨⟨by rw [hi, he]; omega, by rw [hi, hlen]; omega, by rw [he, hlen]; omega⟩, ?_,
    by rw [hf, hfl]; omega⟩
  rw [hi, hb, hf]
  have : ((bs ++ [e]) ++ [b])[N + 1]? = some b := by
    rw [List.getElem?_append_right (by simp [hN])]
    simp [hN]
  rw [this]
  simp [hpar]

/-- C11: for every `OffloadedStmt` whose body holds no further `OffloadedStmt` (in
particular a body built from `IfStmt`, `WhileStmt`, `WhileControlStmt` and `RangeForStmt`,
nested arbitrarily), of every task kind and on either backend, a successful visit leaves
every basic block it created ending with exactly one terminator; the blocks of the task
function hold exactly one `ret void`, and it ends the block the builder was positioned in
when the lowering of the body was complete. -/
theorem task_function_blocks_end_in_one_terminator (cg cg2 : CodeGen)
    (mask : Option StmtRef) (id : Nat) (task_type : TaskType) (body : Block)
    (begin_ end_ : Int) (reversed : Bool) (block_size : Int) (snode : Option SNode)
    (hbody : body.offload_free = true)
    (h : visit (.OffloadedStmt id task_type body begin_ end_ reversed block_size snode)
      mask cg = .ok cg2) :
    (∀ blk ∈ cg2.blocks.drop cg.blocks.length, blk.well_terminated = true) ∧
    ret_count cg.functions.length (cg2.blocks.drop cg.blocks.length) = 1 ∧
    ∃ (cgb : CodeGen) (blk : BasicBlock),
      cg.lowered_task_body id task_type begin_ end_ reversed block_size snode
        (fun c => visitBlock body c) = .ok cgb ∧
      cg.blocks.length ≤ cgb.insert_point ∧
      cg2.blocks[cgb.insert_point]? = some blk ∧
      blk.parent = cg.functions.length ∧
      blk.insts.getLast? = some Instr.ret_void := by
  have hb : ∀ c, LowersTo (visitBlock body c) c := fun c => visitBlock_lowers body c hbody
  rw [visit] at h
  unfold CodeGen.lowered_task_body
  by_cases hg : cg.gpu = true
  · rw [if_pos hg] at h
    rw [if_pos hg]
    unfold CodeGen.visit_OffloadedStmt_gpu at h
    dsimp only at h
    obtain ⟨cb, hcb, h⟩ := bind_eq_ok _ _ _ h
    have e2 := end_current_task_blocks _ _ h
    obtain ⟨f1, f2, f3, f4, f5⟩ := init_task_function_fields
      ({ cg with kernel_grid_dim := 1, kernel_block_dim := 1 } : CodeGen) id
    have hr := taskReady_init _ cg.blocks.length cg.functions.length _ _ cg.blocks rfl rfl
      f1 f2 f3 f4 f5
    have D := offload_dispatch_gpu_dispatched _ task_type begin_ end_ block_size snode _ hb
      cb hcb hr
    obtain ⟨t1, t2, t3, blk, t4, t5, t6⟩ := task_finalized cg _ cb f1 f2 f3 f4 D
    refine ⟨?_, ?_, cb, blk, hcb, t3, ?_, t5, t6⟩
    · rw [e2]; exact t1
    · rw [e2]; exact t2
    · rw [e2]; exact t4
  · rw [if_neg hg] at h
    rw [if_neg hg]
    unfold CodeGen.visit_OffloadedStmt_host at h
    dsimp only at h
    obtain ⟨cb, hcb, h⟩ := bind_eq_ok _ _ _ h
    have e2 := end_current_task_blocks _ _ h
    obtain ⟨f1, f2, f3, f4, f5⟩ := init_task_function_fields cg id
    have hr := taskReady_init _ cg.blocks.length cg.functions.length _ _ cg.blocks rfl rfl
      f1 f2 f3 f4 f5
    have D := offload_dispatch_host_dispatched _ task_type begin_ end_ reversed block_size
      snode _ hb cb hcb hr
    obtain ⟨t1, t2, t3, blk, t4, t5, t6⟩ := task_finalized cg _ cb f1 f2 f3 f4 D
    refine ⟨?_, ?_, cb, blk, hcb, t3, ?_, t5, t6⟩
    · rw [e2]; exact t1
    · rw [e2]; exact t2
    · rw [e2]; exact t4

theorem task_function_blocks_end_in_one_terminator_witness :
    nested_control_flow_body.offload_free = true ∧
    visit (.OffloadedStmt 100 .range_for nested_control_flow_body 0 8 false 0 none) none
      (CodeGen.create example_base false print_kernel) = .ok nested_control_flow_result ∧
    (∀ blk ∈ nested_control_flow_result.blocks.drop 0, blk.well_terminated = true) ∧
    ret_count 0 (nested_control_flow_result.blocks.drop 0) = 1 :=
  have hv := result_or_spec example_base
    (visit (.OffloadedStmt 100 .range_for nested_control_flow_body 0 8 false 0 none) none
      (CodeGen.create example_base false print_kernel)) (by decide!)
  have ht := task_function_blocks_end_in_one_terminator
    (CodeGen.create example_base false print_kernel) nested_control_flow_result none 100
    .range_for nested_control_flow_body 0 8 false 0 none (by decide) hv
  ⟨by decide, hv, ht.1, ht.2.1⟩

theorem visit_UnaryOpStmt_value_cast (cg : CodeGen) (id : Nat) (ret_type : VectorType)
    (operand : StmtRef) (to_ : DataType) (hne : operand.ret_type.data_type ≠ to_) :
    cg.visit_UnaryOpStmt id ret_type .cast operand true to_
      = (match spec_value_cast operand.ret_type.data_type to_ with
         | none => .error .not_implemented
         | some op => do
           let ty ← get_data_type to_
           pure ((cg.CreateCast op (cg.value operand) ty).2.setValue id
             (cg.CreateCast op (cg.value operand) ty).1)) := by
  obtain ⟨oid, ⟨dt, w⟩⟩ := operand
  cases dt <;> cases to_ <;> first | exact absurd rfl hne | rfl

/-- C12, amended: for a value cast from `from` to a different type `to`,
`visit(UnaryOpStmt *)` fails with a not-implemented error for every pair of a real and an
integral type other than f32 -> i32, f64 -> i32, i32 -> f32 and i32 -> f64; for every
other pair it asks the type bridge for the target type, fails with the bridge's error
when the bridge does not map `to`, and otherwise emits the one cast instruction the
specification names (`FPToSI`, `SIToFP`, `FPExt` or `FPTrunc` by size, `SExt` or `Trunc`
by size) on the operand's value, which becomes the statement's value.  For f32 -> i32 and
f64 -> i32 the emitted `FPToSI` leaves the operand rounded toward zero in the statement's
value. -/
theorem value_cast_selects_conversion (cg : CodeGen) (id : Nat) (ret_type : VectorType)
    (operand : StmtRef) (to_ : DataType) (hne : operand.ret_type.data_type ≠ to_) :
    cg.visit_UnaryOpStmt id ret_type .cast operand true to_
      = (match spec_value_cast operand.ret_type.data_type to_ with
         | none => .error .not_implemented
         | some op => do
           let ty ← get_data_type to_
           pure ((cg.CreateCast op (cg.value operand) ty).2.setValue id
             (cg.CreateCast op (cg.value operand) ty).1)) ∧
    ∀ (m : Machine) (w bits r : Nat),
      operand.ret_type.data_type = .f32 ∨ operand.ret_type.data_type = .f64 →
      to_ = .i32 → cg.insert_point < cg.blocks.length →
      evalValue m (cg.value operand) = some (.fp w bits) →
      fp_to_si w bits 32 = some r →
      ∃ cg2 m2,
        cg.visit_UnaryOpStmt id ret_type .cast operand true to_ = .ok cg2 ∧
        execInstrs (emitted_between cg cg2) m = some m2 ∧
        evalValue m2 (cg2.value { id := id, ret_type := ret_type }) = some (.int 32 r) := by
  have hA := visit_UnaryOpStmt_value_cast cg id ret_type operand to_ hne
  refine ⟨hA, ?_⟩
  intro m w bits r hfrom hto hip hv hr
  subst hto
  have hsel : spec_value_cast operand.ret_type.data_type .i32 = some .FPToSI := by
    rcases hfrom with h | h <;> rw [h] <;> rfl
  rw [hsel] at hA
  refine ⟨_, m.setReg cg.next_id (.int 32 r), hA, ?_, ?_⟩
  · rw [emitted_between_of_append cg _ [.cast cg.next_id .FPToSI (cg.value operand) .i32]]
    · simp [execInstrs, execInstr, hv, evalCast, intWidth, hr]
    · simp [setValue_current_insts, CodeGen.CreateCast, current_insts_emitValue, hip]
  · simp [setValue_value_self, CodeGen.CreateCast, emitValue_fst, evalValue, Machine.setReg,
      getKey_setKey_self]

/-- Witness of C12: the `f32` constant 3.7 (bit pattern `0x406CCCCD`, the number
`15518925 * 2 ^ (-22)`) cast by value to `i32` yields 3. -/
theorem value_cast_selects_conversion_witness :
    (ref_f32 0).ret_type.data_type ≠ DataType.i32 ∧
    fp_decode 32 1080872141 = some (false, 15518925, -22) ∧
    ∃ cg2 m2,
      cast_example_builder.visit_UnaryOpStmt 1 i32x1 .cast (ref_f32 0) true .i32 = .ok cg2 ∧
      execInstrs (emitted_between cast_example_builder cg2) {} = some m2 ∧
      evalValue m2 (cg2.value { id := 1, ret_type := i32x1 }) = some (.int 32 3) :=
  ⟨by decide, by decide!,
    (value_cast_selects_conversion cast_example_builder 1 i32x1 (ref_f32 0) .i32
      (by decide)).2 {} 32 1080872141 3 (Or.inl rfl) rfl (by decide!) (by decide!)
      (by decide!)⟩

/-- Counterexample to C12 as stated: the widening cast i32 -> i64 between two integral
types, for which the claim names `SExt`, is rejected: the type bridge does not map `i64`,
and nothing is emitted. -/
theorem value_cast_to_i64_is_rejected :
    spec_value_cast (ref 0).ret_type.data_type DataType.i64 = some CastOps.SExt ∧
    example_builder.visit_UnaryOpStmt 2 { data_type := .i64 } .cast (ref 0) true .i64
      = .error (.error "unsupported type") :=
  ⟨by decide, rfl⟩

theorem get_runtime_function_ok (cg : CodeGen) (n : String) (h : n ∈ cg.runtime_module) :
    cg.get_runtime_function n = .ok (.function n) := by
  unfold CodeGen.get_runtime_function
  rw [if_pos h]

theorem runtime_module_of_bookkeeping (a b : CodeGen) (h : a.bookkeeping = b.bookkeeping) :
    a.runtime_module = b.runtime_module := by
  have e := congrArg CodeGen.runtime_module h
  exact e

theorem set_functions_ok (o : RuntimeObject) (name : String) (fs : List String) :
    ∀ (cg : CodeGen), (∀ f ∈ fs, name ++ "_" ++ f ∈ cg.runtime_module) →
      ∃ cg2, CodeGen.set_functions o name fs cg = .ok cg2 ∧
        cg2.runtime_module = cg.runtime_module := by
  induction fs with
  | nil => intro cg _; exact ⟨cg, rfl, rfl⟩
  | cons f rest ih =>
    intro cg h
    unfold CodeGen.set_functions
    rw [get_runtime_function_ok cg _ (h f (List.mem_cons_self _ _))]
    obtain ⟨cg2, h2, h3⟩ := ih (cg.RuntimeObject_set o f (.function (name ++ "_" ++ f)))
      (fun g hg => h g (List.mem_cons_of_mem _ hg))
    exact ⟨cg2, h2, h3⟩

theorem emit_struct_meta_base_ok (cg : CodeGen) (name : String) (node_meta : Value)
    (snode : SNode) (hbits : snode.total_num_bits < 32)
    (hfs : ∀ f ∈ ["lookup_element", "is_active", "get_num_elements"],
      name ++ "_" ++ f ∈ cg.runtime_module)
    (hparent : ∀ p, snode.parent = some p →
      snode.get_ch_from_parent_func_name ∈ cg.runtime_module)
    (hrefine : snode.refine_coordinates_func_name ∈ cg.runtime_module) :
    ∃ cg2, cg.emit_struct_meta_base name node_meta snode = .ok cg2 ∧
      cg2.runtime_module = cg.runtime_module := by
  have hshl : shl_i32 1 snode.total_num_bits
      = some (wrap32 (1 * 2 ^ (snode.total_num_bits : Int).toNat)) := by
    unfold shl_i32
    rw [if_pos]
    exact ⟨Int.natCast_nonneg _, by exact_mod_cast hbits⟩
  unfold CodeGen.emit_struct_meta_base
  dsimp only
  rw [hshl]
  obtain ⟨c1, h1, r1⟩ := set_functions_ok
    (cg.RuntimeObject_wrap "StructMeta" node_meta).1 name
    ["lookup_element", "is_active", "get_num_elements"]
    (((((cg.RuntimeObject_wrap "StructMeta" node_meta).2.RuntimeObject_set
      (cg.RuntimeObject_wrap "StructMeta" node_meta).1 "snode_id"
        (CodeGen.get_constant snode.id)).RuntimeObject_set
      (cg.RuntimeObject_wrap "StructMeta" node_meta).1 "element_size"
        (.size_of (if snode.type ≠ .root ∧ snode.type ≠ .place then .snode_element snode.id
          else .snode_type snode.id)))).RuntimeObject_set
      (cg.RuntimeObject_wrap "StructMeta" node_meta).1 "max_num_elements"
        (CodeGen.get_constant (wrap32 (1 * 2 ^ (snode.total_num_bits : Int).toNat)))) hfs
  have r1b : c1.runtime_module = cg.runtime_module := r1
  simp only [bind, Except.bind, pure, Except.pure] at h1 ⊢
  rw [h1]
  dsimp only
  cases hp : snode.parent with
  | none =>
    dsimp only
    by_cases hpl : snode.type = .place
    · simp only [hpl, ne_eq, not_true_eq_false, if_false]
      exact ⟨c1, rfl, r1b⟩
    · simp only [hpl, ne_eq, not_false_eq_true, if_true]
      rw [get_runtime_function_ok c1 _ (by rw [r1b]; exact hrefine)]
      exact ⟨_, rfl, r1b⟩
  | some p =>
    dsimp only
    rw [get_runtime_function_ok c1 _ (by rw [r1b]; exact hparent p hp)]
    dsimp only
    by_cases hpl : snode.type = .place
    · simp only [hpl, ne_eq, not_true_eq_false, if_false]
      exact ⟨_, rfl, r1b⟩
    · simp only [hpl, ne_eq, not_false_eq_true, if_true]
      rw [get_runtime_function_ok _ _ (by
        show snode.refine_coordinates_func_name ∈ c1.runtime_module
        rw [r1b]; exact hrefine)]
      exact ⟨_, rfl, r1b⟩

theorem bind_eq_error {α β : Type} (x : Except Err α) (f : α → Except Err β) (e : Err)
    (h : (x >>= f) = .error e) : x = .error e ∨ ∃ a, x = .ok a ∧ f a = .error e := by
  cases x with
  | error e2 =>
    left
    have h2 : (Except.error e2 : Except Err β) = .error e := h
    injection h2 with h2
    rw [h2]
  | ok a => right; exact ⟨a, rfl, h⟩

theorem get_runtime_function_error (cg : CodeGen) (n : String) (e : Err)
    (h : cg.get_runtime_function n = .error e) : e ≠ .not_implemented := by
  unfold CodeGen.get_runtime_function at h
  split at h
  · cases h
  · injection h with h
    rw [← h]
    intro hc
    cases hc

theorem set_functions_error (o : RuntimeObject) (name : String) (fs : List String) :
    ∀ (cg : CodeGen) (e : Err), CodeGen.set_functions o name fs cg = .error e →
      e ≠ .not_implemented := by
  induction fs with
  | nil => intro cg e h; cases h
  | cons f rest ih =>
    intro cg e h
    unfold CodeGen.set_functions at h
    rcases bind_eq_error _ _ _ h with h1 | ⟨a, _, h2⟩
    · exact get_runtime_function_error _ _ _ h1
    · exact ih _ _ h2

theorem emit_struct_meta_base_error (cg : CodeGen) (name : String) (node_meta : Value)
    (snode : SNode) (e : Err) (h : cg.emit_struct_meta_base name node_meta snode = .error e) :
    e ≠ .not_implemented := by
  have hpure : ∀ (c : CodeGen) (e2 : Err),
      (pure c : Except Err CodeGen) = .error e2 → False := fun c e2 hc => by cases hc
  have hrefine : ∀ (c : CodeGen), (if snode.type ≠ SNodeType.place then do
        let fn ← c.get_runtime_function snode.refine_coordinates_func_name
        pure (c.RuntimeObject_set (cg.RuntimeObject_wrap "StructMeta" node_meta).1
          "refine_coordinates" fn)
      else pure c) = Except.error e → e ≠ .not_implemented := by
    intro c hc
    split at hc
    · rcases bind_eq_error _ _ _ hc with h2 | ⟨fn, _, h2⟩
      · exact get_runtime_function_error _ _ _ h2
      · exact (hpure _ _ h2).elim
    · exact (hpure _ _ hc).elim
  unfold CodeGen.emit_struct_meta_base at h
  dsimp only at h
  split at h
  · rcases bind_eq_error _ _ _ h with h1 | ⟨n, _, h⟩
    · cases h1
    · rcases bind_eq_error _ _ _ h with h1 | ⟨c1, _, h⟩
      · exact set_functions_error _ _ _ _ _ h1
      · split at h
        · rcases bind_eq_error _ _ _ h with h2 | ⟨fn, _, h⟩
          · exact get_runtime_function_error _ _ _ h2
          · rcases bind_eq_error _ _ _ h with h2 | ⟨c2, _, h⟩
            · exact (hpure _ _ h2).elim
            · exact hrefine _ h
        · rcases bind_eq_error _ _ _ h with h2 | ⟨c2, _, h⟩
          · exact (hpure _ _ h2).elim
          · exact hrefine _ h
  · rcases bind_eq_error _ _ _ h with h1 | ⟨n, h1, _⟩
    · injection h1 with h1
      rw [← h1]; intro hc; cases hc
    · cases h1

theorem RuntimeObject_call_error (cg : CodeGen) (o : RuntimeObject) (method : String)
    (args : List Value) (e : Err) (h : cg.RuntimeObject_call o method args = .error e) :
    e ≠ .not_implemented := by
  unfold CodeGen.RuntimeObject_call at h
  rcases bind_eq_error _ _ _ h with h1 | ⟨fn, _, h2⟩
  · exact get_runtime_function_error _ _ _ h1
  · cases h2

theorem emit_struct_meta_object_error (cg : CodeGen) (snode : SNode) (e : Err)
    (ht : snode.type = .dense ∨ snode.type = .root)
    (h : cg.emit_struct_meta_object snode = .error e) : e ≠ .not_implemented := by
  unfold CodeGen.emit_struct_meta_object at h
  by_cases hd : snode.type = .dense
  · rw [if_pos hd] at h
    dsimp only at h
    rcases bind_eq_error _ _ _ h with h1 | ⟨c1, _, h⟩
    · exact emit_struct_meta_base_error _ _ _ _ _ h1
    · rcases bind_eq_error _ _ _ h with h1 | ⟨p1, _, h⟩
      · exact RuntimeObject_call_error _ _ _ _ _ h1
      · rcases bind_eq_error _ _ _ h with h1 | ⟨p2, _, h⟩
        · exact RuntimeObject_call_error _ _ _ _ _ h1
        · cases h
  · have hr : snode.type = .root := ht.resolve_left hd
    rw [if_neg hd, if_pos hr] at h
    dsimp only at h
    rcases bind_eq_error _ _ _ h with h1 | ⟨c1, _, h⟩
    · exact emit_struct_meta_base_error _ _ _ _ _ h1
    · cases h

theorem RuntimeObject_call_ok (cg : CodeGen) (o : RuntimeObject) (method : String)
    (args : List Value) (h : o.cls_name ++ "_" ++ method ∈ cg.runtime_module) :
    cg.RuntimeObject_call o method args
      = .ok (cg.CreateCall (.function (o.cls_name ++ "_" ++ method)) (o.ptr :: args)) := by
  unfold CodeGen.RuntimeObject_call
  rw [get_runtime_function_ok cg _ h]
  rfl

theorem mem_struct_meta_symbols (snode : SNode) :
    (∀ f ∈ ["lookup_element", "is_active", "get_num_elements"],
      (if snode.type = .dense then "Dense" else "Root") ++ "_" ++ f
        ∈ struct_meta_symbols snode) ∧
    (∀ p, snode.parent = some p →
      snode.get_ch_from_parent_func_name ∈ struct_meta_symbols snode) ∧
    snode.refine_coordinates_func_name ∈ struct_meta_symbols snode ∧
    (snode.type = .dense →
      "DenseMeta" ++ "_" ++ "set_bitmasked" ∈ struct_meta_symbols snode ∧
      "DenseMeta" ++ "_" ++ "set_morton_dim" ∈ struct_meta_symbols snode) := by
  refine ⟨?_, ?_, ?_, ?_⟩
  · intro f hf
    unfold struct_meta_symbols
    simp only [List.mem_cons, List.mem_singleton, List.not_mem_nil, or_false] at hf
    rcases hf with h | h | h <;> subst h <;> simp
  · intro p hp
    unfold struct_meta_symbols
    rw [hp]
    simp
  · unfold struct_meta_symbols
    simp
  · intro hd
    unfold struct_meta_symbols
    rw [if_pos hd]
    simp [hd]

theorem with_code_emitValue (cg : CodeGen) (code : List Instr) (n : Nat)
    (mk : Nat → Instr) :
    (cg.with_code code n).emitValue mk
      = (.inst (cg.next_id + n), cg.with_code (code ++ [mk (cg.next_id + n)]) (n + 1)) := by
  simp [CodeGen.emitValue, CodeGen.with_code, List.foldl_append, Nat.add_assoc]

theorem with_code_emit (cg : CodeGen) (code : List Instr) (n : Nat) (i : Instr) :
    (cg.with_code code n).emit i = cg.with_code (code ++ [i]) n := by
  simp [CodeGen.emit, CodeGen.with_code, List.foldl_append]

theorem with_code_set (cg : CodeGen) (code : List Instr) (n : Nat) (o : RuntimeObject)
    (field : String) (v : Value) :
    (cg.with_code code n).RuntimeObject_set o field v
      = cg.with_code (code ++ spec_set_field o.ptr field v (cg.next_id + n)) (n + 1) := by
  unfold CodeGen.RuntimeObject_set CodeGen.RuntimeObject_get_ptr CodeGen.CreateStore
  rw [with_code_emitValue]
  dsimp only
  rw [with_code_emit, List.append_assoc]
  rfl

theorem with_code_get_runtime_function (cg : CodeGen) (code : List Instr) (n : Nat)
    (name : String) (h : name ∈ cg.runtime_module) :
    (cg.with_code code n).get_runtime_function name = .ok (.function name) := by
  unfold CodeGen.get_runtime_function
  rw [if_pos (by exact h)]

theorem with_code_call (cg : CodeGen) (code : List Instr) (n : Nat) (o : RuntimeObject)
    (method : String) (args : List Value)
    (h : o.cls_name ++ "_" ++ method ∈ cg.runtime_module) :
    (cg.with_code code n).RuntimeObject_call o method args
      = .ok (.inst (cg.next_id + n),
          cg.with_code (code ++ [.call (cg.next_id + n)
            (.function (o.cls_name ++ "_" ++ method)) (o.ptr :: args)]) (n + 1)) := by
  unfold CodeGen.RuntimeObject_call
  rw [with_code_get_runtime_function cg code n _ h]
  show Except.ok ((cg.with_code code n).emitValue _) = _
  rw [with_code_emitValue]

theorem with_code_set_functions (cg : CodeGen) (o : RuntimeObject) (name : String)
    (code : List Instr) (n : Nat)
    (h : ∀ f ∈ ["lookup_element", "is_active", "get_num_elements"],
      name ++ "_" ++ f ∈ cg.runtime_module) :
    CodeGen.set_functions o name ["lookup_element", "is_active", "get_num_elements"]
        (cg.with_code code n)
      = .ok (cg.with_code (code
          ++ spec_set_field o.ptr "lookup_element"
              (.function (name ++ "_" ++ "lookup_element")) (cg.next_id + n)
          ++ spec_set_field o.ptr "is_active"
              (.function (name ++ "_" ++ "is_active")) (cg.next_id + (n + 1))
          ++ spec_set_field o.ptr "get_num_elements"
              (.function (name ++ "_" ++ "get_num_elements")) (cg.next_id + (n + 2)))
          (n + 3)) := by
  have h1 := h "lookup_element" (List.mem_cons_self _ _)
  have h2 := h "is_active" (List.mem_cons_of_mem _ (List.mem_cons_self _ _))
  have h3 := h "get_num_elements"
    (List.mem_cons_of_mem _ (List.mem_cons_of_mem _ (List.mem_cons_self _ _)))
  unfold CodeGen.set_functions
  rw [with_code_get_runtime_function cg _ _ _ h1]
  show CodeGen.set_functions o name _ ((cg.with_code code n).RuntimeObject_set _ _ _) = _
  rw [with_code_set]
  unfold CodeGen.set_functions
  rw [with_code_get_runtime_function cg _ _ _ h2]
  show CodeGen.set_functions o name _ ((cg.with_code _ (n + 1)).RuntimeObject_set _ _ _) = _
  rw [with_code_set]
  unfold CodeGen.set_functions
  rw [with_code_get_runtime_function cg _ _ _ h3]
  show CodeGen.set_functions o name _ ((cg.with_code _ (n + 1 + 1)).RuntimeObject_set _ _ _)
    = _
  rw [with_code_set]
  unfold CodeGen.set_functions
  rfl

theorem emitValue_eq_with_code (cg : CodeGen) (mk : Nat → Instr) :
    cg.emitValue mk = (.inst cg.next_id, cg.with_code [mk cg.next_id] 1) := by
  simp [CodeGen.emitValue, CodeGen.with_code]

theorem with_code_emit_struct_meta_base (cg : CodeGen) (code : List Instr) (n : Nat)
    (name : String) (node_meta : Value) (snode : SNode)
    (ht : snode.type = .dense ∨ snode.type = .root) (hbits : snode.total_num_bits < 32)
    (hfs : ∀ f ∈ ["lookup_element", "is_active", "get_num_elements"],
      name ++ "_" ++ f ∈ cg.runtime_module)
    (hparent : ∀ p, snode.parent = some p →
      snode.get_ch_from_parent_func_name ∈ cg.runtime_module)
    (hrefine : snode.refine_coordinates_func_name ∈ cg.runtime_module) :
    (cg.with_code code n).emit_struct_meta_base name node_meta snode
      = .ok (cg.with_code (code
          ++ [.cast (cg.next_id + n) .BitCast node_meta (.ptr (.runtime "StructMeta"))]
          ++ spec_set_field (.inst (cg.next_id + n)) "snode_id"
              (CodeGen.get_constant snode.id) (cg.next_id + (n + 1))
          ++ spec_set_field (.inst (cg.next_id + n)) "element_size"
              (.size_of (if snode.type = .dense then .snode_element snode.id
                else .snode_type snode.id)) (cg.next_id + (n + 2))
          ++ spec_set_field (.inst (cg.next_id + n)) "max_num_elements"
              (CodeGen.get_constant (wrap32 (2 ^ snode.total_num_bits)))
              (cg.next_id + (n + 3))
          ++ spec_set_field (.inst (cg.next_id + n)) "lookup_element"
              (.function (name ++ "_" ++ "lookup_element")) (cg.next_id + (n + 4))
          ++ spec_set_field (.inst (cg.next_id + n)) "is_active"
              (.function (name ++ "_" ++ "is_active")) (cg.next_id + (n + 5))
          ++ spec_set_field (.inst (cg.next_id + n)) "get_num_elements"
              (.function (name ++ "_" ++ "get_num_elements")) (cg.next_id + (n + 6))
          ++ (match snode.parent with
              | some _ => spec_set_field (.inst (cg.next_id + n)) "from_parent_element"
                  (.function snode.get_ch_from_parent_func_name) (cg.next_id + (n + 7))
              | none => [])
          ++ spec_set_field (.inst (cg.next_id + n)) "refine_coordinates"
              (.function snode.refine_coordinates_func_name)
              (cg.next_id + (n + 7 + (match snode.parent with
                | some _ => 1
                | none => 0))))
          (n + 8 + (match snode.parent with
                | some _ => 1
                | none => 0))) := by
  have hshl : shl_i32 1 snode.total_num_bits
      = some (wrap32 (2 ^ snode.total_num_bits)) := by
    unfold shl_i32
    rw [if_pos ⟨Int.natCast_nonneg _, by exact_mod_cast hbits⟩]
    simp
  have hety : (if snode.type ≠ .root ∧ snode.type ≠ .place then LType.snode_element snode.id
      else LType.snode_type snode.id)
      = (if snode.type = .dense then .snode_element snode.id else .snode_type snode.id) := by
    rcases ht with h | h <;> simp [h]
  have hpl : snode.type ≠ .place := by
    rcases ht with h | h <;> rw [h] <;> decide
  unfold CodeGen.emit_struct_meta_base CodeGen.RuntimeObject_wrap CodeGen.CreateBitCast
    CodeGen.CreateCast
  rw [with_code_emitValue]
  dsimp only
  rw [hshl, hety, with_code_set, with_code_set]
  simp only [bind, Except.bind, pure, Except.pure]
  rw [with_code_set, with_code_set_functions cg _ name _ _ hfs]
  dsimp only
  cases hp : snode.parent with
  | none =>
    dsimp only
    rw [if_pos hpl, with_code_get_runtime_function cg _ _ _ hrefine]
    dsimp only
    rw [with_code_set]
    simp only [List.append_nil, List.append_assoc, Nat.add_assoc, Nat.add_zero,
      Nat.reduceAdd]
  | some p =>
    dsimp only
    rw [with_code_get_runtime_function cg _ _ _ (hparent p hp)]
    dsimp only
    rw [with_code_set, if_pos hpl, with_code_get_runtime_function cg _ _ _ hrefine]
    dsimp only
    rw [with_code_set]

theorem emit_struct_meta_object_eq (cg : CodeGen) (snode : SNode)
    (ht : snode.type = .dense ∨ snode.type = .root) (hbits : snode.total_num_bits < 32)
    (hsym : ∀ n ∈ struct_meta_symbols snode, n ∈ cg.runtime_module) :
    cg.emit_struct_meta_object snode
      = .ok ({ cls_name := spec_meta_class snode, ptr := .inst cg.next_id },
             cg.with_code (spec_struct_meta_code snode cg.next_id)
               (spec_struct_meta_size snode)) := by
  obtain ⟨m1, m2, m3, m4⟩ := mem_struct_meta_symbols snode
  by_cases hd : snode.type = .dense
  · have hb := with_code_emit_struct_meta_base cg
      [.intrinsic cg.next_id "allocate" [.size_of (.runtime "DenseMeta")]] 1 "Dense"
      (.inst cg.next_id) snode ht hbits
      (fun f hf => hsym _ (by have := m1 f hf; rw [if_pos hd] at this; exact this))
      (fun p hp => hsym _ (m2 p hp)) (hsym _ m3)
    unfold CodeGen.emit_struct_meta_object CodeGen.RuntimeObject_new CodeGen.CreateIntrinsic
    rw [if_pos hd, emitValue_eq_with_code]
    dsimp only
    rw [hb]
    simp only [bind, Except.bind, pure, Except.pure]
    rw [with_code_call cg _ _ _ _ _ (hsym _ (m4 hd).1)]
    dsimp only
    rw [with_code_call cg _ _ _ _ _ (hsym _ (m4 hd).2)]
    dsimp only
    cases hp : snode.parent <;>
      simp [spec_struct_meta_code, spec_struct_meta_size, spec_meta_class, hd, hp,
        Nat.add_assoc]
  · have hr : snode.type = .root := ht.resolve_left hd
    have hb := with_code_emit_struct_meta_base cg
      [.intrinsic cg.next_id "allocate" [.size_of (.runtime "RootMeta")]] 1 "Root"
      (.inst cg.next_id) snode ht hbits
      (fun f hf => hsym _ (by have := m1 f hf; rw [if_neg hd] at this; exact this))
      (fun p hp => hsym _ (m2 p hp)) (hsym _ m3)
    unfold CodeGen.emit_struct_meta_object CodeGen.RuntimeObject_new CodeGen.CreateIntrinsic
    rw [if_neg hd, if_pos hr, emitValue_eq_with_code]
    dsimp only
    rw [hb]
    simp only [bind, Except.bind, pure, Except.pure]
    cases hp : snode.parent <;>
      simp [spec_struct_meta_code, spec_struct_meta_size, spec_meta_class, hd, hp,
        Nat.add_assoc]

theorem foldl_appendTo_getElem (l : Nat) : ∀ (code : List Instr) (bs : List BasicBlock),
    (code.foldl (fun bs i => appendTo i l bs) bs)[l]?
      = (bs[l]?).map (fun b => { b with insts := b.insts ++ code })
  | [], bs => by
    cases h : bs[l]? <;> simp [h]
  | i :: code, bs => by
    rw [List.foldl_cons, foldl_appendTo_getElem l code, appendTo_get_self]
    cases h : bs[l]? <;> simp [h]

theorem with_code_current_insts (cg : CodeGen) (code : List Instr) (n : Nat)
    (h : cg.insert_point < cg.blocks.length) :
    (cg.with_code code n).current_insts = cg.current_insts ++ code := by
  obtain ⟨b, hb⟩ : ∃ b, cg.blocks[cg.insert_point]? = some b :=
    ⟨_, List.getElem?_eq_getElem h⟩
  have e := foldl_appendTo_getElem cg.insert_point code cg.blocks
  rw [hb] at e
  unfold CodeGen.current_insts
  show (match (List.foldl _ cg.blocks code).get? cg.insert_point with
    | some b => b.insts
    | none => []) = _
  rw [List.get?_eq_getElem?, List.get?_eq_getElem?, e, hb]
  rfl

/-- C13: `emit_struct_meta(snode)` fails with a not-implemented error exactly when the
type of `snode` is neither dense nor root (place, dynamic, hashed and pointer included),
and then returns no descriptor.  For a dense or root node whose `total_num_bits` is a
valid shift count and whose runtime functions are in the runtime module it succeeds, and
the state it leaves is the one it started in with the code of `spec_struct_meta_code`
appended at the insertion point: the allocation of a `DenseMeta` for a dense node and of
a `RootMeta` for a root node comes first and defines the pointer that is returned, and
the fields of the descriptor are populated after it. -/
theorem emit_struct_meta_by_type (cg : CodeGen) (snode : SNode) :
    (cg.emit_struct_meta snode = .error .not_implemented
      ↔ (snode.type ≠ .dense ∧ snode.type ≠ .root)) ∧
    (snode.type = .dense ∨ snode.type = .root → snode.total_num_bits < 32 →
      (∀ n ∈ struct_meta_symbols snode, n ∈ cg.runtime_module) →
      cg.emit_struct_meta_object snode
        = .ok ({ cls_name := spec_meta_class snode, ptr := .inst cg.next_id },
               cg.with_code (spec_struct_meta_code snode cg.next_id)
                 (spec_struct_meta_size snode)) ∧
      cg.emit_struct_meta snode
        = .ok (.inst cg.next_id,
               cg.with_code (spec_struct_meta_code snode cg.next_id)
                 (spec_struct_meta_size snode)) ∧
      (spec_struct_meta_code snode cg.next_id).head?
        = some (.intrinsic cg.next_id "allocate"
            [.size_of (.runtime (spec_meta_class snode))]) ∧
      (spec_meta_class snode = "DenseMeta" ↔ snode.type = .dense) ∧
      (cg.insert_point < cg.blocks.length →
        (cg.with_code (spec_struct_meta_code snode cg.next_id)
          (spec_struct_meta_size snode)).current_insts
          = cg.current_insts ++ spec_struct_meta_code snode cg.next_id)) := by
  have hobj : ∀ (o : RuntimeObject) (c : CodeGen),
      cg.emit_struct_meta_object snode = .ok (o, c) →
      cg.emit_struct_meta snode = .ok (o.ptr, c) := by
    intro o c h
    unfold CodeGen.emit_struct_meta
    rw [h]
    rfl
  refine ⟨⟨fun h => ?_, fun h => ?_⟩, fun ht hbits hsym => ?_⟩
  · by_contra hn
    have ht : snode.type = .dense ∨ snode.type = .root := by
      by_cases hd : snode.type = .dense
      · exact Or.inl hd
      · right
        by_contra hr
        exact hn ⟨hd, hr⟩
    unfold CodeGen.emit_struct_meta at h
    rcases bind_eq_error _ _ _ h with h1 | ⟨p, _, h2⟩
    · exact emit_struct_meta_object_error cg snode _ ht h1 rfl
    · cases h2
  · unfold CodeGen.emit_struct_meta CodeGen.emit_struct_meta_object
    rw [if_neg h.1, if_neg h.2]
    rfl
  · have e := emit_struct_meta_object_eq cg snode ht hbits hsym
    refine ⟨e, hobj _ _ e, rfl, ?_, with_code_current_insts cg _ _⟩
    unfold spec_meta_class
    by_cases hd : snode.type = .dense
    · simp [hd]
    · simp [hd]

/-- Witness of C13: the dense node `example_dense_snode` gets a `DenseMeta`, allocated by
the first of the 20 instructions appended to the block under construction and populated
by the others. -/
theorem emit_struct_meta_by_type_witness :
    example_dense_snode.type = SNodeType.dense ∧
    struct_meta_example_builder.emit_struct_meta example_dense_snode
      = .ok (.inst struct_meta_example_builder.next_id,
             struct_meta_example_builder.with_code
               (spec_struct_meta_code example_dense_snode
                 struct_meta_example_builder.next_id)
               (spec_struct_meta_size example_dense_snode)) ∧
    spec_struct_meta_code example_dense_snode 0
      = [.intrinsic 0 "allocate" [.size_of (.runtime "DenseMeta")],
         .cast 1 .BitCast (.inst 0) (.ptr (.runtime "StructMeta")),
         .field_ptr 2 (.inst 1) "snode_id", .store (.const_int .i32 1) (.inst 2),
         .field_ptr 3 (.inst 1) "element_size",
         .store (.size_of (.snode_element 1)) (.inst 3),
         .field_ptr 4 (.inst 1) "max_num_elements", .store (.const_int .i32 16) (.inst 4),
         .field_ptr 5 (.inst 1) "lookup_element",
         .store (.function "Dense_lookup_element") (.inst 5),
         .field_ptr 6 (.inst 1) "is_active",
         .store (.function "Dense_is_active") (.inst 6),
         .field_ptr 7 (.inst 1) "get_num_elements",
         .store (.function "Dense_get_num_elements") (.inst 7),
         .field_ptr 8 (.inst 1) "from_parent_element",
         .store (.function "S1_from_parent") (.inst 8),
         .field_ptr 9 (.inst 1) "refine_coordinates",
         .store (.function "S1_refine_coordinates") (.inst 9),
         .call 10 (.function "DenseMeta_set_bitmasked") [.inst 0, .const_int .i1 0],
         .call 11 (.function "DenseMeta_set_morton_dim") [.inst 0, .const_int .i32 0]] :=
  ⟨rfl, ((emit_struct_meta_by_type struct_meta_example_builder example_dense_snode).2
    (Or.inl rfl) (by decide) (by decide)).2.1, by decide⟩

theorem for_lanes_first_error (lane : CodeGen → Except Err CodeGen) (n : Nat) (cg : CodeGen)
    (e : Err) (hn : 1 ≤ n) (h : lane cg = .error e) : CodeGen.for_lanes lane n cg = .error e := by
  cases n with
  | zero => omega
  | succ k =>
    unfold CodeGen.for_lanes
    rw [h]
    rfl

/-- C14: an `AtomicOpStmt` of width at least 1 in a block with a mask is rejected with
the not-implemented error, on the host and on the GPU backend alike (`cg.gpu` is
arbitrary); the lane of either backend fails in the state `cg` in which the visit
started, before any builder call, so no atomic instruction is emitted. -/
theorem masked_atomic_is_rejected (cg : CodeGen) (mask : StmtRef) (id : Nat)
    (ret_type : VectorType) (op_type : AtomicOpType) (dest val : StmtRef)
    (hw : 1 ≤ ret_type.width) :
    visit (.AtomicOpStmt id ret_type op_type dest val) (some mask) cg
      = .error .not_implemented ∧
    cg.atomic_lane_host (some mask) op_type dest val = .error .not_implemented ∧
    cg.atomic_lane_gpu (some mask) op_type dest val = .error .not_implemented := by
  have hh : cg.atomic_lane_host (some mask) op_type dest val = .error .not_implemented := rfl
  have hg : cg.atomic_lane_gpu (some mask) op_type dest val = .error .not_implemented := rfl
  have hn : 1 ≤ ret_type.width.toNat := by omega
  refine ⟨?_, hh, hg⟩
  unfold visit CodeGen.visit_AtomicOpStmt
  split
  · exact for_lanes_first_error _ _ cg _ hn hg
  · exact for_lanes_first_error _ _ cg _ hn hh

/-- Witness of C14: a masked atomic add of width 1 on the host and on the GPU backend. -/
theorem masked_atomic_is_rejected_witness :
    (1 : Int) ≤ i32x1.width ∧
    visit (.AtomicOpStmt 2 i32x1 .add (ref 0) (ref 1)) (some (ref 1)) example_builder
      = .error .not_implemented ∧
    visit (.AtomicOpStmt 2 i32x1 .add (ref 0) (ref 1)) (some (ref 1)) example_gpu_builder
      = .error .not_implemented :=
  ⟨by decide,
   (masked_atomic_is_rejected example_builder (ref 1) 2 i32x1 .add (ref 0) (ref 1)
      (by decide)).1,
   (masked_atomic_is_rejected example_gpu_builder (ref 1) 2 i32x1 .add (ref 0) (ref 1)
      (by decide)).1⟩


/-- C15, amended: a `GlobalLoadStmt` whose width is not 1 is rejected by an assertion
whether or not the block has a mask, and so is a `GlobalStoreStmt` whose width is not 1
in a block with a mask; a `GlobalStoreStmt` in a block without a mask is not checked for
its width: like a store of width 1 it is emitted, when the values of both operands are
set, as one store of the value of the data operand at the address carried by the pointer
operand.  A load of width 1 of a type the type bridge maps is emitted as one load from
the address carried by the pointer operand. -/
theorem global_load_store_width_check (cg : CodeGen) (mask : Option StmtRef) (id : Nat)
    (ret_type : VectorType) (ptr data : StmtRef) :
    (ret_type.width ≠ 1 →
      visit (.GlobalLoadStmt id ret_type ptr) mask cg = .error .assertion_failed) ∧
    (mask.isSome = true → ret_type.width ≠ 1 →
      visit (.GlobalStoreStmt id ret_type ptr data) mask cg = .error .assertion_failed) ∧
    (mask = none ∨ ret_type.width = 1 →
      cg.value data ≠ Value.null → cg.value ptr ≠ Value.null →
      visit (.GlobalStoreStmt id ret_type ptr data) mask cg
        = .ok (cg.emit (.store (cg.value data) (cg.value ptr)))) ∧
    (ret_type.width = 1 → (get_data_type ret_type.data_type).toBool = true →
      visit (.GlobalLoadStmt id ret_type ptr) mask cg
        = .ok ((cg.emitValue (fun r => .load r (cg.value ptr))).2.setValue id
            (.inst cg.next_id))) := by
  refine ⟨fun hw => ?_, fun hm hw => ?_, fun hc hd hp => ?_, fun hw ht => ?_⟩
  · unfold visit CodeGen.visit_GlobalLoadStmt
    simp [TC_ASSERT, hw, bind, Except.bind]
  · unfold visit CodeGen.visit_GlobalStoreStmt
    simp [TC_ASSERT, hw, hm, bind, Except.bind]
  · unfold visit CodeGen.visit_GlobalStoreStmt
    simp [TC_ASSERT, hc, hd, hp, bind, Except.bind, pure, Except.pure, CodeGen.CreateStore]
  · unfold visit CodeGen.visit_GlobalLoadStmt
    cases hty : get_data_type ret_type.data_type with
    | error e => rw [hty] at ht; cases ht
    | ok ty =>
      simp [TC_ASSERT, hw, bind, Except.bind, pure, Except.pure, CodeGen.CreateLoad,
        emitValue_fst]

/-- Witness of C15 (amended): a store of width 1 in a block with a mask. -/
theorem global_load_store_width_check_witness :
    visit (.GlobalStoreStmt 2 i32x1 (ref 0) (ref 1)) (some (ref 1)) example_builder
      = .ok (example_builder.emit
          (.store (example_builder.value (ref 1)) (example_builder.value (ref 0)))) ∧
    visit (.GlobalLoadStmt 2 i32x1 (ref 0)) (some (ref 1)) example_builder
      = .ok ((example_builder.emitValue
          (fun r => .load r (example_builder.value (ref 0)))).2.setValue 2
            (.inst example_builder.next_id)) :=
  ⟨(global_load_store_width_check example_builder (some (ref 1)) 2 i32x1 (ref 0) (ref 1)).2.2.1
      (Or.inr rfl) (by decide) (by decide),
   (global_load_store_width_check example_builder (some (ref 1)) 2 i32x1 (ref 0) (ref 1)).2.2.2
      rfl rfl⟩

/-- Counterexample to C15: a `GlobalStoreStmt` of width 4 in a block without a mask is
not rejected; one store is emitted. -/
theorem unmasked_wide_global_store_is_emitted :
    (1 : Int) < 4 ∧
    visit (.GlobalStoreStmt 2 { data_type := .i32, width := 4 } (ref 0) (ref 1)) none
        example_builder
      = .ok (example_builder.emit (.store (.const_int .i32 5) (.const_int .i32 3))) :=
  ⟨by decide, rfl⟩

/-- C16, amended: `llvm_type` maps i1, i32, f32 and f64 to the 1-bit and 32-bit integer
types and to the float and double types, and fails with the not-implemented error for
every other data type.  A `ConstStmt` of width 1 whose literal has type i32, f32 or f64
sets the statement's value to the constant of the mapped type with the literal's
payload; for a literal of every other data type, i1 included, it fails with the
not-implemented error. -/
theorem const_and_llvm_type_by_data_type (cg : CodeGen) (mask : Option StmtRef) (id : Nat)
    (ret_dt dt : DataType) (v : Int) (rest : List TypedConstant) :
    (llvm_type .i1 = .ok .i1 ∧ llvm_type .i32 = .ok .i32 ∧ llvm_type .f32 = .ok .float ∧
      llvm_type .f64 = .ok .double) ∧
    (dt ∉ [DataType.i1, .i32, .f32, .f64] → llvm_type dt = .error .not_implemented) ∧
    (dt ∈ [DataType.i32, .f32, .f64] →
      ∃ ty, llvm_type dt = .ok ty ∧
        visit (.ConstStmt id { data_type := ret_dt, width := 1 }
            ({ dt := dt, val := v } :: rest)) mask cg
          = .ok (cg.setValue id (spec_constant dt ty v))) ∧
    (dt ∉ [DataType.i32, .f32, .f64] →
      visit (.ConstStmt id { data_type := ret_dt, width := 1 }
          ({ dt := dt, val := v } :: rest)) mask cg
        = .error .not_implemented) := by
  refine ⟨⟨rfl, rfl, rfl, rfl⟩, fun h => ?_, fun h => ?_, fun h => ?_⟩
  · cases dt <;> first | rfl | (exfalso; apply h; decide)
  · cases dt <;> first | (exfalso; revert h; decide) | exact ⟨_, rfl, rfl⟩
  · cases dt <;> first | rfl | (exfalso; apply h; decide)

/-- Witness of C16 (amended): the f64 literal with the bit pattern of 1.0. -/
theorem const_and_llvm_type_by_data_type_witness :
    ∃ ty, llvm_type .f64 = .ok ty ∧
      visit (.ConstStmt 2 { data_type := .f64, width := 1 }
          ({ dt := .f64, val := 4607182418800017408 } :: [])) none example_builder
        = .ok (example_builder.setValue 2 (spec_constant .f64 ty 4607182418800017408)) :=
  (const_and_llvm_type_by_data_type example_builder none 2 .f64 .f64 4607182418800017408
    []).2.2.1 (by decide)

/-- Counterexample to C16: `llvm_type` maps i1, but a `ConstStmt` of width 1 whose
literal has type i1 is rejected. -/
theorem const_of_type_i1_is_rejected :
    llvm_type .i1 = .ok .i1 ∧
    visit (.ConstStmt 2 { data_type := .i1, width := 1 } [{ dt := .i1, val := 1 }]) none
        example_builder
      = .error .not_implemented :=
  ⟨rfl, rfl⟩

/-- C17: for the operators `max` and `min`, `visit(BinaryOpStmt *)` emits the IEEE
`maxnum` (`minnum`) operation on the two operand values when the return type is real;
when the return type is i32 it emits a call of the runtime function `max_i32`
(`min_i32`) on the two operand values, the function being in the runtime module; in both
cases the result becomes the statement's value.  For every other return type it fails
with the not-implemented error. -/
theorem max_min_by_return_type (cg : CodeGen) (mask : Option StmtRef) (id : Nat)
    (ret_type : VectorType) (op : BinaryOpType) (lhs rhs : StmtRef) (fop : BinOp)
    (helper : String) (hop : spec_max_min op = some (fop, helper)) :
    (is_real ret_type.data_type = true →
      visit (.BinaryOpStmt id ret_type op lhs rhs) mask cg
        = .ok ((cg.emitValue (fun r => .binop r fop (cg.value lhs) (cg.value rhs))).2.setValue
            id (.inst cg.next_id))) ∧
    (ret_type.data_type = .i32 → helper ∈ cg.runtime_module →
      visit (.BinaryOpStmt id ret_type op lhs rhs) mask cg
        = .ok ((cg.emitValue
            (fun r => .call r (.function helper) [cg.value lhs, cg.value rhs])).2.setValue
            id (.inst cg.next_id))) ∧
    (is_real ret_type.data_type = false → ret_type.data_type ≠ .i32 →
      visit (.BinaryOpStmt id ret_type op lhs rhs) mask cg = .error .not_implemented) := by
  obtain ⟨dt, w⟩ := ret_type
  cases op <;> simp [spec_max_min] at hop
  all_goals
    obtain ⟨rfl, rfl⟩ := hop
    refine ⟨fun hr => ?_, fun hi hm => ?_, fun hr hi => ?_⟩
    · unfold visit CodeGen.visit_BinaryOpStmt
      simp [hr, CodeGen.CreateBinOp, emitValue_fst, pure, Except.pure]
    · dsimp only at hi
      subst hi
      unfold visit CodeGen.visit_BinaryOpStmt
      simp [is_real, CodeGen.create_call, CodeGen.get_runtime_function, hm,
        CodeGen.CreateCall, emitValue_fst, bind, Except.bind, pure, Except.pure]
    · dsimp only at hr hi
      unfold visit CodeGen.visit_BinaryOpStmt
      simp [hr, hi, TC_NOT_IMPLEMENTED]

/-- Witness of C17: `max` on two i32 operands calls `max_i32`. -/
theorem max_min_by_return_type_witness :
    visit (.BinaryOpStmt 2 i32x1 .max (ref 0) (ref 1)) none max_min_example_builder
      = .ok ((max_min_example_builder.emitValue
          (fun r => .call r (.function "max_i32")
            [max_min_example_builder.value (ref 0),
             max_min_example_builder.value (ref 1)])).2.setValue
          2 (.inst max_min_example_builder.next_id)) :=
  (max_min_by_return_type max_min_example_builder none 2 i32x1 .max (ref 0) (ref 1) .maxnum
    "max_i32" rfl).2.1 rfl (by decide)


theorem ofInt_toSigned (bits : Nat) : ofInt 32 (toSigned 32 bits) = bits % 2 ^ 32 := by
  apply Int.ofNat_inj.mp
  rw [ofInt_cast]
  unfold toSigned
  split
  · push_cast
    exact Int.emod_emod_of_dvd _ (dvd_refl _)
  · push_cast
    rw [Int.sub_emod, Int.emod_self, sub_zero, Int.emod_emod_of_dvd _ (dvd_refl _),
      Int.emod_emod_of_dvd _ (dvd_refl _)]

theorem ofInt_wrap32 (v : Int) : ofInt 32 (wrap32 v) = ofInt 32 v := by
  unfold wrap32
  rw [ofInt_toSigned]
  exact Nat.mod_eq_of_lt (ofInt_lt 32 v)

theorem extract_bits_mask_bits (bit_begin bit_end : Int) (h1 : bit_begin < bit_end)
    (h2 : bit_end - bit_begin ≤ 31) :
    ∃ mask, CodeGen.extract_bits_mask bit_begin bit_end = some mask ∧
      ofInt 32 mask = 2 ^ (bit_end - bit_begin).toNat - 1 := by
  obtain ⟨k, hk⟩ : ∃ k : Nat, bit_end - bit_begin = (k : Int) :=
    ⟨(bit_end - bit_begin).toNat, (Int.toNat_of_nonneg (by omega)).symm⟩
  have hk1 : 1 ≤ k := by omega
  have hk2 : k ≤ 31 := by omega
  unfold CodeGen.extract_bits_mask
  rw [hk, Int.toNat_ofNat]
  have hw : wrap32 (k : Int) = (k : Int) :=
    wrap32_of_range _ (by unfold INT_MIN; omega) (by unfold INT_MAX; omega)
  rw [hw]
  have hs : shl_u32 1 (k : Int) = some (2 ^ k) := by
    unfold shl_u32
    rw [if_pos ⟨by omega, by omega⟩, Int.toNat_ofNat, one_mul]
    have : 2 ^ k < 2 ^ 32 := Nat.pow_lt_pow_right (by decide) (by omega)
    rw [Nat.mod_eq_of_lt this]
  rw [hs]
  refine ⟨_, rfl, ?_⟩
  rw [ofInt_toSigned, Nat.mod_mod]
  have hp : 1 ≤ 2 ^ k := Nat.one_le_two_pow
  have hlt : 2 ^ k < 2 ^ 32 := Nat.pow_lt_pow_right (by decide) (by omega)
  have e : 2 ^ k + (2 ^ 32 - 1) = (2 ^ k - 1) + 2 ^ 32 := by omega
  rw [e, Nat.add_mod_right, Nat.mod_eq_of_lt (by omega)]

theorem execInstr_binop (m : Machine) (res : Nat) (op : BinOp) (lhs rhs : Value)
    (w a b c : Nat) (h1 : evalValue m lhs = some (.int w a))
    (h2 : evalValue m rhs = some (.int w b)) (h3 : evalBinOp op w a b = some c) :
    execInstr m (.binop res op lhs rhs) = some (m.setReg res (.int w c)) := by
  simp only [execInstr, h1, h2, h3, if_true]

/-- C18: for `0 <= bit_begin < bit_end <= 31`, an input whose value is the 32-bit
pattern of the integer `x` and any offset, `visit(OffsetAndExtractBitsStmt *)` succeeds
and the code it emits leaves in the statement's value the 32-bit pattern
`(((x + offset) mod 2^32) lshr bit_begin) AND (2^(bit_end - bit_begin) - 1)`; this is
`((x + offset) mod 2^32) / 2^bit_begin mod 2^(bit_end - bit_begin)`, so it lies in
`[0, 2^(bit_end - bit_begin))` whatever the sign of `x + offset`. -/
theorem offset_and_extract_bits_value (cg : CodeGen)
    (hip : cg.insert_point < cg.blocks.length) (id : Nat) (input : StmtRef)
    (offset bit_begin bit_end x : Int) (m : Machine)
    (hb : 0 ≤ bit_begin) (hbe : bit_begin < bit_end) (he : bit_end ≤ 31)
    (hx : evalValue m (cg.value input) = some (.int 32 (ofInt 32 x))) :
    ∃ cg2 m2 r,
      visit (.OffsetAndExtractBitsStmt id input offset bit_begin bit_end) none cg = .ok cg2
      ∧ execInstrs (emitted_between cg cg2) m = some m2
      ∧ evalValue m2 (cg2.value (ref id)) = some (.int 32 r)
      ∧ r = (ofInt 32 (x + offset) >>> bit_begin.toNat)
              &&& (2 ^ (bit_end - bit_begin).toNat - 1)
      ∧ r = ofInt 32 (x + offset) / 2 ^ bit_begin.toNat % 2 ^ (bit_end - bit_begin).toNat
      ∧ r < 2 ^ (bit_end - bit_begin).toNat := by
  obtain ⟨mask, hmask, hbits⟩ := extract_bits_mask_bits bit_begin bit_end hbe (by omega)
  have hsh : ofInt 32 bit_begin = bit_begin.toNat := by
    apply Int.ofNat_inj.mp
    rw [ofInt_cast, Int.toNat_of_nonneg hb]
    exact Int.emod_eq_of_lt hb (by omega)
  have hlt : bit_begin.toNat < 32 := by omega
  have hval : ∀ a : Nat, (a >>> bit_begin.toNat) &&& (2 ^ (bit_end - bit_begin).toNat - 1)
      = a / 2 ^ bit_begin.toNat % 2 ^ (bit_end - bit_begin).toNat := by
    intro a
    rw [Nat.and_pow_two_sub_one_eq_mod, Nat.shiftRight_eq_div_pow]
  refine ⟨((((cg.CreateAdd (cg.value input) (CodeGen.get_constant (wrap32 offset))).2.CreateLShr
      (.inst cg.next_id) bit_begin).2.CreateAnd (.inst (cg.next_id + 1))
      (CodeGen.get_constant mask)).2.setValue id (.inst (cg.next_id + 2))),
    ((m.setReg cg.next_id (.int 32 (ofInt 32 (x + offset)))).setReg (cg.next_id + 1)
      (.int 32 (ofInt 32 (x + offset) >>> bit_begin.toNat))).setReg (cg.next_id + 2)
      (.int 32 ((ofInt 32 (x + offset) >>> bit_begin.toNat)
        &&& (2 ^ (bit_end - bit_begin).toNat - 1))), _, ?_, ?_, ?_, rfl, hval _, ?_⟩
  · unfold visit CodeGen.visit_OffsetAndExtractBitsStmt
    simp only [hmask, pure, Except.pure]
    rfl
  · rw [emitted_between_of_append cg _
      [.binop cg.next_id .add (cg.value input) (CodeGen.get_constant (wrap32 offset)),
       .binop (cg.next_id + 1) .lshr (.inst cg.next_id) (.const_int .i32 bit_begin),
       .binop (cg.next_id + 2) .and_ (.inst (cg.next_id + 1)) (CodeGen.get_constant mask)]]
    · have e1 : evalValue m (CodeGen.get_constant (wrap32 offset))
          = some (.int 32 (ofInt 32 offset)) := by
        simp [CodeGen.get_constant, evalValue, intWidth, ofInt_wrap32]
      have e2 : ∀ m1 : Machine, evalValue m1 (.const_int .i32 bit_begin)
          = some (.int 32 bit_begin.toNat) := by
        intro m1
        simp [evalValue, intWidth, hsh]
      have e3 : ∀ m1 : Machine, evalValue m1 (CodeGen.get_constant mask)
          = some (.int 32 (2 ^ (bit_end - bit_begin).toNat - 1)) := by
        intro m1
        simp [CodeGen.get_constant, evalValue, intWidth, hbits]
      have r1 : ∀ (m1 : Machine) (k : Nat) (v : RVal),
          evalValue (m1.setReg k v) (.inst k) = some v := by
        intro m1 k v
        exact getKey_setKey_self k v m1.regs
      have s1 := execInstr_binop m cg.next_id .add _ _ 32 _ _ (ofInt 32 (x + offset)) hx e1
        (by simp only [evalBinOp, ofInt_add])
      have s2 := execInstr_binop _ (cg.next_id + 1) .lshr _ _ 32 _ _
        (ofInt 32 (x + offset) >>> bit_begin.toNat)
        (r1 m cg.next_id (.int 32 (ofInt 32 (x + offset)))) (e2 _)
        (by simp only [evalBinOp, if_pos hlt])
      have s3 := execInstr_binop _ (cg.next_id + 2) .and_ _ _ 32 _ _
        ((ofInt 32 (x + offset) >>> bit_begin.toNat) &&& (2 ^ (bit_end - bit_begin).toNat - 1))
        (r1 (m.setReg cg.next_id (.int 32 (ofInt 32 (x + offset)))) (cg.next_id + 1)
          (.int 32 (ofInt 32 (x + offset) >>> bit_begin.toNat))) (e3 _)
        (by simp only [evalBinOp])
      simp only [execInstrs, s1, s2, s3]
    · simp [setValue_current_insts, CodeGen.CreateAdd, CodeGen.CreateLShr, CodeGen.CreateAnd,
        CodeGen.CreateBinOp, current_insts_emitValue, emitValue_insert_point,
        emitValue_blocks_length, hip, emitValue_next_id]
  · simp [ref, setValue_value_self, evalValue, Machine.setReg, getKey_setKey_self,
      CodeGen.CreateAnd, CodeGen.CreateBinOp, CodeGen.CreateAdd, CodeGen.CreateLShr,
      emitValue_fst, emitValue_next_id]
  · rw [hval]
    exact Nat.mod_lt _ (by positivity)

/-- Witness of C18: input 3 and offset -8 give the pattern of -5; its bits 4 up to 12
are all set. -/
theorem offset_and_extract_bits_value_witness :
    ∃ cg2 m2 r,
      visit (.OffsetAndExtractBitsStmt 2 (ref 0) (-8) 4 12) none example_builder = .ok cg2
      ∧ execInstrs (emitted_between example_builder cg2) {} = some m2
      ∧ evalValue m2 (cg2.value (ref 2)) = some (.int 32 r)
      ∧ r = (ofInt 32 (3 + -8) >>> (4 : Int).toNat) &&& (2 ^ ((12 : Int) - 4).toNat - 1)
      ∧ r = ofInt 32 (3 + -8) / 2 ^ (4 : Int).toNat % 2 ^ ((12 : Int) - 4).toNat
      ∧ r < 2 ^ ((12 : Int) - 4).toNat :=
  offset_and_extract_bits_value example_builder (by decide) 2 (ref 0) (-8) 4 12 3 {}
    (by decide) (by decide) (by decide) (by decide!)

theorem kernel_dims_of_bookkeeping (a b : CodeGen) (h : a.bookkeeping = b.bookkeeping) :
    a.kernel_dims = b.kernel_dims := by
  have e1 := congrArg CodeGen.kernel_grid_dim h
  have e2 := congrArg CodeGen.kernel_block_dim h
  exact Prod.ext e1 e2

theorem kernel_dims_BasicBlock_Create (cg : CodeGen) (n : String) :
    (cg.BasicBlock_Create n).2.kernel_dims = cg.kernel_dims := rfl

theorem kernel_dims_SetInsertPoint (cg : CodeGen) (bb : Nat) :
    (cg.SetInsertPoint bb).kernel_dims = cg.kernel_dims := rfl

theorem kernel_dims_CreateBr (cg : CodeGen) (bb : Nat) :
    (cg.CreateBr bb).kernel_dims = cg.kernel_dims := rfl

theorem kernel_dims_CreateCondBr (cg : CodeGen) (c : Value) (t f : Nat) :
    (cg.CreateCondBr c t f).kernel_dims = cg.kernel_dims := rfl

theorem kernel_dims_CreateRetVoid (cg : CodeGen) :
    cg.CreateRetVoid.kernel_dims = cg.kernel_dims := rfl

theorem kernel_dims_CreateLoad (cg : CodeGen) (p : Value) :
    (cg.CreateLoad p).2.kernel_dims = cg.kernel_dims := rfl

theorem kernel_dims_CreateICmp (cg : CodeGen) (p : ICmpPred) (a b : Value) :
    (cg.CreateICmp p a b).2.kernel_dims = cg.kernel_dims := rfl

theorem kernel_dims_create_increment (cg : CodeGen) (p v : Value) :
    (cg.create_increment p v).kernel_dims = cg.kernel_dims := rfl

theorem kernel_dims_set_func (cg : CodeGen) (f : Nat) :
    ({ cg with func := f } : CodeGen).kernel_dims = cg.kernel_dims := rfl

theorem kernel_dims_set_entry_block (cg : CodeGen) (f : Nat) :
    ({ cg with entry_block := f } : CodeGen).kernel_dims = cg.kernel_dims := rfl

theorem kernel_dims_CreateCall (cg : CodeGen) (f : Value) (a : List Value) :
    (cg.CreateCall f a).2.kernel_dims = cg.kernel_dims := rfl

theorem struct_for_enter_dims (cg : CodeGen) (spmd : Bool) :
    (cg.struct_for_enter spmd).2.kernel_dims = cg.kernel_dims := by
  cases spmd <;> rfl

theorem struct_for_refine_dims (cg : CodeGen) (l : CodeGen.StructForLocals) (refine : Value) :
    (cg.struct_for_refine l refine).kernel_dims = cg.kernel_dims := rfl

theorem struct_for_leave_dims (cg : CodeGen) (l : CodeGen.StructForLocals) (spmd : Bool) :
    (cg.struct_for_leave l spmd).kernel_dims = cg.kernel_dims := by
  unfold CodeGen.struct_for_leave
  cases spmd <;>
  simp only [kernel_dims_set_entry_block, kernel_dims_SetInsertPoint, kernel_dims_CreateBr,
    kernel_dims_set_func, kernel_dims_CreateRetVoid, kernel_dims_CreateCondBr,
    kernel_dims_CreateICmp, kernel_dims_CreateLoad, kernel_dims_create_increment,
    kernel_dims_BasicBlock_Create, if_true, Bool.false_eq_true, if_false]

theorem gpu_range_for_enter_dims (cg : CodeGen) (lv : Value) (begin_ end_ : Int) :
    (cg.gpu_range_for_enter lv begin_ end_).2.kernel_dims = cg.kernel_dims := rfl

theorem init_task_function_dims (cg : CodeGen) (id : Nat) :
    (cg.init_task_function id).kernel_dims = cg.kernel_dims := rfl

theorem finalize_task_function_dims (cg : CodeGen) :
    cg.finalize_task_function.kernel_dims = cg.kernel_dims := rfl

theorem deref_eq_ok {α : Type} (o : Option α) (a : α) (h : deref o = .ok a) : o = some a := by
  cases o with
  | none => cases h
  | some x =>
    have h2 : (Except.ok x : Except Err α) = .ok a := h
    injection h2 with h2
    rw [h2]

theorem create_offload_range_for_gpu_dims (cg cg2 : CodeGen) (begin_ end_ block_size : Int)
    (accept_body : CodeGen → Except Err CodeGen)
    (hbody : ∀ c b, c.bookkeeping = b.bookkeeping → Framed (accept_body c) b)
    (h : cg.create_offload_range_for_gpu begin_ end_ block_size accept_body = .ok cg2) :
    CodeGen.range_for_launch_shape cg.default_gpu_block_size begin_ end_ block_size
      = some cg2.kernel_dims := by
  unfold CodeGen.create_offload_range_for_gpu at h
  obtain ⟨ty, _, h⟩ := bind_eq_ok _ _ _ h
  dsimp only at h
  obtain ⟨gb, hgb, h⟩ := bind_eq_ok _ _ _ h
  have hshape := deref_eq_ok _ _ hgb
  obtain ⟨c, hc, h⟩ := bind_eq_ok _ _ _ h
  have hf := kernel_dims_of_bookkeeping _ _ (hbody _ _ rfl c hc)
  rw [gpu_range_for_enter_dims] at hf
  injection h with h
  rw [← h]
  show _ = some c.kernel_dims
  rw [hf]
  exact hshape

theorem create_offload_struct_for_dims (cg cg2 : CodeGen) (snode : Option SNode)
    (block_size : Int) (spmd : Bool) (accept_body : CodeGen → Except Err CodeGen)
    (hbody : ∀ c b, c.bookkeeping = b.bookkeeping → Framed (accept_body c) b)
    (h : cg.create_offload_struct_for snode block_size spmd accept_body = .ok cg2) :
    cg2.kernel_dims = cg.kernel_dims := by
  unfold CodeGen.create_offload_struct_for at h
  obtain ⟨sn, _, h⟩ := bind_eq_ok _ _ _ h
  obtain ⟨leaf, _, h⟩ := bind_eq_ok _ _ _ h
  dsimp only at h
  obtain ⟨refine, _, h⟩ := bind_eq_ok _ _ _ h
  obtain ⟨c, hc, h⟩ := bind_eq_ok _ _ _ h
  have hf := kernel_dims_of_bookkeeping _ _ (hbody _ _ rfl c hc)
  rw [struct_for_refine_dims, struct_for_enter_dims] at hf
  obtain ⟨ns, _, h⟩ := bind_eq_ok _ _ _ h
  obtain ⟨lp, _, h⟩ := bind_eq_ok _ _ _ h
  obtain ⟨p, hp, h⟩ := bind_eq_ok _ _ _ h
  unfold CodeGen.create_call at hp
  obtain ⟨f, _, hp⟩ := bind_eq_ok _ _ _ hp
  injection hp with hp
  injection h with h
  rw [← h, ← hp, kernel_dims_CreateCall, struct_for_leave_dims, hf]

theorem visit_OffloadedStmt_gpu_task (cg cg2 : CodeGen) (id : Nat)
    (task_type : TaskType) (begin_ end_ : Int) (block_size : Int)
    (snode : Option SNode) (accept_body : CodeGen → Except Err CodeGen)
    (hbody : ∀ c b, c.bookkeeping = b.bookkeeping → Framed (accept_body c) b)
    (h : cg.visit_OffloadedStmt_gpu id task_type begin_ end_ block_size snode
      accept_body = .ok cg2) :
    ∃ cg3,
      (({ cg with kernel_grid_dim := 1, kernel_block_dim := 1 } : CodeGen).init_task_function
        id).offload_dispatch_gpu task_type begin_ end_ block_size snode accept_body
        = .ok cg3 ∧
      cg2.offloaded_tasks = cg.offloaded_tasks ++
        [{ name := cg.kernel_name ++ "_" ++ format_int cg.task_counter,
           grid_dim := cg3.kernel_dims.1, block_dim := cg3.kernel_dims.2 }] := by
  unfold CodeGen.visit_OffloadedStmt_gpu at h
  obtain ⟨cg3, h3, h4⟩ := bind_eq_ok _ _ _ h
  refine ⟨cg3, h3, ?_⟩
  have hs := offload_dispatch_gpu_taskStep _ _ (taskStep_refl _) _ _ _ _ _ _ hbody cg3 h3
  have hs2 := taskStep_trans _ _ _ hs (finalize_task_function_taskStep cg3)
  obtain ⟨ht, _⟩ := hs2
  rw [init_task_function_task_state] at ht
  have hcur : cg3.finalize_task_function.current_task
      = some { name := cg.kernel_name ++ "_" ++ format_int cg.task_counter } := by
    have e := congrArg CodeGen.current_task ht
    exact e
  have hot : cg3.finalize_task_function.offloaded_tasks = cg.offloaded_tasks := by
    have e := congrArg CodeGen.offloaded_tasks ht
    exact e
  dsimp only at h4
  rw [hcur] at h4
  rw [end_current_task_eq _ _ rfl] at h4
  injection h4 with h4
  rw [← h4]
  show cg3.finalize_task_function.offloaded_tasks ++ _ = _
  rw [hot]
  rfl

theorem ceil_div_spec (n b : Int) (hn : 0 < n) (hb : 1 ≤ b) :
    (n + b - 1) / b = ⌈((n : Int) : ℚ) / ((b : Int) : ℚ)⌉ ∧
    1 ≤ (n + b - 1) / b ∧ n ≤ (n + b - 1) / b * b ∧ ((n + b - 1) / b - 1) * b < n := by
  have hpos : 0 < b := by omega
  have hd := Int.emod_add_ediv (n + b - 1) b
  have hm0 := Int.emod_nonneg (n + b - 1) (ne_of_gt hpos)
  have hm1 := Int.emod_lt_of_pos (n + b - 1) hpos
  have hc : (n + b - 1) / b * b = b * ((n + b - 1) / b) := mul_comm _ _
  have h1 : 1 ≤ (n + b - 1) / b := Int.le_ediv_of_mul_le hpos (by omega)
  have h2 : n ≤ (n + b - 1) / b * b := by omega
  have h3 : ((n + b - 1) / b - 1) * b < n := by
    rw [sub_mul, one_mul]
    omega
  refine ⟨?_, h1, h2, h3⟩
  symm
  rw [Int.ceil_eq_iff]
  have hbq : (0 : ℚ) < (b : ℚ) := by exact_mod_cast hpos
  constructor
  · rw [lt_div_iff₀ hbq]
    exact_mod_cast h3
  · rw [div_le_iff₀ hbq]
    exact_mod_cast h2

/-- C19, amended: for the GPU offloaded range-for with `begin < end`, a block dimension
`block` (which is `stmt.block_size`, or `default_gpu_block_size`, 256 unless configured
otherwise, when `stmt.block_size` is 0) of at least 1 and `end - begin + block` within
the range of `int`, the visit appends to the tasks one task whose `block_dim` is `block`
and whose `grid_dim` is `ceil((end - begin) / block)`; so `grid_dim >= 1`,
`grid_dim * block_dim >= end - begin` and `(grid_dim - 1) * block_dim < end - begin`. -/
theorem gpu_range_for_launch_shape (cg cg2 : CodeGen) (mask : Option StmtRef) (id : Nat)
    (body : Block) (begin_ end_ : Int) (reversed : Bool) (block_size : Int)
    (snode : Option SNode) (block : Int)
    (hgpu : cg.gpu = true) (hbody : body.offload_free = true)
    (hblock_def : block = if block_size = 0 then cg.default_gpu_block_size else block_size)
    (hlt : begin_ < end_) (hblock : 1 ≤ block) (hsum : end_ - begin_ + block ≤ INT_MAX)
    (h : visit (.OffloadedStmt id .range_for body begin_ end_ reversed block_size snode)
      mask cg = .ok cg2) :
    ∃ t, cg2.offloaded_tasks = cg.offloaded_tasks ++ [t] ∧
      t.block_dim = block ∧
      t.grid_dim = ⌈((end_ - begin_ : Int) : ℚ) / ((block : Int) : ℚ)⌉ ∧
      1 ≤ t.grid_dim ∧
      end_ - begin_ ≤ t.grid_dim * t.block_dim ∧
      (t.grid_dim - 1) * t.block_dim < end_ - begin_ := by
  have hb : ∀ c b, c.bookkeeping = b.bookkeeping → Framed (visitBlock body c) b :=
    fun c b hcb => visitBlock_frame body c b hbody hcb
  rw [visit, if_pos hgpu] at h
  obtain ⟨cg3, h3, ht⟩ := visit_OffloadedStmt_gpu_task cg cg2 _ _ _ _ _ _ _ hb h
  have hsh := create_offload_range_for_gpu_dims _ cg3 begin_ end_ block_size _ hb h3
  have hs := range_for_launch_shape_eq cg.default_gpu_block_size begin_ end_ block_size
    block hblock_def hlt hblock hsum
  have hd : cg3.kernel_dims = ((end_ - begin_ + block - 1) / block, block) := by
    have e : some cg3.kernel_dims = some ((end_ - begin_ + block - 1) / block, block) :=
      hsh.symm.trans hs
    injection e
  obtain ⟨c1, c2, c3, c4⟩ := ceil_div_spec (end_ - begin_) block (by omega) hblock
  refine ⟨_, ht, ?_, ?_, ?_, ?_, ?_⟩
  · show cg3.kernel_dims.2 = block
    rw [hd]
  · show cg3.kernel_dims.1 = _
    rw [hd]
    exact c1
  · show 1 ≤ cg3.kernel_dims.1
    rw [hd]
    exact c2
  · show _ ≤ cg3.kernel_dims.1 * cg3.kernel_dims.2
    rw [hd]
    exact c3
  · show (cg3.kernel_dims.1 - 1) * cg3.kernel_dims.2 < _
    rw [hd]
    exact c4

/-- Witness of C19 (amended): the range `[0, 1000)` with block size 0 is launched with
blocks of 256 threads in a grid of `ceil(1000 / 256)` blocks. -/
theorem gpu_range_for_launch_shape_witness :
    ∃ t, (gpu_range_for_task_result 0 1000 0).offloaded_tasks
        = example_gpu_kernel_builder.offloaded_tasks ++ [t] ∧
      t.block_dim = 256 ∧
      t.grid_dim = ⌈(((1000 : Int) - 0 : Int) : ℚ) / ((256 : Int) : ℚ)⌉ ∧
      1 ≤ t.grid_dim ∧
      (1000 : Int) - 0 ≤ t.grid_dim * t.block_dim ∧
      (t.grid_dim - 1) * t.block_dim < (1000 : Int) - 0 :=
  gpu_range_for_launch_shape example_gpu_kernel_builder (gpu_range_for_task_result 0 1000 0)
    none 100 read_index_body 0 1000 false 0 none 256 rfl rfl rfl (by decide) (by decide)
    (by decide) (result_or_spec _ _ (by decide!))

/-- Counterexample to C19: for `begin = 0`, `end = 2147483647` and block size 0 the sum
`end - begin + 256 - 1` wraps around, and the task is given the grid dimension
-8388607 with blocks of 256 threads. -/
theorem gpu_range_for_grid_dim_overflows :
    (0 : Int) < 2147483647 ∧
    visit (.OffloadedStmt 100 .range_for read_index_body 0 2147483647 false 0 none) none
        example_gpu_kernel_builder
      = .ok (gpu_range_for_task_result 0 2147483647 0) ∧
    (gpu_range_for_task_result 0 2147483647 0).offloaded_tasks.map
        (fun t => (t.grid_dim, t.block_dim)) = [(-8388607, 256)] ∧
    ¬ ((1 : Int) ≤ -8388607) :=
  ⟨by decide, result_or_spec _ _ (by decide!), by decide!, by decide⟩

theorem offload_dispatch_gpu_struct_for_eq (cg cg3 : CodeGen) (begin_ end_ : Int)
    (block_size : Int) (snode : Option SNode) (accept_body : CodeGen → Except Err CodeGen)
    (h : cg.offload_dispatch_gpu .struct_for begin_ end_ block_size snode accept_body
      = .ok cg3) :
    ∃ (sn leaf : SNode) (c0 : CodeGen), snode = some sn ∧ sn.parent = some leaf ∧
      c0.kernel_dims = (wrap32 (cg.num_SMs * 32),
        CodeGen.struct_for_block_dim cg.max_block_dim leaf.max_num_elements block_size) ∧
      c0.create_offload_struct_for snode
        (CodeGen.struct_for_block_dim cg.max_block_dim leaf.max_num_elements block_size)
        true accept_body = .ok cg3 := by
  cases snode with
  | none => cases h
  | some sn =>
    cases hp : sn.parent with
    | none =>
      unfold CodeGen.offload_dispatch_gpu at h
      simp only [deref, hp, bind, Except.bind, pure, Except.pure, UNDEFINED] at h
      cases h
    | some leaf =>
      unfold CodeGen.offload_dispatch_gpu at h
      simp only [deref, hp, bind, Except.bind, pure, Except.pure] at h
      refine ⟨sn, leaf, _, rfl, hp, ?_, h⟩
      rfl

theorem visit_OffloadedStmt_gpu_struct_for_eq (cg cg2 : CodeGen) (id : Nat)
    (begin_ end_ : Int) (block_size : Int) (snode : Option SNode)
    (accept_body : CodeGen → Except Err CodeGen)
    (h : cg.visit_OffloadedStmt_gpu id .struct_for begin_ end_ block_size snode accept_body
      = .ok cg2) :
    ∃ (sn leaf : SNode) (cg3 : CodeGen), snode = some sn ∧ sn.parent = some leaf ∧
      (cg.gpu_struct_for_state id
        (CodeGen.struct_for_block_dim cg.max_block_dim leaf.max_num_elements
          block_size)).create_offload_struct_for snode
        (CodeGen.struct_for_block_dim cg.max_block_dim leaf.max_num_elements block_size)
        true accept_body = .ok cg3 ∧
      cg3.gpu_task_end = .ok cg2 ∧
      (({ cg with kernel_grid_dim := 1, kernel_block_dim := 1 } : CodeGen).init_task_function
        id).offload_dispatch_gpu .struct_for begin_ end_ block_size snode accept_body
        = .ok cg3 := by
  unfold CodeGen.visit_OffloadedStmt_gpu at h
  obtain ⟨cg3, h3, h4⟩ := bind_eq_ok _ _ _ h
  cases snode with
  | none => cases h3
  | some sn =>
    cases hp : sn.parent with
    | none =>
      unfold CodeGen.offload_dispatch_gpu at h3
      simp only [deref, hp, bind, Except.bind, pure, Except.pure, UNDEFINED] at h3
      cases h3
    | some leaf =>
      have h5 := h3
      unfold CodeGen.offload_dispatch_gpu at h3
      simp only [deref, hp, bind, Except.bind, pure, Except.pure] at h3
      exact ⟨sn, leaf, cg3, rfl, hp, h3, h4, h5⟩

theorem create_offload_struct_for_inv (cg cg3 : CodeGen) (snode : Option SNode)
    (block_size : Int) (spmd : Bool) (accept_body : CodeGen → Except Err CodeGen)
    (h : cg.create_offload_struct_for snode block_size spmd accept_body = .ok cg3) :
    ∃ (sn leaf lp : SNode) (c2 : CodeGen), snode = some sn ∧ sn.parent = some leaf ∧
      leaf.parent = some lp ∧ block_size ≠ 0 ∧
      accept_body
        (cg.struct_for_body_state spmd (.function leaf.refine_coordinates_func_name))
        = .ok c2 ∧
      cg3 = ((c2.struct_for_leave (cg.struct_for_enter spmd).1 spmd).CreateCall
          (.function "for_each_block")
          [.arg 0, CodeGen.get_constant lp.id,
           CodeGen.get_constant leaf.max_num_elements,
           CodeGen.get_constant (cdiv leaf.max_num_elements block_size),
           .function "loop_body"]).2 := by
  unfold CodeGen.create_offload_struct_for at h
  obtain ⟨sn, hsn, h⟩ := bind_eq_ok _ _ _ h
  obtain ⟨leaf, hleaf, h⟩ := bind_eq_ok _ _ _ h
  dsimp only at h
  obtain ⟨refine, hrf, h⟩ := bind_eq_ok _ _ _ h
  obtain ⟨c2, hc, h⟩ := bind_eq_ok _ _ _ h
  obtain ⟨ns, hns, h⟩ := bind_eq_ok _ _ _ h
  obtain ⟨lp, hlp, h⟩ := bind_eq_ok _ _ _ h
  obtain ⟨p, hp, h⟩ := bind_eq_ok _ _ _ h
  have hrf2 : refine = .function leaf.refine_coordinates_func_name := by
    unfold CodeGen.get_runtime_function at hrf
    split at hrf
    · injection hrf with hrf
      exact hrf.symm
    · cases hrf
  have hbs : block_size ≠ 0 := by
    intro h0
    unfold checked_div at hns
    rw [if_pos h0] at hns
    cases hns
  have hns2 : ns = cdiv leaf.max_num_elements block_size := by
    unfold checked_div at hns
    rw [if_neg hbs] at hns
    injection hns with hns
    exact hns.symm
  unfold CodeGen.create_call at hp
  obtain ⟨f, hf, hp⟩ := bind_eq_ok _ _ _ hp
  have hf2 : f = .function "for_each_block" := by
    unfold CodeGen.get_runtime_function at hf
    split at hf
    · injection hf with hf
      exact hf.symm
    · cases hf
  injection hp with hp
  injection h with hfin
  subst hrf2 hns2 hf2
  refine ⟨sn, leaf, lp, c2, deref_eq_ok _ _ hsn, deref_eq_ok _ _ hleaf,
    deref_eq_ok _ _ hlp, hbs, hc, ?_⟩
  rw [← hfin, ← hp]
  rfl

/-- C20: for the GPU offloaded struct-for over the leaf block `leaf` (the parent of the
statement's node), on a device whose `32 * num_SMs` is within the range of `int`, the
visit appends to the tasks one task with `grid_dim = 32 * num_SMs` and
`block_dim = min(leaf.max_num_elements, b)`, where `b` is `stmt.block_size` when that
is not 0 and `maxBlockDimX` otherwise.  The overwritten `stmt.block_size` is what the
rest of the visit reads: the result `cg2` of the visit is the end of the task
(`gpu_task_end`) applied to the result `cg3` of `create_offload_struct_for` called, in
the state the visit has reached (`gpu_struct_for_state`), with that `block_dim` as block
size, and `cg3` ends with the call of `for_each_block` whose `num_splits` argument is
`leaf.max_num_elements / block_dim`; in particular `block_dim` is not 0.  When
`leaf.max_num_elements >= 1`, `maxBlockDimX >= 1` and `stmt.block_size >= 0`, then
`1 <= block_dim <= leaf.max_num_elements`. -/
theorem gpu_struct_for_launch_shape (cg cg2 : CodeGen) (mask : Option StmtRef) (id : Nat)
    (body : Block) (begin_ end_ : Int) (reversed : Bool) (block_size : Int)
    (snode : Option SNode)
    (hgpu : cg.gpu = true) (hbody : body.offload_free = true)
    (hsm0 : INT_MIN ≤ 32 * cg.num_SMs) (hsm : 32 * cg.num_SMs ≤ INT_MAX)
    (h : visit (.OffloadedStmt id .struct_for body begin_ end_ reversed block_size snode)
      mask cg = .ok cg2) :
    ∃ (sn leaf : SNode) (t : OffloadedTask) (b : Int),
      snode = some sn ∧ sn.parent = some leaf ∧
      cg2.offloaded_tasks = cg.offloaded_tasks ++ [t] ∧
      t.grid_dim = 32 * cg.num_SMs ∧
      b = (if block_size = 0 then cg.max_block_dim else block_size) ∧
      t.block_dim = min leaf.max_num_elements b ∧
      (∃ (lp : SNode) (c2 cg3 : CodeGen), leaf.parent = some lp ∧ t.block_dim ≠ 0 ∧
        (cg.gpu_struct_for_state id t.block_dim).create_offload_struct_for snode
          t.block_dim true (fun c => visitBlock body c) = .ok cg3 ∧
        visitBlock body ((cg.gpu_struct_for_state id t.block_dim).struct_for_body_state
          true (.function leaf.refine_coordinates_func_name)) = .ok c2 ∧
        cg3 = ((c2.struct_for_leave
            ((cg.gpu_struct_for_state id t.block_dim).struct_for_enter true).1
            true).CreateCall (.function "for_each_block")
            [.arg 0, CodeGen.get_constant lp.id,
             CodeGen.get_constant leaf.max_num_elements,
             CodeGen.get_constant (cdiv leaf.max_num_elements t.block_dim),
             .function "loop_body"]).2 ∧
        cg3.gpu_task_end = .ok cg2) ∧
      (1 ≤ leaf.max_num_elements → 1 ≤ cg.max_block_dim → 0 ≤ block_size →
        1 ≤ t.block_dim ∧ t.block_dim ≤ leaf.max_num_elements) := by
  have hb : ∀ c b, c.bookkeeping = b.bookkeeping → Framed (visitBlock body c) b :=
    fun c b hcb => visitBlock_frame body c b hbody hcb
  rw [visit, if_pos hgpu] at h
  obtain ⟨cg3a, h3a, ht⟩ := visit_OffloadedStmt_gpu_task cg cg2 _ _ _ _ _ _ _ hb h
  obtain ⟨sn, leaf, cg3, hsn, hleaf, h3, hend, hdisp⟩ :=
    visit_OffloadedStmt_gpu_struct_for_eq cg cg2 _ _ _ _ _ _ h
  have he3 : cg3a = cg3 := by
    rw [hdisp] at h3a
    injection h3a with e
    exact e.symm
  subst he3
  have hd := create_offload_struct_for_dims _ cg3a _ _ _ _ hb h3
  have hw : wrap32 (cg.num_SMs * 32) = 32 * cg.num_SMs := by
    rw [mul_comm]
    exact wrap32_of_range _ hsm0 hsm
  have hg : cg3a.kernel_dims.1 = 32 * cg.num_SMs := by
    rw [hd]
    exact hw
  have hbd : cg3a.kernel_dims.2
      = CodeGen.struct_for_block_dim cg.max_block_dim leaf.max_num_elements block_size := by
    rw [hd]
    rfl
  obtain ⟨sn2, leaf2, lp, c2, hsn2, hleaf2, hlp, hne, hacc, hcg3⟩ :=
    create_offload_struct_for_inv _ cg3a _ _ _ _ h3
  have e1 : sn2 = sn := by
    rw [hsn] at hsn2
    injection hsn2 with e
    exact e.symm
  subst e1
  have e2 : leaf2 = leaf := by
    rw [hleaf] at hleaf2
    injection hleaf2 with e
    exact e.symm
  subst e2
  refine ⟨sn2, leaf2, _, _, hsn, hleaf, ht, hg, rfl, ?_, ⟨lp, c2, cg3a, hlp, ?_, ?_, ?_, ?_,
    hend⟩, ?_⟩
  · show cg3a.kernel_dims.2 = _
    rw [hbd]
    rfl
  · show cg3a.kernel_dims.2 ≠ 0
    rw [hbd]
    exact hne
  · show CodeGen.create_offload_struct_for
      (cg.gpu_struct_for_state id cg3a.kernel_dims.2) snode cg3a.kernel_dims.2 true _ = _
    rw [hbd]
    exact h3
  · show visitBlock body ((cg.gpu_struct_for_state id cg3a.kernel_dims.2).struct_for_body_state
      true _) = _
    rw [hbd]
    exact hacc
  · show cg3a = ((c2.struct_for_leave
      ((cg.gpu_struct_for_state id cg3a.kernel_dims.2).struct_for_enter true).1
      true).CreateCall _ [_, _, _, CodeGen.get_constant (cdiv _ cg3a.kernel_dims.2), _]).2
    rw [hbd]
    exact hcg3
  · intro h1 h2 h0
    show 1 ≤ cg3a.kernel_dims.2 ∧ cg3a.kernel_dims.2 ≤ _
    rw [hbd]
    unfold CodeGen.struct_for_block_dim
    refine ⟨le_min h1 ?_, min_le_left _ _⟩
    split
    · exact h2
    · omega

/-- Witness of C20: a struct-for over a leaf block of 16 elements with block size 0 on a
device with one SM and `maxBlockDimX = 1024` is launched with 32 blocks of 16 threads;
its body block calls `for_each_block` with `num_splits = 16 / 16 = 1`, the quotient by
the overwritten block size (the division by the original block size 0 is undefined). -/
theorem gpu_struct_for_launch_shape_witness :
    (∃ (sn leaf : SNode) (t : OffloadedTask) (b : Int),
      some example_place_snode = some sn ∧ sn.parent = some leaf ∧
      (gpu_struct_for_task_result 0).offloaded_tasks
        = struct_for_gpu_builder.offloaded_tasks ++ [t] ∧
      t.grid_dim = 32 * struct_for_gpu_builder.num_SMs ∧
      b = (if (0 : Int) = 0 then struct_for_gpu_builder.max_block_dim else 0) ∧
      t.block_dim = min leaf.max_num_elements b ∧
      (∃ (lp : SNode) (c2 cg3 : CodeGen), leaf.parent = some lp ∧ t.block_dim ≠ 0 ∧
        (struct_for_gpu_builder.gpu_struct_for_state 100
          t.block_dim).create_offload_struct_for (some example_place_snode)
          t.block_dim true (fun c => visitBlock read_coordinate_body c) = .ok cg3 ∧
        visitBlock read_coordinate_body
          ((struct_for_gpu_builder.gpu_struct_for_state 100
            t.block_dim).struct_for_body_state
          true (.function leaf.refine_coordinates_func_name)) = .ok c2 ∧
        cg3 = ((c2.struct_for_leave
            ((struct_for_gpu_builder.gpu_struct_for_state 100
              t.block_dim).struct_for_enter true).1
            true).CreateCall (.function "for_each_block")
            [.arg 0, CodeGen.get_constant lp.id,
             CodeGen.get_constant leaf.max_num_elements,
             CodeGen.get_constant (cdiv leaf.max_num_elements t.block_dim),
             .function "loop_body"]).2 ∧
        cg3.gpu_task_end = .ok (gpu_struct_for_task_result 0)) ∧
      (1 ≤ leaf.max_num_elements → 1 ≤ struct_for_gpu_builder.max_block_dim →
        (0 : Int) ≤ 0 → 1 ≤ t.block_dim ∧ t.block_dim ≤ leaf.max_num_elements)) ∧
    (gpu_struct_for_task_result 0).offloaded_tasks.map (fun t => (t.grid_dim, t.block_dim))
      = [(32, 16)] ∧
    ((gpu_struct_for_task_result 0).blocks.get? 1).map (fun b => b.insts)
      = some [.call 15 (.function "for_each_block")
                [.arg 0, .const_int .i32 0, .const_int .i32 16, .const_int .i32 1,
                 .function "loop_body"],
              .ret_void] :=
  ⟨gpu_struct_for_launch_shape struct_for_gpu_builder (gpu_struct_for_task_result 0) none
    100 read_coordinate_body 0 0 false 0 (some example_place_snode) rfl rfl (by decide)
    (by decide) (result_or_spec _ _ (by decide!)), by decide!, by decide!⟩

/-- C22 (defect of the code): the assertion of the bit cast compares the byte size of
the statement's own return type with that of the cast target; the type of the operand is
not looked at.  For a target the type bridge maps, the bit cast of the operand's value
is emitted exactly when the return type and the target have the same size, whatever the
type of the operand. -/
theorem bit_cast_checks_return_type_not_operand (cg : CodeGen) (mask : Option StmtRef)
    (id : Nat) (ret_type : VectorType) (operand : StmtRef) (cast_type : DataType)
    (ty : LType) (hty : get_data_type cast_type = .ok ty) :
    visit (.UnaryOpStmt id ret_type .cast operand false cast_type) mask cg
      = if data_type_size ret_type.data_type = data_type_size cast_type then
          .ok ((cg.CreateBitCast (cg.value operand) ty).2.setValue id (.inst cg.next_id))
        else .error .assertion_failed := by
  unfold visit CodeGen.visit_UnaryOpStmt
  by_cases hs : data_type_size ret_type.data_type = data_type_size cast_type
  · simp [hs, hty, TC_ASSERT, bind, Except.bind, pure, Except.pure, CodeGen.CreateBitCast,
      CodeGen.CreateCast, emitValue_fst]
  · simp [hs, TC_ASSERT, bind, Except.bind]

/-- Witness of C22: an operand of type f64 (8 bytes) is bit cast to i32 (4 bytes) when
the statement's return type is i32, and an operand of type i32 is rejected for the target
i32 when the statement's return type is f64. -/
theorem bit_cast_checks_return_type_not_operand_witness :
    data_type_size (ref_f64 0).ret_type.data_type ≠ data_type_size .i32 ∧
    visit (.UnaryOpStmt 2 i32x1 .cast (ref_f64 0) false .i32) none example_builder
      = .ok ((example_builder.CreateBitCast (example_builder.value (ref_f64 0)) .i32).2.setValue
          2 (.inst example_builder.next_id)) ∧
    visit (.UnaryOpStmt 2 { data_type := .f64 } .cast (ref 0) false .i32) none example_builder
      = .error .assertion_failed :=
  ⟨by decide,
   (bit_cast_checks_return_type_not_operand example_builder none 2 i32x1 (ref_f64 0) .i32 .i32
      rfl).trans (if_pos rfl),
   (bit_cast_checks_return_type_not_operand example_builder none 2 { data_type := .f64 }
      (ref 0) .i32 .i32 rfl).trans (if_neg (by decide))⟩

theorem for_lanes_one (lane : CodeGen → Except Err CodeGen) (cg : CodeGen) :
    CodeGen.for_lanes lane 1 cg = lane cg := by
  unfold CodeGen.for_lanes
  cases lane cg <;> rfl

/-- C23, amended: on the host backend an unmasked `AtomicOpStmt` of width 1 whose op is
not `add` fails an assertion; for `add`, a value of type i32 is lowered to one atomic
read-modify-write add, a value of type f32 to one call of `atomic_add_cpu_f32` and a
value of type f64 to one call of `atomic_add_cpu_f64` (the helper being in the runtime
module), and a value of every other type, the integral types i1, i64 and u32 included,
fails with the not-implemented error.  The GPU backend lowers `add` on a value of every
integral type to the atomic read-modify-write add. -/
theorem host_atomic_add_by_value_type (cg : CodeGen) (id : Nat) (ret_type : VectorType)
    (op_type : AtomicOpType) (dest val : StmtRef) (hw : ret_type.width = 1) :
    (cg.gpu = false → op_type ≠ .add →
      visit (.AtomicOpStmt id ret_type op_type dest val) none cg
        = .error .assertion_failed) ∧
    (cg.gpu = false → op_type = .add → val.ret_type.data_type = .i32 →
      visit (.AtomicOpStmt id ret_type op_type dest val) none cg
        = .ok (cg.emitValue
            (fun r => .atomicrmw_add r (cg.value dest) (cg.value val))).2) ∧
    (cg.gpu = false → op_type = .add → val.ret_type.data_type = .f32 →
      "atomic_add_cpu_f32" ∈ cg.runtime_module →
      visit (.AtomicOpStmt id ret_type op_type dest val) none cg
        = .ok (cg.CreateCall (.function "atomic_add_cpu_f32")
            [cg.value dest, cg.value val]).2) ∧
    (cg.gpu = false → op_type = .add → val.ret_type.data_type = .f64 →
      "atomic_add_cpu_f64" ∈ cg.runtime_module →
      visit (.AtomicOpStmt id ret_type op_type dest val) none cg
        = .ok (cg.CreateCall (.function "atomic_add_cpu_f64")
            [cg.value dest, cg.value val]).2) ∧
    (cg.gpu = false → op_type = .add →
      val.ret_type.data_type ∉ [DataType.i32, .f32, .f64] →
      visit (.AtomicOpStmt id ret_type op_type dest val) none cg
        = .error .not_implemented) ∧
    (cg.gpu = true → op_type = .add → is_integral val.ret_type.data_type = true →
      visit (.AtomicOpStmt id ret_type op_type dest val) none cg
        = .ok (cg.emitValue
            (fun r => .atomicrmw_add r (cg.value dest) (cg.value val))).2) := by
  obtain ⟨vid, ⟨dt, vw⟩⟩ := val
  have hn : ret_type.width.toNat = 1 := by rw [hw]; rfl
  have hv : visit (.AtomicOpStmt id ret_type op_type dest
        { id := vid, ret_type := { data_type := dt, width := vw } }) none cg
      = if cg.gpu then cg.atomic_lane_gpu none op_type dest
            { id := vid, ret_type := { data_type := dt, width := vw } }
        else cg.atomic_lane_host none op_type dest
            { id := vid, ret_type := { data_type := dt, width := vw } } := by
    unfold visit CodeGen.visit_AtomicOpStmt
    rw [hn]
    split
    · exact for_lanes_one _ cg
    · exact for_lanes_one _ cg
  rw [hv]
  refine ⟨fun hg ho => ?_, fun hg ho hd => ?_, fun hg ho hd hm => ?_,
    fun hg ho hd hm => ?_, fun hg ho hd => ?_, fun hg ho hd => ?_⟩
  · rw [hg]
    cases op_type <;> first | exact absurd rfl ho | rfl
  · dsimp only at hd
    subst ho hd
    rw [hg]
    rfl
  · dsimp only at hd
    subst ho hd
    rw [hg]
    simp [CodeGen.atomic_lane_host, TC_ASSERT, CodeGen.get_runtime_function, hm, bind,
      Except.bind, pure, Except.pure]
  · dsimp only at hd
    subst ho hd
    rw [hg]
    simp [CodeGen.atomic_lane_host, TC_ASSERT, CodeGen.get_runtime_function, hm, bind,
      Except.bind, pure, Except.pure]
  · dsimp only at hd
    subst ho
    rw [hg]
    cases dt <;> first | (exfalso; apply hd; decide) | rfl
  · dsimp only at hd
    subst ho
    rw [hg]
    simp [CodeGen.atomic_lane_gpu, TC_ASSERT, hd, bind, Except.bind, pure, Except.pure]

/-- Witness of C23 (amended): on the host an atomic add of an i32 value is one atomic
read-modify-write add. -/
theorem host_atomic_add_by_value_type_witness :
    visit (.AtomicOpStmt 2 i32x1 .add (ref 0) (ref 1)) none example_builder
      = .ok (example_builder.emitValue (fun r =>
          .atomicrmw_add r (example_builder.value (ref 0)) (example_builder.value (ref 1)))).2 :=
  (host_atomic_add_by_value_type example_builder 2 i32x1 .add (ref 0) (ref 1) rfl).2.1
    rfl rfl rfl

/-- Counterexample to C23: i64 is an integral type; the host backend rejects an atomic
add of an i64 value, the GPU backend lowers it to the atomic read-modify-write add. -/
theorem host_atomic_add_of_i64_is_rejected :
    is_integral (ref_i64 1).ret_type.data_type = true ∧
    visit (.AtomicOpStmt 2 { data_type := .i64 } .add (ref 0) (ref_i64 1)) none example_builder
      = .error .not_implemented ∧
    visit (.AtomicOpStmt 2 { data_type := .i64 } .add (ref 0) (ref_i64 1)) none
        example_gpu_builder
      = .ok (example_gpu_builder.emitValue (fun r => .atomicrmw_add r
          (example_gpu_builder.value (ref 0)) (example_gpu_builder.value (ref_i64 1)))).2 :=
  ⟨rfl, rfl, rfl⟩

/-- C26 (defect of the code): on the host backend a struct-for task whose `block_size`
is the unset value 0, over a leaf block with `max_num_elements >= 1`, is clamped to
`min(leaf.max_num_elements, 0) = 0`, and `num_splits = leaf.max_num_elements / 0` divides
by zero: once the `loop_body` function has been emitted, the leaf block's
`refine_coordinates` function being in the runtime module and the visit of the body
having succeeded, the behaviour of the code generator is undefined. -/
theorem host_struct_for_unset_block_size_divides_by_zero (cg cgb : CodeGen)
    (mask : Option StmtRef) (id : Nat) (body : Block) (begin_ end_ : Int) (reversed : Bool)
    (sn leaf : SNode) (hhost : cg.gpu = false) (hleaf : sn.parent = some leaf)
    (hmax : 1 ≤ leaf.max_num_elements)
    (hrefine : leaf.refine_coordinates_func_name ∈ cg.runtime_module)
    (hbody : visitBlock body (cg.host_struct_for_body_state id leaf) = .ok cgb) :
    min leaf.max_num_elements 0 = 0 ∧
    checked_div leaf.max_num_elements (min leaf.max_num_elements 0)
      = .error .undefined_behaviour ∧
    visit (.OffloadedStmt id .struct_for body begin_ end_ reversed 0 (some sn)) mask cg
      = .error .undefined_behaviour := by
  have hmin : min leaf.max_num_elements 0 = 0 := min_eq_right (by omega)
  have hdiv : checked_div leaf.max_num_elements (min leaf.max_num_elements 0)
      = .error .undefined_behaviour := by
    rw [hmin]
    rfl
  refine ⟨hmin, hdiv, ?_⟩
  have hr : (((cg.init_task_function id).struct_for_enter false).2).get_runtime_function
      leaf.refine_coordinates_func_name = .ok (.function leaf.refine_coordinates_func_name) :=
    get_runtime_function_ok _ _ (by
      have e : ((cg.init_task_function id).struct_for_enter false).2.runtime_module
          = cg.runtime_module := rfl
      rw [e]
      exact hrefine)
  unfold CodeGen.host_struct_for_body_state at hbody
  rw [visit, if_neg (by rw [hhost]; decide)]
  unfold CodeGen.visit_OffloadedStmt_host CodeGen.offload_dispatch_host
    CodeGen.create_offload_struct_for
  simp only [deref, hleaf, bind, Except.bind, pure, Except.pure, hr, hbody, hdiv]

/-- Witness of C26: a host struct-for task with block size 0 over a leaf block of 16
elements. -/
theorem host_struct_for_unset_block_size_divides_by_zero_witness :
    min example_dense_snode.max_num_elements 0 = 0 ∧
    checked_div example_dense_snode.max_num_elements
        (min example_dense_snode.max_num_elements 0)
      = .error .undefined_behaviour ∧
    visit (.OffloadedStmt 100 .struct_for read_coordinate_body 0 0 false 0
        (some example_place_snode)) none struct_for_host_builder
      = .error .undefined_behaviour :=
  host_struct_for_unset_block_size_divides_by_zero struct_for_host_builder
    host_struct_for_body_result none 100 read_coordinate_body 0 0 false example_place_snode
    example_dense_snode rfl rfl (by decide) (by decide) (result_or_spec _ _ (by decide!))

theorem own_launch_shape_congr (a b : CodeGen) (s : Stmt)
    (h1 : a.default_gpu_block_size = b.default_gpu_block_size) (h2 : a.num_SMs = b.num_SMs)
    (h3 : a.max_block_dim = b.max_block_dim) :
    a.own_launch_shape s = b.own_launch_shape s := by
  unfold CodeGen.own_launch_shape
  rw [h1, h2, h3]

theorem taskAdded_config (cg cg2 : CodeGen) (h : TaskAdded cg cg2) :
    cg2.default_gpu_block_size = cg.default_gpu_block_size ∧ cg2.num_SMs = cg.num_SMs ∧
    cg2.max_block_dim = cg.max_block_dim := by
  obtain ⟨t, extra, _, _, ht, _, _⟩ := h
  have e1 := congrArg CodeGen.default_gpu_block_size ht
  have e2 := congrArg CodeGen.num_SMs ht
  have e3 := congrArg CodeGen.max_block_dim ht
  exact ⟨e1, e2, e3⟩

theorem visit_task_gpu_shape (s : Stmt) (mask : Option StmtRef) (cg cg2 : CodeGen)
    (hgpu : cg.gpu = true) (hs : s.is_task = true) (h : visit s mask cg = .ok cg2) :
    ∃ t : OffloadedTask, cg2.offloaded_tasks = cg.offloaded_tasks ++ [t] ∧
      cg.own_launch_shape s = some (t.grid_dim, t.block_dim) := by
  cases s
  case OffloadedStmt id task_type body begin_ end_ reversed block_size snode =>
    have hbf : body.offload_free = true := hs
    have hb : ∀ c b, c.bookkeeping = b.bookkeeping → Framed (visitBlock body c) b :=
      fun c b hcb => visitBlock_frame body c b hbf hcb
    rw [visit, if_pos hgpu] at h
    obtain ⟨cg3, h3, ht⟩ := visit_OffloadedStmt_gpu_task cg cg2 _ _ _ _ _ _ _ hb h
    refine ⟨_, ht, ?_⟩
    show _ = some cg3.kernel_dims
    cases task_type with
    | serial =>
      have hf := kernel_dims_of_bookkeeping _ _ (hb _ _ rfl cg3 h3)
      rw [hf]
      rfl
    | range_for =>
      have hr := create_offload_range_for_gpu_dims _ cg3 begin_ end_ block_size _ hb h3
      exact hr
    | struct_for =>
      obtain ⟨sn, leaf, c0, hsn, hleaf, hc0, h4⟩ :=
        offload_dispatch_gpu_struct_for_eq _ cg3 _ _ _ _ _ h3
      have hd := create_offload_struct_for_dims _ cg3 _ _ _ _ hb h4
      rw [hd, hc0, hsn]
      unfold CodeGen.own_launch_shape
      simp only [hleaf]
      rfl
    | listgen =>
      have hf := kernel_dims_of_bookkeeping _ _ (emit_list_gen_frame _ _ rfl snode cg3 h3)
      rw [hf]
      rfl
  all_goals (exact absurd hs (by simp [Stmt.is_task]))

theorem visitStmts_gpu_shapes : ∀ (ss : List Stmt) (mask : Option StmtRef) (cg cg2 : CodeGen),
    cg.gpu = true → ss.all Stmt.is_task = true → visitStmts ss mask cg = .ok cg2 →
    ∃ ts : List OffloadedTask, cg2.offloaded_tasks = cg.offloaded_tasks ++ ts ∧
      ss.map cg.own_launch_shape = ts.map (fun t => some (t.grid_dim, t.block_dim))
  | [], mask, cg, cg2, _, _, h => by
    rw [visitStmts] at h
    injection h with h
    subst h
    exact ⟨[], by simp, rfl⟩
  | s :: rest, mask, cg, cg2, hgpu, hw, h => by
    rw [visitStmts] at h
    obtain ⟨cg1, h1, h2⟩ := bind_eq_ok _ _ _ h
    rw [List.all_cons, Bool.and_eq_true] at hw
    have hta := visit_task_taskAdded s mask cg cg1 hw.1 h1
    obtain ⟨_, _, _, _, _, _, hg, _⟩ := taskAdded_fields cg cg1 hta
    obtain ⟨e1, e2, e3⟩ := taskAdded_config cg cg1 hta
    obtain ⟨t, hot, hsh⟩ := visit_task_gpu_shape s mask cg cg1 hgpu hw.1 h1
    obtain ⟨ts, iot, ish⟩ :=
      visitStmts_gpu_shapes rest mask cg1 cg2 (hg.trans hgpu) hw.2 h2
    refine ⟨t :: ts, ?_, ?_⟩
    · rw [iot, hot]; simp
    · rw [List.map_cons, List.map_cons, hsh, ← ish]
      congr 1
      apply List.map_congr_left
      intro x _
      exact own_launch_shape_congr cg cg1 x e1.symm e2.symm e3.symm

/-- C28: on the GPU backend, for a kernel whose root block consists of `OffloadedStmt`s
(none holding a further one) and whose lowering succeeds, the `(grid_dim, block_dim)`
recorded on the task of each statement is the shape computed from that statement alone
(`own_launch_shape`, which reads the statement and the configuration only), one call of
the assembled kernel launches each task with the shape recorded on it, and the task of
every serial and of every listgen statement has `grid_dim = 1` and `block_dim = 1`,
whatever tasks were lowered before it. -/
theorem gpu_tasks_launch_with_own_shape (base : CodeGen) (kernel : Kernel) (cg : CodeGen)
    (hwf : kernel.well_formed = true) (h : lower base true kernel = .ok cg) :
    kernel.root_statements.map base.own_launch_shape
      = cg.offloaded_tasks.map (fun t => some (t.grid_dim, t.block_dim)) ∧
    CodeGen.gen_and_call base true kernel
      = .ok (cg.offloaded_tasks.map (fun t => Launch.launch t.name t.grid_dim t.block_dim)) ∧
    (∀ (i : Nat) (s : Stmt) (t : OffloadedTask), kernel.root_statements[i]? = some s →
      cg.offloaded_tasks[i]? = some t → s.is_unit_task = true →
      t.grid_dim = 1 ∧ t.block_dim = 1) := by
  obtain ⟨hn, hfn, _, _, hx⟩ := lower_tasks base true kernel cg hwf h
  have hl : CodeGen.gen_and_call base true kernel
      = .ok (cg.offloaded_tasks.map (fun t => Launch.launch t.name t.grid_dim t.block_dim)) :=
    gen_and_call_launches base true kernel cg h hfn (hx.trans hn.symm)
  have hshape : kernel.root_statements.map base.own_launch_shape
      = cg.offloaded_tasks.map (fun t => some (t.grid_dim, t.block_dim)) := by
    have h2 := h
    unfold lower CodeGen.emit_to_module at h2
    unfold Kernel.well_formed at hwf
    unfold Kernel.root_statements at hwf ⊢
    cases hk : kernel.ir with
    | mk mask ss =>
      rw [hk] at h2 hwf
      rw [visitBlock] at h2
      obtain ⟨ts, hot, hsh⟩ := visitStmts_gpu_shapes ss mask _ cg rfl hwf h2
      have e0 : (CodeGen.create base true kernel).offloaded_tasks = [] := rfl
      rw [e0, List.nil_append] at hot
      rw [hot, ← hsh]
      apply List.map_congr_left
      intro x _
      exact own_launch_shape_congr _ _ x rfl rfl rfl
  refine ⟨hshape, hl, ?_⟩
  intro i s t hs ht hu
  have e1 : (kernel.root_statements.map base.own_launch_shape)[i]?
      = some (base.own_launch_shape s) := by
    rw [List.getElem?_map, hs]
    rfl
  have e2 : (cg.offloaded_tasks.map (fun t => some (t.grid_dim, t.block_dim)))[i]?
      = some (some (t.grid_dim, t.block_dim)) := by
    rw [List.getElem?_map, ht]
    rfl
  rw [hshape, e2] at e1
  have e3 : base.own_launch_shape s = some (1, 1) := by
    cases s
    case OffloadedStmt id task_type body begin_ end_ reversed block_size snode =>
      cases task_type
      · rfl
      · exact absurd hu (by simp [Stmt.is_unit_task])
      · exact absurd hu (by simp [Stmt.is_unit_task])
      · rfl
    all_goals (exact absurd hu (by simp [Stmt.is_unit_task]))
  rw [e3] at e1
  injection e1 with e1
  injection e1 with e1
  injection e1 with e4 e5
  exact ⟨e4, e5⟩

/-- Witness of C28: in `mixed_shape_kernel` the two serial tasks are launched with one
block of one thread, after range-for tasks launched with 8 blocks of 128 and 4 blocks of
256 threads. -/
theorem gpu_tasks_launch_with_own_shape_witness :
    mixed_shape_kernel.well_formed = true ∧
    lower example_base true mixed_shape_kernel
      = .ok (lowered example_base true mixed_shape_kernel) ∧
    CodeGen.gen_and_call example_base true mixed_shape_kernel
      = .ok ((lowered example_base true mixed_shape_kernel).offloaded_tasks.map
          (fun t => Launch.launch t.name t.grid_dim t.block_dim)) ∧
    (lowered example_base true mixed_shape_kernel).offloaded_tasks.map
        (fun t => some (t.grid_dim, t.block_dim))
      = [some (8, 128), some (1, 1), some (4, 256), some (1, 1)] :=
  have hw : mixed_shape_kernel.well_formed = true := by decide
  have hl := lowered_spec example_base true mixed_shape_kernel (by decide!)
  have ht := gpu_tasks_launch_with_own_shape example_base mixed_shape_kernel _ hw hl
  ⟨hw, hl, ht.2.1, ht.1.symm.trans (by decide!)⟩

/-- C24 (defect of the code): for a dense snode the node pointer passed to
`Dense_lookup_element` is not the parent computed at the head of the visitor but
`stmt->input_snode->value`.  Without an input snode the visitor computes the parent from
the root buffer, emits the meta struct, and then dereferences the null `input_snode`:
the behaviour of the code generator is undefined. -/
theorem dense_lookup_without_input_snode_is_undefined (cg : CodeGen)
    (mask : Option StmtRef) (id : Nat) (snode : SNode) (input_index : StmtRef)
    (activate : Bool) (s : Value) (c : CodeGen)
    (hd : snode.type = .dense) (hroot : "Context_get_buffer" ∈ cg.runtime_module)
    (hnull : (!activate && snode.has_null) = false)
    (hmeta : cg.root_parent_state.emit_struct_meta snode = .ok (s, c)) :
    visit (.SNodeLookupStmt id none snode input_index activate) mask cg
      = .error .undefined_behaviour := by
  have hne : snode.type ≠ .root := by rw [hd]; decide
  unfold CodeGen.root_parent_state at hmeta
  unfold visit CodeGen.visit_SNodeLookupStmt CodeGen.get_root
  simp only [CodeGen.get_runtime_function, if_pos hroot, bind, Except.bind, pure,
    Except.pure, CodeGen.CreateBitCast, CodeGen.CreateCast, emitValue_fst, TC_ASSERT, hnull,
    if_neg hne, hd]
  simp only [CodeGen.CreateBitCast, CodeGen.CreateCast, emitValue_fst] at hmeta
  simp [hmeta, UNDEFINED]

/-- Witness of C24: the lookup of `example_dense_snode` without an input snode. -/
theorem dense_lookup_without_input_snode_is_undefined_witness :
    visit (.SNodeLookupStmt 2 none example_dense_snode (ref 0) true) none
        lookup_example_builder
      = .error .undefined_behaviour :=
  dense_lookup_without_input_snode_is_undefined lookup_example_builder none 2
    example_dense_snode (ref 0) true lookup_example_meta.1 lookup_example_meta.2 rfl
    (by decide) rfl (result_or_spec (Value.null, example_base) _ (by decide!))

theorem if_stmt_enter_spec (cg : CodeGen) (cond : StmtRef)
    (hip : cg.insert_point < cg.blocks.length) :
    (cg.if_stmt_enter cond).1 = (cg.blocks.length, cg.blocks.length + 1, cg.blocks.length + 2) ∧
    appended_at cg (cg.if_stmt_enter cond).2
      = [.icmp cg.next_id .ne (cg.value cond) (CodeGen.get_constant 0),
         .cond_br (.inst cg.next_id) cg.blocks.length (cg.blocks.length + 1)] ∧
    ((cg.if_stmt_enter cond).2.blocks[cg.blocks.length]?).map (fun b => b.name)
      = some "true_block" ∧
    ((cg.if_stmt_enter cond).2.blocks[cg.blocks.length + 1]?).map (fun b => b.name)
      = some "false_block" := by
  obtain ⟨b0, hb0⟩ : ∃ b, cg.blocks[cg.insert_point]? = some b :=
    ⟨_, List.getElem?_eq_getElem hip⟩
  have hne : cg.blocks.length ≠ cg.insert_point := Nat.ne_of_gt hip
  have hne1 : cg.blocks.length + 1 ≠ cg.insert_point := by omega
  have hl1 : ∀ y : BasicBlock, cg.insert_point < (cg.blocks ++ [y]).length := by
    intro y
    simp
    omega
  have hl2 : ∀ y z : BasicBlock, cg.insert_point < (cg.blocks ++ [y] ++ [z]).length := by
    intro y z
    simp
    omega
  refine ⟨?_, ?_, ?_, ?_⟩
  · simp [CodeGen.if_stmt_enter, CodeGen.BasicBlock_Create, CodeGen.CreateICmp,
      CodeGen.CreateCondBr, CodeGen.emit, CodeGen.emitValue, appendTo_length]
  · simp [appended_at, CodeGen.if_stmt_enter, CodeGen.BasicBlock_Create, CodeGen.CreateICmp,
      CodeGen.CreateCondBr, CodeGen.emit, CodeGen.emitValue, CodeGen.SetInsertPoint,
      CodeGen.current_insts, CodeGen.value, appendTo_get_self,
      List.getElem?_append_left hip, List.getElem?_append_left (hl1 _),
      List.getElem?_append_left (hl2 _ _), hb0]
  · simp [CodeGen.if_stmt_enter, CodeGen.BasicBlock_Create, CodeGen.CreateICmp,
      CodeGen.CreateCondBr, CodeGen.emit, CodeGen.emitValue, CodeGen.SetInsertPoint,
      appendTo_get_other _ _ _ _ hne, List.getElem?_append_left,
      List.getElem?_append_right]
    simp [List.getElem_append_right]
  · simp [CodeGen.if_stmt_enter, CodeGen.BasicBlock_Create, CodeGen.CreateICmp,
      CodeGen.CreateCondBr, CodeGen.emit, CodeGen.emitValue, CodeGen.SetInsertPoint,
      appendTo_get_other _ _ _ _ hne1, List.getElem?_append_left,
      List.getElem?_append_right]
    simp [List.getElem_append_right]

theorem visit_IfStmt_enters (cg cg2 : CodeGen) (cond : StmtRef)
    (accept_true accept_false : CodeGen → Except Err CodeGen)
    (h : cg.visit_IfStmt cond accept_true accept_false = .ok cg2) :
    ∃ c1, accept_true (cg.if_stmt_enter cond).2 = .ok c1 := by
  unfold CodeGen.visit_IfStmt at h
  obtain ⟨c1, h1, _⟩ := bind_eq_ok _ _ _ h
  exact ⟨c1, h1⟩

theorem comparison_result_parity (c : Nat) (holds : Bool)
    (h : c = (if holds then 4294967295 else 0)) :
    (c % 2 = 1 ↔ holds = true) ∧ (c ≠ 0 ↔ holds = true) := by
  cases holds <;> simp at h <;> subst h <;> simp

/-- C27, amended: the code emitted for `select(c, a, b)` truncates the 32-bit condition
to its lowest bit and yields `a` exactly when `c` is odd; the conditional branch emitted
at the head of `If(c)`, before the true body is visited, enters `true_block` exactly
when `c != 0` and `false_block` otherwise.  The two readings agree when `c` is 0 or odd,
in particular for the result of a comparison (the pattern of -1 when it holds, 0 when it
does not), for which `select` yields `a` when the comparison holds and `b` otherwise. -/
theorem select_and_if_read_condition (cg : CodeGen)
    (hip : cg.insert_point < cg.blocks.length) (id : Nat) (cond a b : StmtRef)
    (m : Machine) (c : Nat) (x y : RVal)
    (hc : evalValue m (cg.value cond) = some (.int 32 c))
    (hx : evalValue m (cg.value a) = some x) (hy : evalValue m (cg.value b) = some y)
    (hfa : cg.value a ≠ .inst cg.next_id) (hfb : cg.value b ≠ .inst cg.next_id) :
    (∃ cg2 m2,
      visit (.TernaryOpStmt id .select cond a b) none cg = .ok cg2 ∧
      execInstrs (emitted_between cg cg2) m = some m2 ∧
      evalValue m2 (cg2.value (ref id)) = some (if c % 2 = 1 then x else y)) ∧
    (∀ (id2 : Nat) (tb fb : Option Block) (mask : Option StmtRef) (cgI : CodeGen),
      visit (.IfStmt id2 cond tb fb) mask cg = .ok cgI →
      ∃ c1 : CodeGen, (match tb with
        | some blk => visitBlock blk (cg.if_stmt_enter cond).2
        | none => (pure (cg.if_stmt_enter cond).2 : Except Err CodeGen)) = .ok c1) ∧
    (∃ mI, execBlock (appended_at cg (cg.if_stmt_enter cond).2) m
      = some (mI, .goto (if c ≠ 0 then cg.blocks.length else cg.blocks.length + 1))) ∧
    ((cg.if_stmt_enter cond).2.blocks[cg.blocks.length]?).map (fun blk => blk.name)
      = some "true_block" ∧
    ((cg.if_stmt_enter cond).2.blocks[cg.blocks.length + 1]?).map (fun blk => blk.name)
      = some "false_block" ∧
    (∀ holds : Bool, c = (if holds then 4294967295 else 0) →
      (if c % 2 = 1 then x else y) = (if holds then x else y) ∧ (c ≠ 0 ↔ holds = true)) := by
  obtain ⟨_, happ, hn1, hn2⟩ := if_stmt_enter_spec cg cond hip
  refine ⟨?_, ?_, ?_, hn1, hn2, ?_⟩
  · refine ⟨((cg.CreateCast .Trunc (cg.value cond) .i1).2.CreateSelect (.inst cg.next_id)
        (cg.value a) (cg.value b)).2.setValue id (.inst (cg.next_id + 1)),
      (m.setReg cg.next_id (.int 1 (c % 2))).setReg (cg.next_id + 1)
        (if c % 2 = 1 then x else y), rfl, ?_, ?_⟩
    · rw [emitted_between_of_append cg _
        [.cast cg.next_id .Trunc (cg.value cond) .i1,
         .select (cg.next_id + 1) (.inst cg.next_id) (cg.value a) (cg.value b)]]
      · have e1 : execInstr m (.cast cg.next_id .Trunc (cg.value cond) .i1)
            = some (m.setReg cg.next_id (.int 1 (c % 2))) := by
          simp [execInstr, hc, evalCast, intWidth]
        have e2 : execInstr (m.setReg cg.next_id (.int 1 (c % 2)))
            (.select (cg.next_id + 1) (.inst cg.next_id) (cg.value a) (cg.value b))
            = some ((m.setReg cg.next_id (.int 1 (c % 2))).setReg (cg.next_id + 1)
                (if c % 2 = 1 then x else y)) := by
          simp only [execInstr, evalValue_setReg_self, evalValue_setReg _ _ _ _ hfa,
            evalValue_setReg _ _ _ _ hfb, hx, hy]
        simp only [execInstrs, e1, e2]
      · simp [setValue_current_insts, CodeGen.CreateCast, CodeGen.CreateSelect,
          current_insts_emitValue, emitValue_insert_point, emitValue_blocks_length, hip,
          emitValue_next_id]
    · simp [ref, setValue_value_self, evalValue, Machine.setReg, getKey_setKey_self]
  · intro id2 tb fb mask cgI h
    rw [visit] at h
    exact visit_IfStmt_enters cg cgI cond _ _ h
  · rw [happ]
    have e1 := execInstr_icmp m cg.next_id .ne (cg.value cond) (CodeGen.get_constant 0) c
      (ofInt 32 0) hc (evalValue_get_constant m 0)
    have e0 : ofInt 32 0 = 0 := by decide
    have e2 : evalICmp .ne 32 c (ofInt 32 0) = decide (c ≠ 0) := by
      rw [e0]
      by_cases hc0 : c = 0 <;> simp [evalICmp, hc0]
    rw [e2] at e1
    refine ⟨m.setReg cg.next_id (.int 1 (if decide (c ≠ 0) then 1 else 0)), ?_⟩
    have e3 := execBlock_append
      [.icmp cg.next_id .ne (cg.value cond) (CodeGen.get_constant 0)]
      [.cond_br (.inst cg.next_id) cg.blocks.length (cg.blocks.length + 1)] m
      (m.setReg cg.next_id (.int 1 (if decide (c ≠ 0) then 1 else 0)))
      (by simp only [execInstrs, e1])
    have e4 := execBlock_cond_br
      (m.setReg cg.next_id (.int 1 (if decide (c ≠ 0) then 1 else 0)))
      (.inst cg.next_id) cg.blocks.length (cg.blocks.length + 1) [] (decide (c ≠ 0))
      (evalValue_setReg_self _ _ _)
    rw [List.singleton_append] at e3
    rw [e3, e4]
    simp
  · intro holds h
    obtain ⟨p1, p2⟩ := comparison_result_parity c holds h
    refine ⟨?_, p2⟩
    cases holds
    · have : ¬ c % 2 = 1 := fun e => by simpa using p1.1 e
      rw [if_neg this]
      rfl
    · rw [if_pos (p1.2 rfl)]
      rfl

/-- Witness of C27 (amended): the condition is the result -1 of a comparison that
holds. -/
theorem select_and_if_read_condition_witness :
    (∃ cg2 m2,
      visit (.TernaryOpStmt 3 .select (ref 0) (ref 1) (ref 2)) none select_example_builder
        = .ok cg2 ∧
      execInstrs (emitted_between select_example_builder cg2)
        (machine_with_condition 4294967295) = some m2 ∧
      evalValue m2 (cg2.value (ref 3))
        = some (if 4294967295 % 2 = 1 then RVal.int 32 10 else RVal.int 32 20)) ∧
    (∃ mI, execBlock (appended_at select_example_builder
        (select_example_builder.if_stmt_enter (ref 0)).2) (machine_with_condition 4294967295)
      = some (mI, .goto (if 4294967295 ≠ 0 then select_example_builder.blocks.length
          else select_example_builder.blocks.length + 1))) :=
  have h := select_and_if_read_condition select_example_builder
    (by decide) 3 (ref 0) (ref 1) (ref 2) (machine_with_condition 4294967295) 4294967295
    (.int 32 10) (.int 32 20) (by decide!) (by decide!) (by decide!) (by decide) (by decide)
  ⟨h.1, h.2.2.1⟩

/-- Counterexample to C27: for the condition value 2, which is not 0, the branch of `If`
enters `true_block` (block 1), while `select(2, 10, 20)` yields 20, its third operand. -/
theorem select_of_even_condition_differs_from_if :
    (2 : Nat) ≠ 0 ∧
    (execBlock (appended_at select_example_builder
        (select_example_builder.if_stmt_enter (ref 0)).2) (machine_with_condition 2)).map
      (fun p => p.2) = some (.goto 1) ∧
    ((select_example_builder.if_stmt_enter (ref 0)).2.blocks[1]?).map (fun blk => blk.name)
      = some "true_block" ∧
    (visit (.TernaryOpStmt 3 .select (ref 0) (ref 1) (ref 2)) none
      select_example_builder).toBool = true ∧
    ((execInstrs (emitted_between select_example_builder
        (result_or select_example_builder
          (visit (.TernaryOpStmt 3 .select (ref 0) (ref 1) (ref 2)) none
            select_example_builder))) (machine_with_condition 2)).bind
      (fun m2 => evalValue m2 ((result_or select_example_builder
          (visit (.TernaryOpStmt 3 .select (ref 0) (ref 1) (ref 2)) none
            select_example_builder)).value (ref 3)))) = some (.int 32 20) := by
  decide!

theorem visit_WhileStmt_enters (cg cg2 : CodeGen)
    (accept_body : CodeGen → Except Err CodeGen)
    (h : cg.visit_WhileStmt accept_body = .ok cg2) :
    ∃ cb, accept_body (cg.while_enter).2 = .ok cb ∧
      cg2.while_after_loop = cg.while_after_loop ∧
      cg2.insert_point = cg.blocks.length + 1 := by
  unfold CodeGen.visit_WhileStmt at h
  obtain ⟨cb, h1, h2⟩ := bind_eq_ok _ _ _ h
  refine ⟨cb, h1, ?_, ?_⟩
  · injection h2 with h2
    rw [← h2]
    rfl
  · injection h2 with h2
    rw [← h2]
    simp [CodeGen.SetInsertPoint, CodeGen.CreateBr, CodeGen.emit, CodeGen.BasicBlock_Create,
      appendTo_length]

theorem while_enter_spec (cg : CodeGen) (hentry : cg.entry_block < cg.blocks.length) :
    (cg.while_enter).2.while_after_loop = some (cg.blocks.length + 1) ∧
    ((cg.while_enter).2.blocks[cg.blocks.length + 1]?).map (fun b => b.name)
      = some "after_while" ∧
    (cg.while_enter).2.insert_point = cg.blocks.length ∧
    (cg.while_enter).2.blocks.length = cg.blocks.length + 2 ∧
    Positioned (cg.while_enter).2 := by
  have hlen : (cg.while_enter).2.blocks.length = cg.blocks.length + 2 := by
    simp [CodeGen.while_enter, CodeGen.BasicBlock_Create, CodeGen.CreateBr, CodeGen.emit,
      CodeGen.SetInsertPoint, appendTo_length]
  have hip : (cg.while_enter).2.insert_point = cg.blocks.length := rfl
  have hen : (cg.while_enter).2.entry_block = cg.entry_block := rfl
  refine ⟨?_, ?_, hip, hlen, ⟨?_, ?_, ?_⟩⟩
  · simp [CodeGen.while_enter, CodeGen.BasicBlock_Create, CodeGen.CreateBr, CodeGen.emit,
      CodeGen.SetInsertPoint, appendTo_length]
  · simp [CodeGen.while_enter, CodeGen.BasicBlock_Create, CodeGen.CreateBr, CodeGen.emit,
      CodeGen.SetInsertPoint, appendTo_length, List.getElem?_append_right]
  · rw [hip, hen]; omega
  · rw [hip, hlen]; omega
  · rw [hen, hlen]; omega

theorem visitStmts_append : ∀ (xs ys : List Stmt) (mask : Option StmtRef) (cg : CodeGen),
    visitStmts (xs ++ ys) mask cg = (visitStmts xs mask cg >>= fun c => visitStmts ys mask c)
  | [], ys, mask, cg => by
    rw [visitStmts]
    rfl
  | x :: xs, ys, mask, cg => by
    rw [List.cons_append, visitStmts, visitStmts]
    cases hx : visit x mask cg with
    | error e => rfl
    | ok c =>
      show visitStmts (xs ++ ys) mask c = _
      rw [visitStmts_append xs ys mask c]
      rfl

theorem visit_WhileControlStmt_spec (c1 : CodeGen) (cond : StmtRef) (l : Nat)
    (hip : c1.insert_point < c1.blocks.length) (hw : c1.while_after_loop = some l) :
    ∃ c2, c1.visit_WhileControlStmt cond = .ok c2 ∧
      appended_at c1 c2
        = [.icmp c1.next_id .eq (c1.value cond) (CodeGen.get_constant 0),
           .cond_br (.inst c1.next_id) l c1.blocks.length] ∧
      c2.insert_point = c1.blocks.length ∧
      (c2.blocks[c1.blocks.length]?).map (fun b => b.name) = some "after_break" ∧
      c2.while_after_loop = some l := by
  obtain ⟨b0, hb0⟩ : ∃ b, c1.blocks[c1.insert_point]? = some b :=
    ⟨_, List.getElem?_eq_getElem hip⟩
  have hne : c1.blocks.length ≠ c1.insert_point := Nat.ne_of_gt hip
  have e : (c1.BasicBlock_Create "after_break").2.while_after_loop = some l := hw
  unfold CodeGen.visit_WhileControlStmt
  simp only [e, pure, Except.pure]
  refine ⟨_, rfl, ?_, rfl, ?_, hw⟩
  · simp [appended_at, CodeGen.BasicBlock_Create, CodeGen.CreateICmp,
      CodeGen.CreateCondBr, CodeGen.emit, CodeGen.emitValue, CodeGen.SetInsertPoint,
      CodeGen.current_insts, CodeGen.value, appendTo_get_self,
      List.getElem?_append_left hip, hb0]
  · simp [CodeGen.BasicBlock_Create, CodeGen.CreateICmp,
      CodeGen.CreateCondBr, CodeGen.emit, CodeGen.emitValue, CodeGen.SetInsertPoint,
      appendTo_get_other _ _ _ _ hne, List.getElem?_append_right]

theorem exec_while_control (m : Machine) (r : Nat) (cv : Value) (c l k : Nat)
    (hc : evalValue m cv = some (.int 32 c)) :
    ∃ m2, execBlock [.icmp r .eq cv (CodeGen.get_constant 0), .cond_br (.inst r) l k] m
      = some (m2, .goto (if c = 0 then l else k)) := by
  have e1 := execInstr_icmp m r .eq cv (CodeGen.get_constant 0) c
    (ofInt 32 0) hc (evalValue_get_constant m 0)
  have e0 : ofInt 32 0 = 0 := by decide
  have e2 : evalICmp .eq 32 c (ofInt 32 0) = decide (c = 0) := by
    rw [e0]
    by_cases hc0 : c = 0 <;> simp [evalICmp, hc0]
  rw [e2] at e1
  refine ⟨m.setReg r (.int 1 (if decide (c = 0) then 1 else 0)), ?_⟩
  have e3 := execBlock_append [.icmp r .eq cv (CodeGen.get_constant 0)]
    [.cond_br (.inst r) l k] m
    (m.setReg r (.int 1 (if decide (c = 0) then 1 else 0)))
    (by simp only [execInstrs, e1])
  have e4 := execBlock_cond_br (m.setReg r (.int 1 (if decide (c = 0) then 1 else 0)))
    (.inst r) l k [] (decide (c = 0)) (evalValue_setReg_self _ _ _)
  rw [List.singleton_append] at e3
  rw [e3, e4]
  simp

theorem lowers_insert_point_lt (a b : CodeGen) (hp : Positioned a) (h : Lowers a b) :
    b.insert_point < b.blocks.length := by
  rcases h.ip.1 with hA | he
  · exact (h.A_new _ hA).2
  · rw [he]
    exact lt_of_lt_of_le hp.ip_lt h.len

/-- C25: (1) a successful visit of any `WhileStmt` leaves `while_after_loop` as it was
before the visit.  (2) For a While `W` whose body holds a `WhileControlStmt` after
statements `pre` (which may hold complete inner Whiles), the WhileControl is visited with
`while_after_loop` equal to the `after_while` block of `W`; the code it emits branches to
that block when the condition is 0 and otherwise to the new block `after_break`, in which
the statements that follow are emitted.  (3) From a state in which `while_after_loop` is
null, as `init_task_function` leaves it, the visit of statements `pre` followed by a
WhileControl fails the assertion of the WhileControl. -/
theorem while_control_targets_own_loop (cg cg2 : CodeGen) (mask bmask : Option StmtRef)
    (id idc : Nat) (cond : StmtRef) (pre post : List Stmt)
    (hentry : cg.entry_block < cg.blocks.length) (hpre : stmts_offload_free pre = true)
    (h : visit (.WhileStmt id (.mk bmask (pre ++ .WhileControlStmt idc cond :: post))) mask cg
      = .ok cg2) :
    (∀ (id2 : Nat) (body : Block) (mask2 : Option StmtRef) (c c2 : CodeGen),
      visit (.WhileStmt id2 body) mask2 c = .ok c2 →
      c2.while_after_loop = c.while_after_loop) ∧
    (∃ c1 c2 : CodeGen,
      visitStmts pre bmask (cg.while_enter).2 = .ok c1 ∧
      c1.while_after_loop = some (cg.blocks.length + 1) ∧
      ((cg.while_enter).2.blocks[cg.blocks.length + 1]?).map (fun b => b.name)
        = some "after_while" ∧
      cg2.insert_point = cg.blocks.length + 1 ∧
      visit (.WhileControlStmt idc cond) bmask c1 = .ok c2 ∧
      c2.insert_point = c1.blocks.length ∧
      (c2.blocks[c1.blocks.length]?).map (fun b => b.name) = some "after_break" ∧
      (∃ c3, visitStmts post bmask c2 = .ok c3) ∧
      ∀ (m : Machine) (c : Nat), evalValue m (c1.value cond) = some (.int 32 c) →
        ∃ m2, execBlock (appended_at c1 c2) m
          = some (m2, .goto (if c = 0 then cg.blocks.length + 1 else c1.blocks.length))) ∧
    (∀ (c0 c1 : CodeGen), c0.while_after_loop = none →
      visitStmts pre bmask c0 = .ok c1 →
      visitStmts (pre ++ .WhileControlStmt idc cond :: post) bmask c0
        = .error .assertion_failed) ∧
    (∀ tid : Nat, (cg.init_task_function tid).while_after_loop = none) := by
  refine ⟨?_, ?_, ?_, fun _ => rfl⟩
  · intro id2 body mask2 c c2 hv
    rw [visit] at hv
    obtain ⟨_, _, hw, _⟩ := visit_WhileStmt_enters c c2 _ hv
    exact hw
  · rw [visit] at h
    obtain ⟨cb, hb, _, hip2⟩ := visit_WhileStmt_enters cg cg2 _ h
    obtain ⟨hwal, hname, _, _, hpos⟩ := while_enter_spec cg hentry
    rw [visitBlock, visitStmts_append] at hb
    obtain ⟨c1, h1, hb⟩ := bind_eq_ok _ _ _ hb
    rw [visitStmts] at hb
    obtain ⟨c2, h2, h3⟩ := bind_eq_ok _ _ _ hb
    have hf := visitStmts_frame pre bmask _ _ hpre rfl c1 h1
    have hw1 : c1.while_after_loop = some (cg.blocks.length + 1) := by
      have e := congrArg CodeGen.while_after_loop hf
      exact e.trans hwal
    have hip1 := lowers_insert_point_lt _ c1 hpos
      (visitStmts_lowers pre bmask _ hpre c1 h1 hpos)
    obtain ⟨c2b, hc2, happ, hipb, hnb, _⟩ :=
      visit_WhileControlStmt_spec c1 cond _ hip1 hw1
    have h2b : c1.visit_WhileControlStmt cond = .ok c2 := by
      rw [visit] at h2
      exact h2
    have e2 : c2b = c2 := by
      rw [hc2] at h2b
      injection h2b
    subst e2
    refine ⟨c1, c2b, h1, hw1, hname, hip2, h2, hipb, hnb, ⟨cb, h3⟩, ?_⟩
    intro m c hc
    rw [happ]
    exact exec_while_control m _ _ c _ _ hc
  · intro c0 c1 hw h1
    rw [visitStmts_append, h1]
    show visitStmts (.WhileControlStmt idc cond :: post) bmask c1 = _
    have hf := visitStmts_frame pre bmask _ _ hpre rfl c1 h1
    have hw1 : c1.while_after_loop = none := by
      have e := congrArg CodeGen.while_after_loop hf
      exact e.trans hw
    have e : (c1.BasicBlock_Create "after_break").2.while_after_loop = none := hw1
    rw [visitStmts, visit]
    unfold CodeGen.visit_WhileControlStmt
    simp only [e]
    rfl

/-- Witness of C25: a While whose body holds an inner While (with a WhileControl of its
own) and then a WhileControl. -/
theorem while_control_targets_own_loop_witness :
    example_task_builder.entry_block < example_task_builder.blocks.length ∧
    ∃ c1 c2 : CodeGen,
      visitStmts while_after_inner_while none (example_task_builder.while_enter).2 = .ok c1 ∧
      c1.while_after_loop = some (example_task_builder.blocks.length + 1) ∧
      ((example_task_builder.while_enter).2.blocks[example_task_builder.blocks.length + 1]?).map
          (fun b => b.name) = some "after_while" ∧
      nested_while_result.insert_point = example_task_builder.blocks.length + 1 ∧
      visit (.WhileControlStmt 7 (ref 0)) none c1 = .ok c2 ∧
      c2.insert_point = c1.blocks.length ∧
      (c2.blocks[c1.blocks.length]?).map (fun b => b.name) = some "after_break" ∧
      (∃ c3, visitStmts [] none c2 = .ok c3) ∧
      ∀ (m : Machine) (c : Nat), evalValue m (c1.value (ref 0)) = some (.int 32 c) →
        ∃ m2, execBlock (appended_at c1 c2) m
          = some (m2, .goto (if c = 0 then example_task_builder.blocks.length + 1
              else c1.blocks.length)) :=
  ⟨by decide,
   (while_control_targets_own_loop example_task_builder nested_while_result none none 4 7
      (ref 0) while_after_inner_while [] (by decide) (by decide)
      (result_or_spec _ _ (by decide!))).2.1⟩

end Taichi
